import Mathlib

/-!
# Stored-procedure client module (`src/sp/jsp_cl.cpp`)

A shallow embedding of the client-side stored-procedure module: the type gate,
the argument-list builder of the signature resolver, the authorization gate,
the signature resolver and the DDL engine, followed by the properties proved
about them.

Conventions of the embedding

* A C function that reads or writes process state takes the state (`World`)
  and returns the new state next to its `int` result.
* `int` values are `Int`.  Error codes come from `error_code.h`, which is not
  among the sources, so they are the fields of a parameter `ErrorCodes`;
  whatever a proof needs to know about a code (that it is negative, say) is a
  hypothesis of that proof.
* C enumerations are inductive types with the enumerators of the C code.
* A read outside a C array has no defined result: the function is `none` there.
* What a local holds that was declared without initializer, and what is read back
  after a write past the end of a buffer, is not determined by the sources: it is
  a parameter of the function or of the state.
-/

namespace JspCl

set_option linter.unnecessarySeqFocus false

/-! ## Constants and enumerations -/

/-- The `int` a function returns on success. `jsp_check_overflow_args` returns the literal
`0` for "no error, no trailing default" and its caller tests `< 0` for an error. -/
def NO_ERROR : Int := 0

/-- Size of the `is_prepare_call` array (`#define MAX_CALL_COUNT 16`). -/
def MAX_CALL_COUNT : Nat := 16

/-- Hard cap on declared parameters (`#define MAX_ARG_COUNT 64`). -/
def MAX_ARG_COUNT : Nat := 64

/-- The error codes of `error_code.h` that this module sets or tests. The header is not part
of the sources: the codes are parameters. -/
structure ErrorCodes where
  ER_FAILED : Int
  ER_BLOCK_DDL_STMT : Int
  ER_OBJ_INVALID_ARGUMENTS : Int
  ER_OBJ_OBJECT_NOT_FOUND : Int
  ER_SM_INVALID_ARGUMENTS : Int
  ER_PT_SEMANTIC : Int
  ER_AU_DBA_ONLY : Int
  ER_AU_EXECUTE_FAILURE : Int
  ER_AU_INVALID_USER_NAME : Int
  ER_SP_ALREADY_EXIST : Int
  ER_SP_NOT_EXIST : Int
  ER_SP_INVALID_NAME : Int
  ER_SP_INVALID_TYPE : Int
  ER_SP_INVALID_PARAM_COUNT : Int
  ER_SP_TOO_MANY_ARG_COUNT : Int
  ER_SP_COMPILE_ERROR : Int
  ER_SP_INVOKERS_RIGHTS_NOT_SUPPORTED : Int
  ER_SP_CANNOT_INPUT_RESULTSET : Int
  ER_SP_CANNOT_RETURN_RESULTSET : Int
  ER_SP_NOT_SUPPORTED_ARG_TYPE : Int
  ER_SP_NOT_SUPPORTED_RETURN_TYPE : Int
  ER_SP_DROP_NOT_ALLOWED_PRIVILEGES : Int
  ER_SP_DROP_NOT_ALLOWED_SYSTEM_GENERATED : Int
  ER_HEAP_UNKNOWN_OBJECT : Int

/-- Constants of headers that are not part of the sources, as parameters: the two sentinels
of `pl_signature.hpp` stored in `arg_default_value_size`, the lengths `DB_MAX_USER_LENGTH`
and `DB_MAX_IDENTIFIER_LENGTH`, and the three constants of default expressions that
`jsp_default_value_string` tests. -/
structure PlConsts where
  PL_ARG_DEFAULT_NONE : Int
  PL_ARG_DEFAULT_NULL : Int
  DB_MAX_USER_LENGTH : Nat
  DB_MAX_IDENTIFIER_LENGTH : Nat
  DB_DEFAULT_NONE : Int
  NULL_DEFAULT_EXPRESSION_OPERATOR : Int
  T_TO_CHAR : Int

/-- Runtime types (`DB_TYPE`): the enumerators this module names, and `other` for every
remaining value of the enumeration. -/
inductive DB_TYPE where
  | DB_TYPE_NULL
  | DB_TYPE_INTEGER
  | DB_TYPE_FLOAT
  | DB_TYPE_DOUBLE
  | DB_TYPE_STRING
  | DB_TYPE_OBJECT
  | DB_TYPE_SET
  | DB_TYPE_MULTISET
  | DB_TYPE_SEQUENCE
  | DB_TYPE_TIME
  | DB_TYPE_TIMESTAMP
  | DB_TYPE_DATE
  | DB_TYPE_MONETARY
  | DB_TYPE_SHORT
  | DB_TYPE_NUMERIC
  | DB_TYPE_CHAR
  | DB_TYPE_BIGINT
  | DB_TYPE_DATETIME
  | DB_TYPE_RESULTSET
  | other (code : Nat)
  deriving DecidableEq

/-- Parameter modes (`SP_MODE_ENUM`). -/
inductive SP_MODE_ENUM where
  | SP_MODE_IN
  | SP_MODE_OUT
  | SP_MODE_INOUT
  deriving DecidableEq

/-- Kind of a stored routine (`SP_TYPE_ENUM`). -/
inductive SP_TYPE_ENUM where
  | SP_TYPE_PROCEDURE
  | SP_TYPE_FUNCTION
  deriving DecidableEq

/-- Implementation language (`SP_LANG_ENUM`). -/
inductive SP_LANG_ENUM where
  | SP_LANG_PLCSQL
  | SP_LANG_JAVA
  deriving DecidableEq

/-- Rights directive (`SP_DIRECTIVE_ENUM`). -/
inductive SP_DIRECTIVE_ENUM where
  | SP_DIRECTIVE_RIGHTS_OWNER
  | SP_DIRECTIVE_RIGHTS_CALLER
  deriving DecidableEq

/-- Purpose of a catalog lookup (`DB_AUTH`): the three values this module passes, and
`other` for the rest of the enumeration. -/
inductive DB_AUTH where
  | DB_AUTH_NONE
  | DB_AUTH_SELECT
  | DB_AUTH_EXECUTE
  | other (code : Nat)
  deriving DecidableEq

/-- Parser tags (`PT_MISC_TYPE`): the enumerators this module tests, and `other` for the
rest of the enumeration. -/
inductive PT_MISC_TYPE where
  | PT_IS_CALL_STMT
  | PT_IS_MTHD_EXPR
  | PT_SP_PROCEDURE
  | PT_SP_FUNCTION
  | PT_INPUT
  | PT_NOPUT
  | PT_OUTPUT
  | PT_INPUTOUTPUT
  | PT_AUTHID_OWNER
  | PT_AUTHID_CALLER
  | other (code : Nat)
  deriving DecidableEq

/-- Kind of a call signature (`PL_TYPE_*` of `pl_signature.hpp`). -/
inductive PL_TYPE where
  | PL_TYPE_INSTANCE_METHOD
  | PL_TYPE_CLASS_METHOD
  | PL_TYPE_JAVA_SP
  | PL_TYPE_PLCSQL
  deriving DecidableEq

/-- Entries of the parser's error list that this module records. -/
inductive PT_ERROR_MSG where
  | MSGCAT_SEMANTIC_SP_OUT_ARGS_EXISTS_IN_QUERY (method_name : String)
  | COMPILE_ERROR (err_line : Int) (err_column : Int) (err_msg : String)
  deriving DecidableEq

/-! ## Catalog and process state -/

/-- Identity of a catalog object (`MOP`); a `NULL` pointer is `none : Option MOP`. -/
abbrev MOP := Nat

/-- Modelled from the spec: a user record of the authorization subsystem, with the answer
of `au_is_dba_group_member` for it. -/
structure DB_USER where
  mop : MOP
  name : String
  dba_group_member : Bool
  deriving DecidableEq

/-- Row of `_db_stored_procedure_args` (the attributes read through `sp_args_get_entry_name`). -/
structure SP_ARG_ROW where
  mop : MOP
  index_of : Int
  arg_name : String
  data_type : DB_TYPE
  mode : SP_MODE_ENUM
  is_optional : Int
  default_value : Option String
  comment : String
  deriving DecidableEq

/-- Row of `_db_stored_procedure` (the attributes `SP_ATTR_*` this module reads or writes). -/
structure SP_ROW where
  mop : MOP
  unique_name : String
  sp_name : String
  sp_type : SP_TYPE_ENUM
  return_type : DB_TYPE
  arg_count : Int
  args : List MOP
  lang : SP_LANG_ENUM
  directive : SP_DIRECTIVE_ENUM
  target_class : String
  target_method : String
  owner : MOP
  comment : String
  is_system_generated : Int
  deriving DecidableEq

/-- Row of `_db_stored_procedure_code`, keyed by `cls_name`. `is_system_generated` may be
a NULL value (`DB_IS_NULL` is tested on it). -/
structure SP_CODE_ROW where
  mop : MOP
  cls_name : String
  created_time : String
  owner : Option MOP
  is_system_generated : Option Int
  stype : SP_LANG_ENUM
  scode : String
  otype : Int
  ocode : String
  deriving DecidableEq

/-- Row of the authorization catalog as the grant query of
`check_execute_authorization_by_query` filters it: object type, `auth_type`, `object_of`,
`grantee`. -/
structure AUTH_ROW where
  is_procedure : Bool
  auth_type : String
  object_of : MOP
  grantee : MOP
  deriving DecidableEq

/-- The catalog classes this module reads and writes, and the user records. -/
structure Catalog where
  sp : List SP_ROW
  sp_args : List SP_ARG_ROW
  sp_code : List SP_CODE_ROW
  auth : List AUTH_ROW
  users : List DB_USER
  deriving DecidableEq

/-- Attribute names passed to `db_get`, `obj_get`, `obj_set`, `dbt_put_internal`. -/
inductive SP_ATTR where
  | SP_ATTR_UNIQUE_NAME
  | SP_ATTR_NAME
  | SP_ATTR_SP_TYPE
  | SP_ATTR_RETURN_TYPE
  | SP_ATTR_ARG_COUNT
  | SP_ATTR_ARGS
  | SP_ATTR_LANG
  | SP_ATTR_TARGET_CLASS
  | SP_ATTR_OWNER
  | SP_ATTR_COMMENT
  | SP_ATTR_IS_SYSTEM_GENERATED
  | SP_ATTR_SOURCE_CODE
  | user_name
  | all_of_entry
  deriving DecidableEq

/-- Request sent to the compiler (`PLCSQL_COMPILE_REQUEST`). -/
structure PLCSQL_COMPILE_REQUEST where
  code : String
  owner : String
  deriving DecidableEq

/-- Answer of the compiler (`PLCSQL_COMPILE_RESPONSE`). -/
structure PLCSQL_COMPILE_RESPONSE where
  err_code : Int
  err_line : Int
  err_column : Int
  err_msg : String
  java_signature : String
  compiled_type : Int
  compiled_code : String
  deriving DecidableEq

/-- One declared parameter as handed to the catalog (`SP_ARG_INFO`). -/
structure SP_ARG_INFO where
  sp_name : String
  index_of : Int
  arg_name : String
  data_type : DB_TYPE
  mode : SP_MODE_ENUM
  default_value : Option String
  is_optional : Bool
  comment : String
  deriving DecidableEq

/-- The record handed to `sp_add_stored_procedure` (`SP_INFO`). -/
structure SP_INFO where
  unique_name : String
  sp_name : String
  sp_type : SP_TYPE_ENUM
  return_type : DB_TYPE
  args : List SP_ARG_INFO
  lang : SP_LANG_ENUM
  directive : SP_DIRECTIVE_ENUM
  target_class : String
  target_method : String
  owner : MOP
  comment : String
  deriving DecidableEq

/-- The record handed to `sp_add_stored_procedure_code` and `sp_edit_stored_procedure_code`
(`SP_CODE_INFO`); `owner` is `NULL` when the owner is not to be changed. -/
structure SP_CODE_INFO where
  name : String
  created_time : String
  stype : SP_LANG_ENUM
  scode : String
  otype : Int
  ocode : String
  owner : Option MOP
  deriving DecidableEq

/-- Calls into other modules that can fail, named by what they are applied to. -/
inductive EXT_CALL where
  | db_get (obj : MOP) (attr : SP_ATTR)
  | obj_set (obj : MOP) (attr : SP_ATTR)
  | obj_delete (obj : MOP)
  | set_get_element (set_of : MOP) (index : Nat)
  | tran_system_savepoint
  | sp_add_stored_procedure (unique_name : String)
  | sp_add_stored_procedure_code (cls_name : String)
  | sp_edit_stored_procedure_code (code_mop : MOP)
  | au_object_revoke_all_privileges (unique_name : String)
  | au_delete_auth_of_dropping_database_object (name : String)
  | AU_SET_USER (user : Option MOP)
  | dbt_edit_object (obj : MOP)
  | dbt_put_internal (obj : MOP) (attr : SP_ATTR)
  | dbt_finish_object (obj : MOP)
  | locator_flush_instance (obj : MOP)
  | plcsql_transfer_file (req : PLCSQL_COMPILE_REQUEST)
  | grant_query_open
  | grant_query_set_system_generated
  | grant_query_compile
  | grant_query_push_values
  | grant_query_execute
  | grant_query_end
  | CHECK_MODIFICATION_ERROR
  | pt_associate_label_with_value_check_reference (label : String)
  deriving DecidableEq

/-- Calls into other modules whose occurrence the properties below speak about, in the order
in which they were made. -/
inductive EVENT where
  | compile (req : PLCSQL_COMPILE_REQUEST) (as_user : Option MOP)
  | savepoint
  | abort_upto_savepoint
  | sp_add (info : SP_INFO)
  | sp_add_code (info : SP_CODE_INFO)
  | sp_edit_code (code_mop : MOP) (info : SP_CODE_INFO)
  | revoke_all (owner : MOP) (unique_name : String) (as_user : Option MOP)
  | pl_call (name : String)
  deriving DecidableEq

/-- The two local buffers `buffer` and `tmp` of `jsp_check_stored_procedure_name`, each of
`SM_MAX_IDENTIFIER_LENGTH + 2` bytes. -/
structure NAME_BUFFER where
  /-- the constant `SM_MAX_IDENTIFIER_LENGTH`, defined outside the sources -/
  SM_MAX_IDENTIFIER_LENGTH : Nat
  /-- what `strdup (buffer)` reads back, for each input, after `sprintf` wrote past the end
  of `buffer`: the C language leaves it undefined -/
  overflow : String → String

/-- The process state: error manager, session, catalog and the outcome of the calls into
other modules. -/
structure World where
  /-- thread-local error slot, read by `er_errid ()` -/
  er_errid : Int
  /-- reentrancy depth, `tran_get_libcas_depth ()` -/
  libcas_depth : Nat
  /-- `static bool is_prepare_call[MAX_CALL_COUNT]` -/
  is_prepare_call : List Bool
  /-- error list of the parser context -/
  pt_errors : List PT_ERROR_MSG
  /-- current user `Au_user` -/
  Au_user : Option MOP
  /-- the reserved user `Au_public_user` -/
  Au_public_user : MOP
  /-- the flag saved by `AU_DISABLE` and restored by `AU_ENABLE` (`Au_disable`) -/
  Au_disable : Int
  /-- identity stack of `au_perform_push_user` / `au_perform_pop_user` -/
  user_stack : List (Option MOP)
  /-- `db_get_client_type () == DB_CLIENT_TYPE_ADMIN_LOADDB_COMPAT` -/
  client_type_loaddb_compat : Bool
  /-- `prm_get_bool_value (PRM_ID_BLOCK_DDL_STATEMENT)` -/
  block_ddl_statement : Bool
  /-- the catalog -/
  cat : Catalog
  /-- catalog content saved by the system savepoint `SAVEPOINT_CREATE_STORED_PROC` -/
  savepoint : Option Catalog
  /-- identity given to the next object created -/
  next_mop : MOP
  /-- result of each fallible call into another module: `0` when it succeeds, else the
  error code it returns and leaves in the error slot -/
  fault : EXT_CALL → Int
  /-- answer of the compiler to a request -/
  compiler : PLCSQL_COMPILE_REQUEST → PLCSQL_COMPILE_RESPONSE
  /-- answer of `do_find_stored_procedure_by_query` (legacy admin load mode) -/
  find_by_query : String → Int × String
  /-- the calls made so far, oldest first -/
  trace : List EVENT
  /-- `locator_get_sig_interrupt ()` -/
  sig_interrupt : Int
  /-- `sp_split_target_signature`, the splitter of a target signature into class and method -/
  sp_split_target_signature : String → String × String
  /-- the local time as `YYYYMMDDhhmmss` -/
  localtime_now : String
  /-- the local buffers of `jsp_check_stored_procedure_name` -/
  name_buffer : NAME_BUFFER

/-- Modelled from the spec: `er_set` of the error manager, which is not part of the sources
("set a thread-local error"); the slot then holds the code, whatever the severity. -/
def er_set (w : World) (err_id : Int) : World :=
  { w with er_errid := err_id }

/-- The error manager's `er_errid ()`: the content of the thread-local slot. -/
def er_errid (w : World) : Int :=
  w.er_errid

/-- Appends to the parser's error list (`PT_ERRORmf`, `pt_record_error`). -/
def pt_record_error (w : World) (m : PT_ERROR_MSG) : World :=
  { w with pt_errors := w.pt_errors ++ [m] }

/-- `jsp_is_prepare_call`: `is_prepare_call[depth]`; `none` when the depth is outside the
array. -/
def jsp_is_prepare_call (w : World) : Option Bool :=
  w.is_prepare_call[w.libcas_depth]?

/-! ## Type gate -/

/-- `jsp_check_param_type_supported (type, mode)`. -/
def jsp_check_param_type_supported (E : ErrorCodes) (w : World) (type : DB_TYPE)
    (mode : SP_MODE_ENUM) : Option (Int × World) :=
  match type with
  | .DB_TYPE_INTEGER | .DB_TYPE_FLOAT | .DB_TYPE_DOUBLE | .DB_TYPE_STRING | .DB_TYPE_OBJECT
  | .DB_TYPE_SET | .DB_TYPE_MULTISET | .DB_TYPE_SEQUENCE | .DB_TYPE_TIME | .DB_TYPE_TIMESTAMP
  | .DB_TYPE_DATE | .DB_TYPE_MONETARY | .DB_TYPE_SHORT | .DB_TYPE_NUMERIC | .DB_TYPE_CHAR
  | .DB_TYPE_BIGINT | .DB_TYPE_DATETIME =>
    some (NO_ERROR, w)
  | .DB_TYPE_RESULTSET =>
    if mode ≠ .SP_MODE_OUT then
      let w1 := er_set w E.ER_SP_CANNOT_INPUT_RESULTSET
      some (er_errid w1, w1)
    else
      match jsp_is_prepare_call w with
      | none => none
      | some false =>
        let w1 := er_set w E.ER_SP_CANNOT_RETURN_RESULTSET
        some (er_errid w1, w1)
      | some true => some (NO_ERROR, w)
  | _ =>
    let w1 := er_set w E.ER_SP_NOT_SUPPORTED_ARG_TYPE
    some (er_errid w1, w1)

/-- `jsp_check_return_type_supported (type)`. After the `switch` every path that did not
return inside it ends in `return er_errid ();`. -/
def jsp_check_return_type_supported (E : ErrorCodes) (w : World) (type : DB_TYPE) :
    Option (Int × World) :=
  match type with
  | .DB_TYPE_NULL
  | .DB_TYPE_INTEGER | .DB_TYPE_FLOAT | .DB_TYPE_DOUBLE | .DB_TYPE_STRING | .DB_TYPE_OBJECT
  | .DB_TYPE_SET | .DB_TYPE_MULTISET | .DB_TYPE_SEQUENCE | .DB_TYPE_TIME | .DB_TYPE_TIMESTAMP
  | .DB_TYPE_DATE | .DB_TYPE_MONETARY | .DB_TYPE_SHORT | .DB_TYPE_NUMERIC | .DB_TYPE_CHAR
  | .DB_TYPE_BIGINT | .DB_TYPE_DATETIME =>
    some (NO_ERROR, w)
  | .DB_TYPE_RESULTSET =>
    match jsp_is_prepare_call w with
    | none => none
    | some false =>
      let w1 := er_set w E.ER_SP_CANNOT_RETURN_RESULTSET
      some (er_errid w1, w1)
    | some true => some (er_errid w, w)
  | _ =>
    let w1 := er_set w E.ER_SP_NOT_SUPPORTED_RETURN_TYPE
    some (er_errid w1, w1)

/-- The allow-list shared by both gates: the `case` labels that lead to `return NO_ERROR`
in `jsp_check_param_type_supported`. -/
def param_allow_list : List DB_TYPE :=
  [.DB_TYPE_INTEGER, .DB_TYPE_SHORT, .DB_TYPE_BIGINT, .DB_TYPE_FLOAT, .DB_TYPE_DOUBLE,
   .DB_TYPE_NUMERIC, .DB_TYPE_STRING, .DB_TYPE_CHAR, .DB_TYPE_MONETARY, .DB_TYPE_TIME,
   .DB_TYPE_DATE, .DB_TYPE_TIMESTAMP, .DB_TYPE_DATETIME, .DB_TYPE_OBJECT, .DB_TYPE_SET,
   .DB_TYPE_MULTISET, .DB_TYPE_SEQUENCE]

/-! ## Call signature and argument-list builder -/

/-- Per-argument part of a call signature (`cubpl::pl_arg`): the size and the four arrays,
an array being the function from index to element. -/
structure PL_ARG where
  arg_size : Int
  arg_mode : Nat → SP_MODE_ENUM
  arg_type : Nat → DB_TYPE
  arg_default_value_size : Nat → Int
  arg_default_value : Nat → Option String

/-- Call signature (`cubpl::pl_signature`). `code_oid = none` is the sentinel
`OID_INITIALIZER`. -/
structure PL_SIGNATURE where
  name : Option String
  type : PL_TYPE
  auth : Option String
  result_type : DB_TYPE
  arg : PL_ARG
  target_class_name : Option String
  target_method_name : Option String
  code_oid : Option MOP
  method_class_name : Option String
  method_arg_pos : Option (List (Option Nat))

/-- Modelled from the spec: `pl_arg::set_arg_size` of `pl_signature.cpp`, which is not part
of the sources; it records `arg.size`. The content of the arrays before the first write is
left as it is in the signature passed in. -/
def PL_ARG.set_arg_size (a : PL_ARG) (num_args : Int) : PL_ARG :=
  { a with arg_size := num_args }

/-- An argument expression of a call node; `is_const` is `PT_IS_CONST`. -/
structure PT_ARG_NODE where
  is_const : Bool
  text : String
  deriving DecidableEq

/-- A runtime value (`DB_VALUE`), as far as this module distinguishes values. -/
inductive DB_VALUE where
  | null
  | string (s : String)
  | int (i : Int)
  deriving DecidableEq

/-- A `PT_METHOD_CALL` node: whether `method_name` is a `PT_NAME` node, its text,
`call_or_expr`, argument list, and for method calls (`PT_IS_METHOD`) the kind of method. -/
structure PT_METHOD_CALL where
  has_method_name : Bool
  method_name : String
  call_or_expr : PT_MISC_TYPE
  arg_list : List PT_ARG_NODE
  is_method : Bool
  is_class_method : Bool
  method_class_name : String
  to_return_var : Option String
  deriving DecidableEq

/-- What reading the `i`-th element of the parameter set gives: no object
(`db_get_object (&temp) == NULL`, with the content of the error slot at that point), a
failing `obj_get` (with its return value), or the attributes of the argument record. -/
inductive ArgRead where
  | no_object (er : Int)
  | get_error (err : Int)
  | entry (e : SP_ARG_ROW)

/-- The contract of a failed read that the code asserts (`assert (error != NO_ERROR)`) or
tests (`if (error != NO_ERROR)`): the code it leaves is not `NO_ERROR`. -/
def ArgRead.sound : ArgRead → Prop
  | .no_object er => er ≠ NO_ERROR
  | .get_error err => err ≠ NO_ERROR
  | .entry _ => True

/-- `jsp_check_out_param_in_query (parser, node, arg_mode)`. -/
def jsp_check_out_param_in_query (E : ErrorCodes) (w : World) (node : PT_METHOD_CALL)
    (arg_mode : SP_MODE_ENUM) : Int × World :=
  if node.call_or_expr ≠ .PT_IS_CALL_STMT then
    if arg_mode ≠ .SP_MODE_IN then
      (E.ER_PT_SEMANTIC,
        pt_record_error w (.MSGCAT_SEMANTIC_SP_OUT_ARGS_EXISTS_IN_QUERY node.method_name))
    else (NO_ERROR, w)
  else (NO_ERROR, w)

/-- `jsp_check_overflow_args (parser, node, num_params, num_args)`: an error code, or the
number of trailing default arguments. -/
def jsp_check_overflow_args (E : ErrorCodes) (w : World) (num_params : Int) (num_args : Int) :
    Int × World :=
  if num_args > num_params then
    let w1 := er_set w E.ER_SP_INVALID_PARAM_COUNT
    (er_errid w1, w1)
  else if num_args < num_params then
    (num_params - num_args, w)
  else (0, w)

/-- Modelled from the spec: `db_get_string_size` of a string value, its size in bytes (the
UTF-8 encoding of the text), not its number of characters. -/
def db_get_string_size (s : String) : Int := s.utf8ByteSize

/-- The characters of `cs` that lie wholly within its first `n` bytes. -/
def strndup_chars : List Char → Nat → List Char
  | [], _ => []
  | c :: cs, n => if c.utf8Size ≤ n then c :: strndup_chars cs (n - c.utf8Size) else []

/-- Modelled from the spec: `db_private_strndup (NULL, str, size)` read back as a C string,
the first `size` bytes of `str`. A cut inside a multi-byte character has no `String` value
and ends the copy before that character; `jsp_make_pl_args` passes the byte size of the
whole text. -/
def db_private_strndup (str : String) (size : Nat) : String :=
  String.mk (strndup_chars str.data size)

/-- The four stores that end the body of the loop of `jsp_make_pl_args`:
`arg_mode[i]`, `arg_type[i]`, `arg_default_value_size[i]` and, `if (default_value_str)`,
`arg_default_value[i] = db_private_strndup (NULL, default_value_str, default_value_size)`. -/
def pl_arg_store (sig : PL_SIGNATURE) (i : Nat) (arg_mode : SP_MODE_ENUM) (arg_type : DB_TYPE)
    (default_value_size : Int) (default_value_str : Option String) : PL_SIGNATURE :=
  { sig with arg :=
    { sig.arg with
      arg_mode := Function.update sig.arg.arg_mode i arg_mode
      arg_type := Function.update sig.arg.arg_type i arg_type
      arg_default_value_size :=
        Function.update sig.arg.arg_default_value_size i default_value_size
      arg_default_value :=
        match default_value_str with
        | some str =>
          Function.update sig.arg.arg_default_value i
            (some (db_private_strndup str default_value_size.toNat))
        | none => sig.arg.arg_default_value } }

/-- Body of the `for` loop of `jsp_make_pl_args` for index `i`: `Sum.inl` is a jump to
`exit_on_error` with the value of `error`, `Sum.inr` the state at the end of the body;
`none` when the type check reads outside `is_prepare_call`. -/
def jsp_make_pl_args_body (E : ErrorCodes) (K : PlConsts) (node : PT_METHOD_CALL)
    (num_params : Int) (num_trailing_default_args : Int)
    (param_set : Nat → ArgRead) (i : Nat) (w : World) (sig : PL_SIGNATURE) :
    Option (Sum (Int × World × PL_SIGNATURE) (World × PL_SIGNATURE)) :=
  match param_set i with
  | .no_object er =>
    let w1 := { w with er_errid := er }
    some (.inl (er_errid w1, w1, sig))
  | .get_error err => some (.inl (err, { w with er_errid := err }, sig))
  | .entry entry =>
    let arg_mode := entry.mode
    let (error, w1) := jsp_check_out_param_in_query E w node arg_mode
    if error ≠ NO_ERROR then some (.inl (error, w1, sig))
    else
      let arg_type := entry.data_type
      match jsp_check_param_type_supported E w1 arg_type arg_mode with
      | none => none
      | some (error, w2) =>
        if error ≠ NO_ERROR then some (.inl (error, w2, sig))
        else
          let num_required_args := num_params - num_trailing_default_args
          let store := pl_arg_store sig i arg_mode arg_type
          if (i : Int) ≥ num_required_args then
            if entry.is_optional = 1 then
              match entry.default_value with
              | some default_val =>
                let default_value_size : Int := db_get_string_size default_val
                if default_value_size > 0 then
                  some (.inr (w2, store default_value_size (some default_val)))
                else some (.inr (w2, store default_value_size none))
              | none => some (.inr (w2, store K.PL_ARG_DEFAULT_NULL none))
            else
              let w3 := er_set w2 E.ER_SP_INVALID_PARAM_COUNT
              some (.inl (er_errid w3, w3, sig))
          else some (.inr (w2, store K.PL_ARG_DEFAULT_NONE none))

/-- The `for (int i = 0; i < num_params; i++)` loop of `jsp_make_pl_args`, with `left`
iterations still to run from index `i`. At the end of the loop `error` holds the
`NO_ERROR` of the last check. -/
def jsp_make_pl_args_loop (E : ErrorCodes) (K : PlConsts) (node : PT_METHOD_CALL)
    (num_params : Int) (num_trailing_default_args : Int)
    (param_set : Nat → ArgRead) :
    Nat → Nat → World → PL_SIGNATURE → Option (Int × World × PL_SIGNATURE)
  | 0, _, w, sig => some (NO_ERROR, w, sig)
  | left + 1, i, w, sig =>
    match jsp_make_pl_args_body E K node num_params num_trailing_default_args
        param_set i w sig with
    | none => none
    | some (.inl r) => some r
    | some (.inr (w1, sig1)) =>
      jsp_make_pl_args_loop E K node num_params num_trailing_default_args
        param_set left (i + 1) w1 sig1

/-- `jsp_make_pl_args (parser, node, num_params, param_set, sig)`. -/
def jsp_make_pl_args (E : ErrorCodes) (K : PlConsts) (w : World) (node : PT_METHOD_CALL)
    (num_params : Int) (param_set : Nat → ArgRead) (sig : PL_SIGNATURE) :
    Option (Int × World × PL_SIGNATURE) :=
  let sig1 := { sig with arg := sig.arg.set_arg_size num_params }
  let num_args : Int := node.arg_list.length
  let (num_trailing_default_args, w1) := jsp_check_overflow_args E w num_params num_args
  if num_trailing_default_args < 0 then
    some (er_errid w1, w1, sig1)
  else
    jsp_make_pl_args_loop E K node num_params num_trailing_default_args param_set
      num_params.toNat 0 w1 sig1

/-! ## Calls into other modules

The functions of this section belong to modules that are not part of the sources (error
manager, authorization, schema manager, object accessor). Each is modelled by its contract
as the callers in `jsp_cl.cpp` rely on it. -/

/-- Modelled from the spec: a fallible call into another module. Its return value is
`w.fault c`: `NO_ERROR`, or the error code, which it also leaves in the error slot. -/
def ext_call (w : World) (c : EXT_CALL) : Int × World :=
  let e := w.fault c
  (e, if e ≠ NO_ERROR then er_set w e else w)

/-- The error manager's `er_clear ()`. -/
def er_clear (w : World) : World :=
  { w with er_errid := NO_ERROR }

/-- The macro `AU_DISABLE (save)`: saves the flag and disables authorization checking. -/
def AU_DISABLE (w : World) : Int × World :=
  (w.Au_disable, { w with Au_disable := 1 })

/-- The macro `AU_ENABLE (save)`: restores the flag from `save`. -/
def AU_ENABLE (w : World) (save : Int) : World :=
  { w with Au_disable := save }

/-- Modelled from the spec: `sm_downcase_name`, lower-casing of an identifier. -/
def sm_downcase_name (name : String) : String :=
  String.mk (name.data.map Char.toLower)

/-- Modelled from the spec: `sm_remove_qualifier_name`, "the name-after-dot the local name":
the text after the first dot, the whole name when there is no dot. -/
def sm_remove_qualifier_name (name : String) : String :=
  match name.data.dropWhile (fun c => c ≠ '.') with
  | [] => name
  | _ :: rest => String.mk rest

/-- Modelled from the spec: `sm_qualifier_name`, "the name-before-dot is the owning user":
`NULL` for an empty name, else the text before the first dot, empty when there is no dot. -/
def sm_qualifier_name (name : String) : Option String :=
  if name = "" then none
  else if name.data.all (fun c => c ≠ '.') then some ""
  else some (String.mk (name.data.takeWhile (fun c => c ≠ '.')))

/-- The user record of a `MOP`. -/
def user_row (w : World) (user : Option MOP) : Option DB_USER :=
  match user with
  | none => none
  | some m => w.cat.users.find? (fun u => u.mop = m)

/-- Modelled from the spec: `au_is_dba_group_member`. -/
def au_is_dba_group_member (w : World) (user : Option MOP) : Bool :=
  match user_row w user with
  | some u => u.dba_group_member
  | none => false

/-- Modelled from the spec: `au_get_current_user_name`, the name of `Au_user`. -/
def au_get_current_user_name (w : World) : String :=
  match user_row w w.Au_user with
  | some u => u.name
  | none => ""

/-- Modelled from the spec: `db_find_user`, the user of that name (letter case ignored), or
`NULL`. -/
def db_find_user (w : World) (name : String) : Option MOP :=
  (w.cat.users.find? (fun u => sm_downcase_name u.name = sm_downcase_name name)).map
    (fun u => u.mop)

/-- Modelled from the spec: `ws_is_same_object`, identity of two object pointers. -/
def ws_is_same_object (a b : Option MOP) : Bool :=
  a == b

/-- Modelled from the spec: `sm_user_specified_name`, "lowercases segments ... resolve to
`<current-user>.<raw>` when unqualified, or preserve the explicit owner"; empty for an
empty name. -/
def sm_user_specified_name (w : World) (name : String) : String :=
  if name = "" then ""
  else if name.data.all (fun c => c ≠ '.') then
    sm_downcase_name (au_get_current_user_name w) ++ "." ++ sm_downcase_name name
  else sm_downcase_name name

/-- The procedure record of a `MOP`. -/
def sp_row (w : World) (mop : MOP) : Option SP_ROW :=
  w.cat.sp.find? (fun r => r.mop = mop)

/-- The code record of a `MOP`. -/
def sp_code_row (w : World) (mop : MOP) : Option SP_CODE_ROW :=
  w.cat.sp_code.find? (fun r => r.mop = mop)

/-- Modelled from the spec: `db_find_unique` on the procedure class, "looks up the procedure
record by `unique_name` in a unique index"; when there is none the result is `NULL` and the
error slot holds `ER_OBJ_OBJECT_NOT_FOUND`. -/
def db_find_unique_sp (E : ErrorCodes) (w : World) (unique_name : String) :
    Option MOP × World :=
  match w.cat.sp.find? (fun r => r.unique_name = unique_name) with
  | some r => (some r.mop, w)
  | none => (none, er_set w E.ER_OBJ_OBJECT_NOT_FOUND)

/-- Modelled from the spec: `db_find_unique` on the code class, keyed by the class name. -/
def db_find_unique_sp_code (E : ErrorCodes) (w : World) (cls_name : String) :
    Option MOP × World :=
  match w.cat.sp_code.find? (fun r => r.cls_name = cls_name) with
  | some r => (some r.mop, w)
  | none => (none, er_set w E.ER_OBJ_OBJECT_NOT_FOUND)

/-- Modelled from the spec: `db_get` / `obj_get` of an attribute of a procedure record. The
call fails with `w.fault`, or with `ER_HEAP_UNKNOWN_OBJECT` when the record is gone; else it
gives the record, of which the caller takes the attribute. -/
def db_get_sp (E : ErrorCodes) (w : World) (mop : MOP) (attr : SP_ATTR) :
    Except Int SP_ROW × World :=
  let (err, w1) := ext_call w (.db_get mop attr)
  if err ≠ NO_ERROR then (.error err, w1)
  else
    match sp_row w1 mop with
    | some r => (.ok r, w1)
    | none => (.error E.ER_HEAP_UNKNOWN_OBJECT, er_set w1 E.ER_HEAP_UNKNOWN_OBJECT)

/-- Modelled from the spec: `db_get` of an attribute of a code record. -/
def db_get_sp_code (E : ErrorCodes) (w : World) (mop : MOP) (attr : SP_ATTR) :
    Except Int SP_CODE_ROW × World :=
  let (err, w1) := ext_call w (.db_get mop attr)
  if err ≠ NO_ERROR then (.error err, w1)
  else
    match sp_code_row w1 mop with
    | some r => (.ok r, w1)
    | none => (.error E.ER_HEAP_UNKNOWN_OBJECT, er_set w1 E.ER_HEAP_UNKNOWN_OBJECT)

/-- Modelled from the spec: `au_perform_push_user`, "push/pop identity stack": the current
user is pushed and `user` becomes the current user. -/
def au_perform_push_user (w : World) (user : Option MOP) : World :=
  { w with user_stack := w.Au_user :: w.user_stack, Au_user := user }

/-- Modelled from the spec: `au_perform_pop_user`: the user on top of the identity stack
becomes the current user again. -/
def au_perform_pop_user (w : World) : World :=
  match w.user_stack with
  | [] => w
  | u :: rest => { w with user_stack := rest, Au_user := u }

/-- Modelled from the spec: `AU_SET_USER (user)`; when it succeeds `user` is the current
user. -/
def AU_SET_USER (w : World) (user : Option MOP) : Int × World :=
  let (e, w1) := ext_call w (.AU_SET_USER user)
  if e = NO_ERROR then (e, { w1 with Au_user := user }) else (e, w1)

/-- Modelled from the spec: `obj_delete (mop)`; when it succeeds the record of that identity
is gone from its catalog class. Deleting `NULL` fails with `ER_OBJ_INVALID_ARGUMENTS`. -/
def obj_delete (E : ErrorCodes) (w : World) (mop : Option MOP) : Int × World :=
  match mop with
  | none => (E.ER_OBJ_INVALID_ARGUMENTS, er_set w E.ER_OBJ_INVALID_ARGUMENTS)
  | some m =>
    let (e, w1) := ext_call w (.obj_delete m)
    if e = NO_ERROR then
      (e, { w1 with cat :=
        { w1.cat with
          sp := w1.cat.sp.filter (fun r => r.mop ≠ m)
          sp_args := w1.cat.sp_args.filter (fun r => r.mop ≠ m)
          sp_code := w1.cat.sp_code.filter (fun r => r.mop ≠ m) } })
    else (e, w1)

/-- Modelled from the spec: a write `obj_set` / `dbt_put_internal` + `dbt_finish_object` of
one attribute of a procedure record; `f` is the change of the record. -/
def sp_update (w : World) (mop : MOP) (f : SP_ROW → SP_ROW) : World :=
  { w with cat := { w.cat with sp := w.cat.sp.map (fun r => if r.mop = mop then f r else r) } }

/-- Modelled from the spec: `obj_set (mop, attr, value)` on a procedure record. -/
def obj_set (w : World) (mop : MOP) (attr : SP_ATTR) (f : SP_ROW → SP_ROW) : Int × World :=
  let (e, w1) := ext_call w (.obj_set mop attr)
  if e = NO_ERROR then (e, sp_update w1 mop f) else (e, w1)

/-- Modelled from the spec: `tran_system_savepoint (SAVEPOINT_CREATE_STORED_PROC)`; when it
succeeds the savepoint holds the catalog. -/
def tran_system_savepoint (w : World) : Int × World :=
  let (e, w1) := ext_call w .tran_system_savepoint
  if e = NO_ERROR then
    (e, { w1 with savepoint := some w1.cat, trace := w1.trace ++ [.savepoint] })
  else (e, w1)

/-- Modelled from the spec: `tran_abort_upto_system_savepoint`, "rolls back to it": the
catalog is the one the savepoint holds. -/
def tran_abort_upto_system_savepoint (w : World) : World :=
  { w with
    cat := match w.savepoint with
      | some c => c
      | none => w.cat
    trace := w.trace ++ [.abort_upto_savepoint] }

/-- The argument records that `sp_add_stored_procedure` creates for the entries of
`SP_INFO.args`, with identities from `first` on. -/
def sp_arg_rows (first : MOP) : List SP_ARG_INFO → List SP_ARG_ROW
  | [] => []
  | a :: rest =>
    { mop := first
      index_of := a.index_of
      arg_name := a.arg_name
      data_type := a.data_type
      mode := a.mode
      is_optional := if a.is_optional then 1 else 0
      default_value := a.default_value
      comment := a.comment } :: sp_arg_rows (first + 1) rest

/-- Modelled from the spec: `sp_add_stored_procedure (sp_info)`, "insert the procedure record
(and its argument records) into the catalog"; a failing call leaves the catalog as it is. -/
def sp_add_stored_procedure (w : World) (sp_info : SP_INFO) : Int × World :=
  let w0 := { w with trace := w.trace ++ [.sp_add sp_info] }
  let (e, w1) := ext_call w0 (.sp_add_stored_procedure sp_info.unique_name)
  if e = NO_ERROR then
    let arg_rows := sp_arg_rows (w1.next_mop + 1) sp_info.args
    let row : SP_ROW :=
      { mop := w1.next_mop
        unique_name := sp_info.unique_name
        sp_name := sp_info.sp_name
        sp_type := sp_info.sp_type
        return_type := sp_info.return_type
        arg_count := sp_info.args.length
        args := arg_rows.map (fun a => a.mop)
        lang := sp_info.lang
        directive := sp_info.directive
        target_class := sp_info.target_class
        target_method := sp_info.target_method
        owner := sp_info.owner
        comment := sp_info.comment
        is_system_generated := 0 }
    (e, { w1 with
      cat := { w1.cat with sp := w1.cat.sp ++ [row], sp_args := w1.cat.sp_args ++ arg_rows }
      next_mop := w1.next_mop + 1 + sp_info.args.length })
  else (e, w1)

/-- Modelled from the spec: `sp_add_stored_procedure_code (code_info)`, "insert the code
record"; a failing call leaves the catalog as it is. -/
def sp_add_stored_procedure_code (w : World) (code_info : SP_CODE_INFO) : Int × World :=
  let w0 := { w with trace := w.trace ++ [.sp_add_code code_info] }
  let (e, w1) := ext_call w0 (.sp_add_stored_procedure_code code_info.name)
  if e = NO_ERROR then
    let row : SP_CODE_ROW :=
      { mop := w1.next_mop
        cls_name := code_info.name
        created_time := code_info.created_time
        owner := code_info.owner
        is_system_generated := some 0
        stype := code_info.stype
        scode := code_info.scode
        otype := code_info.otype
        ocode := code_info.ocode }
    (e, { w1 with
      cat := { w1.cat with sp_code := w1.cat.sp_code ++ [row] }
      next_mop := w1.next_mop + 1 })
  else (e, w1)

/-- Modelled from the spec: `sp_edit_stored_procedure_code (code_mop, code_info)`, "update
the code record": class name and compiled code, and the owner when `code_info.owner` is not
`NULL`. -/
def sp_edit_stored_procedure_code (w : World) (code_mop : MOP) (code_info : SP_CODE_INFO) :
    Int × World :=
  let w0 := { w with trace := w.trace ++ [.sp_edit_code code_mop code_info] }
  let (e, w1) := ext_call w0 (.sp_edit_stored_procedure_code code_mop)
  if e = NO_ERROR then
    (e, { w1 with cat := { w1.cat with sp_code := w1.cat.sp_code.map (fun r =>
      if r.mop = code_mop then
        { r with
          cls_name := code_info.name
          ocode := code_info.ocode
          owner := match code_info.owner with
            | some o => some o
            | none => r.owner }
      else r) } })
  else (e, w1)

/-- Modelled from the spec: `au_object_revoke_all_privileges (DB_OBJECT_PROCEDURE, owner,
unique_name)`, "revoke all EXECUTE grants on the procedure": the grant rows on the
procedure of that unique name are gone. -/
def au_object_revoke_all_privileges (w : World) (owner : MOP) (unique_name : String) :
    Int × World :=
  let w0 := { w with trace := w.trace ++ [.revoke_all owner unique_name w.Au_user] }
  let (e, w1) := ext_call w0 (.au_object_revoke_all_privileges unique_name)
  if e = NO_ERROR then
    (e, { w1 with cat := { w1.cat with auth := w1.cat.auth.filter (fun a =>
      !(a.is_procedure &&
        w1.cat.sp.any (fun r => r.mop = a.object_of && r.unique_name = unique_name))) } })
  else (e, w1)

/-- Modelled from the spec: `au_delete_auth_of_dropping_database_object
(DB_OBJECT_PROCEDURE, name)`: the authorization rows of the procedure of that name are
gone. -/
def au_delete_auth_of_dropping_database_object (w : World) (name : String) : Int × World :=
  let (e, w1) := ext_call w (.au_delete_auth_of_dropping_database_object name)
  if e = NO_ERROR then
    (e, { w1 with cat := { w1.cat with auth := w1.cat.auth.filter (fun a =>
      !(a.is_procedure &&
        w1.cat.sp.any (fun r => r.mop = a.object_of && r.unique_name = name))) } })
  else (e, w1)

/-- Modelled from the spec: `plcsql_transfer_file (compile_request, compile_response)`, the
compiler RPC, made under the current user; a failing transfer leaves the response as
constructed. -/
def plcsql_transfer_file (w : World) (compile_request : PLCSQL_COMPILE_REQUEST) :
    Int × PLCSQL_COMPILE_RESPONSE × World :=
  let w0 := { w with trace := w.trace ++ [.compile compile_request w.Au_user] }
  let (e, w1) := ext_call w0 (.plcsql_transfer_file compile_request)
  if e = NO_ERROR then (e, w1.compiler compile_request, w1)
  else
    (e, { err_code := 0, err_line := 0, err_column := 0, err_msg := "", java_signature := "",
          compiled_type := 0, compiled_code := "" }, w1)

/-! ## Name normalizer -/

/-- `jsp_check_stored_procedure_name (str)`. With the reserved prefix, `sprintf` writes
`public.dbms_output.`, the lower-cased remainder and the terminating byte into
`char buffer[SM_MAX_IDENTIFIER_LENGTH + 2]` without a bound: when they fit, `strdup (buffer)`
is that text, otherwise the write runs past the end of `buffer` and the result is the
parameter `overflow`. (`tmp`, of the same capacity, receives the remainder alone and
overflows only when `buffer` does.) The other branch hands the capacity to
`sm_user_specified_name`. -/
def jsp_check_stored_procedure_name (w : World) (str : String) : String :=
  let dbms_output_len := "dbms_output.".length
  if (str.data.take dbms_output_len).map Char.toLower = "dbms_output.".data then
    let tmp := sm_downcase_name (String.mk (str.data.drop dbms_output_len))
    let buffer := "public.dbms_output." ++ tmp
    if buffer.utf8ByteSize + 1 ≤ w.name_buffer.SM_MAX_IDENTIFIER_LENGTH + 2 then buffer
    else w.name_buffer.overflow str
  else
    sm_user_specified_name w str

/-! ## Authorization gate -/

/-- Modelled from the spec: what `db_execute_statement_local` returns for the grant query,
the number of rows of the authorization catalog with `object_type` procedure, `auth_type`
`EXECUTE`, `object_of` the procedure and `grantee` the current user. -/
def count_execute_grants (w : World) (sp_obj : MOP) : Nat :=
  (w.cat.auth.filter (fun r =>
    r.is_procedure && r.auth_type = "EXECUTE" && r.object_of = sp_obj &&
      some r.grantee = w.Au_user)).length

/-- `check_execute_authorization_by_query (sp_obj)`: returns `cnt`. -/
def check_execute_authorization_by_query (w : World) (sp_obj : MOP) : Int × World :=
  let cnt : Int := 0
  let (save, w1) := AU_DISABLE w
  let (e_open, w2) := ext_call w1 .grant_query_open
  if e_open ≠ NO_ERROR then (cnt, AU_ENABLE w2 save)
  else
    let (error, w3) := ext_call w2 .grant_query_set_system_generated
    if error ≠ NO_ERROR then (cnt, AU_ENABLE w3 save)
    else
      let (e_compile, w4) := ext_call w3 .grant_query_compile
      let stmt_id : Int := if e_compile = NO_ERROR then 1 else e_compile
      if stmt_id < 0 then (cnt, AU_ENABLE w4 save)
      else
        let (error, w5) := ext_call w4 .grant_query_push_values
        if error ≠ NO_ERROR then (cnt, AU_ENABLE w5 save)
        else
          let (e_exec, w6) := ext_call w5 .grant_query_execute
          let error : Int := if e_exec = NO_ERROR then count_execute_grants w6 sp_obj else e_exec
          let cnt := error
          if error < 0 then (cnt, AU_ENABLE w6 save)
          else
            let (_, w7) := ext_call w6 .grant_query_end
            (cnt, AU_ENABLE w7 save)

/-- `check_execute_authorization (sp_obj, au_type)`. -/
def check_execute_authorization (E : ErrorCodes) (w : World) (sp_obj : MOP) (au_type : DB_AUTH) :
    Int × World :=
  if au_type ≠ .DB_AUTH_EXECUTE then (NO_ERROR, w)
  else if au_is_dba_group_member w w.Au_user then (NO_ERROR, w)
  else
    match db_get_sp E w sp_obj .SP_ATTR_OWNER with
    | (.error error, w1) => (error, w1)
    | (.ok owner, w1) =>
      let owner_mop := some owner.owner
      if ws_is_same_object owner_mop w1.Au_user
          || ws_is_same_object owner_mop (some w1.Au_public_user) then
        (NO_ERROR, w1)
      else
        let (cnt, w2) := check_execute_authorization_by_query w1 sp_obj
        if cnt = 0 then
          (E.ER_AU_EXECUTE_FAILURE, er_set w2 E.ER_AU_EXECUTE_FAILURE)
        else (er_errid w2, w2)

/-! ## Catalog accessor -/

/-- `jsp_find_sp_of_another_owner (name, return_mop)`: the error and `*return_mop`. -/
def jsp_find_sp_of_another_owner (E : ErrorCodes) (w : World) (name : String) :
    Int × Option MOP × World :=
  let (error, other_class_name) := w.find_by_query name
  let w1 := if error ≠ NO_ERROR then er_set w error else w
  if other_class_name ≠ "" then
    let (return_mop, w2) := db_find_unique_sp E w1 other_class_name
    if er_errid w2 = E.ER_OBJ_OBJECT_NOT_FOUND then
      (E.ER_SP_NOT_EXIST, return_mop, er_set w2 E.ER_SP_NOT_EXIST)
    else (error, return_mop, w2)
  else (error, none, w1)

/-- `jsp_find_stored_procedure (name, purpose)` for a name that is not `NULL`. -/
def jsp_find_stored_procedure (E : ErrorCodes) (w : World) (name : String) (purpose : DB_AUTH) :
    Option MOP × World :=
  let (save, w1) := AU_DISABLE w
  let checked_name := jsp_check_stored_procedure_name w1 name
  let (mop, w2) := db_find_unique_sp E w1 checked_name
  let (err, mop, w3) :=
    if er_errid w2 = E.ER_OBJ_OBJECT_NOT_FOUND then
      let w2a := er_clear w2
      if w2a.client_type_loaddb_compat then
        jsp_find_sp_of_another_owner E w2a name
      else
        (E.ER_SP_NOT_EXIST, mop, er_set w2a E.ER_SP_NOT_EXIST)
    else (NO_ERROR, mop, w2)
  let (err, w4) :=
    match mop with
    | some m => check_execute_authorization E w3 m purpose
    | none => (err, w3)
  let mop := if err ≠ NO_ERROR then none else mop
  (mop, AU_ENABLE w4 save)

/-- `jsp_is_exist_stored_procedure (name)`. -/
def jsp_is_exist_stored_procedure (E : ErrorCodes) (w : World) (name : String) : Bool × World :=
  let (mop, w1) := jsp_find_stored_procedure E w name .DB_AUTH_NONE
  (mop.isSome, er_clear w1)

/-- `jsp_find_stored_procedure_code (name)` for a name that is not `NULL`. -/
def jsp_find_stored_procedure_code (E : ErrorCodes) (w : World) (name : String) :
    Option MOP × World :=
  let (save, w1) := AU_DISABLE w
  let (mop, w2) := db_find_unique_sp_code E w1 name
  let w3 := if er_errid w2 = E.ER_OBJ_OBJECT_NOT_FOUND then er_clear w2 else w2
  (mop, AU_ENABLE w3 save)

/-- Modelled from the spec: `strncpy (buf, src, n)` read back as a C string: `src` when it
is shorter than `n`, else its first `n` characters followed by what the buffer held from
position `n` on. -/
def strncpy (buf src : String) (n : Nat) : String :=
  if src.length < n then src else String.mk (src.data.take n ++ buf.data.drop n)

/-- Modelled from the spec: `db_get (owner, "name", ..)` on a user record. -/
def db_get_user_name (E : ErrorCodes) (w : World) (user : MOP) : Except Int String × World :=
  let (err, w1) := ext_call w (.db_get user .user_name)
  if err ≠ NO_ERROR then (.error err, w1)
  else
    match user_row w1 (some user) with
    | some u => (.ok u.name, w1)
    | none => (.error E.ER_HEAP_UNKNOWN_OBJECT, er_set w1 E.ER_HEAP_UNKNOWN_OBJECT)

/-- `jsp_get_owner (mop_p)`. -/
def jsp_get_owner (E : ErrorCodes) (w : World) (mop_p : MOP) : Option MOP × World :=
  let (save, w1) := AU_DISABLE w
  match db_get_sp E w1 mop_p .SP_ATTR_OWNER with
  | (.error _, w2) => (none, AU_ENABLE w2 save)
  | (.ok r, w2) => (some r.owner, AU_ENABLE w2 save)

/-- `jsp_get_unique_name (mop_p, buf, buf_size)` for a `mop_p` that is not `NULL`: whether the
result is `buf` (and not `NULL`), and the content of the buffer. -/
def jsp_get_unique_name (E : ErrorCodes) (w : World) (mop_p : MOP) (buf : String)
    (buf_size : Nat) : Bool × String × World :=
  let (save, w1) := AU_DISABLE w
  match db_get_sp E w1 mop_p .SP_ATTR_UNIQUE_NAME with
  | (.error _, w2) => (false, buf, AU_ENABLE w2 save)
  | (.ok r, w2) => (true, strncpy buf r.unique_name buf_size, AU_ENABLE w2 save)

/-- `jsp_get_owner_name (name, buf, buf_size)` for a `name` that is not `NULL`: whether the
result is `buf` (and not `NULL`), and the content of the buffer. -/
def jsp_get_owner_name (E : ErrorCodes) (w : World) (name : String) (buf : String)
    (buf_size : Nat) : Bool × String × World :=
  if name = "" then
    (false, "", er_set w E.ER_SM_INVALID_ARGUMENTS)
  else
    let (save, w1) := AU_DISABLE w
    match jsp_find_stored_procedure E w1 name .DB_AUTH_NONE with
    | (none, w2) => (false, buf, AU_ENABLE w2 save)
    | (some mop_p, w2) =>
      match db_get_sp E w2 mop_p .SP_ATTR_OWNER with
      | (.error _, w3) => (false, buf, AU_ENABLE w3 save)
      | (.ok r, w3) =>
        match db_get_user_name E w3 r.owner with
        | (.error _, w4) => (true, buf, AU_ENABLE w4 save)
        | (.ok value2, w4) => (true, strncpy buf value2 buf_size, AU_ENABLE w4 save)

/-! ## Signature resolver -/

/-- The parameter set of a procedure record as `jsp_make_pl_args` reads it
(`set_get_element`, `db_get_object`, `obj_get` of each attribute of the argument record). A
position past the end of the set, or whose argument record is gone, gives no object, with
`w.fault` of the failing call in the error slot. -/
def param_set_of (w : World) (sp : SP_ROW) (i : Nat) : ArgRead :=
  match sp.args[i]? with
  | none => .no_object (w.fault (.set_get_element sp.mop i))
  | some m =>
    match w.cat.sp_args.find? (fun a => a.mop = m) with
    | none => .no_object (w.fault (.db_get m .all_of_entry))
    | some a =>
      if w.fault (.db_get m .all_of_entry) ≠ NO_ERROR then
        .get_error (w.fault (.db_get m .all_of_entry))
      else .entry a

/-- `pt_to_method_arglist (parser, target, node_list, NULL)`, the case of
`jsp_call_stored_procedure`: `arg_list[i] = i` from 1 on, `arg_list[0]` not written. -/
def pt_to_method_arglist (node_list : List PT_ARG_NODE) : Option (List (Option Nat)) :=
  some (none :: (List.range node_list.length).map (fun i => some (i + 1)))

/-- `jsp_make_pl_signature (parser, node, NULL, sig)`. `save` and `user_name_buffer` are
locals declared without initializer: their content at entry is `save0` and
`user_name_buffer0`. -/
def jsp_make_pl_signature (E : ErrorCodes) (K : PlConsts) (w : World) (node : PT_METHOD_CALL)
    (sig : PL_SIGNATURE) (save0 : Int) (user_name_buffer0 : String) :
    Option (Int × World × PL_SIGNATURE) :=
  let name := node.method_name
  let sig := { sig with name := some name }
  if node.is_method then
    let sig :=
      { sig with type :=
          if node.is_class_method then .PL_TYPE_CLASS_METHOD else .PL_TYPE_INSTANCE_METHOD }
    let sig :=
      { sig with
        method_class_name := some node.method_class_name
        arg := sig.arg.set_arg_size (node.arg_list.length + 1)
        method_arg_pos := pt_to_method_arglist node.arg_list }
    some (NO_ERROR, AU_ENABLE w save0, sig)
  else
    match jsp_find_stored_procedure E w name .DB_AUTH_EXECUTE with
    | (none, w1) => some (er_errid w1, AU_ENABLE w1 save0, sig)
    | (some mop_p, w1) =>
      let (save, w2) := AU_DISABLE w1
      match db_get_sp E w2 mop_p .all_of_entry with
      | (.error error, w3) => some (error, AU_ENABLE w3 save, sig)
      | (.ok entry, w3) =>
        let lang := entry.lang
        let sig :=
          { sig with type := if lang = .SP_LANG_PLCSQL then .PL_TYPE_PLCSQL else .PL_TYPE_JAVA_SP }
        let directive := entry.directive
        let (auth_name, user_name_buffer1, w4) :=
          if directive = .SP_DIRECTIVE_RIGHTS_OWNER then
            let (ok, buf, w4) := jsp_get_owner_name E w3 name user_name_buffer0 K.DB_MAX_USER_LENGTH
            (if ok then some buf else none, buf, w4)
          else (some (au_get_current_user_name w3), user_name_buffer0, w3)
        let result_type := entry.return_type
        match jsp_check_return_type_supported E w4 result_type with
        | none => none
        | some (error, w5) =>
          if error ≠ NO_ERROR then some (error, AU_ENABLE w5 save, sig)
          else
            let num_params := entry.arg_count
            match jsp_make_pl_args E K w5 node num_params (param_set_of w5 entry) sig with
            | none => none
            | some (error, w6, sig) =>
              if error ≠ NO_ERROR then some (error, AU_ENABLE w6 save, sig)
              else
                let sig := { sig with auth := auth_name, result_type := result_type }
                let (sig, w7) :=
                  if directive = .SP_DIRECTIVE_RIGHTS_OWNER then
                    let (_, buf, w7) :=
                      jsp_get_owner_name E w6 name user_name_buffer1 K.DB_MAX_USER_LENGTH
                    ({ sig with auth := some (String.mk (buf.data.take K.DB_MAX_USER_LENGTH)) },
                      w7)
                  else ({ sig with auth := some (au_get_current_user_name w6) }, w6)
                let sig :=
                  { sig with
                    target_class_name := some entry.target_class
                    target_method_name := some entry.target_method }
                let (code_mop, w8) := jsp_find_stored_procedure_code E w7 entry.target_class
                let sig := { sig with code_oid := code_mop }
                some (NO_ERROR, AU_ENABLE w8 save, sig)

/-! ## DDL engine -/

/-- Result of `pt_get_default_expression_from_data_default_node` (`DB_DEFAULT_EXPR`). -/
structure DB_DEFAULT_EXPR where
  default_expr_type : Int
  default_expr_op : Int
  default_expr_format : Option String
  deriving DecidableEq

/-- A default-value node of a parameter, with what the helpers of other modules compute on
it: the `DB_DEFAULT_EXPR`, the printed form of its value (`db_sprint_value` of
`pt_value_to_db`; `none` for a NULL value), `db_default_expression_string` of its expression
type (may be `NULL`) and `parser_print_tree` of the node. -/
structure PT_DATA_DEFAULT where
  default_expr : DB_DEFAULT_EXPR
  value : Option String
  default_expression_string : Option String
  printed : String
  deriving DecidableEq

/-- A declared parameter (`PT_SP_PARAMETERS` node): name, the runtime type that
`pt_type_enum_to_db` gives for its `type_enum`, mode, default value and comment. -/
structure PT_SP_PARAM where
  name : Option String
  type_enum_db : DB_TYPE
  mode : PT_MISC_TYPE
  default_value : Option PT_DATA_DEFAULT
  comment : Option String
  deriving DecidableEq

/-- A `CREATE`, `ALTER` or `DROP` statement node of a stored routine (`info.sp`). The return
type is given by the runtime type that `pt_type_enum_to_db` maps it to. -/
structure PT_SP_STMT where
  name : Option String
  drop_names : List (Option String)
  type : PT_MISC_TYPE
  ret_type_db : DB_TYPE
  param_list : List PT_SP_PARAM
  lang : SP_LANG_ENUM
  direct : Bool
  java_method : String
  auth_id : PT_MISC_TYPE
  comment : Option String
  or_replace : Bool
  sql_user_text : String
  owner : Option String
  recompile : Int
  deriving DecidableEq

/-- The macro `PT_NODE_SP_NAME`. -/
def PT_NODE_SP_NAME (statement : PT_SP_STMT) : String :=
  match statement.name with
  | none => ""
  | some n => n

/-- The macro `PT_NODE_SP_COMMENT`. -/
def PT_NODE_SP_COMMENT (statement : PT_SP_STMT) : String :=
  match statement.comment with
  | none => ""
  | some c => c

/-- `jsp_map_pt_misc_to_sp_type`. -/
def jsp_map_pt_misc_to_sp_type (pt_enum : PT_MISC_TYPE) : SP_TYPE_ENUM :=
  if pt_enum = .PT_SP_PROCEDURE then .SP_TYPE_PROCEDURE else .SP_TYPE_FUNCTION

/-- `jsp_map_pt_misc_to_sp_mode`. -/
def jsp_map_pt_misc_to_sp_mode (pt_enum : PT_MISC_TYPE) : SP_MODE_ENUM :=
  if pt_enum = .PT_INPUT ∨ pt_enum = .PT_NOPUT then .SP_MODE_IN
  else if pt_enum = .PT_OUTPUT then .SP_MODE_OUT
  else .SP_MODE_INOUT

/-- `jsp_map_pt_to_sp_authid`. -/
def jsp_map_pt_to_sp_authid (pt_authid : PT_MISC_TYPE) : SP_DIRECTIVE_ENUM :=
  if pt_authid = .PT_AUTHID_OWNER then .SP_DIRECTIVE_RIGHTS_OWNER
  else .SP_DIRECTIVE_RIGHTS_CALLER

/-- `jsp_default_value_string (parser, node, out)`: the return value and `out`. The local
`error` is never assigned after its initialisation to `NO_ERROR`. -/
def jsp_default_value_string (K : PlConsts) (node : PT_DATA_DEFAULT) : Int × String :=
  let error := NO_ERROR
  let default_expr := node.default_expr
  let out := ""
  if default_expr.default_expr_type ≠ K.DB_DEFAULT_NONE then
    if default_expr.default_expr_type = K.NULL_DEFAULT_EXPRESSION_OPERATOR then
      match node.value with
      | some printed => (error, out ++ printed)
      | none => (error, out)
    else
      let out := if default_expr.default_expr_op = K.T_TO_CHAR then out ++ "TO_CHAR(" else out
      let out :=
        match node.default_expression_string with
        | some str => out ++ str
        | none => out ++ node.printed
      let out :=
        if default_expr.default_expr_op = K.T_TO_CHAR then
          let out :=
            match default_expr.default_expr_format with
            | some format => out ++ ", '" ++ format ++ "'"
            | none => out
          out ++ ")"
        else out
      (error, out)
  else
    match node.value with
    | some printed => (error, out ++ printed)
    | none => (error, out)

/-- The label `error_exit` of `jsp_create_stored_procedure`. -/
def create_error_exit (w : World) (err : Int) (has_savepoint : Bool) : Int × World :=
  let w1 := if has_savepoint then tran_abort_upto_system_savepoint w else w
  (if err = NO_ERROR then er_errid w1 else err, w1)

/-- The body of the loop of `jsp_create_stored_procedure` up to the argument-count check: the
`SP_ARG_INFO` filled from the parameter `p` at position `index_of`; `none` is the jump to
`error_exit` when `jsp_default_value_string` fails. -/
def create_arg_info (K : PlConsts) (unique_name : String) (p : PT_SP_PARAM) (index_of : Int) :
    Option SP_ARG_INFO :=
  let arg_name := match p.name with
    | none => ""
    | some n => n
  let data_type := p.type_enum_db
  let mode := jsp_map_pt_misc_to_sp_mode p.mode
  let comment := match p.comment with
    | none => ""
    | some c => c
  match p.default_value with
  | some default_value =>
    let (error, default_value_str) := jsp_default_value_string K default_value
    if error = NO_ERROR then
      some { sp_name := unique_name
             index_of := index_of
             arg_name := arg_name
             data_type := data_type
             mode := mode
             default_value := if default_value_str ≠ "" then some default_value_str else none
             is_optional := true
             comment := comment }
    else none
  | none =>
    some { sp_name := unique_name
           index_of := index_of
           arg_name := arg_name
           data_type := data_type
           mode := mode
           default_value := none
           is_optional := false
           comment := comment }

/-- The loop `for (p = param_list; p != NULL; p = p->next)` of
`jsp_create_stored_procedure` from parameter count `param_count` on, appending to `args`:
`none` is the jump to `error_exit`. -/
def create_args_loop (E : ErrorCodes) (K : PlConsts) (unique_name : String) :
    List PT_SP_PARAM → Int → List SP_ARG_INFO → World → Option (List SP_ARG_INFO) × World
  | [], _, args, w => (some args, w)
  | p :: rest, param_count, args, w =>
    let index_of := param_count
    let param_count := param_count + 1
    match create_arg_info K unique_name p index_of with
    | none => (none, w)
    | some arg_info =>
      if param_count > (MAX_ARG_COUNT : Int) then
        (none, er_set w E.ER_SP_TOO_MANY_ARG_COUNT)
      else
        create_args_loop E K unique_name rest param_count (args ++ [arg_info]) w

/-- `drop_stored_procedure_code (name)`. -/
def drop_stored_procedure_code (E : ErrorCodes) (w : World) (name : String) : Int × World :=
  let (save, w1) := AU_DISABLE w
  match jsp_find_stored_procedure_code E w1 name with
  | (none, w2) => (er_errid w2, AU_ENABLE w2 save)
  | (some code_mop, w2) =>
    match db_get_sp_code E w2 code_mop .SP_ATTR_OWNER with
    | (.error err, w3) => (err, AU_ENABLE w3 save)
    | (.ok owner_val, w3) =>
      let owner := owner_val.owner
      if !ws_is_same_object owner w3.Au_user && !au_is_dba_group_member w3 w3.Au_user then
        let w4 := er_set w3 E.ER_SP_DROP_NOT_ALLOWED_PRIVILEGES
        (er_errid w4, AU_ENABLE w4 save)
      else
        match db_get_sp_code E w3 code_mop .SP_ATTR_IS_SYSTEM_GENERATED with
        | (.error err, w4) => (err, AU_ENABLE w4 save)
        | (.ok generated_val, w4) =>
          if generated_val.is_system_generated = some 1 then
            let w5 := er_set w4 E.ER_SP_DROP_NOT_ALLOWED_SYSTEM_GENERATED
            (er_errid w5, AU_ENABLE w5 save)
          else
            let (err, w5) := obj_delete E w4 (some code_mop)
            (err, AU_ENABLE w5 save)

/-- The loop `for (i = 0; i < arg_cnt; i++)` of `drop_stored_procedure`, with `left`
iterations still to run from index `i`: the value of `err` when the loop is left (the first
failing `obj_delete`, else the `NO_ERROR` it had) and the state. -/
def drop_args_loop (E : ErrorCodes) (arg_set_p : List MOP) :
    Nat → Nat → World → Int × World
  | 0, _, w => (NO_ERROR, w)
  | left + 1, i, w =>
    let arg_mop := arg_set_p[i]?
    let (err, w1) := obj_delete E w arg_mop
    if err ≠ NO_ERROR then (err, w1)
    else drop_args_loop E arg_set_p left (i + 1) w1

/-- The statements of `drop_stored_procedure` from the `AU_SET_USER (save_user)` that follows
the revoke block to the end. -/
def drop_procedure_record (E : ErrorCodes) (w : World) (name : String) (sp_mop : MOP)
    (save_user : Option MOP) (save : Int) : Int × World :=
  let (_, w15) := AU_SET_USER w save_user
  let (err, w16) := au_delete_auth_of_dropping_database_object w15 name
  if err ≠ NO_ERROR then (err, AU_ENABLE w16 save)
  else
    let (err, w17) := obj_delete E w16 (some sp_mop)
    (err, AU_ENABLE w17 save)

/-- The statements of `drop_stored_procedure` from `save_user = Au_user` to the end. -/
def drop_revoke_and_record (E : ErrorCodes) (w : World) (name : String) (sp_mop : MOP)
    (owner : MOP) (unique_name : String) (save : Int) : Int × World :=
  let save_user := w.Au_user
  let (e_set, w13) := AU_SET_USER w (some owner)
  if e_set = NO_ERROR then
    let (err, w14) := au_object_revoke_all_privileges w13 owner unique_name
    if err ≠ NO_ERROR then
      let (_, w15) := AU_SET_USER w14 save_user
      (err, AU_ENABLE w15 save)
    else drop_procedure_record E w14 name sp_mop save_user save
  else drop_procedure_record E w13 name sp_mop save_user save

/-- The statements of `drop_stored_procedure` from `err = db_get (sp_mop, SP_ATTR_ARG_COUNT,
..)` to the end. -/
def drop_args_and_record (E : ErrorCodes) (K : PlConsts) (w : World) (name : String)
    (sp_mop : MOP) (owner : MOP) (save : Int) : Int × World :=
  match db_get_sp E w sp_mop .SP_ATTR_ARG_COUNT with
  | (.error err, w9) => (err, AU_ENABLE w9 save)
  | (.ok arg_cnt_val, w9) =>
    let arg_cnt := arg_cnt_val.arg_count
    match db_get_sp E w9 sp_mop .SP_ATTR_ARGS with
    | (.error err, w10) => (err, AU_ENABLE w10 save)
    | (.ok args_val, w10) =>
      let arg_set_p := args_val.args
      let (err, w11) := drop_args_loop E arg_set_p arg_cnt.toNat 0 w10
      if err ≠ NO_ERROR then (err, AU_ENABLE w11 save)
      else
        let (_, unique_name, w12) :=
          jsp_get_unique_name E w11 sp_mop "" K.DB_MAX_IDENTIFIER_LENGTH
        drop_revoke_and_record E w12 name sp_mop owner unique_name save

/-- The statements of `drop_stored_procedure` from `err = db_get (sp_mop, SP_ATTR_LANG, ..)`
to the end. -/
def drop_code_args_and_record (E : ErrorCodes) (K : PlConsts) (w : World) (name : String)
    (sp_mop : MOP) (owner : MOP) (save : Int) : Int × World :=
  match db_get_sp E w sp_mop .SP_ATTR_LANG with
  | (.error err, w6) => (err, AU_ENABLE w6 save)
  | (.ok lang_val, w6) =>
    if lang_val.lang = .SP_LANG_PLCSQL then
      match db_get_sp E w6 sp_mop .SP_ATTR_TARGET_CLASS with
      | (.error err, w7) => (err, AU_ENABLE w7 save)
      | (.ok target_cls_val, w7) =>
        let (err, w8) := drop_stored_procedure_code E w7 target_cls_val.target_class
        if err ≠ NO_ERROR then (err, AU_ENABLE w8 save)
        else drop_args_and_record E K w8 name sp_mop owner save
    else drop_args_and_record E K w6 name sp_mop owner save

/-- `drop_stored_procedure (name, expected_type)`. -/
def drop_stored_procedure (E : ErrorCodes) (K : PlConsts) (w : World) (name : String)
    (expected_type : SP_TYPE_ENUM) : Int × World :=
  let (save, w1) := AU_DISABLE w
  match jsp_find_stored_procedure E w1 name .DB_AUTH_SELECT with
  | (none, w2) => (er_errid w2, AU_ENABLE w2 save)
  | (some sp_mop, w2) =>
    match db_get_sp E w2 sp_mop .SP_ATTR_OWNER with
    | (.error err, w3) => (err, AU_ENABLE w3 save)
    | (.ok owner_val, w3) =>
      let owner := owner_val.owner
      if !ws_is_same_object (some owner) w3.Au_user
          && !au_is_dba_group_member w3 w3.Au_user then
        let w4 := er_set w3 E.ER_SP_DROP_NOT_ALLOWED_PRIVILEGES
        (er_errid w4, AU_ENABLE w4 save)
      else
        match db_get_sp E w3 sp_mop .SP_ATTR_IS_SYSTEM_GENERATED with
        | (.error err, w4) => (err, AU_ENABLE w4 save)
        | (.ok generated_val, w4) =>
          if generated_val.is_system_generated = 1 then
            let w5 := er_set w4 E.ER_SP_DROP_NOT_ALLOWED_SYSTEM_GENERATED
            (er_errid w5, AU_ENABLE w5 save)
          else
            match db_get_sp E w4 sp_mop .SP_ATTR_SP_TYPE with
            | (.error err, w5) => (err, AU_ENABLE w5 save)
            | (.ok sp_type_val, w5) =>
              let real_type := sp_type_val.sp_type
              if real_type ≠ expected_type then
                let w6 := er_set w5 E.ER_SP_INVALID_TYPE
                (er_errid w6, AU_ENABLE w6 save)
              else drop_code_args_and_record E K w5 name sp_mop owner save

/-- The statements of `jsp_create_stored_procedure` from
`err = sp_add_stored_procedure (sp_info)` to `return NO_ERROR`. -/
def create_add_records (w : World) (sp_info : SP_INFO) (compile_request : PLCSQL_COMPILE_REQUEST)
    (compile_response : PLCSQL_COMPILE_RESPONSE) (has_savepoint : Bool) : Int × World :=
  let (err, w10) := sp_add_stored_procedure w sp_info
  if err ≠ NO_ERROR then create_error_exit w10 err has_savepoint
  else if compile_request.code ≠ "" then
    let code_info : SP_CODE_INFO :=
      { name := sp_info.target_class
        created_time := w10.localtime_now
        stype := if sp_info.lang = .SP_LANG_PLCSQL then .SP_LANG_PLCSQL else .SP_LANG_JAVA
        scode := compile_request.code
        otype := compile_response.compiled_type
        ocode := compile_response.compiled_code
        owner := some sp_info.owner }
    let (err, w11) := sp_add_stored_procedure_code w10 code_info
    if err ≠ NO_ERROR then create_error_exit w11 err has_savepoint
    else (NO_ERROR, w11)
  else (NO_ERROR, w10)

/-- The statements of `jsp_create_stored_procedure` from `if (decl)` to the end, reached with
`err == NO_ERROR`; `sp_info` is the record as filled so far. -/
def create_check_exists (E : ErrorCodes) (K : PlConsts) (w : World) (statement : PT_SP_STMT)
    (sp_info : SP_INFO) (decl : Option String) (compile_request : PLCSQL_COMPILE_REQUEST)
    (compile_response : PLCSQL_COMPILE_RESPONSE) : Int × World :=
  let err := NO_ERROR
  let (target_class, target_method) :=
    match decl with
    | some target => w.sp_split_target_signature target
    | none => (sp_info.target_class, sp_info.target_method)
  let sp_info : SP_INFO :=
    { sp_info with
      target_class := target_class
      target_method := target_method
      comment := PT_NODE_SP_COMMENT statement }
  let (exists_, w7) := jsp_is_exist_stored_procedure E w sp_info.unique_name
  if exists_ then
    if statement.or_replace then
      let (err, w8) := tran_system_savepoint w7
      if err ≠ NO_ERROR then (err, w8)
      else
        let has_savepoint := true
        let (err, w9) := drop_stored_procedure E K w8 sp_info.unique_name sp_info.sp_type
        if err ≠ NO_ERROR then create_error_exit w9 err has_savepoint
        else create_add_records w9 sp_info compile_request compile_response has_savepoint
    else
      create_error_exit (er_set w7 E.ER_SP_ALREADY_EXIST) err false
  else create_add_records w7 sp_info compile_request compile_response false

/-- `jsp_create_stored_procedure (parser, statement)`. -/
def jsp_create_stored_procedure (E : ErrorCodes) (K : PlConsts) (w : World)
    (statement : PT_SP_STMT) : Int × World :=
  let (e_mod, w1) := ext_call w .CHECK_MODIFICATION_ERROR
  if e_mod ≠ NO_ERROR then (er_errid w1, w1)
  else if w1.block_ddl_statement then
    (E.ER_BLOCK_DDL_STMT, er_set w1 E.ER_BLOCK_DDL_STMT)
  else
    let err := NO_ERROR
    let directive := jsp_map_pt_to_sp_authid statement.auth_id
    let lang := statement.lang
    if directive = .SP_DIRECTIVE_RIGHTS_CALLER ∧ lang = .SP_LANG_PLCSQL then
      let w2 := er_set w1 E.ER_SP_INVOKERS_RIGHTS_NOT_SUPPORTED
      (er_errid w2, w2)
    else
      let unique_name := jsp_check_stored_procedure_name w1 (PT_NODE_SP_NAME statement)
      if unique_name = "" then
        let w2 := er_set w1 E.ER_SP_INVALID_NAME
        (er_errid w2, w2)
      else
        let sp_name := sm_remove_qualifier_name unique_name
        if sp_name = "" then
          let w2 := er_set w1 E.ER_SP_INVALID_NAME
          (er_errid w2, w2)
        else
          let sp_type := jsp_map_pt_misc_to_sp_type statement.type
          let return_type :=
            if sp_type = .SP_TYPE_FUNCTION then statement.ret_type_db else .DB_TYPE_NULL
          match create_args_loop E K unique_name statement.param_list 0 [] w1 with
          | (none, w2) => create_error_exit w2 err false
          | (some args, w2) =>
            match sm_qualifier_name unique_name with
            | none => create_error_exit (er_set w2 E.ER_SM_INVALID_ARGUMENTS) err false
            | some owner_name =>
              let owner := if owner_name = "" then w2.Au_user else db_find_user w2 owner_name
              match owner with
              | none => create_error_exit (er_set w2 E.ER_AU_INVALID_USER_NAME) err false
              | some owner =>
                let sp_info : SP_INFO :=
                  { unique_name := unique_name
                    sp_name := sp_name
                    sp_type := sp_type
                    return_type := return_type
                    args := args
                    lang := lang
                    directive := directive
                    target_class := ""
                    target_method := ""
                    owner := owner
                    comment := "" }
                if lang = .SP_LANG_PLCSQL then
                  let compile_request : PLCSQL_COMPILE_REQUEST :=
                    { code := statement.sql_user_text
                      owner := if owner_name = "" then au_get_current_user_name w2
                        else owner_name }
                  let w3 := au_perform_push_user w2 (some owner)
                  let (err, compile_response, w4) := plcsql_transfer_file w3 compile_request
                  let w5 := au_perform_pop_user w4
                  if err = NO_ERROR ∧ compile_response.err_code = NO_ERROR then
                    create_check_exists E K w5 statement sp_info
                      (some compile_response.java_signature) compile_request compile_response
                  else
                    let err := E.ER_SP_COMPILE_ERROR
                    let w6 := er_set w5 E.ER_SP_COMPILE_ERROR
                    let w7 := pt_record_error w6
                      (.COMPILE_ERROR compile_response.err_line compile_response.err_column
                        compile_response.err_msg)
                    create_error_exit w7 err false
                else
                  let compile_request : PLCSQL_COMPILE_REQUEST := { code := "", owner := "" }
                  let compile_response : PLCSQL_COMPILE_RESPONSE :=
                    { err_code := 0, err_line := 0, err_column := 0, err_msg := "",
                      java_signature := "", compiled_type := 0, compiled_code := "" }
                  let is_direct := statement.direct
                  if is_direct then
                    create_check_exists E K w2 statement sp_info none compile_request
                      compile_response
                  else
                    create_check_exists E K w2 statement sp_info (some statement.java_method)
                      compile_request compile_response

/-- The statements of `alter_stored_procedure_code` from `obt_p = dbt_edit_object (sp_mop)` to
the end: the update of `target_class` on the procedure record. -/
def alter_target_class (E : ErrorCodes) (w : World) (sp_mop : MOP) (target_class : String)
    (save : Int) : Int × World :=
  let (e_edit, w8) := ext_call w (.dbt_edit_object sp_mop)
  if e_edit ≠ NO_ERROR then (er_errid w8, AU_ENABLE w8 save)
  else
    let (err, w9) := ext_call w8 (.dbt_put_internal sp_mop .SP_ATTR_TARGET_CLASS)
    if err ≠ NO_ERROR then (err, AU_ENABLE w9 save)
    else
      let (e_finish, w10) := ext_call w9 (.dbt_finish_object sp_mop)
      if e_finish ≠ NO_ERROR then (er_errid w10, AU_ENABLE w10 save)
      else
        let w11 := sp_update w10 sp_mop (fun r => { r with target_class := target_class })
        let (err, w12) := ext_call w11 (.locator_flush_instance sp_mop)
        if err ≠ NO_ERROR then
          let err := er_errid w12
          let (_, w13) := obj_delete E w12 (some sp_mop)
          (err, AU_ENABLE w13 save)
        else (err, AU_ENABLE w12 save)

/-- `alter_stored_procedure_code (parser, sp_mop, name, owner_str, sp_recompile)`; a `NULL`
`owner_str` is read as the empty string. -/
def alter_stored_procedure_code (E : ErrorCodes) (w : World) (sp_mop : MOP) (name : String)
    (owner_str : Option String) (sp_recompile : Int) : Int × World :=
  let owner_str := match owner_str with
    | some o => o
    | none => ""
  let (save, w1) := AU_DISABLE w
  match jsp_find_stored_procedure_code E w1 name with
  | (none, w2) => (er_errid w2, AU_ENABLE w2 save)
  | (some code_mop, w2) =>
    match db_get_sp_code E w2 code_mop .SP_ATTR_SOURCE_CODE with
    | (.error err, w3) => (err, AU_ENABLE w3 save)
    | (.ok scode_val, w3) =>
      let scode := scode_val.scode
      let owner := db_find_user w3 owner_str
      let compile_request : PLCSQL_COMPILE_REQUEST := { code := scode, owner := owner_str }
      let w4 := au_perform_push_user w3 owner
      let (err, compile_response, w5) := plcsql_transfer_file w4 compile_request
      let w6 := au_perform_pop_user w5
      if ¬ (err = NO_ERROR ∧ compile_response.err_code = NO_ERROR) then
        let w7 := er_set w6 E.ER_SP_COMPILE_ERROR
        let w8 := pt_record_error w7
          (.COMPILE_ERROR compile_response.err_line compile_response.err_column
            compile_response.err_msg)
        (E.ER_SP_COMPILE_ERROR, AU_ENABLE w8 save)
      else
        let decl := compile_response.java_signature
        let (target_class, _) := w6.sp_split_target_signature decl
        let code_info : SP_CODE_INFO :=
          { name := target_class
            created_time := ""
            stype := .SP_LANG_PLCSQL
            scode := ""
            otype := 0
            ocode := compile_response.compiled_code
            owner := if sp_recompile = 1 then none else owner }
        let (err, w7) := sp_edit_stored_procedure_code w6 code_mop code_info
        if err ≠ NO_ERROR then (err, AU_ENABLE w7 save)
        else alter_target_class E w7 sp_mop code_info.name save

/-- The statements of `jsp_alter_stored_procedure` from `if (sp_comment != NULL)` to the end,
reached with `err == NO_ERROR`. -/
def alter_comment (w : World) (statement : PT_SP_STMT) (sp_mop : MOP) (save : Int) :
    Int × World :=
  let err := NO_ERROR
  match statement.comment with
  | some _ =>
    let (err, w1) := obj_set w sp_mop .SP_ATTR_COMMENT
      (fun r => { r with comment := PT_NODE_SP_COMMENT statement })
    (err, AU_ENABLE w1 save)
  | none => (err, AU_ENABLE w save)

/-- The statements of `jsp_alter_stored_procedure` from `err = db_get (sp_mop, SP_ATTR_LANG,
..)` to the end. -/
def alter_code_and_comment (E : ErrorCodes) (w : World) (statement : PT_SP_STMT) (sp_mop : MOP)
    (save : Int) : Int × World :=
  let sp_owner := statement.owner
  let sp_recompile := statement.recompile
  let name_str := PT_NODE_SP_NAME statement
  let owner_str := sp_owner
  match db_get_sp E w sp_mop .SP_ATTR_LANG with
  | (.error err, w12) => (err, AU_ENABLE w12 save)
  | (.ok sp_lang_val, w12) =>
    let lang := sp_lang_val.lang
    if lang = .SP_LANG_PLCSQL ∧ (sp_owner.isSome ∨ sp_recompile = 1) then
      match db_get_sp E w12 sp_mop .SP_ATTR_TARGET_CLASS with
      | (.error err, w13) => (err, AU_ENABLE w13 save)
      | (.ok target_cls_val, w13) =>
        let target_cls := target_cls_val.target_class
        let owner_str := if sp_recompile = 1 then sm_qualifier_name name_str else owner_str
        let (err, w14) :=
          alter_stored_procedure_code E w13 sp_mop target_cls owner_str sp_recompile
        if err ≠ NO_ERROR then (err, AU_ENABLE w14 save)
        else alter_comment w14 statement sp_mop save
    else alter_comment w12 statement sp_mop save

/-- The statements of `jsp_alter_stored_procedure` from the `AU_SET_USER (save_user)` that
follows the revoke block to the end. -/
def alter_record (E : ErrorCodes) (w : World) (statement : PT_SP_STMT) (sp_mop : MOP)
    (save_user : Option MOP) (save : Int) : Int × World :=
  let type := statement.type
  let sp_owner := statement.owner
  let name_str := PT_NODE_SP_NAME statement
  let (_, w8) := AU_SET_USER w save_user
  let new_owner := match sp_owner with
    | some owner_str => db_find_user w8 owner_str
    | none => none
  if sp_owner.isSome ∧ new_owner = none then
    (E.ER_OBJ_OBJECT_NOT_FOUND, AU_ENABLE (er_set w8 E.ER_OBJ_OBJECT_NOT_FOUND) save)
  else
    match db_get_sp E w8 sp_mop .SP_ATTR_SP_TYPE with
    | (.error err, w9) => (err, AU_ENABLE w9 save)
    | (.ok sp_type_val, w9) =>
      let real_type := sp_type_val.sp_type
      if real_type ≠ jsp_map_pt_misc_to_sp_type type then
        (E.ER_SP_INVALID_TYPE, AU_ENABLE (er_set w9 E.ER_SP_INVALID_TYPE) save)
      else
        match sp_owner, new_owner with
        | some owner_str, some new_owner =>
          let downcase_owner_name := sm_downcase_name owner_str
          let new_name_str := downcase_owner_name ++ "." ++ sm_remove_qualifier_name name_str
          let (err, w10) := obj_set w9 sp_mop .SP_ATTR_UNIQUE_NAME
            (fun r => { r with unique_name := new_name_str })
          if err < 0 then (err, AU_ENABLE w10 save)
          else
            let (err, w11) := obj_set w10 sp_mop .SP_ATTR_OWNER
              (fun r => { r with owner := new_owner })
            if err < 0 then (err, AU_ENABLE w11 save)
            else alter_code_and_comment E w11 statement sp_mop save
        | _, _ => alter_code_and_comment E w9 statement sp_mop save

/-- The statements of `jsp_alter_stored_procedure` from `save_user = Au_user` to the end. -/
def alter_revoke_and_record (E : ErrorCodes) (w : World) (statement : PT_SP_STMT)
    (sp_mop : MOP) (owner : MOP) (unique_name : String) (save : Int) : Int × World :=
  let save_user := w.Au_user
  let (e_set, w6) := AU_SET_USER w (some owner)
  if e_set = NO_ERROR then
    let (err, w7) := au_object_revoke_all_privileges w6 owner unique_name
    if err ≠ NO_ERROR then
      let (_, w8) := AU_SET_USER w7 save_user
      (err, AU_ENABLE w8 save)
    else alter_record E w7 statement sp_mop save_user save
  else alter_record E w6 statement sp_mop save_user save

/-- `jsp_alter_stored_procedure (parser, statement)` for a statement whose name node is not
`NULL`. -/
def jsp_alter_stored_procedure (E : ErrorCodes) (K : PlConsts) (w : World)
    (statement : PT_SP_STMT) : Int × World :=
  let (e_mod, w1) := ext_call w .CHECK_MODIFICATION_ERROR
  if e_mod ≠ NO_ERROR then (er_errid w1, w1)
  else if w1.block_ddl_statement then
    (E.ER_BLOCK_DDL_STMT, er_set w1 E.ER_BLOCK_DDL_STMT)
  else
    let name_str := PT_NODE_SP_NAME statement
    let (save, w2) := AU_DISABLE w1
    if !au_is_dba_group_member w2 w2.Au_user then
      (E.ER_AU_DBA_ONLY, AU_ENABLE (er_set w2 E.ER_AU_DBA_ONLY) save)
    else
      match jsp_find_stored_procedure E w2 name_str .DB_AUTH_SELECT with
      | (none, w3) => (er_errid w3, AU_ENABLE w3 save)
      | (some sp_mop, w3) =>
        let (_, unique_name, w4) :=
          jsp_get_unique_name E w3 sp_mop "" K.DB_MAX_IDENTIFIER_LENGTH
        match jsp_get_owner E w4 sp_mop with
        | (none, w5) => (E.ER_FAILED, AU_ENABLE w5 save)
        | (some owner, w5) =>
          alter_revoke_and_record E w5 statement sp_mop owner unique_name save

/-- The loop over the name list of `jsp_drop_stored_procedure`: the value returned and the
state. -/
def jsp_drop_names_loop (E : ErrorCodes) (K : PlConsts) (type : PT_MISC_TYPE) :
    List (Option String) → World → Int × World
  | [], w => (NO_ERROR, w)
  | p :: rest, w =>
    match p with
    | none =>
      let w1 := er_set w E.ER_SP_INVALID_NAME
      (er_errid w1, w1)
    | some name =>
      if name = "" then
        let w1 := er_set w E.ER_SP_INVALID_NAME
        (er_errid w1, w1)
      else
        let (err, w1) := drop_stored_procedure E K w name (jsp_map_pt_misc_to_sp_type type)
        if err ≠ NO_ERROR then (err, w1)
        else jsp_drop_names_loop E K type rest w1

/-- `jsp_drop_stored_procedure (parser, statement)`. -/
def jsp_drop_stored_procedure (E : ErrorCodes) (K : PlConsts) (w : World)
    (statement : PT_SP_STMT) : Int × World :=
  let (e_mod, w1) := ext_call w .CHECK_MODIFICATION_ERROR
  if e_mod ≠ NO_ERROR then (er_errid w1, w1)
  else if w1.block_ddl_statement then
    (E.ER_BLOCK_DDL_STMT, er_set w1 E.ER_BLOCK_DDL_STMT)
  else jsp_drop_names_loop E K statement.type statement.drop_names w1

/-! ## Call dispatcher -/

/-- What `jsp_call_stored_procedure` calls once the signature is built, as parameters:
`evaluate` is the sequence from `jsp_get_default_expr_node_list` to the end of the block
`if (error == NO_ERROR)` (default prelude, `qp_get_server_info`, merge of the argument
lists, `jsp_evaluate_arguments`, report of parser errors) and gives `error`, the statement
with its merged argument list and the vector `args`; `pl_call` is the executor RPC and
gives its return value, `out_args` and `ret_value`. -/
structure CALL_ENV where
  evaluate : World → PL_SIGNATURE → PT_METHOD_CALL →
    Int × World × PT_METHOD_CALL × List DB_VALUE
  pl_call : World → PL_SIGNATURE → List DB_VALUE → Int × World × List DB_VALUE × DB_VALUE

/-- What `jsp_call_stored_procedure` leaves behind: the argument slots after the write-back,
the value attached to the call node (`statement->etc`) and the label bound by `INTO`. -/
structure CALL_OUT where
  args : List DB_VALUE
  etc : Option DB_VALUE
  label : Option (String × DB_VALUE)
  deriving DecidableEq

/-- The write-back loop `for (int i = 0, j = 0; i < sig.arg.arg_size; i++)` of
`jsp_call_stored_procedure`, with `left` iterations still to run; `none` when `args[i]` or
`out_args[j]` is outside its vector. -/
def jsp_call_writeback (sig : PL_SIGNATURE) (out_args : List DB_VALUE) :
    Nat → Nat → Nat → List DB_VALUE → Option (List DB_VALUE)
  | 0, _, _, args => some args
  | left + 1, i, j, args =>
    if sig.arg.arg_mode i = .SP_MODE_IN then
      jsp_call_writeback sig out_args left (i + 1) j args
    else
      match args[i]?, out_args[j]? with
      | some _, some out_arg => jsp_call_writeback sig out_args left (i + 1) (j + 1) (args.set i out_arg)
      | _, _ => none

/-- `jsp_call_stored_procedure (parser, statement)` for a `statement` that is not `NULL`. -/
def jsp_call_stored_procedure (E : ErrorCodes) (K : PlConsts) (C : CALL_ENV) (w : World)
    (statement : PT_METHOD_CALL) (sig : PL_SIGNATURE) (save0 : Int)
    (user_name_buffer0 : String) : Option (Int × World × CALL_OUT) :=
  if !statement.has_method_name then
    let w1 := er_set w E.ER_OBJ_INVALID_ARGUMENTS
    some (er_errid w1, w1, { args := [], etc := none, label := none })
  else
    let ret_value := DB_VALUE.null
    match jsp_make_pl_signature E K w statement sig save0 user_name_buffer0 with
    | none => none
    | some (error, w1, sig1) =>
      let (error, w2, statement1, args) :=
        if error = NO_ERROR then C.evaluate w1 sig1 statement else (error, w1, statement, [])
      let called :=
        if error = NO_ERROR ∧ w2.sig_interrupt = 0 then
          let w3 := { w2 with trace := w2.trace ++ [.pl_call statement1.method_name] }
          let (error, w4, out_args, ret_value) := C.pl_call w3 sig1 args
          if error = NO_ERROR then
            match jsp_call_writeback sig1 out_args sig1.arg.arg_size.toNat 0 0 args with
            | none => none
            | some args1 => some (error, w4, args1, ret_value)
          else some (error, w4, args, ret_value)
        else some (error, w2, args, ret_value)
      match called with
      | none => none
      | some (error, w5, args1, ret_value) =>
        if error = NO_ERROR then
          match statement1.to_return_var with
          | some into_label =>
            let (error, w6) :=
              ext_call w5 (.pt_associate_label_with_value_check_reference into_label)
            some (error, w6,
              { args := args1, etc := some ret_value, label := some (into_label, ret_value) })
          | none => some (error, w5, { args := args1, etc := some ret_value, label := none })
        else some (error, w5, { args := args1, etc := none, label := none })

/-- Every error code is negative (the convention of `error_code.h`, on which the tests
`< 0` of this module rely). -/
abbrev ErrorCodes.negative (E : ErrorCodes) : Prop :=
  E.ER_FAILED < 0 ∧ E.ER_BLOCK_DDL_STMT < 0 ∧ E.ER_OBJ_INVALID_ARGUMENTS < 0 ∧
  E.ER_OBJ_OBJECT_NOT_FOUND < 0 ∧ E.ER_SM_INVALID_ARGUMENTS < 0 ∧ E.ER_PT_SEMANTIC < 0 ∧
  E.ER_AU_DBA_ONLY < 0 ∧ E.ER_AU_EXECUTE_FAILURE < 0 ∧ E.ER_AU_INVALID_USER_NAME < 0 ∧
  E.ER_SP_ALREADY_EXIST < 0 ∧ E.ER_SP_NOT_EXIST < 0 ∧ E.ER_SP_INVALID_NAME < 0 ∧
  E.ER_SP_INVALID_TYPE < 0 ∧ E.ER_SP_INVALID_PARAM_COUNT < 0 ∧
  E.ER_SP_TOO_MANY_ARG_COUNT < 0 ∧ E.ER_SP_COMPILE_ERROR < 0 ∧
  E.ER_SP_INVOKERS_RIGHTS_NOT_SUPPORTED < 0 ∧ E.ER_SP_CANNOT_INPUT_RESULTSET < 0 ∧
  E.ER_SP_CANNOT_RETURN_RESULTSET < 0 ∧ E.ER_SP_NOT_SUPPORTED_ARG_TYPE < 0 ∧
  E.ER_SP_NOT_SUPPORTED_RETURN_TYPE < 0 ∧ E.ER_SP_DROP_NOT_ALLOWED_PRIVILEGES < 0 ∧
  E.ER_SP_DROP_NOT_ALLOWED_SYSTEM_GENERATED < 0 ∧ E.ER_HEAP_UNKNOWN_OBJECT < 0

/-- The state without the three parts that the read-only paths of this module write: the
error slot, the flag `Au_disable` and the parser's error list. -/
def World.core (w : World) : World :=
  { w with er_errid := 0, Au_disable := 0, pt_errors := [] }

/-- The fields of a signature other than the per-argument part. -/
def PL_SIGNATURE.rest (s : PL_SIGNATURE) :
    Option String × PL_TYPE × Option String × DB_TYPE × Option String × Option String ×
      Option MOP × Option String × Option (List (Option Nat)) :=
  (s.name, s.type, s.auth, s.result_type, s.target_class_name, s.target_method_name,
    s.code_oid, s.method_class_name, s.method_arg_pos)

/-- The two states agree on what `jsp_is_prepare_call` reads. -/
def same_flags (w w1 : World) : Prop :=
  w.is_prepare_call = w1.is_prepare_call ∧ w.libcas_depth = w1.libcas_depth

/-- Position `j` of the argument arrays `new` is filled from the argument record `e`, given
the arrays `old` before the call and the number `required` of supplied arguments: mode and
type of the record; below `required` the size `PL_ARG_DEFAULT_NONE` and no write of
`arg_default_value[j]`; from `required` on the record is optional and the size is
`PL_ARG_DEFAULT_NULL` for a NULL default text, else the size of the text in bytes, and the
text is copied to `arg_default_value[j]` when it is not empty. -/
def arg_filled (K : PlConsts) (required : Int) (e : SP_ARG_ROW) (old new : PL_ARG) (j : Nat) :
    Prop :=
  new.arg_mode j = e.mode ∧ new.arg_type j = e.data_type ∧
  ((j : Int) < required →
    new.arg_default_value_size j = K.PL_ARG_DEFAULT_NONE ∧
    new.arg_default_value j = old.arg_default_value j) ∧
  ((j : Int) ≥ required →
    e.is_optional = 1 ∧
    (e.default_value = none →
      new.arg_default_value_size j = K.PL_ARG_DEFAULT_NULL ∧
      new.arg_default_value j = old.arg_default_value j) ∧
    (∀ v, e.default_value = some v →
      new.arg_default_value_size j = db_get_string_size v ∧
      (0 < db_get_string_size v → new.arg_default_value j = some v) ∧
      (db_get_string_size v = 0 → new.arg_default_value j = old.arg_default_value j)))

/-! ## Sample data

Concrete values on which the definitions are evaluated. -/

/-- A sample assignment of error codes: pairwise distinct negative numbers. -/
def E0 : ErrorCodes :=
  { ER_FAILED := -1
    ER_BLOCK_DDL_STMT := -2
    ER_OBJ_INVALID_ARGUMENTS := -3
    ER_OBJ_OBJECT_NOT_FOUND := -4
    ER_SM_INVALID_ARGUMENTS := -5
    ER_PT_SEMANTIC := -6
    ER_AU_DBA_ONLY := -7
    ER_AU_EXECUTE_FAILURE := -8
    ER_AU_INVALID_USER_NAME := -9
    ER_SP_ALREADY_EXIST := -10
    ER_SP_NOT_EXIST := -11
    ER_SP_INVALID_NAME := -12
    ER_SP_INVALID_TYPE := -13
    ER_SP_INVALID_PARAM_COUNT := -14
    ER_SP_TOO_MANY_ARG_COUNT := -15
    ER_SP_COMPILE_ERROR := -16
    ER_SP_INVOKERS_RIGHTS_NOT_SUPPORTED := -17
    ER_SP_CANNOT_INPUT_RESULTSET := -18
    ER_SP_CANNOT_RETURN_RESULTSET := -19
    ER_SP_NOT_SUPPORTED_ARG_TYPE := -20
    ER_SP_NOT_SUPPORTED_RETURN_TYPE := -21
    ER_SP_DROP_NOT_ALLOWED_PRIVILEGES := -22
    ER_SP_DROP_NOT_ALLOWED_SYSTEM_GENERATED := -23
    ER_HEAP_UNKNOWN_OBJECT := -24 }

/-- A sample assignment of the two sentinels. -/
def K0 : PlConsts :=
  { PL_ARG_DEFAULT_NONE := -1
    PL_ARG_DEFAULT_NULL := 0
    DB_MAX_USER_LENGTH := 32
    DB_MAX_IDENTIFIER_LENGTH := 255
    DB_DEFAULT_NONE := 0
    NULL_DEFAULT_EXPRESSION_OPERATOR := -1
    T_TO_CHAR := 1 }

/-- A sample catalog: users `dba` (1), `public` (2), `u1` (3), `u2` (4), no procedure. -/
def cat0 : Catalog :=
  { sp := []
    sp_args := []
    sp_code := []
    auth := []
    users :=
      [ { mop := 1, name := "dba", dba_group_member := true },
        { mop := 2, name := "public", dba_group_member := false },
        { mop := 3, name := "u1", dba_group_member := false },
        { mop := 4, name := "u2", dba_group_member := false } ] }

/-- A sample state: user `u1`, depth 0, prepare-call flags off, empty error slot, no
failing call, a compiler that accepts every request. -/
def w0 : World :=
  { er_errid := 0
    libcas_depth := 0
    is_prepare_call := List.replicate 16 false
    pt_errors := []
    Au_user := some 3
    Au_public_user := 2
    Au_disable := 0
    user_stack := []
    client_type_loaddb_compat := false
    block_ddl_statement := false
    cat := cat0
    savepoint := none
    next_mop := 100
    fault := fun _ => 0
    compiler := fun req =>
      { err_code := 0, err_line := 0, err_column := 0, err_msg := "",
        java_signature := "Cls." ++ req.owner, compiled_type := 0, compiled_code := "bin" }
    find_by_query := fun _ => (0, "")
    trace := []
    sig_interrupt := 0
    sp_split_target_signature := fun t =>
      (String.mk (t.data.takeWhile (fun c => c ≠ '.')),
        String.mk ((t.data.dropWhile (fun c => c ≠ '.')).drop 1))
    localtime_now := "20240101000000"
    name_buffer := { SM_MAX_IDENTIFIER_LENGTH := 255, overflow := fun _ => "" } }

/-- A sample signature before it is filled in. -/
def sig0 : PL_SIGNATURE :=
  { name := none
    type := .PL_TYPE_JAVA_SP
    auth := none
    result_type := .DB_TYPE_NULL
    arg :=
      { arg_size := 0
        arg_mode := fun _ => .SP_MODE_IN
        arg_type := fun _ => .DB_TYPE_NULL
        arg_default_value_size := fun _ => 0
        arg_default_value := fun _ => none }
    target_class_name := none
    target_method_name := none
    code_oid := none
    method_class_name := none
    method_arg_pos := none }

/-- The procedure `u1.f`, a HOSTED function of user `u1` without parameter. -/
def sp_f : SP_ROW :=
  { mop := 50
    unique_name := "u1.f"
    sp_name := "f"
    sp_type := .SP_TYPE_FUNCTION
    return_type := .DB_TYPE_INTEGER
    arg_count := 0
    args := []
    lang := .SP_LANG_JAVA
    directive := .SP_DIRECTIVE_RIGHTS_OWNER
    target_class := "pkg.C"
    target_method := "m"
    owner := 3
    comment := ""
    is_system_generated := 0 }

/-- The procedure `public.g`, owned by the reserved user `public`. -/
def sp_g : SP_ROW :=
  { sp_f with mop := 51, unique_name := "public.g", sp_name := "g", owner := 2 }

/-- The sample catalog with the procedures `u1.f` and `public.g`, and no grant. -/
def cat1 : Catalog :=
  { cat0 with sp := [sp_f, sp_g] }

/-- The sample state over `cat1`, current user `u1`. -/
def w1 : World :=
  { w0 with cat := cat1 }

/-- The sample state over `cat1` with the reserved user `public` as current user. -/
def w1_public : World :=
  { w1 with Au_user := some 2 }

/-- The sample state over `cat1` with `u2` as current user. -/
def w1_u2 : World :=
  { w1 with Au_user := some 4 }

/-- The sample state over `cat1` with `u2` as current user and an EXECUTE grant on `u1.f`
to `u2`. -/
def w1_granted : World :=
  { w1 with
    Au_user := some 4
    cat := { cat1 with
      auth := [{ is_procedure := true, auth_type := "EXECUTE", object_of := 50, grantee := 4 }] } }

/-- The grant query runs without failure in state `w`. -/
def grant_query_runs (w : World) : Prop :=
  w.fault .grant_query_open = NO_ERROR ∧ w.fault .grant_query_set_system_generated = NO_ERROR ∧
  w.fault .grant_query_compile = NO_ERROR ∧ w.fault .grant_query_push_values = NO_ERROR ∧
  w.fault .grant_query_execute = NO_ERROR ∧ w.fault .grant_query_end = NO_ERROR

/-- The four conditions under which the code lets the current user execute the procedure
`sp_obj` with record `row`: DBA-group member; owner; procedure owned by the reserved user
`public`; an EXECUTE grant row, found by a grant query that runs, with an empty error slot. -/
def execute_allowed (w : World) (sp_obj : MOP) (row : SP_ROW) : Prop :=
  au_is_dba_group_member w w.Au_user = true ∨
  (w.fault (.db_get sp_obj .SP_ATTR_OWNER) = NO_ERROR ∧
    (some row.owner = w.Au_user ∨ row.owner = w.Au_public_user)) ∨
  (w.fault (.db_get sp_obj .SP_ATTR_OWNER) = NO_ERROR ∧ grant_query_runs w ∧
    0 < count_execute_grants w sp_obj ∧ w.er_errid = NO_ERROR)

/-- A top-level `CALL p (10)` with one supplied argument. -/
def call1 : PT_METHOD_CALL :=
  { has_method_name := true
    method_name := "p"
    call_or_expr := .PT_IS_CALL_STMT
    arg_list := [{ is_const := true, text := "10" }]
    is_method := false
    is_class_method := false
    method_class_name := ""
    to_return_var := none }

/-- The same call without argument, `CALL p ()`. -/
def call0 : PT_METHOD_CALL :=
  { call1 with arg_list := [] }

/-- The call `p (10)` as an expression of a query. -/
def expr1 : PT_METHOD_CALL :=
  { call1 with call_or_expr := .PT_IS_MTHD_EXPR }

/-- Argument records of `(a INT, b INT DEFAULT 1, c INT DEFAULT 2)`: every position is an IN
parameter of type INTEGER, optional with default text `1` except position 0. -/
def row3 (i : Nat) : SP_ARG_ROW :=
  { mop := 10 + i
    index_of := i
    arg_name := "a"
    data_type := .DB_TYPE_INTEGER
    mode := .SP_MODE_IN
    is_optional := if i = 0 then 0 else 1
    default_value := if i = 0 then none else some "1"
    comment := "" }

/-- The parameter set of `(a INT, b INT DEFAULT 1, c INT DEFAULT 2)`. -/
def ps3 (i : Nat) : ArgRead :=
  .entry (row3 i)

/-- A sample argument record whose default text has one character of two bytes. -/
def row_accent_default : SP_ARG_ROW :=
  { mop := 10
    index_of := 0
    arg_name := "a"
    data_type := .DB_TYPE_STRING
    mode := .SP_MODE_IN
    is_optional := 1
    default_value := some "é"
    comment := "" }

/-- A name of 250 bytes with the reserved prefix: `dbms_output.` and 238 letters. -/
def dbms_output_long_name : String :=
  "dbms_output." ++ String.mk (List.replicate 238 'A')

/-- An optional IN parameter whose stored default text is the empty, non-NULL string. -/
def row_empty_default : SP_ARG_ROW :=
  { mop := 10
    index_of := 0
    arg_name := "a"
    data_type := .DB_TYPE_STRING
    mode := .SP_MODE_IN
    is_optional := 1
    default_value := some ""
    comment := "" }

/-- An OUT parameter of type INTEGER. -/
def row_out : SP_ARG_ROW :=
  { mop := 10
    index_of := 0
    arg_name := "a"
    data_type := .DB_TYPE_INTEGER
    mode := .SP_MODE_OUT
    is_optional := 0
    default_value := none
    comment := "" }

/-- A parameter `IN x INT` without default value. -/
def param_x : PT_SP_PARAM :=
  { name := some "x"
    type_enum_db := .DB_TYPE_INTEGER
    mode := .PT_INPUT
    default_value := none
    comment := none }

/-- The statement `CREATE FUNCTION f () RETURN INT AS LANGUAGE JAVA NAME 'pkg.C.m'`. -/
def create_f : PT_SP_STMT :=
  { name := some "f"
    drop_names := []
    type := .PT_SP_FUNCTION
    ret_type_db := .DB_TYPE_INTEGER
    param_list := []
    lang := .SP_LANG_JAVA
    direct := false
    java_method := "pkg.C.m"
    auth_id := .PT_AUTHID_OWNER
    comment := none
    or_replace := false
    sql_user_text := ""
    owner := none
    recompile := 0 }

/-- The statement `ALTER FUNCTION f COMMENT 'c'`. -/
def alter_f_comment : PT_SP_STMT :=
  { create_f with comment := some "c" }

/-- Nothing is created or changed from `w` to `v`: every record and grant of `v` is one of
`w`, the user records, the savepoint, the outcome of the calls into other modules and the
identity stack are the same. -/
def only_deleted (w v : World) : Prop :=
  (∀ r ∈ v.cat.sp, r ∈ w.cat.sp) ∧ (∀ r ∈ v.cat.sp_args, r ∈ w.cat.sp_args) ∧
  (∀ r ∈ v.cat.sp_code, r ∈ w.cat.sp_code) ∧ (∀ a ∈ v.cat.auth, a ∈ w.cat.auth) ∧
  v.cat.users = w.cat.users ∧ v.savepoint = w.savepoint ∧ v.fault = w.fault ∧
  v.user_stack = w.user_stack ∧ v.next_mop = w.next_mop

/-- The statement `DROP FUNCTION f, nope`. -/
def drop_f_nope : PT_SP_STMT :=
  { create_f with drop_names := [some "f", some "nope"] }

/-- `jsp_set_prepare_call ()`: `is_prepare_call[depth] = true`; `none` when the depth is
outside the array. -/
def jsp_set_prepare_call (w : World) : Option World :=
  let depth := w.libcas_depth
  if depth < w.is_prepare_call.length then
    some { w with is_prepare_call := w.is_prepare_call.set depth true }
  else none

/-- `jsp_unset_prepare_call ()`: `is_prepare_call[depth] = false`; `none` when the depth is
outside the array. -/
def jsp_unset_prepare_call (w : World) : Option World :=
  let depth := w.libcas_depth
  if depth < w.is_prepare_call.length then
    some { w with is_prepare_call := w.is_prepare_call.set depth false }
  else none

/-- The PSQL procedure `u1.p` of user `u1`, without parameter, compiled to class `Cls.u1`. -/
def sp_p : SP_ROW :=
  { mop := 60
    unique_name := "u1.p"
    sp_name := "p"
    sp_type := .SP_TYPE_PROCEDURE
    return_type := .DB_TYPE_NULL
    arg_count := 0
    args := []
    lang := .SP_LANG_PLCSQL
    directive := .SP_DIRECTIVE_RIGHTS_OWNER
    target_class := "Cls"
    target_method := "u1"
    owner := 3
    comment := ""
    is_system_generated := 0 }

/-- The code record of `u1.p`. -/
def code_p : SP_CODE_ROW :=
  { mop := 61
    cls_name := "Cls"
    created_time := "20240101000000"
    owner := some 3
    is_system_generated := some 0
    stype := .SP_LANG_PLCSQL
    scode := "create procedure p () as begin null; end;"
    otype := 0
    ocode := "bin" }

/-- The sample state with the procedures `u1.f` and `u1.p`, the code record of `u1.p`, an
EXECUTE grant on `u1.f` to `u2`, and `dba` as current user. -/
def w2_dba : World :=
  { w0 with
    Au_user := some 1
    cat := { cat0 with
      sp := [sp_f, sp_p]
      sp_code := [code_p]
      auth := [{ is_procedure := true, auth_type := "EXECUTE", object_of := 50, grantee := 4 }] } }

/-- The statement `ALTER FUNCTION U1.F OWNER TO u2`. -/
def alter_F_owner : PT_SP_STMT :=
  { create_f with name := some "U1.F", owner := some "u2" }

/-- The statement `ALTER PROCEDURE u1.p OWNER TO u2 RECOMPILE`. -/
def alter_p_owner_recompile : PT_SP_STMT :=
  { create_f with
    name := some "u1.p", type := .PT_SP_PROCEDURE, owner := some "u2", recompile := 1 }

/-- The effective user identity of `v` is that of `w`: same current user, same identity
stack; the outcome of the calls into other modules is the same too. -/
def same_identity (w v : World) : Prop :=
  v.Au_user = w.Au_user ∧ v.user_stack = w.user_stack ∧ v.fault = w.fault ∧
  v.name_buffer = w.name_buffer

/-- From `w` to `v` nothing was written: catalog, savepoint, next object identity, current
user and the environment are the same, and the trace grew by compiler calls only. -/
def nothing_written (w v : World) : Prop :=
  v.cat = w.cat ∧ v.savepoint = w.savepoint ∧ v.next_mop = w.next_mop ∧
  v.Au_user = w.Au_user ∧ v.client_type_loaddb_compat = w.client_type_loaddb_compat ∧
  v.fault = w.fault ∧ v.name_buffer = w.name_buffer ∧
  ∃ l, v.trace = w.trace ++ l ∧ ∀ e ∈ l, ∃ req u, e = EVENT.compile req u

/-- The statement passes every check that `jsp_create_stored_procedure` makes before the
existence check: modification is allowed, DDL is not blocked, the pair authid and language is
supported, the name is valid, there are at most `MAX_ARG_COUNT` parameters, the owner exists,
and for PL/CSQL the compiler accepts the source. -/
def create_checks_pass (w : World) (st : PT_SP_STMT) : Prop :=
  w.fault .CHECK_MODIFICATION_ERROR = NO_ERROR ∧ w.block_ddl_statement = false ∧
  ¬ (jsp_map_pt_to_sp_authid st.auth_id = .SP_DIRECTIVE_RIGHTS_CALLER
      ∧ st.lang = .SP_LANG_PLCSQL) ∧
  jsp_check_stored_procedure_name w (PT_NODE_SP_NAME st) ≠ "" ∧
  sm_remove_qualifier_name (jsp_check_stored_procedure_name w (PT_NODE_SP_NAME st)) ≠ "" ∧
  st.param_list.length ≤ MAX_ARG_COUNT ∧
  ∃ oname owner,
    sm_qualifier_name (jsp_check_stored_procedure_name w (PT_NODE_SP_NAME st)) = some oname ∧
    (if oname = "" then w.Au_user else db_find_user w oname) = some owner ∧
    (st.lang = .SP_LANG_PLCSQL →
      w.fault (.plcsql_transfer_file
        { code := st.sql_user_text
          owner := if oname = "" then au_get_current_user_name w else oname }) = NO_ERROR ∧
      (w.compiler
        { code := st.sql_user_text
          owner := if oname = "" then au_get_current_user_name w else oname }).err_code
        = NO_ERROR)

/-- The code record info that `create_add_records` hands to the catalog. -/
def create_code_info (w : World) (sp_info : SP_INFO) (req : PLCSQL_COMPILE_REQUEST)
    (resp : PLCSQL_COMPILE_RESPONSE) : SP_CODE_INFO :=
  { name := sp_info.target_class
    created_time := w.localtime_now
    stype := if sp_info.lang = .SP_LANG_PLCSQL then .SP_LANG_PLCSQL else .SP_LANG_JAVA
    scode := req.code
    otype := resp.compiled_type
    ocode := resp.compiled_code
    owner := some sp_info.owner }

/-- The record of `jsp_create_stored_procedure` after `if (decl)` and the comment assignment. -/
def create_target_info (w : World) (statement : PT_SP_STMT) (sp_info : SP_INFO)
    (decl : Option String) : SP_INFO :=
  { sp_info with
    target_class :=
      (match decl with
        | some target => w.sp_split_target_signature target
        | none => (sp_info.target_class, sp_info.target_method)).1
    target_method :=
      (match decl with
        | some target => w.sp_split_target_signature target
        | none => (sp_info.target_class, sp_info.target_method)).2
    comment := PT_NODE_SP_COMMENT statement }

/-- The statement `CREATE OR REPLACE FUNCTION f () RETURN INT AS LANGUAGE JAVA NAME 'pkg.C.m'`. -/
def create_or_replace_f : PT_SP_STMT :=
  { create_f with or_replace := true }

/-- The sample state `w1` in which the insert of a procedure record fails with `-7`. -/
def w1_add_fails : World :=
  { w1 with
    fault := fun c =>
      match c with
      | .sp_add_stored_procedure _ => -7
      | _ => 0 }

/-- The statement `CREATE PROCEDURE q () AS BEGIN NULL; END` in PL/CSQL. -/
def create_psql_q : PT_SP_STMT :=
  { create_f with
    name := some "q"
    type := .PT_SP_PROCEDURE
    lang := .SP_LANG_PLCSQL
    sql_user_text := "CREATE PROCEDURE q () AS BEGIN NULL; END" }

/-- The sample state `w0` (no procedure) in which the insert of a code record fails with
`-9`. -/
def w0_code_fails : World :=
  { w0 with
    fault := fun c =>
      match c with
      | .sp_add_stored_procedure_code _ => -9
      | _ => 0 }

/-- The statement `CREATE FUNCTION f (x INT) RETURN INT AS LANGUAGE JAVA NAME 'pkg.C.m'`. -/
def create_f_x : PT_SP_STMT :=
  { create_f with param_list := [param_x] }

/-- The statement `CREATE FUNCTION f () RETURN CURSOR AS LANGUAGE JAVA NAME 'pkg.C.m'`. -/
def create_f_resultset : PT_SP_STMT :=
  { create_f with ret_type_db := .DB_TYPE_RESULTSET }

/-- Every procedure record of `v` is a record of `w`, up to changes that leave its identity,
language and rights directive as they were. -/
def lang_kept (w v : World) : Prop :=
  ∀ r' ∈ v.cat.sp, ∃ r ∈ w.cat.sp,
    r.mop = r'.mop ∧ r.lang = r'.lang ∧ r.directive = r'.directive

/-- The invariant (I2): a PL/CSQL procedure record has the directive OWNER. -/
def psql_owner_rights (c : Catalog) : Prop :=
  ∀ r ∈ c.sp, r.lang = .SP_LANG_PLCSQL → r.directive = .SP_DIRECTIVE_RIGHTS_OWNER

/-- The statement `CREATE PROCEDURE q () AUTHID CALLER AS BEGIN NULL; END` in PL/CSQL. -/
def create_psql_q_caller : PT_SP_STMT :=
  { create_psql_q with auth_id := .PT_AUTHID_CALLER }

/-- From `w` to `v` the grants are the same and the trace grew. -/
def alter_frame (w v : World) : Prop :=
  v.cat.auth = w.cat.auth ∧ ∃ l, v.trace = w.trace ++ l

/-- The state in which `alter_record` starts when the switch to the owner and the revoke
succeed. -/
def alter_revoked (w : World) (owner : MOP) (unique_name : String) : World :=
  (au_object_revoke_all_privileges (AU_SET_USER w (some owner)).2 owner unique_name).2

/-- The statement `ALTER FUNCTION f OWNER TO nobody`. -/
def alter_f_owner_nobody : PT_SP_STMT :=
  { create_f with name := some "u1.f", owner := some "nobody" }

/-- Every code record of `v` is a code record of `w`. -/
def code_kept (w v : World) : Prop :=
  ∀ c ∈ v.cat.sp_code, c ∈ w.cat.sp_code

/-- The statement `ALTER PROCEDURE u1.p OWNER TO u2`. -/
def alter_p_owner : PT_SP_STMT :=
  { create_f with name := some "u1.p", type := .PT_SP_PROCEDURE, owner := some "u2" }

/-- From `w` to `v` every record whose identity is not in `D` is kept, and the admin load
mode is the same. -/
def drop_frame (D : List MOP) (w v : World) : Prop :=
  (∀ r ∈ w.cat.sp, r.mop ∉ D → r ∈ v.cat.sp) ∧
  (∀ r ∈ w.cat.sp_args, r.mop ∉ D → r ∈ v.cat.sp_args) ∧
  (∀ r ∈ w.cat.sp_code, r.mop ∉ D → r ∈ v.cat.sp_code) ∧
  v.client_type_loaddb_compat = w.client_type_loaddb_compat

/-- The identities that `drop_stored_procedure` deletes for the record `row`: the record, its
argument records and, for PL/CSQL, the code records of its target class. -/
def drop_identities (w : World) (row : SP_ROW) : List MOP :=
  row.mop :: row.args ++
    (if row.lang = .SP_LANG_PLCSQL then
      (w.cat.sp_code.filter (fun c => c.cls_name = row.target_class)).map (fun c => c.mop)
    else [])

/-- The state in which the names of a list have been dropped one after the other, each by
`drop_stored_procedure` in the state its predecessor left (a `NULL` name drops nothing). -/
def drop_names_state (E : ErrorCodes) (K : PlConsts) (type : PT_MISC_TYPE)
    (names : List (Option String)) (w : World) : World :=
  names.foldl (fun v p =>
    match p with
    | some name => (drop_stored_procedure E K v name (jsp_map_pt_misc_to_sp_type type)).2
    | none => v) w

/-- The names of a list up to position `k` are there, not empty, and the drop of each
returns `NO_ERROR` in the state in which the names before it have been dropped. -/
def drop_names_succeed (E : ErrorCodes) (K : PlConsts) (type : PT_MISC_TYPE)
    (names : List (Option String)) (w : World) (k : Nat) : Prop :=
  ∀ i, i < k → ∃ name, names[i]? = some (some name) ∧ name ≠ "" ∧
    (drop_stored_procedure E K (drop_names_state E K type (names.take i) w) name
      (jsp_map_pt_misc_to_sp_type type)).1 = NO_ERROR

/-- The state `w2_dba` in which the switch to user 3 (`u1`) fails. -/
def w2_dba_no_switch : World :=
  { w2_dba with
    fault := fun c =>
      match c with
      | .AU_SET_USER (some 3) => -1
      | _ => 0 }

/-- The state `w2_dba` in which the read of the unique name of a record fails. -/
def w2_dba_no_name : World :=
  { w2_dba with
    fault := fun c =>
      match c with
      | .db_get _ .SP_ATTR_UNIQUE_NAME => -1
      | _ => 0 }

/-- The state `w2_dba` in which the revoke of the privileges on `u1.f` fails. -/
def w2_dba_no_revoke : World :=
  { w2_dba with
    fault := fun c =>
      match c with
      | .au_object_revoke_all_privileges "u1.f" => -1
      | _ => 0 }

/-- The statement `ALTER FUNCTION u1.f COMMENT 'c'`. -/
def alter_u1f_comment : PT_SP_STMT :=
  { create_f with name := some "u1.f", comment := some "c" }

/-- The state `w1_granted` (`u2` is the current user and holds an EXECUTE grant on `u1.f`) in
which the read of the name of user 3 (`u1`) fails. -/
def w1_owner_name_unread : World :=
  { w1_granted with
    fault := fun c =>
      match c with
      | .db_get 3 .user_name => -1
      | _ => 0 }

/-- The statement `CREATE PROCEDURE p6 (a INT, b OUT INT, c INOUT INT, d STRING DEFAULT
'abc', e INT DEFAULT NULL, f STRING DEFAULT TO_CHAR (SYS_DATE, 'YYYY'))` with a Java
target. -/
def create_p6 : PT_SP_STMT :=
  { create_f with
    name := some "p6"
    type := .PT_SP_PROCEDURE
    param_list :=
      [ { name := some "a", type_enum_db := .DB_TYPE_INTEGER, mode := .PT_INPUT,
          default_value := none, comment := none },
        { name := some "b", type_enum_db := .DB_TYPE_INTEGER, mode := .PT_OUTPUT,
          default_value := none, comment := none },
        { name := some "c", type_enum_db := .DB_TYPE_INTEGER, mode := .PT_INPUTOUTPUT,
          default_value := none, comment := none },
        { name := some "d", type_enum_db := .DB_TYPE_STRING, mode := .PT_NOPUT,
          default_value := some
            { default_expr :=
                { default_expr_type := 0, default_expr_op := -1, default_expr_format := none }
              value := some "abc"
              default_expression_string := none
              printed := "'abc'" }
          comment := none },
        { name := some "e", type_enum_db := .DB_TYPE_INTEGER, mode := .PT_INPUT,
          default_value := some
            { default_expr :=
                { default_expr_type := 0, default_expr_op := -1, default_expr_format := none }
              value := none
              default_expression_string := none
              printed := "NULL" }
          comment := none },
        { name := some "f", type_enum_db := .DB_TYPE_STRING, mode := .PT_INPUT,
          default_value := some
            { default_expr :=
                { default_expr_type := 5, default_expr_op := 1,
                  default_expr_format := some "YYYY" }
              value := none
              default_expression_string := some "SYS_DATE"
              printed := "TO_CHAR(SYS_DATE, 'YYYY')" }
          comment := none } ] }

/-- The state `w1_granted` (`u2` holds an EXECUTE grant on `u1.f`) with an error left in the
error slot by an earlier statement. -/
def w1_granted_pending : World :=
  { w1_granted with er_errid := -5 }

/-! # Properties -/

/-! ## Type gate -/

theorem jsp_is_prepare_call_of_lt (w : World) (h : w.libcas_depth < w.is_prepare_call.length) :
    ∃ flag, jsp_is_prepare_call w = some flag := by
  refine ⟨w.is_prepare_call[w.libcas_depth], ?_⟩
  simp [jsp_is_prepare_call, List.getElem?_eq_getElem h]

/-- C4: for every type, mode and state whose depth indexes `is_prepare_call`,
`jsp_check_param_type_supported` returns `NO_ERROR` exactly for the types of the allow-list
and for RESULTSET in mode OUT with the prepare-call flag of the current depth set; RESULTSET
in another mode gives `ER_SP_CANNOT_INPUT_RESULTSET`, RESULTSET in mode OUT with the flag off
gives `ER_SP_CANNOT_RETURN_RESULTSET`, every other type `ER_SP_NOT_SUPPORTED_ARG_TYPE`. -/
theorem jsp_check_param_type_supported_spec (E : ErrorCodes) (w : World) (t : DB_TYPE)
    (m : SP_MODE_ENUM)
    (hdepth : w.libcas_depth < w.is_prepare_call.length)
    (h1 : E.ER_SP_CANNOT_INPUT_RESULTSET ≠ 0)
    (h2 : E.ER_SP_CANNOT_RETURN_RESULTSET ≠ 0)
    (h3 : E.ER_SP_NOT_SUPPORTED_ARG_TYPE ≠ 0) :
    ∃ r w1, jsp_check_param_type_supported E w t m = some (r, w1) ∧
      (r = NO_ERROR ↔
        (t ∈ param_allow_list ∨
          (t = .DB_TYPE_RESULTSET ∧ m = .SP_MODE_OUT ∧ jsp_is_prepare_call w = some true))) ∧
      (t = .DB_TYPE_RESULTSET → m ≠ .SP_MODE_OUT → r = E.ER_SP_CANNOT_INPUT_RESULTSET) ∧
      (t = .DB_TYPE_RESULTSET → m = .SP_MODE_OUT → jsp_is_prepare_call w = some false →
        r = E.ER_SP_CANNOT_RETURN_RESULTSET) ∧
      (t ∉ param_allow_list → t ≠ .DB_TYPE_RESULTSET → r = E.ER_SP_NOT_SUPPORTED_ARG_TYPE) := by
  obtain ⟨flag, hflag⟩ := jsp_is_prepare_call_of_lt w hdepth
  cases t <;> cases m <;> cases flag <;>
    simp [jsp_check_param_type_supported, param_allow_list, hflag, NO_ERROR, er_set, er_errid,
      h1, h2, h3]

/-- Witness of C4: RESULTSET in mode OUT at depth 0 with the flag on. -/
theorem jsp_check_param_type_supported_spec_witness :
    ∃ r w1, jsp_check_param_type_supported E0
        { w0 with is_prepare_call := true :: List.replicate 15 false }
        .DB_TYPE_RESULTSET .SP_MODE_OUT = some (r, w1) ∧ r = NO_ERROR := by
  obtain ⟨r, w1, h, hiff, -⟩ :=
    jsp_check_param_type_supported_spec E0
      { w0 with is_prepare_call := true :: List.replicate 15 false }
      .DB_TYPE_RESULTSET .SP_MODE_OUT (by decide) (by decide) (by decide) (by decide)
  exact ⟨r, w1, h, hiff.mpr (Or.inr ⟨rfl, rfl, rfl⟩)⟩

/-- C5, the failing input: RESULTSET as return type in prepare-call mode with the code
`ER_SP_NOT_EXIST` of an earlier lookup still in the error slot. The gate returns that code,
not `NO_ERROR`. -/
theorem jsp_check_return_type_supported_stale_error :
    (jsp_check_return_type_supported E0
        { w0 with is_prepare_call := true :: List.replicate 15 false,
                  er_errid := E0.ER_SP_NOT_EXIST }
        .DB_TYPE_RESULTSET).map Prod.fst = some E0.ER_SP_NOT_EXIST ∧
      E0.ER_SP_NOT_EXIST ≠ NO_ERROR ∧
    (jsp_check_param_type_supported E0
        { w0 with is_prepare_call := true :: List.replicate 15 false,
                  er_errid := E0.ER_SP_NOT_EXIST }
        .DB_TYPE_RESULTSET .SP_MODE_OUT).map Prod.fst = some NO_ERROR := by
  refine ⟨rfl, by decide, rfl⟩

/-- What `jsp_check_return_type_supported` returns, for every type and state whose depth
indexes `is_prepare_call`: in prepare-call mode RESULTSET gives the content of the error
slot at entry. -/
theorem jsp_check_return_type_supported_result (E : ErrorCodes) (w : World) (t : DB_TYPE)
    (hdepth : w.libcas_depth < w.is_prepare_call.length) :
    ∃ r w1, jsp_check_return_type_supported E w t = some (r, w1) ∧
      (t = .DB_TYPE_NULL ∨ t ∈ param_allow_list → r = NO_ERROR) ∧
      (t = .DB_TYPE_RESULTSET → jsp_is_prepare_call w = some true → r = w.er_errid) ∧
      (t = .DB_TYPE_RESULTSET → jsp_is_prepare_call w = some false →
        r = E.ER_SP_CANNOT_RETURN_RESULTSET) ∧
      (t ≠ .DB_TYPE_NULL → t ∉ param_allow_list → t ≠ .DB_TYPE_RESULTSET →
        r = E.ER_SP_NOT_SUPPORTED_RETURN_TYPE) := by
  obtain ⟨flag, hflag⟩ := jsp_is_prepare_call_of_lt w hdepth
  cases t <;> cases flag <;>
    simp [jsp_check_return_type_supported, param_allow_list, hflag, NO_ERROR, er_set, er_errid]

/-! ## Argument-list builder -/

theorem same_flags_refl (w : World) : same_flags w w := ⟨rfl, rfl⟩

theorem same_flags_trans {a b c : World} (h1 : same_flags a b) (h2 : same_flags b c) :
    same_flags a c := ⟨h1.1.trans h2.1, h1.2.trans h2.2⟩

theorem out_param_fst (E : ErrorCodes) (w w1 : World) (node : PT_METHOD_CALL)
    (m : SP_MODE_ENUM) :
    (jsp_check_out_param_in_query E w node m).1 = (jsp_check_out_param_in_query E w1 node m).1 := by
  unfold jsp_check_out_param_in_query
  split <;> [split; skip] <;> rfl

theorem out_param_flags (E : ErrorCodes) (w : World) (node : PT_METHOD_CALL)
    (m : SP_MODE_ENUM) : same_flags (jsp_check_out_param_in_query E w node m).2 w := by
  unfold jsp_check_out_param_in_query
  split <;> [split; skip] <;> exact ⟨rfl, rfl⟩

theorem type_check_fst (E : ErrorCodes) {w w1 : World} (h : same_flags w w1) (t : DB_TYPE)
    (m : SP_MODE_ENUM) :
    (jsp_check_param_type_supported E w t m).map Prod.fst =
      (jsp_check_param_type_supported E w1 t m).map Prod.fst := by
  have hf : jsp_is_prepare_call w = jsp_is_prepare_call w1 := by
    simp [jsp_is_prepare_call, h.1, h.2]
  cases t <;> cases m <;>
    simp [jsp_check_param_type_supported, hf, er_set, er_errid] <;>
    (cases jsp_is_prepare_call w1 with
     | none => rfl
     | some b => cases b <;> rfl)

theorem type_check_flags (E : ErrorCodes) {w w1 : World} {t : DB_TYPE} {m : SP_MODE_ENUM}
    {r : Int} (h : jsp_check_param_type_supported E w t m = some (r, w1)) :
    same_flags w1 w := by
  cases t <;> cases m <;>
    simp [jsp_check_param_type_supported, er_set, er_errid] at h <;>
    first
    | (obtain ⟨-, rfl⟩ := h; exact ⟨rfl, rfl⟩)
    | (split at h <;> simp at h <;> (obtain ⟨-, rfl⟩ := h; exact ⟨rfl, rfl⟩))

/-- What the stored default of a trailing parameter is, as a predicate on the size and the
string handed to `pl_arg_store`. -/
theorem body_inr (E : ErrorCodes) (K : PlConsts) (node : PT_METHOD_CALL) (P ntd : Int)
    (ps : Nat → ArgRead) (i : Nat) (w w2 : World) (sig sig2 : PL_SIGNATURE)
    (h : jsp_make_pl_args_body E K node P ntd ps i w sig = some (.inr (w2, sig2))) :
    ∃ e size str, ps i = .entry e ∧ same_flags w2 w ∧
      (jsp_check_out_param_in_query E w node e.mode).1 = NO_ERROR ∧
      sig2 = pl_arg_store sig i e.mode e.data_type size str ∧
      ((i : Int) ≥ P - ntd → e.is_optional = 1 ∧
        (e.default_value = none → size = K.PL_ARG_DEFAULT_NULL ∧ str = none) ∧
        (∀ v, e.default_value = some v → size = db_get_string_size v ∧
          (0 < db_get_string_size v → str = some v) ∧
          (db_get_string_size v = 0 → str = none))) ∧
      ((i : Int) < P - ntd → size = K.PL_ARG_DEFAULT_NONE ∧ str = none) := by
  unfold jsp_make_pl_args_body at h
  cases he : ps i with
  | no_object er => simp [he] at h
  | get_error err => simp [he] at h
  | entry e =>
    refine ⟨e, ?_⟩
    simp only [he] at h
    have hfl1 := out_param_flags E w node e.mode
    by_cases hq : (jsp_check_out_param_in_query E w node e.mode).1 = NO_ERROR
    swap
    · simp [hq] at h
    simp only [hq, ne_eq, not_true_eq_false, ↓reduceIte] at h
    cases htc : jsp_check_param_type_supported E (jsp_check_out_param_in_query E w node e.mode).2
        e.data_type e.mode with
    | none => simp [htc] at h
    | some q =>
      obtain ⟨error2, w2a⟩ := q
      have hfl2 := type_check_flags E htc
      simp only [htc] at h
      by_cases he2 : error2 = NO_ERROR
      swap
      · simp [he2] at h
      simp only [he2, ne_eq, not_true_eq_false, ↓reduceIte] at h
      by_cases hge : (i : Int) ≥ P - ntd
      · simp only [hge, ↓reduceIte] at h
        by_cases hopt : e.is_optional = 1
        swap
        · simp [hopt] at h
        simp only [hopt, ↓reduceIte] at h
        cases hv : e.default_value with
        | none =>
          simp only [hv, Option.some.injEq, Sum.inr.injEq, Prod.mk.injEq] at h
          obtain ⟨rfl, rfl⟩ := h
          refine ⟨_, _, rfl, same_flags_trans hfl2 hfl1, hq, rfl, ?_, ?_⟩
          · intro _
            exact ⟨hopt, fun _ => ⟨rfl, rfl⟩, fun v1 hv1 => by simp at hv1⟩
          · intro hlt; omega
        | some v =>
          simp only [hv] at h
          by_cases hpos : (db_get_string_size v > 0)
          · simp only [hpos, ↓reduceIte, Option.some.injEq, Sum.inr.injEq, Prod.mk.injEq] at h
            obtain ⟨rfl, rfl⟩ := h
            refine ⟨_, _, rfl, same_flags_trans hfl2 hfl1, hq, rfl, ?_, ?_⟩
            · intro _
              refine ⟨hopt, fun hn => by simp at hn, ?_⟩
              intro v1 hv1
              simp only [Option.some.injEq] at hv1
              subst hv1
              exact ⟨rfl, fun _ => rfl, fun h0 => by simp [h0] at hpos⟩
            · intro hlt; omega
          · simp only [hpos, ↓reduceIte, Option.some.injEq, Sum.inr.injEq, Prod.mk.injEq] at h
            obtain ⟨rfl, rfl⟩ := h
            refine ⟨_, _, rfl, same_flags_trans hfl2 hfl1, hq, rfl, ?_, ?_⟩
            · intro _
              refine ⟨hopt, fun hn => by simp at hn, ?_⟩
              intro v1 hv1
              simp only [Option.some.injEq] at hv1
              subst hv1
              refine ⟨rfl, fun hp => ?_, fun _ => rfl⟩
              exact absurd hp hpos
            · intro hlt; omega
      · simp only [hge, ↓reduceIte, Option.some.injEq, Sum.inr.injEq, Prod.mk.injEq] at h
        obtain ⟨rfl, rfl⟩ := h
        refine ⟨_, _, rfl, same_flags_trans hfl2 hfl1, hq, rfl, ?_, ?_⟩
        · intro hge2; exact absurd hge2 hge
        · intro _; exact ⟨rfl, rfl⟩

theorem body_inl (E : ErrorCodes) (K : PlConsts) (node : PT_METHOD_CALL) (P ntd : Int)
    (ps : Nat → ArgRead) (i : Nat) (w w1 : World) (sig sig1 : PL_SIGNATURE) (r : Int)
    (hinv : E.ER_SP_INVALID_PARAM_COUNT ≠ 0) (hs : (ps i).sound)
    (h : jsp_make_pl_args_body E K node P ntd ps i w sig = some (.inl (r, w1, sig1))) :
    r ≠ NO_ERROR := by
  unfold jsp_make_pl_args_body at h
  cases he : ps i with
  | no_object er =>
    simp only [he, er_errid, Option.some.injEq, Sum.inl.injEq, Prod.mk.injEq] at h
    rw [he] at hs
    obtain ⟨rfl, -⟩ := h
    exact hs
  | get_error err =>
    simp only [he, Option.some.injEq, Sum.inl.injEq, Prod.mk.injEq] at h
    rw [he] at hs
    obtain ⟨rfl, -⟩ := h
    exact hs
  | entry e =>
    simp only [he] at h
    by_cases hq : (jsp_check_out_param_in_query E w node e.mode).1 = NO_ERROR
    swap
    · simp only [ne_eq, hq, not_false_eq_true, ↓reduceIte, Option.some.injEq, Sum.inl.injEq,
        Prod.mk.injEq] at h
      obtain ⟨rfl, -⟩ := h
      exact hq
    simp only [hq, ne_eq, not_true_eq_false, ↓reduceIte] at h
    cases htc : jsp_check_param_type_supported E (jsp_check_out_param_in_query E w node e.mode).2
        e.data_type e.mode with
    | none => simp [htc] at h
    | some q =>
      obtain ⟨error2, w2a⟩ := q
      simp only [htc] at h
      by_cases he2 : error2 = NO_ERROR
      swap
      · simp only [he2, ne_eq, not_false_eq_true, ↓reduceIte, Option.some.injEq, Sum.inl.injEq,
          Prod.mk.injEq] at h
        obtain ⟨rfl, -⟩ := h
        exact he2
      simp only [he2, ne_eq, not_true_eq_false, ↓reduceIte] at h
      by_cases hge : (i : Int) ≥ P - ntd
      · simp only [hge, ↓reduceIte] at h
        by_cases hopt : e.is_optional = 1
        · simp only [hopt, ↓reduceIte] at h
          cases hv : e.default_value with
          | none => simp [hv] at h
          | some v =>
            simp only [hv] at h
            split at h <;> simp at h
        · simp only [hopt, ↓reduceIte, er_errid, er_set, Option.some.injEq, Sum.inl.injEq,
            Prod.mk.injEq] at h
          obtain ⟨rfl, -⟩ := h
          exact hinv
      · simp [hge] at h

theorem pl_arg_store_arg_size (sig : PL_SIGNATURE) (i : Nat) (m : SP_MODE_ENUM) (t : DB_TYPE)
    (size : Int) (str : Option String) :
    (pl_arg_store sig i m t size str).arg.arg_size = sig.arg.arg_size := rfl

theorem pl_arg_store_other (sig : PL_SIGNATURE) (i j : Nat) (hj : j ≠ i) (m : SP_MODE_ENUM)
    (t : DB_TYPE) (size : Int) (str : Option String) :
    (pl_arg_store sig i m t size str).arg.arg_mode j = sig.arg.arg_mode j ∧
    (pl_arg_store sig i m t size str).arg.arg_type j = sig.arg.arg_type j ∧
    (pl_arg_store sig i m t size str).arg.arg_default_value_size j =
      sig.arg.arg_default_value_size j ∧
    (pl_arg_store sig i m t size str).arg.arg_default_value j = sig.arg.arg_default_value j := by
  cases str <;> simp [pl_arg_store, Function.update, hj]

theorem strndup_chars_of_le : ∀ (cs : List Char) (n : Nat),
    String.utf8ByteSize.go cs ≤ n → strndup_chars cs n = cs
  | [], _, _ => rfl
  | c :: cs, n, h => by
    have h1 : String.utf8ByteSize.go cs + c.utf8Size ≤ n := h
    have h2 : c.utf8Size ≤ n := by omega
    have h3 : String.utf8ByteSize.go cs ≤ n - c.utf8Size := by omega
    simp only [strndup_chars, h2, ↓reduceIte, strndup_chars_of_le cs _ h3]

/-- A copy of as many bytes as the text has is the text. -/
theorem db_private_strndup_size (v : String) : db_private_strndup v v.utf8ByteSize = v := by
  show String.mk (strndup_chars v.data (String.utf8ByteSize.go v.data)) = v
  rw [strndup_chars_of_le v.data _ (Nat.le_refl _)]

theorem pl_arg_store_at (sig : PL_SIGNATURE) (i : Nat) (m : SP_MODE_ENUM)
    (t : DB_TYPE) (size : Int) (str : Option String) :
    (pl_arg_store sig i m t size str).arg.arg_mode i = m ∧
    (pl_arg_store sig i m t size str).arg.arg_type i = t ∧
    (pl_arg_store sig i m t size str).arg.arg_default_value_size i = size ∧
    (str = none →
      (pl_arg_store sig i m t size str).arg.arg_default_value i = sig.arg.arg_default_value i) ∧
    (∀ v : String, str = some v → size = db_get_string_size v →
      (pl_arg_store sig i m t size str).arg.arg_default_value i = some v) := by
  refine ⟨by simp [pl_arg_store], by simp [pl_arg_store], by simp [pl_arg_store], ?_, ?_⟩
  · rintro rfl; rfl
  · rintro v rfl rfl
    simp only [pl_arg_store, Function.update_same, db_get_string_size, Int.toNat_ofNat,
      db_private_strndup_size]

theorem loop_ok (E : ErrorCodes) (K : PlConsts) (node : PT_METHOD_CALL) (P ntd : Int)
    (ps : Nat → ArgRead) (hinv : E.ER_SP_INVALID_PARAM_COUNT ≠ 0) (hs : ∀ j, (ps j).sound) :
    ∀ (left i : Nat) (w : World) (sig : PL_SIGNATURE) (w1 : World) (sig1 : PL_SIGNATURE),
      jsp_make_pl_args_loop E K node P ntd ps left i w sig = some (NO_ERROR, w1, sig1) →
      sig1.arg.arg_size = sig.arg.arg_size ∧
      (∀ j, j < i ∨ i + left ≤ j →
        sig1.arg.arg_mode j = sig.arg.arg_mode j ∧
        sig1.arg.arg_type j = sig.arg.arg_type j ∧
        sig1.arg.arg_default_value_size j = sig.arg.arg_default_value_size j ∧
        sig1.arg.arg_default_value j = sig.arg.arg_default_value j) ∧
      (∀ j, i ≤ j → j < i + left → ∃ e, ps j = .entry e ∧
        (jsp_check_out_param_in_query E w node e.mode).1 = NO_ERROR ∧
        arg_filled K (P - ntd) e sig.arg sig1.arg j) := by
  intro left
  induction left with
  | zero =>
    intro i w sig w1 sig1 h
    simp only [jsp_make_pl_args_loop, Option.some.injEq, Prod.mk.injEq, true_and] at h
    obtain ⟨rfl, rfl⟩ := h
    exact ⟨rfl, fun j _ => ⟨rfl, rfl, rfl, rfl⟩, fun j h1 h2 => by omega⟩
  | succ left ih =>
    intro i w sig w1 sig1 h
    unfold jsp_make_pl_args_loop at h
    cases hb : jsp_make_pl_args_body E K node P ntd ps i w sig with
    | none => simp [hb] at h
    | some res =>
      cases res with
      | inl r =>
        simp only [hb, Option.some.injEq] at h
        subst h
        exact absurd rfl (body_inl E K node P ntd ps i w w1 sig sig1 NO_ERROR hinv (hs i) hb)
      | inr q =>
        obtain ⟨w2, sig2⟩ := q
        simp only [hb] at h
        obtain ⟨hsize, hframe, hfill⟩ := ih (i + 1) w2 sig2 w1 sig1 h
        obtain ⟨e, size, str, he, -, hq, hsig2, hge, hlt⟩ :=
          body_inr E K node P ntd ps i w w2 sig sig2 hb
        have hat := pl_arg_store_at sig i e.mode e.data_type size str
        rw [← hsig2] at hat
        refine ⟨by rw [hsize, hsig2, pl_arg_store_arg_size], ?_, ?_⟩
        · intro j hj
          have hji : j ≠ i := by omega
          have h1 := hframe j (by omega)
          have h2 := pl_arg_store_other sig i j hji e.mode e.data_type size str
          rw [← hsig2] at h2
          exact ⟨h1.1.trans h2.1, h1.2.1.trans h2.2.1, h1.2.2.1.trans h2.2.2.1,
            h1.2.2.2.trans h2.2.2.2⟩
        · intro j hj1 hj2
          by_cases hji : j = i
          · subst hji
            have h1 := hframe j (Or.inl (by omega))
            refine ⟨e, he, hq, ?_⟩
            refine ⟨h1.1.trans hat.1, h1.2.1.trans hat.2.1, ?_, ?_⟩
            · intro hlt2
              obtain ⟨rfl, rfl⟩ := hlt hlt2
              exact ⟨h1.2.2.1.trans hat.2.2.1, h1.2.2.2.trans (hat.2.2.2.1 rfl)⟩
            · intro hge2
              obtain ⟨hopt, hnone, hsome⟩ := hge hge2
              refine ⟨hopt, ?_, ?_⟩
              · intro hn
                obtain ⟨rfl, rfl⟩ := hnone hn
                exact ⟨h1.2.2.1.trans hat.2.2.1, h1.2.2.2.trans (hat.2.2.2.1 rfl)⟩
              · intro v hv
                obtain ⟨rfl, hpos, hzero⟩ := hsome v hv
                refine ⟨h1.2.2.1.trans hat.2.2.1, ?_, ?_⟩
                · intro hp
                  exact h1.2.2.2.trans (hat.2.2.2.2 v (hpos hp) rfl)
                · intro hz
                  exact h1.2.2.2.trans (hat.2.2.2.1 (hzero hz))
          · obtain ⟨e1, he1, hq1, hf1⟩ := hfill j (by omega) (by omega)
            have h2 := pl_arg_store_other sig i j hji e.mode e.data_type size str
            rw [← hsig2] at h2
            refine ⟨e1, he1, (out_param_fst E w w2 node e1.mode).trans hq1, ?_⟩
            obtain ⟨a1, a2, a3, a4⟩ := hf1
            refine ⟨a1, a2, ?_, ?_⟩
            · intro hlt2
              exact ⟨(a3 hlt2).1, (a3 hlt2).2.trans h2.2.2.2⟩
            · intro hge2
              obtain ⟨b1, b2, b3⟩ := a4 hge2
              refine ⟨b1, fun hn => ⟨(b2 hn).1, (b2 hn).2.trans h2.2.2.2⟩, fun v hv => ?_⟩
              obtain ⟨c1, c2, c3⟩ := b3 v hv
              exact ⟨c1, c2, fun hz => (c3 hz).trans h2.2.2.2⟩

theorem body_pass (E : ErrorCodes) (K : PlConsts) (node : PT_METHOD_CALL) (P ntd : Int)
    (ps : Nat → ArgRead) (i : Nat) (w wb : World) (sig : PL_SIGNATURE) (e : SP_ARG_ROW)
    (he : ps i = .entry e)
    (hq : (jsp_check_out_param_in_query E wb node e.mode).1 = NO_ERROR)
    (ht : (jsp_check_param_type_supported E wb e.data_type e.mode).map Prod.fst = some NO_ERROR)
    (hsame : same_flags w wb) :
    (((i : Int) ≥ P - ntd ∧ e.is_optional ≠ 1) →
      ∃ w3, jsp_make_pl_args_body E K node P ntd ps i w sig =
        some (.inl (E.ER_SP_INVALID_PARAM_COUNT, w3, sig))) ∧
    (¬ ((i : Int) ≥ P - ntd ∧ e.is_optional ≠ 1) →
      ∃ w2 sig2, same_flags w2 wb ∧
        jsp_make_pl_args_body E K node P ntd ps i w sig = some (.inr (w2, sig2))) := by
  have hq1 : (jsp_check_out_param_in_query E w node e.mode).1 = NO_ERROR :=
    (out_param_fst E w wb node e.mode).trans hq
  have hfl1 : same_flags (jsp_check_out_param_in_query E w node e.mode).2 wb :=
    same_flags_trans (out_param_flags E w node e.mode) hsame
  have ht1 := (type_check_fst E hfl1 e.data_type e.mode).trans ht
  cases htc : jsp_check_param_type_supported E (jsp_check_out_param_in_query E w node e.mode).2
      e.data_type e.mode with
  | none => simp [htc] at ht1
  | some q =>
    obtain ⟨error2, w2a⟩ := q
    simp only [htc, Option.map_some', Option.some.injEq] at ht1
    subst ht1
    have hfl2 : same_flags w2a wb := same_flags_trans (type_check_flags E htc) hfl1
    unfold jsp_make_pl_args_body
    simp only [he, hq1, htc, ne_eq, not_true_eq_false, ↓reduceIte]
    constructor
    · rintro ⟨hge, hopt⟩
      refine ⟨er_set w2a E.ER_SP_INVALID_PARAM_COUNT, ?_⟩
      simp [hge, hopt, er_set, er_errid]
    · intro hn
      by_cases hge : (i : Int) ≥ P - ntd
      · have hopt : e.is_optional = 1 := by
          by_contra hc
          exact hn ⟨hge, hc⟩
        simp only [hge, hopt, ↓reduceIte]
        cases hv : e.default_value with
        | none => exact ⟨_, _, hfl2, rfl⟩
        | some v =>
          simp only
          split
          · exact ⟨_, _, hfl2, rfl⟩
          · exact ⟨_, _, hfl2, rfl⟩
      · simp only [hge, ↓reduceIte]
        exact ⟨_, _, hfl2, rfl⟩

theorem loop_pass (E : ErrorCodes) (K : PlConsts) (node : PT_METHOD_CALL) (P ntd : Int)
    (ps : Nat → ArgRead) (wb : World) :
    ∀ (left i : Nat) (w : World) (sig : PL_SIGNATURE),
      same_flags w wb →
      (∀ j, i ≤ j → j < i + left → ∃ e, ps j = .entry e ∧
        (jsp_check_out_param_in_query E wb node e.mode).1 = NO_ERROR ∧
        (jsp_check_param_type_supported E wb e.data_type e.mode).map Prod.fst = some NO_ERROR) →
      ∃ r w1 sig1, jsp_make_pl_args_loop E K node P ntd ps left i w sig = some (r, w1, sig1) ∧
        ((∀ j e, i ≤ j → j < i + left → (j : Int) ≥ P - ntd → ps j = .entry e →
            e.is_optional = 1) → r = NO_ERROR) ∧
        ((∃ j e, i ≤ j ∧ j < i + left ∧ (j : Int) ≥ P - ntd ∧ ps j = .entry e ∧
            e.is_optional ≠ 1) → r = E.ER_SP_INVALID_PARAM_COUNT) := by
  intro left
  induction left with
  | zero =>
    intro i w sig _ _
    refine ⟨NO_ERROR, w, sig, rfl, fun _ => rfl, ?_⟩
    rintro ⟨j, e, h1, h2, -⟩
    omega
  | succ left ih =>
    intro i w sig hsame hpass
    obtain ⟨e, he, hq, ht⟩ := hpass i (le_refl i) (by omega)
    obtain ⟨hbad, hgood⟩ := body_pass E K node P ntd ps i w wb sig e he hq ht hsame
    unfold jsp_make_pl_args_loop
    by_cases hc : (i : Int) ≥ P - ntd ∧ e.is_optional ≠ 1
    · obtain ⟨w3, hb⟩ := hbad hc
      refine ⟨E.ER_SP_INVALID_PARAM_COUNT, w3, sig, by simp [hb], ?_, fun _ => rfl⟩
      intro hall
      exact absurd (hall i e (le_refl i) (by omega) hc.1 he) hc.2
    · obtain ⟨w2, sig2, hfl, hb⟩ := hgood hc
      obtain ⟨r, w1, sig1, hl, hr1, hr2⟩ :=
        ih (i + 1) w2 sig2 hfl (fun j h1 h2 => hpass j (by omega) (by omega))
      refine ⟨r, w1, sig1, by simp [hb, hl], ?_, ?_⟩
      · intro hall
        exact hr1 (fun j e1 h1 h2 h3 h4 => hall j e1 (by omega) (by omega) h3 h4)
      · rintro ⟨j, e1, h1, h2, h3, h4, h5⟩
        by_cases hji : j = i
        · subst hji
          rw [he] at h4
          cases h4
          exact absurd ⟨h3, h5⟩ hc
        · exact hr2 ⟨j, e1, by omega, by omega, h3, h4, h5⟩

theorem make_args_overflow (E : ErrorCodes) (K : PlConsts) (w : World) (node : PT_METHOD_CALL)
    (P : Int) (ps : Nat → ArgRead) (sig : PL_SIGNATURE)
    (hneg : E.ER_SP_INVALID_PARAM_COUNT < 0) (h : (node.arg_list.length : Int) > P) :
    jsp_make_pl_args E K w node P ps sig =
      some (E.ER_SP_INVALID_PARAM_COUNT, er_set w E.ER_SP_INVALID_PARAM_COUNT,
        { sig with arg := sig.arg.set_arg_size P }) := by
  simp [jsp_make_pl_args, jsp_check_overflow_args, h, er_set, er_errid, hneg]

theorem make_args_no_overflow (E : ErrorCodes) (K : PlConsts) (w : World)
    (node : PT_METHOD_CALL) (P : Int) (ps : Nat → ArgRead) (sig : PL_SIGNATURE)
    (h : (node.arg_list.length : Int) ≤ P) :
    jsp_make_pl_args E K w node P ps sig =
      jsp_make_pl_args_loop E K node P (P - node.arg_list.length) ps P.toNat 0 w
        { sig with arg := sig.arg.set_arg_size P } := by
  have h1 : ¬ ((node.arg_list.length : Int) > P) := by omega
  by_cases h2 : (node.arg_list.length : Int) < P
  · have h3 : ¬ (P - (node.arg_list.length : Int) < 0) := by omega
    simp [jsp_make_pl_args, jsp_check_overflow_args, h1, h2, h3]
  · have h3 : P - (node.arg_list.length : Int) = 0 := by omega
    simp [jsp_make_pl_args, jsp_check_overflow_args, h1, h2, h3]

theorem E0_negative : E0.negative := by decide

/-- C1: when every argument record is read and passes the mode check and the type check,
`jsp_make_pl_args` with `P` parameters and `A` supplied arguments returns `NO_ERROR` exactly
when `A ≤ P` and every parameter at a position `≥ A` has `is_optional = 1`, and
`ER_SP_INVALID_PARAM_COUNT` in every other case. -/
theorem jsp_make_pl_args_param_count (E : ErrorCodes) (K : PlConsts) (w : World)
    (node : PT_METHOD_CALL) (P : Int) (ps : Nat → ArgRead) (sig : PL_SIGNATURE)
    (hneg : E.ER_SP_INVALID_PARAM_COUNT < 0)
    (hpass : ∀ i : Nat, (i : Int) < P → ∃ e, ps i = .entry e ∧
      (jsp_check_out_param_in_query E w node e.mode).1 = NO_ERROR ∧
      (jsp_check_param_type_supported E w e.data_type e.mode).map Prod.fst = some NO_ERROR) :
    ∃ r w1 sig1, jsp_make_pl_args E K w node P ps sig = some (r, w1, sig1) ∧
      (r = NO_ERROR ↔
        ((node.arg_list.length : Int) ≤ P ∧
          ∀ i e, node.arg_list.length ≤ i → (i : Int) < P → ps i = .entry e →
            e.is_optional = 1)) ∧
      (r ≠ NO_ERROR → r = E.ER_SP_INVALID_PARAM_COUNT) := by
  by_cases hA : (node.arg_list.length : Int) ≤ P
  · rw [make_args_no_overflow E K w node P ps sig hA]
    obtain ⟨r, w1, sig1, hl, h1, h2⟩ :=
      loop_pass E K node P (P - node.arg_list.length) ps w P.toNat 0 w
        { sig with arg := sig.arg.set_arg_size P } (same_flags_refl w)
        (fun j _ hj => hpass j (by omega))
    refine ⟨r, w1, sig1, hl, ?_, ?_⟩
    · constructor
      · intro hr
        refine ⟨hA, ?_⟩
        intro i e hi1 hi2 he
        by_contra hc
        have := h2 ⟨i, e, Nat.zero_le i, by omega, by omega, he, hc⟩
        rw [hr] at this
        simp only [NO_ERROR] at this
        omega
      · rintro ⟨-, hall⟩
        exact h1 (fun j e _ hj1 hj2 he => hall j e (by omega) (by omega) he)
    · intro hr
      by_contra hc
      apply hr
      apply h1
      intro j e _ hj1 hj2 he
      by_contra hopt
      exact hc (h2 ⟨j, e, Nat.zero_le j, hj1, hj2, he, hopt⟩)
  · rw [make_args_overflow E K w node P ps sig hneg (by omega)]
    refine ⟨_, _, _, rfl, ?_, fun _ => rfl⟩
    constructor
    · intro hr
      simp only [NO_ERROR] at hr
      omega
    · rintro ⟨h, -⟩
      exact absurd h hA

/-- Witness of C1: `(a INT, b INT DEFAULT 1, c INT DEFAULT 2)` called with `(10)`. -/
theorem jsp_make_pl_args_param_count_witness :
    ∃ r w1 sig1, jsp_make_pl_args E0 K0 w0 call1 3 ps3 sig0 = some (r, w1, sig1) ∧
      r = NO_ERROR := by
  obtain ⟨r, w1, sig1, h, hiff, -⟩ :=
    jsp_make_pl_args_param_count E0 K0 w0 call1 3 ps3 sig0 (by decide)
      (fun i _ => ⟨row3 i, rfl, rfl, rfl⟩)
  refine ⟨r, w1, sig1, h, hiff.mpr ⟨by decide, ?_⟩⟩
  intro i e h1 _ he
  cases he
  have : i ≠ 0 := by
    have : (1 : Nat) ≤ i := h1
    omega
  simp [row3, this]

/-- C2 (amended): whenever `jsp_make_pl_args` returns `NO_ERROR` for `P` parameters and `A`
supplied arguments, `arg_size = P`, every position `i < A` has default size
`PL_ARG_DEFAULT_NONE`, and every position `A ≤ i < P` has a default size other than NONE:
`PL_ARG_DEFAULT_NULL` when the stored default text is NULL, else the size of the text in
bytes (`db_get_string_size`), and `arg_default_value[i]` is a copy of the text when the text
is not empty (for an empty text `arg_default_value[i]` is not written). -/
theorem jsp_make_pl_args_defaults (E : ErrorCodes) (K : PlConsts) (w : World)
    (node : PT_METHOD_CALL) (P : Int) (ps : Nat → ArgRead) (sig : PL_SIGNATURE)
    (w1 : World) (sig1 : PL_SIGNATURE)
    (hneg : E.ER_SP_INVALID_PARAM_COUNT < 0)
    (hnone : K.PL_ARG_DEFAULT_NONE < 0) (hnull : K.PL_ARG_DEFAULT_NULL ≠ K.PL_ARG_DEFAULT_NONE)
    (hs : ∀ j, (ps j).sound)
    (h : jsp_make_pl_args E K w node P ps sig = some (NO_ERROR, w1, sig1)) :
    sig1.arg.arg_size = P ∧ (node.arg_list.length : Int) ≤ P ∧
    (∀ i, i < node.arg_list.length →
      sig1.arg.arg_default_value_size i = K.PL_ARG_DEFAULT_NONE) ∧
    (∀ i : Nat, node.arg_list.length ≤ i → (i : Int) < P →
      sig1.arg.arg_default_value_size i ≠ K.PL_ARG_DEFAULT_NONE ∧
      ∃ e, ps i = .entry e ∧ e.is_optional = 1 ∧
        (e.default_value = none →
          sig1.arg.arg_default_value_size i = K.PL_ARG_DEFAULT_NULL) ∧
        (∀ v, e.default_value = some v →
          sig1.arg.arg_default_value_size i = db_get_string_size v ∧
          (0 < db_get_string_size v → sig1.arg.arg_default_value i = some v) ∧
          (db_get_string_size v = 0 →
            sig1.arg.arg_default_value i = sig.arg.arg_default_value i))) := by
  have hA : (node.arg_list.length : Int) ≤ P := by
    by_contra hc
    rw [make_args_overflow E K w node P ps sig hneg (by omega)] at h
    simp only [Option.some.injEq, Prod.mk.injEq, NO_ERROR] at h
    omega
  rw [make_args_no_overflow E K w node P ps sig hA] at h
  obtain ⟨hsize, -, hfill⟩ :=
    loop_ok E K node P (P - node.arg_list.length) ps (by omega) hs P.toNat 0 w _ w1 sig1 h
  have hreq : P - (P - (node.arg_list.length : Int)) = node.arg_list.length := by omega
  rw [hreq] at hfill
  refine ⟨hsize, hA, ?_, ?_⟩
  · intro i hi
    obtain ⟨e, -, -, hf⟩ := hfill i (Nat.zero_le i) (by omega)
    exact (hf.2.2.1 (by exact_mod_cast hi)).1
  · intro i hi1 hi2
    obtain ⟨e, he, -, hf⟩ := hfill i (Nat.zero_le i) (by omega)
    obtain ⟨hopt, hn, hv⟩ := hf.2.2.2 (by exact_mod_cast hi1)
    refine ⟨?_, e, he, hopt, fun h0 => (hn h0).1, fun v h0 => ?_⟩
    · cases hd : e.default_value with
      | none => rw [(hn hd).1]; exact hnull
      | some v =>
        rw [(hv v hd).1]
        have : (0 : Int) ≤ db_get_string_size v := by
          unfold db_get_string_size
          exact Int.natCast_nonneg _
        omega
    · obtain ⟨a, b, c⟩ := hv v h0
      exact ⟨a, b, c⟩

/-- Witness of C2 (amended): one optional parameter whose stored default text is the single
character e-acute, two bytes long, called without argument: the default size is 2 and
`arg_default_value[0]` is a copy of the text. -/
theorem jsp_make_pl_args_defaults_witness :
    ∃ w1 sig1,
      jsp_make_pl_args E0 K0 w0 call0 1 (fun _ => .entry row_accent_default) sig0
        = some (NO_ERROR, w1, sig1) ∧
      sig1.arg.arg_size = 1 ∧ sig1.arg.arg_default_value_size 0 = 2 ∧
      sig1.arg.arg_default_value 0 = some "é" := by
  refine ⟨_, _, rfl, ?_⟩
  have h := jsp_make_pl_args_defaults E0 K0 w0 call0 1 (fun _ => .entry row_accent_default)
    sig0 _ _ (by decide) (by decide) (by decide) (fun j => trivial) rfl
  obtain ⟨e, he, -, -, hv⟩ := (h.2.2.2 0 (by decide) (by decide)).2
  cases he
  obtain ⟨h1, h2, -⟩ := hv "é" rfl
  exact ⟨h.1, h1.trans (by decide), h2 (by decide)⟩

/-- C2, counterexample: one optional parameter whose stored default text is the empty,
non-NULL string, called without argument. The call returns `NO_ERROR` with default size 0,
the size of the text, but `arg_default_value[0]` is not a copy of the text: it is left as
it was. -/
theorem jsp_make_pl_args_empty_default_not_copied :
    ∃ w1 sig1,
      jsp_make_pl_args E0 K0 w0 call0 1 (fun _ => .entry row_empty_default) sig0
        = some (NO_ERROR, w1, sig1) ∧
      row_empty_default.default_value = some "" ∧
      sig1.arg.arg_default_value_size 0 = 0 ∧
      sig1.arg.arg_default_value 0 = none ∧
      sig1.arg.arg_default_value 0 ≠ some "" := by
  refine ⟨_, _, rfl, rfl, rfl, rfl, ?_⟩
  intro h
  cases h

/-- C3: for a call node that is an expression, `jsp_check_out_param_in_query` returns
`ER_PT_SEMANTIC` and records `OUT_ARGS_EXISTS_IN_QUERY` for every mode other than IN, and
`jsp_make_pl_args` never returns `NO_ERROR` when a declared parameter has mode OUT or
INOUT; for a top-level CALL statement the check returns `NO_ERROR` for every mode. -/
theorem jsp_out_param_in_query (E : ErrorCodes) (K : PlConsts) (w : World)
    (node : PT_METHOD_CALL) (P : Int) (ps : Nat → ArgRead) (sig : PL_SIGNATURE)
    (hneg : E.ER_SP_INVALID_PARAM_COUNT < 0) (hsem : E.ER_PT_SEMANTIC ≠ 0)
    (hs : ∀ j, (ps j).sound) :
    (node.call_or_expr ≠ .PT_IS_CALL_STMT →
      (∀ m, m ≠ .SP_MODE_IN →
        jsp_check_out_param_in_query E w node m =
          (E.ER_PT_SEMANTIC,
            pt_record_error w (.MSGCAT_SEMANTIC_SP_OUT_ARGS_EXISTS_IN_QUERY node.method_name))) ∧
      ((∃ (i : Nat) (e : SP_ARG_ROW), (i : Int) < P ∧ ps i = .entry e ∧
          (e.mode = .SP_MODE_OUT ∨ e.mode = .SP_MODE_INOUT)) →
        ∀ w1 sig1, jsp_make_pl_args E K w node P ps sig ≠ some (NO_ERROR, w1, sig1))) ∧
    (node.call_or_expr = .PT_IS_CALL_STMT →
      ∀ m, jsp_check_out_param_in_query E w node m = (NO_ERROR, w)) := by
  refine ⟨fun hexpr => ⟨?_, ?_⟩, ?_⟩
  · intro m hm
    simp [jsp_check_out_param_in_query, hexpr, hm]
  · rintro ⟨i, e, hi, he, hmode⟩ w1 sig1 h
    have hA : (node.arg_list.length : Int) ≤ P := by
      by_contra hc
      rw [make_args_overflow E K w node P ps sig hneg (by omega)] at h
      simp only [Option.some.injEq, Prod.mk.injEq, NO_ERROR] at h
      omega
    rw [make_args_no_overflow E K w node P ps sig hA] at h
    obtain ⟨-, -, hfill⟩ :=
      loop_ok E K node P (P - node.arg_list.length) ps (by omega) hs P.toNat 0 w _ w1 sig1 h
    obtain ⟨e1, he1, hq, -⟩ := hfill i (Nat.zero_le i) (by omega)
    rw [he] at he1
    cases he1
    have hm : e.mode ≠ .SP_MODE_IN := by
      rcases hmode with hm | hm <;> rw [hm] <;> decide
    simp [jsp_check_out_param_in_query, hexpr, hm, NO_ERROR, hsem] at hq
  · intro hcall m
    simp [jsp_check_out_param_in_query, hcall]

/-- Witness of C3: a procedure with one OUT parameter invoked as an expression. -/
theorem jsp_out_param_in_query_witness :
    ¬ ∃ w1 sig1, jsp_make_pl_args E0 K0 w0 expr1 1 (fun _ => .entry row_out) sig0
      = some (NO_ERROR, w1, sig1) :=
  fun ⟨w1, sig1, h⟩ =>
    ((jsp_out_param_in_query E0 K0 w0 expr1 1 (fun _ => .entry row_out) sig0 (by decide)
      (by decide) (fun _ => trivial)).1 (by decide)).2
      ⟨0, row_out, by decide, rfl, Or.inl rfl⟩ w1 sig1 h

/-! ## Authorization gate and catalog accessor -/

theorem ext_call_ok (w : World) (c : EXT_CALL) (h : w.fault c = NO_ERROR) :
    ext_call w c = (NO_ERROR, w) := by
  simp [ext_call, h]

theorem db_get_sp_ok (E : ErrorCodes) (w : World) (mop : MOP) (attr : SP_ATTR) (row : SP_ROW)
    (hf : w.fault (.db_get mop attr) = NO_ERROR) (hrow : sp_row w mop = some row) :
    db_get_sp E w mop attr = (.ok row, w) := by
  simp [db_get_sp, ext_call_ok w _ hf, hrow]

theorem by_query_ok (w : World) (sp_obj : MOP) (h : grant_query_runs w) :
    check_execute_authorization_by_query w sp_obj =
      ((count_execute_grants w sp_obj : Int), w) := by
  obtain ⟨h1, h2, h3, h4, h5, h6⟩ := h
  have hc : count_execute_grants { w with Au_disable := 1 } sp_obj = count_execute_grants w sp_obj :=
    rfl
  have hn : ¬ ((count_execute_grants w sp_obj : Int) < 0) := by omega
  simp [check_execute_authorization_by_query, AU_DISABLE, AU_ENABLE, ext_call, h1, h2, h3, h4,
    h5, h6, NO_ERROR, hc, hn]

theorem check_execute_authorization_ok (E : ErrorCodes) (w : World) (sp_obj : MOP)
    (row : SP_ROW) (hrow : sp_row w sp_obj = some row) (h : execute_allowed w sp_obj row) :
    check_execute_authorization E w sp_obj .DB_AUTH_EXECUTE = (NO_ERROR, w) := by
  unfold check_execute_authorization
  by_cases hdba : au_is_dba_group_member w w.Au_user = true
  · simp [hdba]
  · have hf : w.fault (.db_get sp_obj .SP_ATTR_OWNER) = NO_ERROR := by
      rcases h with h | h | h
      · exact absurd h hdba
      · exact h.1
      · exact h.1
    simp only [ne_eq, not_true_eq_false, ↓reduceIte, hdba, Bool.false_eq_true,
      db_get_sp_ok E w sp_obj _ row hf hrow]
    by_cases hown : (ws_is_same_object (some row.owner) w.Au_user
        || ws_is_same_object (some row.owner) (some w.Au_public_user)) = true
    · simp [hown]
    · simp only [hown, Bool.false_eq_true, ↓reduceIte]
      rcases h with h | h | h
      · exact absurd h hdba
      · exfalso
        apply hown
        rcases h.2 with h2 | h2
        · simp [ws_is_same_object, h2]
        · simp [ws_is_same_object, h2]
      · obtain ⟨-, hq, hcnt, her⟩ := h
        have hne : ¬ ((count_execute_grants w sp_obj : Int) = 0) := by omega
        simp [by_query_ok w sp_obj hq, hne, er_errid, her]

theorem find_found (E : ErrorCodes) (w : World) (name : String) (purpose : DB_AUTH)
    (row : SP_ROW)
    (hfind : w.cat.sp.find? (fun r => r.unique_name = jsp_check_stored_procedure_name w name)
      = some row)
    (hslot : w.er_errid ≠ E.ER_OBJ_OBJECT_NOT_FOUND) :
    jsp_find_stored_procedure E w name purpose =
      (if (check_execute_authorization E { w with Au_disable := 1 } row.mop purpose).1 ≠ NO_ERROR
        then none else some row.mop,
       AU_ENABLE (check_execute_authorization E { w with Au_disable := 1 } row.mop purpose).2
        w.Au_disable) := by
  have hname : jsp_check_stored_procedure_name { w with Au_disable := 1 } name =
      jsp_check_stored_procedure_name w name := rfl
  simp [jsp_find_stored_procedure, AU_DISABLE, db_find_unique_sp, hname, hfind, er_errid, hslot]

theorem check_execute_authorization_refused (E : ErrorCodes) (w : World) (sp_obj : MOP)
    (row : SP_ROW) (hrow : sp_row w sp_obj = some row)
    (hdba : au_is_dba_group_member w w.Au_user = false)
    (hread : w.fault (.db_get sp_obj .SP_ATTR_OWNER) = NO_ERROR)
    (hown : some row.owner ≠ w.Au_user) (hpub : row.owner ≠ w.Au_public_user)
    (hq : grant_query_runs w) (hcnt : count_execute_grants w sp_obj = 0) :
    check_execute_authorization E w sp_obj .DB_AUTH_EXECUTE =
      (E.ER_AU_EXECUTE_FAILURE, er_set w E.ER_AU_EXECUTE_FAILURE) := by
  unfold check_execute_authorization
  simp only [ne_eq, not_true_eq_false, ↓reduceIte, hdba, Bool.false_eq_true,
    db_get_sp_ok E w sp_obj _ row hread hrow]
  have h1 : ws_is_same_object (some row.owner) w.Au_user = false := by
    simp [ws_is_same_object, hown]
  have h2 : ws_is_same_object (some row.owner) (some w.Au_public_user) = false := by
    simp [ws_is_same_object, hpub]
  simp [h1, h2, by_query_ok w sp_obj hq, hcnt]

/-- C7 (amended): if the current user is not a DBA-group member, the owner attribute is read,
the owner is neither the current user nor the reserved user `public`, and the grant query
runs and finds no EXECUTE grant row for (procedure, current user), then
`check_execute_authorization` for purpose EXECUTE fails with `ER_AU_EXECUTE_FAILURE`,
`jsp_find_stored_procedure (name, DB_AUTH_EXECUTE)` returns no record,
`jsp_make_pl_signature` fails with that code and `jsp_call_stored_procedure` returns it
without invoking `pl_call`. -/
theorem execute_refused_without_grant (E : ErrorCodes) (K : PlConsts) (C : CALL_ENV)
    (w : World) (node : PT_METHOD_CALL) (sig : PL_SIGNATURE) (save0 : Int) (buf0 : String)
    (row : SP_ROW)
    (hE : E.ER_AU_EXECUTE_FAILURE ≠ 0)
    (hname : node.has_method_name = true) (hnode : node.is_method = false)
    (hfind : w.cat.sp.find?
      (fun r => r.unique_name = jsp_check_stored_procedure_name w node.method_name) = some row)
    (hrow : sp_row w row.mop = some row)
    (hslot : w.er_errid ≠ E.ER_OBJ_OBJECT_NOT_FOUND)
    (hdba : au_is_dba_group_member w w.Au_user = false)
    (hread : w.fault (.db_get row.mop .SP_ATTR_OWNER) = NO_ERROR)
    (hown : some row.owner ≠ w.Au_user) (hpub : row.owner ≠ w.Au_public_user)
    (hq : grant_query_runs w) (hcnt : count_execute_grants w row.mop = 0) :
    (check_execute_authorization E w row.mop .DB_AUTH_EXECUTE).1 = E.ER_AU_EXECUTE_FAILURE ∧
    (jsp_find_stored_procedure E w node.method_name .DB_AUTH_EXECUTE).1 = none ∧
    (∃ w1 sig1, jsp_make_pl_signature E K w node sig save0 buf0
        = some (E.ER_AU_EXECUTE_FAILURE, w1, sig1)) ∧
    (∃ w2 out, jsp_call_stored_procedure E K C w node sig save0 buf0
        = some (E.ER_AU_EXECUTE_FAILURE, w2, out) ∧
      w2.trace = w.trace ∧ ∀ name, EVENT.pl_call name ∉ w2.trace.drop w.trace.length) := by
  have hc := check_execute_authorization_refused E w row.mop row hrow hdba hread hown hpub hq hcnt
  have hc1 := check_execute_authorization_refused E { w with Au_disable := 1 } row.mop row hrow
    hdba hread hown hpub hq hcnt
  have hf := find_found E w node.method_name .DB_AUTH_EXECUTE row hfind hslot
  rw [hc1] at hf
  simp only [ne_eq, hE, NO_ERROR, not_false_eq_true, ↓reduceIte] at hf
  have hsig : jsp_make_pl_signature E K w node sig save0 buf0 =
      some (E.ER_AU_EXECUTE_FAILURE,
        AU_ENABLE (AU_ENABLE (er_set { w with Au_disable := 1 } E.ER_AU_EXECUTE_FAILURE)
          w.Au_disable) save0,
        { sig with name := some node.method_name }) := by
    simp [jsp_make_pl_signature, hnode, hf, er_errid, er_set, AU_ENABLE]
  refine ⟨by rw [hc], by rw [hf], ⟨_, _, hsig⟩, ?_⟩
  refine ⟨AU_ENABLE (AU_ENABLE (er_set { w with Au_disable := 1 } E.ER_AU_EXECUTE_FAILURE)
          w.Au_disable) save0, { args := [], etc := none, label := none }, ?_, rfl, ?_⟩
  · simp [jsp_call_stored_procedure, hname, hsig, hE, NO_ERROR]
  · intro name
    simp [AU_ENABLE, er_set]

/-- Witness of C7 (amended): `u2`, without grant, calls `u1.f`. -/
theorem execute_refused_without_grant_witness :
    (jsp_find_stored_procedure E0 w1_u2 "u1.f" .DB_AUTH_EXECUTE).1 = none ∧
    ∃ w2 out, jsp_call_stored_procedure E0 K0
        { evaluate := fun w _ st => (0, w, st, []), pl_call := fun w _ _ => (0, w, [], .null) }
        w1_u2 { call0 with method_name := "u1.f" } sig0 0 ""
        = some (E0.ER_AU_EXECUTE_FAILURE, w2, out) ∧ w2.trace = w1_u2.trace :=
  have h := execute_refused_without_grant E0 K0
    { evaluate := fun w _ st => (0, w, st, []), pl_call := fun w _ _ => (0, w, [], .null) }
    w1_u2 { call0 with method_name := "u1.f" } sig0 0 "" sp_f (by decide) rfl rfl rfl rfl
    (by decide) rfl rfl (by decide) (by decide) ⟨rfl, rfl, rfl, rfl, rfl, rfl⟩ rfl
  ⟨h.2.1, h.2.2.2.imp fun _ h2 => h2.imp fun _ h3 => ⟨h3.1, h3.2.1⟩⟩

/-- C7, counterexample: `u2` is not a DBA-group member, not the owner of `public.g`, not the
reserved user `public`, and holds no grant; the procedure is owned by `public`. The check
returns `NO_ERROR` and the lookup returns the record. -/
theorem execute_allowed_on_public_owned :
    au_is_dba_group_member w1_u2 w1_u2.Au_user = false ∧
    some sp_g.owner ≠ w1_u2.Au_user ∧
    w1_u2.Au_user ≠ some w1_u2.Au_public_user ∧
    count_execute_grants w1_u2 sp_g.mop = 0 ∧
    (check_execute_authorization E0 w1_u2 sp_g.mop .DB_AUTH_EXECUTE).1 = NO_ERROR ∧
    (jsp_find_stored_procedure E0 w1_u2 "public.g" .DB_AUTH_EXECUTE).1 = some sp_g.mop := by
  refine ⟨rfl, by decide, by decide, rfl, rfl, rfl⟩

/-! ## Frame of the read-only paths

The lookup, the authorization gate, the type gate and the argument-list builder write only
the error slot, `Au_disable` and the parser's error list. -/

theorem core_er_set (w : World) (e : Int) : (er_set w e).core = w.core := rfl

theorem core_er_clear (w : World) : (er_clear w).core = w.core := rfl

theorem core_AU_ENABLE (w : World) (save : Int) : (AU_ENABLE w save).core = w.core := rfl

theorem core_AU_DISABLE (w : World) : (AU_DISABLE w).2.core = w.core := rfl

theorem core_ext_call (w : World) (c : EXT_CALL) : (ext_call w c).2.core = w.core := by
  unfold ext_call
  simp only
  split <;> rfl

theorem core_db_get_sp (E : ErrorCodes) (w : World) (mop : MOP) (attr : SP_ATTR) :
    (db_get_sp E w mop attr).2.core = w.core := by
  have h := core_ext_call w (.db_get mop attr)
  unfold db_get_sp
  simp only
  split
  · exact h
  · split
    · exact h
    · exact h

theorem core_db_get_user_name (E : ErrorCodes) (w : World) (user : MOP) :
    (db_get_user_name E w user).2.core = w.core := by
  have h := core_ext_call w (.db_get user .user_name)
  unfold db_get_user_name
  simp only
  split
  · exact h
  · split
    · exact h
    · exact h

theorem core_by_query (w : World) (sp_obj : MOP) :
    (check_execute_authorization_by_query w sp_obj).2.core = w.core := by
  have hx : ∀ (v : World) (c : EXT_CALL), v.core = w.core → (ext_call v c).2.core = w.core :=
    fun v c hv => (core_ext_call v c).trans hv
  have h2 := hx _ .grant_query_open (core_AU_DISABLE w)
  have h3 := hx _ .grant_query_set_system_generated h2
  have h4 := hx _ .grant_query_compile h3
  have h5 := hx _ .grant_query_push_values h4
  have h6 := hx _ .grant_query_execute h5
  have h7 := hx _ .grant_query_end h6
  unfold check_execute_authorization_by_query
  simp only
  repeat' (first | exact h2 | exact h3 | exact h4 | exact h5 | exact h6 | exact h7 | split)

theorem core_check (E : ErrorCodes) (w : World) (sp_obj : MOP) (au_type : DB_AUTH) :
    (check_execute_authorization E w sp_obj au_type).2.core = w.core := by
  unfold check_execute_authorization
  split
  · rfl
  · split
    · rfl
    · have h1 := core_db_get_sp E w sp_obj .SP_ATTR_OWNER
      generalize db_get_sp E w sp_obj .SP_ATTR_OWNER = q at h1
      obtain ⟨res, w1⟩ := q
      cases res with
      | error e => exact h1
      | ok owner =>
        have h2 := (core_by_query w1 sp_obj).trans h1
        simp only
        repeat' (first | exact h1 | exact h2 | split)

theorem core_find_unique_sp (E : ErrorCodes) (w : World) (n : String) :
    (db_find_unique_sp E w n).2.core = w.core := by
  unfold db_find_unique_sp
  split <;> rfl

theorem core_find_unique_sp_code (E : ErrorCodes) (w : World) (n : String) :
    (db_find_unique_sp_code E w n).2.core = w.core := by
  unfold db_find_unique_sp_code
  split <;> rfl

theorem core_another_owner (E : ErrorCodes) (w : World) (name : String) :
    (jsp_find_sp_of_another_owner E w name).2.2.core = w.core := by
  unfold jsp_find_sp_of_another_owner
  simp only
  repeat' (first | rfl | exact core_find_unique_sp E _ _ | split)

theorem core_find (E : ErrorCodes) (w : World) (name : String) (purpose : DB_AUTH) :
    (jsp_find_stored_procedure E w name purpose).2.core = w.core := by
  unfold jsp_find_stored_procedure
  simp only
  have h2 := (core_find_unique_sp E (AU_DISABLE w).2
    (jsp_check_stored_procedure_name (AU_DISABLE w).2 name)).trans (core_AU_DISABLE w)
  generalize db_find_unique_sp E (AU_DISABLE w).2
    (jsp_check_stored_procedure_name (AU_DISABLE w).2 name) = q at h2
  obtain ⟨mop, w2⟩ := q
  simp only at h2 ⊢
  have h3 : ∀ t : Int × Option MOP × World,
      t = (if er_errid w2 = E.ER_OBJ_OBJECT_NOT_FOUND then
          if (er_clear w2).client_type_loaddb_compat = true then
            jsp_find_sp_of_another_owner E (er_clear w2) name
          else (E.ER_SP_NOT_EXIST, mop, er_set (er_clear w2) E.ER_SP_NOT_EXIST)
        else (NO_ERROR, mop, w2)) → t.2.2.core = w.core := by
    intro t ht
    subst ht
    split
    · split
      · exact (core_another_owner E (er_clear w2) name).trans h2
      · exact h2
    · exact h2
  generalize (if er_errid w2 = E.ER_OBJ_OBJECT_NOT_FOUND then
          if (er_clear w2).client_type_loaddb_compat = true then
            jsp_find_sp_of_another_owner E (er_clear w2) name
          else (E.ER_SP_NOT_EXIST, mop, er_set (er_clear w2) E.ER_SP_NOT_EXIST)
        else (NO_ERROR, mop, w2)) = t at h3
  have h4 := h3 t rfl
  obtain ⟨err, mop3, w3⟩ := t
  simp only at h4 ⊢
  cases mop3 with
  | none => exact h4
  | some m => exact (core_check E w3 m purpose).trans h4

theorem db_get_sp_error_slot (E : ErrorCodes) (w w1 : World) (mop : MOP) (attr : SP_ATTR)
    (e : Int) (h : db_get_sp E w mop attr = (.error e, w1)) : er_errid w1 = e ∧ e ≠ NO_ERROR ∨
      er_errid w1 = e ∧ e = E.ER_HEAP_UNKNOWN_OBJECT := by
  unfold db_get_sp at h
  simp only at h
  split at h
  · rename_i hne
    simp only [Prod.mk.injEq, Except.error.injEq] at h
    obtain ⟨rfl, rfl⟩ := h
    left
    refine ⟨?_, hne⟩
    simp only [ext_call, ne_eq] at hne ⊢
    simp [hne, er_set, er_errid]
  · split at h
    · simp at h
    · simp only [Prod.mk.injEq, Except.error.injEq] at h
      obtain ⟨rfl, rfl⟩ := h
      right
      exact ⟨rfl, rfl⟩

theorem db_get_sp_ok_row (E : ErrorCodes) (w w1 : World) (mop : MOP) (attr : SP_ATTR)
    (r : SP_ROW) (h : db_get_sp E w mop attr = (.ok r, w1)) :
    sp_row w mop = some r ∧ w1 = w ∧ w.fault (.db_get mop attr) = NO_ERROR := by
  unfold db_get_sp at h
  simp only at h
  split at h
  · simp at h
  · rename_i hne
    have hf : w.fault (.db_get mop attr) = NO_ERROR := by
      simpa [ext_call] using hne
    have hw : (ext_call w (.db_get mop attr)).2 = w := by
      rw [ext_call_ok w _ hf]
    rw [hw] at h
    split at h
    · rename_i r1 hr
      simp only [Prod.mk.injEq, Except.ok.injEq] at h
      obtain ⟨rfl, rfl⟩ := h
      exact ⟨hr, rfl, hf⟩
    · simp at h

theorem sp_row_core {w w2 : World} (h : w2.core = w.core) (m : MOP) :
    sp_row w2 m = sp_row w m := by
  have h1 := congrArg (fun v => sp_row v m) h
  exact h1

theorem fault_core {w w2 : World} (h : w2.core = w.core) (c : EXT_CALL) :
    w2.fault c = w.fault c := by
  have h1 := congrArg (fun v => World.fault v c) h
  exact h1

theorem user_row_core {w w2 : World} (h : w2.core = w.core) (u : Option MOP) :
    user_row w2 u = user_row w u := by
  have h1 := congrArg (fun v => user_row v u) h
  exact h1

theorem current_user_name_core {w w2 : World} (h : w2.core = w.core) :
    au_get_current_user_name w2 = au_get_current_user_name w := by
  have h1 := congrArg (fun v => au_get_current_user_name v) h
  exact h1

theorem checked_name_core {w w2 : World} (h : w2.core = w.core) (name : String) :
    jsp_check_stored_procedure_name w2 name = jsp_check_stored_procedure_name w name := by
  have h1 := congrArg (fun v => jsp_check_stored_procedure_name v name) h
  exact h1

theorem find_sp_core {w w2 : World} (h : w2.core = w.core) (p : SP_ROW → Bool) :
    w2.cat.sp.find? p = w.cat.sp.find? p := by
  have h1 := congrArg (fun v => List.find? p (Catalog.sp (World.cat v))) h
  exact h1

theorem loaddb_core {w w2 : World} (h : w2.core = w.core) :
    w2.client_type_loaddb_compat = w.client_type_loaddb_compat := by
  have h1 := congrArg (fun v => World.client_type_loaddb_compat v) h
  exact h1

theorem check_error_slot (E : ErrorCodes) (w : World) (sp_obj : MOP) (au_type : DB_AUTH)
    (hE : E.ER_AU_EXECUTE_FAILURE ≠ 0) (hE2 : E.ER_HEAP_UNKNOWN_OBJECT ≠ 0)
    (h : (check_execute_authorization E w sp_obj au_type).1 ≠ NO_ERROR) :
    er_errid (check_execute_authorization E w sp_obj au_type).2 ≠ NO_ERROR := by
  unfold check_execute_authorization at h ⊢
  split
  · simp_all
  · split
    · simp_all
    · rename_i h1 h2
      simp only [h1, h2, ↓reduceIte] at h
      cases hq : db_get_sp E w sp_obj .SP_ATTR_OWNER with
      | mk res w1 =>
        cases res with
        | error e =>
          simp only
          rcases db_get_sp_error_slot E w w1 sp_obj _ e hq with ⟨a, b⟩ | ⟨a, b⟩
          · rw [a]; exact b
          · rw [a, b]; exact hE2
        | ok owner =>
          simp only [hq] at h ⊢
          split
          · rename_i hown
            simp [hown] at h
          · rename_i hown
            simp only [hown, Bool.false_eq_true, ↓reduceIte] at h
            split
            · simpa [er_set, er_errid, NO_ERROR] using hE
            · rename_i hcnt
              simpa [hcnt] using h

theorem find_eval (E : ErrorCodes) (w v : World) (hv : v.core = w.core) (name : String)
    (purpose : DB_AUTH) (row : SP_ROW)
    (hfind : w.cat.sp.find? (fun r => r.unique_name = jsp_check_stored_procedure_name w name)
      = some row)
    (hmode : w.client_type_loaddb_compat = false) :
    ∃ w3, w3.core = w.core ∧
      jsp_find_stored_procedure E v name purpose =
        (if (check_execute_authorization E w3 row.mop purpose).1 ≠ NO_ERROR then none
          else some row.mop,
         AU_ENABLE (check_execute_authorization E w3 row.mop purpose).2 v.Au_disable) := by
  have hd : (AU_DISABLE v).2.core = w.core := (core_AU_DISABLE v).trans hv
  have hfind1 : (AU_DISABLE v).2.cat.sp.find?
      (fun r => r.unique_name = jsp_check_stored_procedure_name (AU_DISABLE v).2 name)
      = some row := by
    rw [checked_name_core hd, find_sp_core hd]
    exact hfind
  have hmode1 : (AU_DISABLE v).2.client_type_loaddb_compat = false := by
    rw [loaddb_core hd]
    exact hmode
  by_cases hstale : er_errid (AU_DISABLE v).2 = E.ER_OBJ_OBJECT_NOT_FOUND
  · refine ⟨er_set (er_clear (AU_DISABLE v).2) E.ER_SP_NOT_EXIST, hd, ?_⟩
    have hm : (er_clear (AU_DISABLE v).2).client_type_loaddb_compat = false := hmode1
    simp only [jsp_find_stored_procedure, db_find_unique_sp, hfind1, hstale, ↓reduceIte, hm,
      Bool.false_eq_true]
    rfl
  · refine ⟨(AU_DISABLE v).2, hd, ?_⟩
    simp only [jsp_find_stored_procedure, db_find_unique_sp, hfind1, hstale, ↓reduceIte]
    rfl

theorem find_none_purpose (E : ErrorCodes) (w v : World) (hv : v.core = w.core) (name : String)
    (row : SP_ROW)
    (hfind : w.cat.sp.find? (fun r => r.unique_name = jsp_check_stored_procedure_name w name)
      = some row)
    (hmode : w.client_type_loaddb_compat = false) :
    (jsp_find_stored_procedure E v name .DB_AUTH_NONE).1 = some row.mop := by
  obtain ⟨w3, -, h⟩ := find_eval E w v hv name .DB_AUTH_NONE row hfind hmode
  rw [h]
  simp [check_execute_authorization]

theorem get_owner_name_eval (E : ErrorCodes) (w v : World) (hv : v.core = w.core)
    (name buf : String) (n : Nat) (row : SP_ROW) (u : DB_USER)
    (hname : name ≠ "")
    (hfind : w.cat.sp.find? (fun r => r.unique_name = jsp_check_stored_procedure_name w name)
      = some row)
    (hrow : sp_row w row.mop = some row)
    (hmode : w.client_type_loaddb_compat = false)
    (howner : user_row w (some row.owner) = some u)
    (hf1 : w.fault (.db_get row.mop .SP_ATTR_OWNER) = NO_ERROR)
    (hf2 : w.fault (.db_get row.owner .user_name) = NO_ERROR) :
    (jsp_get_owner_name E v name buf n).1 = true ∧
    (jsp_get_owner_name E v name buf n).2.1 = strncpy buf u.name n := by
  have hd : (AU_DISABLE v).2.core = w.core := (core_AU_DISABLE v).trans hv
  have h1 := find_none_purpose E w (AU_DISABLE v).2 hd name row hfind hmode
  have h2 := (core_find E (AU_DISABLE v).2 name .DB_AUTH_NONE).trans hd
  unfold jsp_get_owner_name
  simp only [hname, ↓reduceIte]
  generalize jsp_find_stored_procedure E (AU_DISABLE v).2 name .DB_AUTH_NONE = q at h1 h2
  obtain ⟨mop, w2⟩ := q
  simp only at h1 h2
  subst h1
  simp only
  have h3 : db_get_sp E w2 row.mop .SP_ATTR_OWNER = (.ok row, w2) :=
    db_get_sp_ok E w2 row.mop _ row ((fault_core h2 _).trans hf1) ((sp_row_core h2 _).trans hrow)
  simp only [h3]
  have h4 : db_get_user_name E w2 row.owner = (.ok u.name, w2) := by
    simp [db_get_user_name, ext_call_ok w2 _ ((fault_core h2 _).trans hf2),
      (user_row_core h2 _).trans howner]
  simp only [h4, and_self]

theorem core_return_type (E : ErrorCodes) {w w1 : World} {t : DB_TYPE} {r : Int}
    (h : jsp_check_return_type_supported E w t = some (r, w1)) : w1.core = w.core := by
  cases t <;>
    simp [jsp_check_return_type_supported, er_set, er_errid] at h <;>
    first
    | (obtain ⟨-, rfl⟩ := h; rfl)
    | (split at h <;> simp at h <;> (obtain ⟨-, rfl⟩ := h; rfl))

theorem core_param_type (E : ErrorCodes) {w w1 : World} {t : DB_TYPE} {m : SP_MODE_ENUM}
    {r : Int} (h : jsp_check_param_type_supported E w t m = some (r, w1)) :
    w1.core = w.core := by
  cases t <;> cases m <;>
    simp [jsp_check_param_type_supported, er_set, er_errid] at h <;>
    first
    | (obtain ⟨-, rfl⟩ := h; rfl)
    | (split at h <;> simp at h <;> (obtain ⟨-, rfl⟩ := h; rfl))

theorem core_out_param (E : ErrorCodes) (w : World) (node : PT_METHOD_CALL)
    (m : SP_MODE_ENUM) : (jsp_check_out_param_in_query E w node m).2.core = w.core := by
  unfold jsp_check_out_param_in_query
  split <;> [split; skip] <;> rfl

theorem body_frame (E : ErrorCodes) (K : PlConsts) (node : PT_METHOD_CALL) (P ntd : Int)
    (ps : Nat → ArgRead) (i : Nat) (w : World) (sig : PL_SIGNATURE) :
    (∀ w2 sig2, jsp_make_pl_args_body E K node P ntd ps i w sig = some (.inr (w2, sig2)) →
      w2.core = w.core ∧ sig2.rest = sig.rest) ∧
    (∀ r w1 sig1, jsp_make_pl_args_body E K node P ntd ps i w sig = some (.inl (r, w1, sig1)) →
      w1.core = w.core ∧ sig1.rest = sig.rest) := by
  unfold jsp_make_pl_args_body
  cases ps i with
  | no_object er =>
    refine ⟨fun w2 sig2 h => by simp at h, fun r w1 sig1 h => ?_⟩
    simp only [Option.some.injEq, Sum.inl.injEq, Prod.mk.injEq] at h
    obtain ⟨-, rfl, rfl⟩ := h
    exact ⟨rfl, rfl⟩
  | get_error err =>
    refine ⟨fun w2 sig2 h => by simp at h, fun r w1 sig1 h => ?_⟩
    simp only [Option.some.injEq, Sum.inl.injEq, Prod.mk.injEq] at h
    obtain ⟨-, rfl, rfl⟩ := h
    exact ⟨rfl, rfl⟩
  | entry e =>
    have hc1 := core_out_param E w node e.mode
    simp only
    by_cases hq : (jsp_check_out_param_in_query E w node e.mode).1 = NO_ERROR
    swap
    · simp only [ne_eq, hq, not_false_eq_true, ↓reduceIte]
      refine ⟨fun w2 sig2 h => by simp at h, fun r w1 sig1 h => ?_⟩
      simp only [Option.some.injEq, Sum.inl.injEq, Prod.mk.injEq] at h
      obtain ⟨-, rfl, rfl⟩ := h
      exact ⟨hc1, rfl⟩
    simp only [hq, ne_eq, not_true_eq_false, ↓reduceIte]
    cases htc : jsp_check_param_type_supported E (jsp_check_out_param_in_query E w node e.mode).2
        e.data_type e.mode with
    | none => exact ⟨fun w2 sig2 h => by simp at h, fun r w1 sig1 h => by simp at h⟩
    | some q =>
      obtain ⟨error2, w2a⟩ := q
      have hc2 := (core_param_type E htc).trans hc1
      simp only
      constructor
      · intro w2 sig2 h
        repeat' (first
          | (simp only [Option.some.injEq, Sum.inr.injEq, Prod.mk.injEq] at h
             obtain ⟨rfl, rfl⟩ := h
             exact ⟨hc2, rfl⟩)
          | (simp only [Option.some.injEq, reduceCtorEq] at h)
          | split at h)
      · intro r w1 sig1 h
        repeat' (first
          | (simp only [Option.some.injEq, Sum.inl.injEq, Prod.mk.injEq] at h
             obtain ⟨-, rfl, rfl⟩ := h
             exact ⟨hc2, rfl⟩)
          | (simp only [Option.some.injEq, reduceCtorEq] at h)
          | split at h)

theorem loop_frame (E : ErrorCodes) (K : PlConsts) (node : PT_METHOD_CALL) (P ntd : Int)
    (ps : Nat → ArgRead) :
    ∀ (left i : Nat) (w : World) (sig : PL_SIGNATURE) (r : Int) (w1 : World)
      (sig1 : PL_SIGNATURE),
      jsp_make_pl_args_loop E K node P ntd ps left i w sig = some (r, w1, sig1) →
      w1.core = w.core ∧ sig1.rest = sig.rest := by
  intro left
  induction left with
  | zero =>
    intro i w sig r w1 sig1 h
    simp only [jsp_make_pl_args_loop, Option.some.injEq, Prod.mk.injEq] at h
    obtain ⟨-, rfl, rfl⟩ := h
    exact ⟨rfl, rfl⟩
  | succ left ih =>
    intro i w sig r w1 sig1 h
    unfold jsp_make_pl_args_loop at h
    obtain ⟨hinr, hinl⟩ := body_frame E K node P ntd ps i w sig
    cases hb : jsp_make_pl_args_body E K node P ntd ps i w sig with
    | none => simp [hb] at h
    | some res =>
      cases res with
      | inl q =>
        simp only [hb, Option.some.injEq] at h
        subst h
        exact hinl r w1 sig1 hb
      | inr q =>
        obtain ⟨w2, sig2⟩ := q
        simp only [hb] at h
        obtain ⟨a, b⟩ := hinr w2 sig2 hb
        obtain ⟨c, d⟩ := ih (i + 1) w2 sig2 r w1 sig1 h
        exact ⟨c.trans a, d.trans b⟩

theorem make_args_frame (E : ErrorCodes) (K : PlConsts) (w : World) (node : PT_METHOD_CALL)
    (P : Int) (ps : Nat → ArgRead) (sig : PL_SIGNATURE) (r : Int) (w1 : World)
    (sig1 : PL_SIGNATURE) (h : jsp_make_pl_args E K w node P ps sig = some (r, w1, sig1)) :
    w1.core = w.core ∧ sig1.rest = sig.rest := by
  unfold jsp_make_pl_args at h
  simp only at h
  have hc : (jsp_check_overflow_args E w P node.arg_list.length).2.core = w.core := by
    unfold jsp_check_overflow_args
    repeat' (first | rfl | split)
  split at h
  · simp only [Option.some.injEq, Prod.mk.injEq] at h
    obtain ⟨-, rfl, rfl⟩ := h
    exact ⟨hc, rfl⟩
  · obtain ⟨a, b⟩ := loop_frame E K node P _ ps _ _ _ _ r w1 sig1 h
    exact ⟨a.trans hc, b⟩

theorem core_get_owner_name (E : ErrorCodes) (w : World) (name buf : String) (n : Nat) :
    (jsp_get_owner_name E w name buf n).2.2.core = w.core := by
  unfold jsp_get_owner_name
  split
  · rfl
  · simp only
    have h2 := (core_find E (AU_DISABLE w).2 name .DB_AUTH_NONE).trans (core_AU_DISABLE w)
    generalize jsp_find_stored_procedure E (AU_DISABLE w).2 name .DB_AUTH_NONE = q at h2
    obtain ⟨mop, w2⟩ := q
    cases mop with
    | none => exact h2
    | some m =>
      simp only
      have h3 := (core_db_get_sp E w2 m .SP_ATTR_OWNER).trans h2
      generalize db_get_sp E w2 m .SP_ATTR_OWNER = q3 at h3
      obtain ⟨res, w3⟩ := q3
      cases res with
      | error e => exact h3
      | ok r =>
        simp only
        have h4 := (core_db_get_user_name E w3 r.owner).trans h3
        generalize db_get_user_name E w3 r.owner = q4 at h4
        obtain ⟨res4, w4⟩ := q4
        cases res4 with
        | error e => exact h4
        | ok nm => exact h4

theorem core_find_code (E : ErrorCodes) (w : World) (n : String) :
    (jsp_find_stored_procedure_code E w n).2.core = w.core := by
  unfold jsp_find_stored_procedure_code
  simp only
  have h := (core_find_unique_sp_code E (AU_DISABLE w).2 n).trans (core_AU_DISABLE w)
  split
  · exact h
  · exact h

theorem strncpy_take (buf src : String) (n : Nat) (h : src.length < n) :
    String.mk ((strncpy buf src n).data.take n) = src := by
  have h1 : src.data.length < n := h
  unfold strncpy
  rw [if_pos h, List.take_of_length_le (Nat.le_of_lt h1)]

/-- When the record and the name of the owner are read: for a stored-procedure call that
`jsp_make_pl_signature` resolves (the record `row` of that name, outside legacy admin load
mode, owner `u` with a name shorter than `DB_MAX_USER_LENGTH`), `sig.type` is PLCSQL exactly
when the record's language is PLCSQL and JAVA_SP otherwise, and `sig.auth` is the name of
the owner when the directive is `SP_DIRECTIVE_RIGHTS_OWNER` and the name of the current user
otherwise. -/
theorem jsp_make_pl_signature_type_auth (E : ErrorCodes) (K : PlConsts) (w : World)
    (node : PT_METHOD_CALL) (sig : PL_SIGNATURE) (save0 : Int) (buf0 : String)
    (w1 : World) (sig1 : PL_SIGNATURE) (row : SP_ROW) (u : DB_USER)
    (hE : E.ER_AU_EXECUTE_FAILURE ≠ 0) (hE2 : E.ER_HEAP_UNKNOWN_OBJECT ≠ 0)
    (hnode : node.is_method = false) (hname : node.method_name ≠ "")
    (hfind : w.cat.sp.find?
      (fun r => r.unique_name = jsp_check_stored_procedure_name w node.method_name) = some row)
    (hrow : sp_row w row.mop = some row)
    (hmode : w.client_type_loaddb_compat = false)
    (howner : user_row w (some row.owner) = some u)
    (hlen : u.name.length < K.DB_MAX_USER_LENGTH)
    (hf1 : w.fault (.db_get row.mop .SP_ATTR_OWNER) = NO_ERROR)
    (hf2 : w.fault (.db_get row.owner .user_name) = NO_ERROR)
    (h : jsp_make_pl_signature E K w node sig save0 buf0 = some (NO_ERROR, w1, sig1)) :
    sig1.type = (if row.lang = .SP_LANG_PLCSQL then .PL_TYPE_PLCSQL else .PL_TYPE_JAVA_SP) ∧
    sig1.auth = some (if row.directive = .SP_DIRECTIVE_RIGHTS_OWNER then u.name
      else au_get_current_user_name w) := by
  obtain ⟨w3, hw3, hfe⟩ :=
    find_eval E w w rfl node.method_name .DB_AUTH_EXECUTE row hfind hmode
  unfold jsp_make_pl_signature at h
  simp only [hnode, Bool.false_eq_true, ↓reduceIte, hfe] at h
  by_cases hc : (check_execute_authorization E w3 row.mop .DB_AUTH_EXECUTE).1 ≠ NO_ERROR
  · have hs := check_error_slot E w3 row.mop _ hE hE2 hc
    rw [if_pos hc] at h
    simp only [Option.some.injEq, Prod.mk.injEq] at h
    exact absurd h.1 hs
  · rw [if_neg hc] at h
    simp only at h
    have hv2 : (AU_DISABLE (AU_ENABLE
        (check_execute_authorization E w3 row.mop .DB_AUTH_EXECUTE).2 w.Au_disable)).2.core
        = w.core := (core_check E w3 row.mop _).trans hw3
    generalize (AU_DISABLE (AU_ENABLE
        (check_execute_authorization E w3 row.mop .DB_AUTH_EXECUTE).2 w.Au_disable)).2 = v2
        at h hv2
    generalize (AU_DISABLE (AU_ENABLE
        (check_execute_authorization E w3 row.mop .DB_AUTH_EXECUTE).2 w.Au_disable)).1 = save
        at h
    cases hq : db_get_sp E v2 row.mop .all_of_entry with
    | mk res v3 =>
      cases res with
      | error e =>
        simp only [hq, Option.some.injEq, Prod.mk.injEq] at h
        rcases db_get_sp_error_slot E v2 v3 row.mop _ e hq with ⟨-, b⟩ | ⟨-, b⟩
        · exact absurd h.1 b
        · rw [b] at h
          exact absurd h.1 hE2
      | ok entry =>
        obtain ⟨hr, rfl, -⟩ := db_get_sp_ok_row E v2 v3 row.mop _ entry hq
        have hentry : entry = row := by
          rw [sp_row_core hv2, hrow] at hr
          exact (Option.some.inj hr).symm
        subst hentry
        simp only [hq] at h
        -- the first resolution of the owner's name
        have hv4 : ∀ t : Option String × String × World,
            t = (if entry.directive = .SP_DIRECTIVE_RIGHTS_OWNER then
                ((if (jsp_get_owner_name E v3 node.method_name buf0 K.DB_MAX_USER_LENGTH).1 = true
                    then some (jsp_get_owner_name E v3 node.method_name buf0
                      K.DB_MAX_USER_LENGTH).2.1 else none),
                  (jsp_get_owner_name E v3 node.method_name buf0 K.DB_MAX_USER_LENGTH).2.1,
                  (jsp_get_owner_name E v3 node.method_name buf0 K.DB_MAX_USER_LENGTH).2.2)
              else (some (au_get_current_user_name v3), buf0, v3)) →
            t.2.2.core = w.core := by
          intro t ht
          subst ht
          split
          · exact (core_get_owner_name E v3 _ _ _).trans hv2
          · exact hv2
        generalize (if entry.directive = .SP_DIRECTIVE_RIGHTS_OWNER then
                ((if (jsp_get_owner_name E v3 node.method_name buf0 K.DB_MAX_USER_LENGTH).1 = true
                    then some (jsp_get_owner_name E v3 node.method_name buf0
                      K.DB_MAX_USER_LENGTH).2.1 else none),
                  (jsp_get_owner_name E v3 node.method_name buf0 K.DB_MAX_USER_LENGTH).2.1,
                  (jsp_get_owner_name E v3 node.method_name buf0 K.DB_MAX_USER_LENGTH).2.2)
              else (some (au_get_current_user_name v3), buf0, v3)) = t at h hv4
        have hv4a := hv4 t rfl
        obtain ⟨auth_name, buf1, v4⟩ := t
        simp only at h hv4a
        cases hrt : jsp_check_return_type_supported E v4 entry.return_type with
        | none => simp [hrt] at h
        | some q5 =>
          obtain ⟨error5, v5⟩ := q5
          have hv5 := (core_return_type E hrt).trans hv4a
          simp only [hrt] at h
          by_cases he5 : error5 = NO_ERROR
          swap
          · simp only [ne_eq, he5, not_false_eq_true, ↓reduceIte, Option.some.injEq,
              Prod.mk.injEq] at h
            exact h.1.elim
          simp only [he5, ne_eq, not_true_eq_false, ↓reduceIte] at h
          cases hma : jsp_make_pl_args E K v5 node entry.arg_count (param_set_of v5 entry)
              { name := some node.method_name
                type := if entry.lang = .SP_LANG_PLCSQL then .PL_TYPE_PLCSQL
                  else .PL_TYPE_JAVA_SP
                auth := sig.auth
                result_type := sig.result_type
                arg := sig.arg
                target_class_name := sig.target_class_name
                target_method_name := sig.target_method_name
                code_oid := sig.code_oid
                method_class_name := sig.method_class_name
                method_arg_pos := sig.method_arg_pos } with
          | none => simp [hma] at h
          | some q6 =>
            obtain ⟨error6, v6, sig6⟩ := q6
            obtain ⟨hv6a, hrest⟩ := make_args_frame E K v5 node _ _ _ _ _ _ hma
            have hv6 := hv6a.trans hv5
            simp only [hma] at h
            by_cases he6 : error6 = NO_ERROR
            swap
            · simp only [ne_eq, he6, not_false_eq_true, ↓reduceIte, Option.some.injEq,
                Prod.mk.injEq] at h
              exact h.1.elim
            simp only [he6, ne_eq, not_true_eq_false, ↓reduceIte, Option.some.injEq,
              Prod.mk.injEq, true_and] at h
            have htype : sig6.type = (if entry.lang = .SP_LANG_PLCSQL then .PL_TYPE_PLCSQL
                else .PL_TYPE_JAVA_SP) := by
              have := congrArg (fun x => x.2.1) hrest
              exact this
            obtain ⟨-, rfl⟩ := h
            by_cases hd : entry.directive = .SP_DIRECTIVE_RIGHTS_OWNER
            · have hg := get_owner_name_eval E w v6 hv6 node.method_name buf1
                K.DB_MAX_USER_LENGTH entry u hname hfind hrow hmode howner hf1 hf2
              simp only [hd, ↓reduceIte, hg.2, strncpy_take buf1 u.name _ hlen]
              exact ⟨htype, trivial⟩
            · simp only [hd, ↓reduceIte, current_user_name_core hv6]
              exact ⟨htype, trivial⟩

theorem jsp_default_value_string_fst (K : PlConsts) (node : PT_DATA_DEFAULT) :
    (jsp_default_value_string K node).1 = NO_ERROR := by
  unfold jsp_default_value_string
  dsimp only
  repeat' split
  all_goals rfl

theorem create_arg_info_eq (K : PlConsts) (u : String) (p : PT_SP_PARAM) (i : Int) :
    ∃ a, create_arg_info K u p i = some a ∧ a.index_of = i ∧
      a.mode = jsp_map_pt_misc_to_sp_mode p.mode ∧ a.data_type = p.type_enum_db ∧
      (a.is_optional = true ↔ p.default_value.isSome = true) ∧
      a.default_value =
        (match p.default_value with
         | none => none
         | some d =>
           if (jsp_default_value_string K d).2 = "" then none
           else some (jsp_default_value_string K d).2) := by
  unfold create_arg_info
  cases hd : p.default_value with
  | none => simp
  | some d =>
    simp [jsp_default_value_string_fst K d]

theorem create_args_loop_ok (E : ErrorCodes) (K : PlConsts) (u : String) :
    ∀ (ps : List PT_SP_PARAM) (c : Nat) (args : List SP_ARG_INFO) (w : World),
      c + ps.length ≤ MAX_ARG_COUNT →
      ∃ as, create_args_loop E K u ps (c : Int) args w = (some (args ++ as), w) ∧
        as.length = ps.length ∧
        ∀ (i : Nat) (p : PT_SP_PARAM), ps[i]? = some p →
          ∃ a, as[i]? = some a ∧ create_arg_info K u p ((c + i : Nat) : Int) = some a := by
  intro ps
  induction ps with
  | nil =>
    intro c args w _
    exact ⟨[], by simp [create_args_loop], rfl, by simp⟩
  | cons p rest ih =>
    intro c args w hle
    obtain ⟨a, ha, -⟩ := create_arg_info_eq K u p (c : Int)
    have hle1 : (c + 1) + rest.length ≤ MAX_ARG_COUNT := by
      simp only [List.length_cons] at hle
      omega
    obtain ⟨as, h1, h2, h3⟩ := ih (c + 1) (args ++ [a]) w hle1
    have hc : ¬ ((c : Int) + 1 > (MAX_ARG_COUNT : Int)) := by
      have : c + 1 ≤ MAX_ARG_COUNT := by omega
      omega
    refine ⟨a :: as, ?_, by simp [h2], ?_⟩
    · have h1a : create_args_loop E K u rest ((c : Int) + 1) (args ++ [a]) w =
          (some (args ++ [a] ++ as), w) := by
        have : ((c + 1 : Nat) : Int) = (c : Int) + 1 := by push_cast; rfl
        rw [← this]
        exact h1
      simp only [create_args_loop, ha, hc, ↓reduceIte, h1a, List.append_assoc,
        List.singleton_append]
    · intro i q hq
      cases i with
      | zero =>
        simp only [List.getElem?_cons_zero, Option.some.injEq] at hq
        subst hq
        exact ⟨a, by simp, by simpa using ha⟩
      | succ j =>
        simp only [List.getElem?_cons_succ] at hq
        obtain ⟨b, hb1, hb2⟩ := h3 j q hq
        refine ⟨b, by simpa using hb1, ?_⟩
        have : c + (j + 1) = c + 1 + j := by omega
        rw [this]
        exact hb2

theorem create_args_loop_too_many (E : ErrorCodes) (K : PlConsts) (u : String) :
    ∀ (ps : List PT_SP_PARAM) (c : Nat) (args : List SP_ARG_INFO) (w : World),
      c ≤ MAX_ARG_COUNT → MAX_ARG_COUNT < c + ps.length →
      create_args_loop E K u ps (c : Int) args w = (none, er_set w E.ER_SP_TOO_MANY_ARG_COUNT) := by
  intro ps
  induction ps with
  | nil =>
    intro c args w h1 h2
    simp only [List.length_nil] at h2
    omega
  | cons p rest ih =>
    intro c args w h1 h2
    obtain ⟨a, ha, -⟩ := create_arg_info_eq K u p (c : Int)
    by_cases hc : (c : Int) + 1 > (MAX_ARG_COUNT : Int)
    · simp only [create_args_loop, ha, hc, ↓reduceIte]
    · have hle : c + 1 ≤ MAX_ARG_COUNT := by omega
      have hlt : MAX_ARG_COUNT < (c + 1) + rest.length := by
        simp only [List.length_cons] at h2
        omega
      have h3 := ih (c + 1) (args ++ [a]) w hle hlt
      have : ((c + 1 : Nat) : Int) = (c : Int) + 1 := by push_cast; rfl
      rw [this] at h3
      simp only [create_args_loop, ha, hc, ↓reduceIte, h3]

theorem create_error_exit_false (w : World) (err : Int) :
    create_error_exit w err false = (if err = NO_ERROR then er_errid w else err, w) := rfl

/-- C9: with the DDL not blocked, a valid name and an accepted language/authid pair,
`jsp_create_stored_procedure` with more than `MAX_ARG_COUNT` (64) declared parameters fails
with `ER_SP_TOO_MANY_ARG_COUNT`, without any call recorded in the trace (so without invoking
the compiler), and leaves the catalog and the savepoint as they were; with exactly 64
parameters the argument loop ends without failure, giving 64 entries and leaving the state
as it was. -/
theorem jsp_create_stored_procedure_arg_count (E : ErrorCodes) (K : PlConsts) (w : World)
    (st : PT_SP_STMT)
    (hmod : w.fault .CHECK_MODIFICATION_ERROR = NO_ERROR)
    (hddl : w.block_ddl_statement = false)
    (hauth : ¬ (jsp_map_pt_to_sp_authid st.auth_id = .SP_DIRECTIVE_RIGHTS_CALLER
      ∧ st.lang = .SP_LANG_PLCSQL))
    (hname : jsp_check_stored_procedure_name w (PT_NODE_SP_NAME st) ≠ "")
    (hbase : sm_remove_qualifier_name
      (jsp_check_stored_procedure_name w (PT_NODE_SP_NAME st)) ≠ "") :
    (MAX_ARG_COUNT < st.param_list.length →
      (jsp_create_stored_procedure E K w st).1 = E.ER_SP_TOO_MANY_ARG_COUNT ∧
      (jsp_create_stored_procedure E K w st).2.cat = w.cat ∧
      (jsp_create_stored_procedure E K w st).2.savepoint = w.savepoint ∧
      (jsp_create_stored_procedure E K w st).2.trace = w.trace) ∧
    (st.param_list.length = MAX_ARG_COUNT →
      ∃ args, create_args_loop E K (jsp_check_stored_procedure_name w (PT_NODE_SP_NAME st))
          st.param_list 0 [] w = (some args, w) ∧ args.length = MAX_ARG_COUNT) := by
  constructor
  · intro hlen
    have hloop := create_args_loop_too_many E K
      (jsp_check_stored_procedure_name w (PT_NODE_SP_NAME st)) st.param_list 0 [] w
      (by decide) (by omega)
    simp only [Nat.cast_zero] at hloop
    unfold jsp_create_stored_procedure
    simp only [ext_call_ok w _ hmod, hddl, hauth, hname, hbase, hloop, create_error_exit_false,
      ne_eq, not_true_eq_false, ↓reduceIte, Bool.false_eq_true]
    exact ⟨rfl, rfl, rfl, rfl⟩
  · intro hlen
    obtain ⟨as, h1, h2, -⟩ := create_args_loop_ok E K
      (jsp_check_stored_procedure_name w (PT_NODE_SP_NAME st)) st.param_list 0 [] w (by omega)
    simp only [Nat.cast_zero, List.nil_append] at h1
    exact ⟨as, h1, by omega⟩

/-- Witness of C9: `CREATE FUNCTION f` with 65 parameters in the sample state. -/
theorem jsp_create_stored_procedure_arg_count_witness :
    (jsp_create_stored_procedure E0 K0 w0
        { create_f with param_list := List.replicate 65 param_x }).1
      = E0.ER_SP_TOO_MANY_ARG_COUNT ∧
    (jsp_create_stored_procedure E0 K0 w0
        { create_f with param_list := List.replicate 65 param_x }).2.cat = w0.cat ∧
    (jsp_create_stored_procedure E0 K0 w0
        { create_f with param_list := List.replicate 65 param_x }).2.savepoint = w0.savepoint ∧
    (jsp_create_stored_procedure E0 K0 w0
        { create_f with param_list := List.replicate 65 param_x }).2.trace = w0.trace :=
  (jsp_create_stored_procedure_arg_count E0 K0 w0
    { create_f with param_list := List.replicate 65 param_x }
    rfl rfl (by decide) (by decide) (by decide)).1 (by decide)

theorem downcase_length (s : String) : (sm_downcase_name s).length = s.length := by
  show (s.data.map Char.toLower).length = s.data.length
  exact List.length_map _ _

theorem utf8_go_replicate (c : Char) (n : Nat) :
    String.utf8ByteSize.go (List.replicate n c) = n * c.utf8Size := by
  induction n with
  | zero => simp [String.utf8ByteSize.go]
  | succ k ih =>
    simp only [List.replicate_succ, String.utf8ByteSize.go, ih]
    ring

theorem utf8_go_append (a b : List Char) :
    String.utf8ByteSize.go (a ++ b) = String.utf8ByteSize.go a + String.utf8ByteSize.go b := by
  induction a with
  | nil => simp [String.utf8ByteSize.go]
  | cons c cs ih =>
    show String.utf8ByteSize.go (cs ++ b) + c.utf8Size = _
    rw [ih]
    show _ = String.utf8ByteSize.go cs + c.utf8Size + _
    omega

theorem utf8ByteSize_append (a b : String) :
    (a ++ b).utf8ByteSize = a.utf8ByteSize + b.utf8ByteSize := by
  show String.utf8ByteSize.go (a ++ b).data
    = String.utf8ByteSize.go a.data + String.utf8ByteSize.go b.data
  rw [String.data_append, utf8_go_append]

theorem utf8ByteSize_go (s : String) : s.utf8ByteSize = String.utf8ByteSize.go s.data := rfl

theorem downcase_replicate_A (n : Nat) :
    sm_downcase_name (String.mk (List.replicate n 'A')) = String.mk (List.replicate n 'a') := by
  show String.mk ((List.replicate n 'A').map Char.toLower) = _
  rw [List.map_replicate]
  rfl

/-- What `jsp_check_stored_procedure_name` returns, by cases: for an input made of a prefix
that is `dbms_output.` up to letter case and a remainder, `public.dbms_output.` followed by
the lower-cased remainder when that text and its terminating byte fit the
`SM_MAX_IDENTIFIER_LENGTH + 2` bytes of `buffer`, and what the overflow leaves otherwise;
every input that has no such prefix is handed unchanged to `sm_user_specified_name`. -/
theorem jsp_check_stored_procedure_name_cases (w : World) :
    (∀ pre rest : String, sm_downcase_name pre = "dbms_output." →
      ("public.dbms_output." ++ sm_downcase_name rest).utf8ByteSize + 1
        ≤ w.name_buffer.SM_MAX_IDENTIFIER_LENGTH + 2 →
      jsp_check_stored_procedure_name w (pre ++ rest)
        = "public.dbms_output." ++ sm_downcase_name rest) ∧
    (∀ pre rest : String, sm_downcase_name pre = "dbms_output." →
      w.name_buffer.SM_MAX_IDENTIFIER_LENGTH + 2
        < ("public.dbms_output." ++ sm_downcase_name rest).utf8ByteSize + 1 →
      jsp_check_stored_procedure_name w (pre ++ rest) = w.name_buffer.overflow (pre ++ rest)) ∧
    (∀ str : String, (¬ ∃ pre rest : String, str = pre ++ rest ∧
        sm_downcase_name pre = "dbms_output.") →
      jsp_check_stored_procedure_name w str = sm_user_specified_name w str) := by
  have hpre : ∀ pre rest : String, sm_downcase_name pre = "dbms_output." →
      jsp_check_stored_procedure_name w (pre ++ rest)
        = if ("public.dbms_output." ++ sm_downcase_name rest).utf8ByteSize + 1
            ≤ w.name_buffer.SM_MAX_IDENTIFIER_LENGTH + 2
          then "public.dbms_output." ++ sm_downcase_name rest
          else w.name_buffer.overflow (pre ++ rest) := by
    intro pre rest h
    have hlen : pre.data.length = 12 := by
      have := downcase_length pre
      rw [h] at this
      exact this.symm
    have h1 : (pre ++ rest).data.take "dbms_output.".length = pre.data := by
      have : "dbms_output.".length = pre.data.length := by rw [hlen]; rfl
      rw [this]
      simp
    have h2 : (pre ++ rest).data.drop "dbms_output.".length = rest.data := by
      have : "dbms_output.".length = pre.data.length := by rw [hlen]; rfl
      rw [this]
      simp
    have h3 : pre.data.map Char.toLower = "dbms_output.".data := by
      have := congrArg String.data h
      simpa [sm_downcase_name] using this
    simp only [jsp_check_stored_procedure_name, h1, h2, h3, ↓reduceIte]
  refine ⟨?_, ?_, ?_⟩
  · intro pre rest h hfit
    rw [hpre pre rest h, if_pos hfit]
  · intro pre rest h hover
    rw [hpre pre rest h, if_neg (by omega)]
  · intro str hno
    have hne : ¬ ((str.data.take "dbms_output.".length).map Char.toLower
        = "dbms_output.".data) := by
      intro hc
      apply hno
      refine ⟨String.mk (str.data.take "dbms_output.".length),
        String.mk (str.data.drop "dbms_output.".length), ?_, ?_⟩
      · apply String.ext
        simp
      · apply String.ext
        simpa [sm_downcase_name] using hc
    simp only [jsp_check_stored_procedure_name, hne, ↓reduceIte]

/-- The input `DBMS_OUTPUT.Put_Line` gives `public.dbms_output.put_line`. -/
theorem jsp_check_stored_procedure_name_put_line :
    jsp_check_stored_procedure_name w0 "DBMS_OUTPUT.Put_Line" = "public.dbms_output.put_line" := by
  decide

/-- C20, at the failing input: the name `dbms_output.` followed by 238 letters `A` has 250
bytes; `public.dbms_output.`, the 238 lower-cased letters and the terminating byte are 258
bytes, one more than the 257 of `buffer` (`SM_MAX_IDENTIFIER_LENGTH` being 255), so
`jsp_check_stored_procedure_name` does not return `public.dbms_output.` followed by the
lower-cased remainder as a value of its own: it returns what the overflow leaves, in two
states that differ only in that parameter two different strings. -/
theorem jsp_check_stored_procedure_name_overflow :
    dbms_output_long_name.utf8ByteSize = 250 ∧
    w0.name_buffer.SM_MAX_IDENTIFIER_LENGTH + 2 = 257 ∧
    ("public.dbms_output." ++
      sm_downcase_name (String.mk (List.replicate 238 'A'))).utf8ByteSize + 1 = 258 ∧
    jsp_check_stored_procedure_name w0 dbms_output_long_name
      = w0.name_buffer.overflow dbms_output_long_name ∧
    jsp_check_stored_procedure_name
      { w0 with name_buffer := { w0.name_buffer with overflow := fun _ => "x" } }
      dbms_output_long_name = "x" := by
  have h := jsp_check_stored_procedure_name_cases
  have h1 : dbms_output_long_name.utf8ByteSize = 250 := by
    unfold dbms_output_long_name
    rw [utf8ByteSize_append]
    simp only [utf8ByteSize_go, utf8_go_replicate]
    decide
  have h2 : ("public.dbms_output." ++
      sm_downcase_name (String.mk (List.replicate 238 'A'))).utf8ByteSize + 1 = 258 := by
    rw [downcase_replicate_A, utf8ByteSize_append]
    simp only [utf8ByteSize_go, utf8_go_replicate]
    decide
  refine ⟨h1, rfl, h2, ?_, ?_⟩
  · exact (h w0).2.1 "dbms_output." (String.mk (List.replicate 238 'A')) (by decide)
      (by rw [h2]; decide)
  · exact (h { w0 with name_buffer := { w0.name_buffer with overflow := fun _ => "x" } }).2.1
      "dbms_output." (String.mk (List.replicate 238 'A')) (by decide) (by rw [h2]; decide)

theorem Au_user_core {w w2 : World} (h : w2.core = w.core) : w2.Au_user = w.Au_user := by
  have h1 := congrArg (fun v => v.Au_user) h
  exact h1

theorem cat_core {w w2 : World} (h : w2.core = w.core) : w2.cat = w.cat := by
  have h1 := congrArg (fun v => v.cat) h
  exact h1

theorem trace_core {w w2 : World} (h : w2.core = w.core) : w2.trace = w.trace := by
  have h1 := congrArg (fun v => v.trace) h
  exact h1

theorem savepoint_core {w w2 : World} (h : w2.core = w.core) : w2.savepoint = w.savepoint := by
  have h1 := congrArg (fun v => v.savepoint) h
  exact h1

theorem dba_core {w w2 : World} (h : w2.core = w.core) (u : Option MOP) :
    au_is_dba_group_member w2 u = au_is_dba_group_member w u := by
  unfold au_is_dba_group_member
  rw [user_row_core h]

/-- The three checks of `drop_stored_procedure` on a record that is found and whose
attributes are read. -/
theorem drop_checks_eval (E : ErrorCodes) (K : PlConsts) (w : World) (name : String)
    (t : SP_TYPE_ENUM) (row : SP_ROW)
    (hfind : w.cat.sp.find? (fun r => r.unique_name = jsp_check_stored_procedure_name w name)
      = some row)
    (hrow : sp_row w row.mop = some row)
    (hmode : w.client_type_loaddb_compat = false)
    (hf1 : w.fault (.db_get row.mop .SP_ATTR_OWNER) = NO_ERROR)
    (hf2 : w.fault (.db_get row.mop .SP_ATTR_IS_SYSTEM_GENERATED) = NO_ERROR)
    (hf3 : w.fault (.db_get row.mop .SP_ATTR_SP_TYPE) = NO_ERROR) :
    ∃ w2, w2.core = w.core ∧
      drop_stored_procedure E K w name t =
        if (!ws_is_same_object (some row.owner) w.Au_user
            && !au_is_dba_group_member w w.Au_user) = true then
          (E.ER_SP_DROP_NOT_ALLOWED_PRIVILEGES,
            AU_ENABLE (er_set w2 E.ER_SP_DROP_NOT_ALLOWED_PRIVILEGES) w.Au_disable)
        else if row.is_system_generated = 1 then
          (E.ER_SP_DROP_NOT_ALLOWED_SYSTEM_GENERATED,
            AU_ENABLE (er_set w2 E.ER_SP_DROP_NOT_ALLOWED_SYSTEM_GENERATED) w.Au_disable)
        else if row.sp_type ≠ t then
          (E.ER_SP_INVALID_TYPE, AU_ENABLE (er_set w2 E.ER_SP_INVALID_TYPE) w.Au_disable)
        else drop_code_args_and_record E K w2 name row.mop row.owner w.Au_disable := by
  obtain ⟨w3, hc3, hf⟩ := find_eval E w (AU_DISABLE w).2 (core_AU_DISABLE w) name
    .DB_AUTH_SELECT row hfind hmode
  have hchk : check_execute_authorization E w3 row.mop .DB_AUTH_SELECT = (NO_ERROR, w3) := by
    simp [check_execute_authorization]
  rw [hchk] at hf
  simp only [ne_eq, not_true_eq_false, ↓reduceIte] at hf
  have hc2 : (AU_ENABLE w3 (AU_DISABLE w).2.Au_disable).core = w.core :=
    (core_AU_ENABLE _ _).trans hc3
  refine ⟨AU_ENABLE w3 (AU_DISABLE w).2.Au_disable, hc2, ?_⟩
  generalize AU_ENABLE w3 (AU_DISABLE w).2.Au_disable = w2 at hf hc2
  have hg1 : db_get_sp E w2 row.mop .SP_ATTR_OWNER = (.ok row, w2) :=
    db_get_sp_ok E w2 row.mop _ row ((fault_core hc2 _).trans hf1) ((sp_row_core hc2 _).trans hrow)
  have hg2 : db_get_sp E w2 row.mop .SP_ATTR_IS_SYSTEM_GENERATED = (.ok row, w2) :=
    db_get_sp_ok E w2 row.mop _ row ((fault_core hc2 _).trans hf2) ((sp_row_core hc2 _).trans hrow)
  have hg3 : db_get_sp E w2 row.mop .SP_ATTR_SP_TYPE = (.ok row, w2) :=
    db_get_sp_ok E w2 row.mop _ row ((fault_core hc2 _).trans hf3) ((sp_row_core hc2 _).trans hrow)
  have hsave : (AU_DISABLE w).1 = w.Au_disable := rfl
  unfold drop_stored_procedure
  simp only [hf, hg1, hg2, hg3, Au_user_core hc2, dba_core hc2, hsave]
  by_cases c1 : (!ws_is_same_object (some row.owner) w.Au_user
      && !au_is_dba_group_member w w.Au_user) = true
  · simp only [c1, ↓reduceIte]
    rfl
  · simp only [c1, ↓reduceIte, Bool.false_eq_true]
    by_cases c2 : row.is_system_generated = 1
    · simp only [c2, ↓reduceIte]
      rfl
    · simp only [c2, ↓reduceIte]
      by_cases c3 : row.sp_type = t
      · simp only [c3, ne_eq, not_true_eq_false, ↓reduceIte]
      · simp only [c3, ne_eq, not_false_eq_true, ↓reduceIte]
        rfl

/-- C16: on a record that is found (outside legacy admin load mode) and whose owner,
system-generated flag and kind are read, `drop_stored_procedure` applies three checks in this
order and stops at the first that fails: a current user who is neither the owner nor a
DBA-group member gives `ER_SP_DROP_NOT_ALLOWED_PRIVILEGES`; else `is_system_generated = 1`
gives `ER_SP_DROP_NOT_ALLOWED_SYSTEM_GENERATED` (for the owner and for a DBA alike); else a
kind other than the expected one gives `ER_SP_INVALID_TYPE`. In each case the catalog
(procedure, argument and code records, grants) and the trace of calls (no revocation) are as
they were. -/
theorem drop_stored_procedure_checks (E : ErrorCodes) (K : PlConsts) (w : World) (name : String)
    (t : SP_TYPE_ENUM) (row : SP_ROW)
    (hfind : w.cat.sp.find? (fun r => r.unique_name = jsp_check_stored_procedure_name w name)
      = some row)
    (hrow : sp_row w row.mop = some row)
    (hmode : w.client_type_loaddb_compat = false)
    (hf1 : w.fault (.db_get row.mop .SP_ATTR_OWNER) = NO_ERROR)
    (hf2 : w.fault (.db_get row.mop .SP_ATTR_IS_SYSTEM_GENERATED) = NO_ERROR)
    (hf3 : w.fault (.db_get row.mop .SP_ATTR_SP_TYPE) = NO_ERROR) :
    ((some row.owner ≠ w.Au_user ∧ au_is_dba_group_member w w.Au_user = false) →
      (drop_stored_procedure E K w name t).1 = E.ER_SP_DROP_NOT_ALLOWED_PRIVILEGES ∧
      (drop_stored_procedure E K w name t).2.cat = w.cat ∧
      (drop_stored_procedure E K w name t).2.trace = w.trace) ∧
    ((some row.owner = w.Au_user ∨ au_is_dba_group_member w w.Au_user = true) →
      row.is_system_generated = 1 →
      (drop_stored_procedure E K w name t).1 = E.ER_SP_DROP_NOT_ALLOWED_SYSTEM_GENERATED ∧
      (drop_stored_procedure E K w name t).2.cat = w.cat ∧
      (drop_stored_procedure E K w name t).2.trace = w.trace) ∧
    ((some row.owner = w.Au_user ∨ au_is_dba_group_member w w.Au_user = true) →
      row.is_system_generated ≠ 1 → row.sp_type ≠ t →
      (drop_stored_procedure E K w name t).1 = E.ER_SP_INVALID_TYPE ∧
      (drop_stored_procedure E K w name t).2.cat = w.cat ∧
      (drop_stored_procedure E K w name t).2.trace = w.trace) := by
  obtain ⟨w2, hc, h⟩ := drop_checks_eval E K w name t row hfind hrow hmode hf1 hf2 hf3
  have hcat : ∀ e s, (AU_ENABLE (er_set w2 e) s).cat = w.cat := fun _ _ => cat_core hc
  have htr : ∀ e s, (AU_ENABLE (er_set w2 e) s).trace = w.trace := fun _ _ => trace_core hc
  refine ⟨?_, ?_, ?_⟩
  · rintro ⟨ho, hd⟩
    have c1 : (!ws_is_same_object (some row.owner) w.Au_user
        && !au_is_dba_group_member w w.Au_user) = true := by
      simp [ws_is_same_object, ho, hd]
    rw [h, if_pos c1]
    exact ⟨rfl, hcat _ _, htr _ _⟩
  · intro ho hg
    have c1 : ¬ ((!ws_is_same_object (some row.owner) w.Au_user
        && !au_is_dba_group_member w w.Au_user) = true) := by
      rcases ho with ho | ho <;> simp [ws_is_same_object, ho]
    rw [h, if_neg c1, if_pos hg]
    exact ⟨rfl, hcat _ _, htr _ _⟩
  · intro ho hg ht
    have c1 : ¬ ((!ws_is_same_object (some row.owner) w.Au_user
        && !au_is_dba_group_member w w.Au_user) = true) := by
      rcases ho with ho | ho <;> simp [ws_is_same_object, ho]
    rw [h, if_neg c1, if_neg hg, if_pos ht]
    exact ⟨rfl, hcat _ _, htr _ _⟩

/-- Witness of C16: `u2`, who is neither owner nor DBA, drops the function `u1.f`. -/
theorem drop_stored_procedure_checks_witness :
    (drop_stored_procedure E0 K0 w1_u2 "u1.f" .SP_TYPE_FUNCTION).1
      = E0.ER_SP_DROP_NOT_ALLOWED_PRIVILEGES ∧
    (drop_stored_procedure E0 K0 w1_u2 "u1.f" .SP_TYPE_FUNCTION).2.cat = w1_u2.cat ∧
    (drop_stored_procedure E0 K0 w1_u2 "u1.f" .SP_TYPE_FUNCTION).2.trace = w1_u2.trace :=
  (drop_stored_procedure_checks E0 K0 w1_u2 "u1.f" .SP_TYPE_FUNCTION sp_f
    (by decide) (by decide) rfl rfl rfl rfl).1 ⟨by decide, by decide⟩

/-- C27: when the modification check passes and DDL is not blocked,
`jsp_alter_stored_procedure` fails with `ER_AU_DBA_ONLY` for every current user who is not a
DBA-group member, whatever the statement requests (owner change, comment, recompile) and
whoever owns the procedure; the catalog (records and grants), the savepoint and the trace of
calls are as they were, and the flag `Au_disable` is restored. -/
theorem jsp_alter_stored_procedure_dba_only (E : ErrorCodes) (K : PlConsts) (w : World)
    (st : PT_SP_STMT)
    (hmod : w.fault .CHECK_MODIFICATION_ERROR = NO_ERROR)
    (hddl : w.block_ddl_statement = false)
    (hdba : au_is_dba_group_member w w.Au_user = false) :
    (jsp_alter_stored_procedure E K w st).1 = E.ER_AU_DBA_ONLY ∧
    (jsp_alter_stored_procedure E K w st).2.cat = w.cat ∧
    (jsp_alter_stored_procedure E K w st).2.savepoint = w.savepoint ∧
    (jsp_alter_stored_procedure E K w st).2.trace = w.trace ∧
    (jsp_alter_stored_procedure E K w st).2.Au_disable = w.Au_disable := by
  have h1 : au_is_dba_group_member (AU_DISABLE w).2 (AU_DISABLE w).2.Au_user = false := hdba
  unfold jsp_alter_stored_procedure
  simp only [ext_call_ok w _ hmod, hddl, h1, ne_eq, not_true_eq_false, ↓reduceIte,
    Bool.false_eq_true, Bool.not_false]
  refine ⟨?_, ?_, ?_, ?_, ?_⟩ <;> trivial

/-- Witness of C27: `u1`, the owner of `u1.f` and not a DBA, alters its comment. -/
theorem jsp_alter_stored_procedure_dba_only_witness :
    (jsp_alter_stored_procedure E0 K0 w1 alter_f_comment).1 = E0.ER_AU_DBA_ONLY ∧
    (jsp_alter_stored_procedure E0 K0 w1 alter_f_comment).2.cat = w1.cat ∧
    (jsp_alter_stored_procedure E0 K0 w1 alter_f_comment).2.savepoint = w1.savepoint ∧
    (jsp_alter_stored_procedure E0 K0 w1 alter_f_comment).2.trace = w1.trace ∧
    (jsp_alter_stored_procedure E0 K0 w1 alter_f_comment).2.Au_disable = w1.Au_disable :=
  jsp_alter_stored_procedure_dba_only E0 K0 w1 alter_f_comment rfl rfl (by decide)

theorem only_deleted_refl (w : World) : only_deleted w w :=
  ⟨fun _ h => h, fun _ h => h, fun _ h => h, fun _ h => h, rfl, rfl, rfl, rfl, rfl⟩

theorem only_deleted_trans {a b c : World} (h1 : only_deleted a b) (h2 : only_deleted b c) :
    only_deleted a c :=
  ⟨fun r h => h1.1 r (h2.1 r h), fun r h => h1.2.1 r (h2.2.1 r h),
    fun r h => h1.2.2.1 r (h2.2.2.1 r h), fun r h => h1.2.2.2.1 r (h2.2.2.2.1 r h),
    h2.2.2.2.2.1.trans h1.2.2.2.2.1, h2.2.2.2.2.2.1.trans h1.2.2.2.2.2.1,
    h2.2.2.2.2.2.2.1.trans h1.2.2.2.2.2.2.1, h2.2.2.2.2.2.2.2.1.trans h1.2.2.2.2.2.2.2.1,
    h2.2.2.2.2.2.2.2.2.trans h1.2.2.2.2.2.2.2.2⟩

theorem only_deleted_of_core {w v : World} (h : v.core = w.core) : only_deleted w v := by
  have hc := cat_core h
  have h1 := congrArg (fun v => v.fault) h
  have h2 := congrArg (fun v => v.user_stack) h
  have h3 := congrArg (fun v => v.next_mop) h
  refine ⟨?_, ?_, ?_, ?_, ?_, savepoint_core h, h1, h2, h3⟩ <;> simp [hc]

theorem od_er_set (w0 w : World) (e : Int) :
    only_deleted w0 (er_set w e) ↔ only_deleted w0 w := Iff.rfl

theorem od_AU_ENABLE (w0 w : World) (s : Int) :
    only_deleted w0 (AU_ENABLE w s) ↔ only_deleted w0 w := Iff.rfl

theorem od_ext_call {w0 w v : World} {c : EXT_CALL} {e : Int} (heq : ext_call w c = (e, v))
    (h : only_deleted w0 w) : only_deleted w0 v := by
  have h1 := core_ext_call w c
  rw [heq] at h1
  exact only_deleted_trans h (only_deleted_of_core h1)

theorem od_db_get_sp {E : ErrorCodes} {w0 w v : World} {m : MOP} {a : SP_ATTR}
    {x : Except Int SP_ROW} (heq : db_get_sp E w m a = (x, v)) (h : only_deleted w0 w) :
    only_deleted w0 v := by
  have h1 := core_db_get_sp E w m a
  rw [heq] at h1
  exact only_deleted_trans h (only_deleted_of_core h1)

theorem core_db_get_sp_code (E : ErrorCodes) (w : World) (mop : MOP) (attr : SP_ATTR) :
    (db_get_sp_code E w mop attr).2.core = w.core := by
  unfold db_get_sp_code
  have h := core_ext_call w (.db_get mop attr)
  generalize ext_call w (.db_get mop attr) = q at h
  obtain ⟨e, v⟩ := q
  simp only at h ⊢
  split
  · exact h
  · split
    · exact h
    · exact (core_er_set _ _).trans h

theorem od_db_get_sp_code {E : ErrorCodes} {w0 w v : World} {m : MOP} {a : SP_ATTR}
    {x : Except Int SP_CODE_ROW} (heq : db_get_sp_code E w m a = (x, v))
    (h : only_deleted w0 w) : only_deleted w0 v := by
  have h1 := core_db_get_sp_code E w m a
  rw [heq] at h1
  exact only_deleted_trans h (only_deleted_of_core h1)

theorem od_find {E : ErrorCodes} {w0 w v : World} {n : String} {p : DB_AUTH} {x : Option MOP}
    (heq : jsp_find_stored_procedure E w n p = (x, v)) (h : only_deleted w0 w) :
    only_deleted w0 v := by
  have h1 := core_find E w n p
  rw [heq] at h1
  exact only_deleted_trans h (only_deleted_of_core h1)

theorem od_find_code {E : ErrorCodes} {w0 w v : World} {n : String} {x : Option MOP}
    (heq : jsp_find_stored_procedure_code E w n = (x, v)) (h : only_deleted w0 w) :
    only_deleted w0 v := by
  have h1 := core_find_code E w n
  rw [heq] at h1
  exact only_deleted_trans h (only_deleted_of_core h1)

theorem od_AU_DISABLE {w0 w v : World} {s : Int} (heq : AU_DISABLE w = (s, v))
    (h : only_deleted w0 w) : only_deleted w0 v := by
  have h1 := core_AU_DISABLE w
  rw [heq] at h1
  exact only_deleted_trans h (only_deleted_of_core h1)

theorem obj_delete_only_deleted (E : ErrorCodes) (w : World) (m : Option MOP) :
    only_deleted w (obj_delete E w m).2 := by
  cases m with
  | none => exact only_deleted_refl w
  | some m =>
    unfold obj_delete ext_call
    by_cases hf : w.fault (.obj_delete m) = NO_ERROR
    · simp only [hf, ne_eq, not_true_eq_false, ↓reduceIte]
      refine ⟨?_, ?_, ?_, fun _ h => h, rfl, rfl, rfl, rfl, rfl⟩
      · intro r hr
        exact (List.mem_filter.mp hr).1
      · intro r hr
        exact (List.mem_filter.mp hr).1
      · intro r hr
        exact (List.mem_filter.mp hr).1
    · simp only [hf, ne_eq, not_false_eq_true, ↓reduceIte]
      exact only_deleted_refl w

theorem od_obj_delete {E : ErrorCodes} {w0 w v : World} {m : Option MOP} {e : Int}
    (heq : obj_delete E w m = (e, v)) (h : only_deleted w0 w) : only_deleted w0 v := by
  have h1 := obj_delete_only_deleted E w m
  rw [heq] at h1
  exact only_deleted_trans h h1

theorem core_get_unique_name (E : ErrorCodes) (w : World) (m : MOP) (buf : String) (n : Nat) :
    (jsp_get_unique_name E w m buf n).2.2.core = w.core := by
  unfold jsp_get_unique_name AU_DISABLE
  have h := core_db_get_sp E { w with Au_disable := 1 } m .SP_ATTR_UNIQUE_NAME
  simp only
  generalize db_get_sp E { w with Au_disable := 1 } m .SP_ATTR_UNIQUE_NAME = q at h
  obtain ⟨x, v⟩ := q
  cases x <;> exact h

theorem core_get_owner (E : ErrorCodes) (w : World) (m : MOP) :
    (jsp_get_owner E w m).2.core = w.core := by
  unfold jsp_get_owner AU_DISABLE
  have h := core_db_get_sp E { w with Au_disable := 1 } m .SP_ATTR_OWNER
  simp only
  generalize db_get_sp E { w with Au_disable := 1 } m .SP_ATTR_OWNER = q at h
  obtain ⟨x, v⟩ := q
  cases x <;> exact h

theorem od_get_unique_name {E : ErrorCodes} {w0 w v : World} {m : MOP} {buf : String} {n : Nat}
    {b : Bool} {s : String} (heq : jsp_get_unique_name E w m buf n = (b, s, v))
    (h : only_deleted w0 w) : only_deleted w0 v := by
  have h1 := core_get_unique_name E w m buf n
  rw [heq] at h1
  exact only_deleted_trans h (only_deleted_of_core h1)

theorem od_get_owner {E : ErrorCodes} {w0 w v : World} {m : MOP} {x : Option MOP}
    (heq : jsp_get_owner E w m = (x, v)) (h : only_deleted w0 w) : only_deleted w0 v := by
  have h1 := core_get_owner E w m
  rw [heq] at h1
  exact only_deleted_trans h (only_deleted_of_core h1)

theorem AU_SET_USER_only_deleted (w : World) (u : Option MOP) :
    only_deleted w (AU_SET_USER w u).2 := by
  unfold AU_SET_USER ext_call
  by_cases hf : w.fault (.AU_SET_USER u) = NO_ERROR
  · simp only [hf, ne_eq, not_true_eq_false, ↓reduceIte]
    exact only_deleted_refl w
  · simp only [hf, ne_eq, not_false_eq_true, ↓reduceIte]
    exact only_deleted_refl w

theorem od_AU_SET_USER {w0 w v : World} {u : Option MOP} {e : Int}
    (heq : AU_SET_USER w u = (e, v)) (h : only_deleted w0 w) : only_deleted w0 v := by
  have h1 := AU_SET_USER_only_deleted w u
  rw [heq] at h1
  exact only_deleted_trans h h1

theorem revoke_only_deleted (w : World) (o : MOP) (n : String) :
    only_deleted w (au_object_revoke_all_privileges w o n).2 := by
  unfold au_object_revoke_all_privileges ext_call
  by_cases hf : w.fault (.au_object_revoke_all_privileges n) = NO_ERROR
  · simp only [hf, ne_eq, not_true_eq_false, ↓reduceIte]
    refine ⟨fun _ h => h, fun _ h => h, fun _ h => h, ?_, rfl, rfl, rfl, rfl, rfl⟩
    intro a ha
    exact (List.mem_filter.mp ha).1
  · simp only [hf, ne_eq, not_false_eq_true, ↓reduceIte]
    exact only_deleted_refl w

theorem od_revoke {w0 w v : World} {o : MOP} {n : String} {e : Int}
    (heq : au_object_revoke_all_privileges w o n = (e, v)) (h : only_deleted w0 w) :
    only_deleted w0 v := by
  have h1 := revoke_only_deleted w o n
  rw [heq] at h1
  exact only_deleted_trans h h1

theorem delete_auth_only_deleted (w : World) (n : String) :
    only_deleted w (au_delete_auth_of_dropping_database_object w n).2 := by
  unfold au_delete_auth_of_dropping_database_object ext_call
  by_cases hf : w.fault (.au_delete_auth_of_dropping_database_object n) = NO_ERROR
  · simp only [hf, ne_eq, not_true_eq_false, ↓reduceIte]
    refine ⟨fun _ h => h, fun _ h => h, fun _ h => h, ?_, rfl, rfl, rfl, rfl, rfl⟩
    intro a ha
    exact (List.mem_filter.mp ha).1
  · simp only [hf, ne_eq, not_false_eq_true, ↓reduceIte]
    exact only_deleted_refl w

theorem od_delete_auth {w0 w v : World} {n : String} {e : Int}
    (heq : au_delete_auth_of_dropping_database_object w n = (e, v)) (h : only_deleted w0 w) :
    only_deleted w0 v := by
  have h1 := delete_auth_only_deleted w n
  rw [heq] at h1
  exact only_deleted_trans h h1

theorem od2_obj_delete {w0 : World} (E : ErrorCodes) (w : World) (m : Option MOP)
    (h : only_deleted w0 w) : only_deleted w0 (obj_delete E w m).2 :=
  only_deleted_trans h (obj_delete_only_deleted E w m)

theorem od2_AU_SET_USER {w0 : World} (w : World) (u : Option MOP)
    (h : only_deleted w0 w) : only_deleted w0 (AU_SET_USER w u).2 :=
  only_deleted_trans h (AU_SET_USER_only_deleted w u)

theorem od2_revoke {w0 : World} (w : World) (o : MOP) (n : String)
    (h : only_deleted w0 w) : only_deleted w0 (au_object_revoke_all_privileges w o n).2 :=
  only_deleted_trans h (revoke_only_deleted w o n)

theorem od2_delete_auth {w0 : World} (w : World) (n : String)
    (h : only_deleted w0 w) :
    only_deleted w0 (au_delete_auth_of_dropping_database_object w n).2 :=
  only_deleted_trans h (delete_auth_only_deleted w n)

theorem od2_get_unique_name {w0 : World} (E : ErrorCodes) (w : World) (m : MOP) (buf : String)
    (n : Nat) (h : only_deleted w0 w) :
    only_deleted w0 (jsp_get_unique_name E w m buf n).2.2 :=
  only_deleted_trans h (only_deleted_of_core (core_get_unique_name E w m buf n))

theorem od2_AU_DISABLE (w0 w : World) :
    only_deleted w0 (AU_DISABLE w).2 ↔ only_deleted w0 w := Iff.rfl

theorem drop_stored_procedure_code_only_deleted (E : ErrorCodes) (w : World) (name : String) :
    only_deleted w (drop_stored_procedure_code E w name).2 := by
  have h0 := only_deleted_refl w
  unfold drop_stored_procedure_code
  repeat' split
  all_goals
    repeat (first
      | exact h0
      | simp only [od_AU_ENABLE, od_er_set, od2_AU_DISABLE]
      | refine od2_obj_delete _ _ _ ?_
      | refine od2_AU_SET_USER _ _ ?_
      | refine od2_revoke _ _ _ ?_
      | refine od2_delete_auth _ _ ?_
      | refine od2_get_unique_name _ _ _ _ _ ?_
      | refine od2_drop_args_loop _ _ _ _ _ ?_
      | refine od2_drop_code _ _ _ ?_
      | refine od_obj_delete (by assumption) ?_
      | refine od_db_get_sp_code (by assumption) ?_
      | refine od_find_code (by assumption) ?_
      | refine od_AU_DISABLE (by assumption) ?_
      | split_ifs
      | dsimp only)

theorem od_drop_code {E : ErrorCodes} {w0 w v : World} {n : String} {e : Int}
    (heq : drop_stored_procedure_code E w n = (e, v)) (h : only_deleted w0 w) :
    only_deleted w0 v := by
  have h1 := drop_stored_procedure_code_only_deleted E w n
  rw [heq] at h1
  exact only_deleted_trans h h1

theorem drop_args_loop_only_deleted (E : ErrorCodes) (l : List MOP) :
    ∀ (left i : Nat) (w : World), only_deleted w (drop_args_loop E l left i w).2 := by
  intro left
  induction left with
  | zero =>
    intro i w
    exact only_deleted_refl w
  | succ n ih =>
    intro i w
    unfold drop_args_loop
    dsimp only
    split_ifs
    · exact obj_delete_only_deleted E w _
    · exact only_deleted_trans (obj_delete_only_deleted E w _) (ih _ _)

theorem od2_drop_args_loop {w0 : World} (E : ErrorCodes) (l : List MOP) (left i : Nat)
    (w : World) (h : only_deleted w0 w) : only_deleted w0 (drop_args_loop E l left i w).2 :=
  only_deleted_trans h (drop_args_loop_only_deleted E l left i w)

theorem od2_drop_code {w0 : World} (E : ErrorCodes) (w : World) (n : String)
    (h : only_deleted w0 w) : only_deleted w0 (drop_stored_procedure_code E w n).2 :=
  only_deleted_trans h (drop_stored_procedure_code_only_deleted E w n)

theorem od_drop_args_loop {E : ErrorCodes} {w0 w v : World} {l : List MOP} {left i : Nat}
    {e : Int} (heq : drop_args_loop E l left i w = (e, v)) (h : only_deleted w0 w) :
    only_deleted w0 v := by
  have h1 := drop_args_loop_only_deleted E l left i w
  rw [heq] at h1
  exact only_deleted_trans h h1

theorem drop_procedure_record_only_deleted (E : ErrorCodes) (w : World) (name : String)
    (m : MOP) (su : Option MOP) (save : Int) :
    only_deleted w (drop_procedure_record E w name m su save).2 := by
  have h0 := only_deleted_refl w
  unfold drop_procedure_record
  repeat' split
  all_goals
    repeat (first
      | exact h0
      | simp only [od_AU_ENABLE, od_er_set, od2_AU_DISABLE]
      | refine od2_obj_delete _ _ _ ?_
      | refine od2_AU_SET_USER _ _ ?_
      | refine od2_revoke _ _ _ ?_
      | refine od2_delete_auth _ _ ?_
      | refine od2_get_unique_name _ _ _ _ _ ?_
      | refine od2_drop_args_loop _ _ _ _ _ ?_
      | refine od2_drop_code _ _ _ ?_
      | refine od_obj_delete (by assumption) ?_
      | refine od_delete_auth (by assumption) ?_
      | refine od_AU_SET_USER (by assumption) ?_
      | split_ifs
      | dsimp only)

theorem od_drop_procedure_record {E : ErrorCodes} {w0 w v : World} {n : String} {m : MOP}
    {su : Option MOP} {save e : Int}
    (heq : drop_procedure_record E w n m su save = (e, v)) (h : only_deleted w0 w) :
    only_deleted w0 v := by
  have h1 := drop_procedure_record_only_deleted E w n m su save
  rw [heq] at h1
  exact only_deleted_trans h h1

theorem drop_revoke_and_record_only_deleted (E : ErrorCodes) (w : World)
    (name : String) (m o : MOP) (u : String) (save : Int) :
    only_deleted w (drop_revoke_and_record E w name m o u save).2 := by
  have h0 := only_deleted_refl w
  unfold drop_revoke_and_record
  repeat' split
  all_goals
    repeat (first
      | exact h0
      | simp only [od_AU_ENABLE, od_er_set, od2_AU_DISABLE]
      | refine only_deleted_trans ?_ (drop_procedure_record_only_deleted _ _ _ _ _ _)
      | refine od_AU_SET_USER (by assumption) ?_
      | refine od_revoke (by assumption) ?_
      | refine od2_AU_SET_USER _ _ ?_
      | refine od2_revoke _ _ _ ?_
      | split_ifs
      | dsimp only)

theorem drop_args_and_record_only_deleted (E : ErrorCodes) (K : PlConsts) (w : World)
    (name : String) (m o : MOP) (save : Int) :
    only_deleted w (drop_args_and_record E K w name m o save).2 := by
  have h0 := only_deleted_refl w
  unfold drop_args_and_record
  repeat' split
  all_goals
    repeat (first
      | exact h0
      | simp only [od_AU_ENABLE, od_er_set, od2_AU_DISABLE]
      | refine only_deleted_trans ?_ (drop_revoke_and_record_only_deleted _ _ _ _ _ _ _)
      | refine od_get_unique_name (by assumption) ?_
      | refine od_drop_args_loop (by assumption) ?_
      | refine od_db_get_sp (by assumption) ?_
      | refine od2_get_unique_name _ _ _ _ _ ?_
      | refine od2_drop_args_loop _ _ _ _ _ ?_
      | split_ifs
      | dsimp only)

theorem drop_code_args_and_record_only_deleted (E : ErrorCodes) (K : PlConsts) (w : World)
    (name : String) (m o : MOP) (save : Int) :
    only_deleted w (drop_code_args_and_record E K w name m o save).2 := by
  have h0 := only_deleted_refl w
  unfold drop_code_args_and_record
  repeat' split
  all_goals
    repeat (first
      | exact h0
      | simp only [od_AU_ENABLE, od_er_set, od2_AU_DISABLE]
      | refine od2_obj_delete _ _ _ ?_
      | refine od2_AU_SET_USER _ _ ?_
      | refine od2_revoke _ _ _ ?_
      | refine od2_delete_auth _ _ ?_
      | refine od2_get_unique_name _ _ _ _ _ ?_
      | refine od2_drop_args_loop _ _ _ _ _ ?_
      | refine od2_drop_code _ _ _ ?_
      | refine only_deleted_trans ?_ (drop_args_and_record_only_deleted _ _ _ _ _ _ _)
      | refine od_drop_code (by assumption) ?_
      | refine od_db_get_sp (by assumption) ?_
      | split_ifs
      | dsimp only)

theorem drop_stored_procedure_only_deleted (E : ErrorCodes) (K : PlConsts) (w : World)
    (name : String) (t : SP_TYPE_ENUM) :
    only_deleted w (drop_stored_procedure E K w name t).2 := by
  have h0 := only_deleted_refl w
  unfold drop_stored_procedure
  repeat' split
  all_goals
    repeat (first
      | exact h0
      | simp only [od_AU_ENABLE, od_er_set, od2_AU_DISABLE]
      | refine od2_obj_delete _ _ _ ?_
      | refine od2_AU_SET_USER _ _ ?_
      | refine od2_revoke _ _ _ ?_
      | refine od2_delete_auth _ _ ?_
      | refine od2_get_unique_name _ _ _ _ _ ?_
      | refine od2_drop_args_loop _ _ _ _ _ ?_
      | refine od2_drop_code _ _ _ ?_
      | refine only_deleted_trans ?_ (drop_code_args_and_record_only_deleted _ _ _ _ _ _ _)
      | refine od_db_get_sp (by assumption) ?_
      | refine od_find (by assumption) ?_
      | refine od_AU_DISABLE (by assumption) ?_
      | split_ifs
      | dsimp only)

/-- C25 (amended): with the flag array of `MAX_CALL_COUNT` entries, for distinct depths
`d` and `d'` below `MAX_CALL_COUNT`, `jsp_set_prepare_call` and `jsp_unset_prepare_call` at
depth `d` access the array within its bounds, make `jsp_is_prepare_call` at depth `d` return
true and false, and leave what `jsp_is_prepare_call` returns at depth `d'` as it was (an
access within the bounds too). -/
theorem jsp_prepare_call_per_depth (w : World) (d d' : Nat)
    (hlen : w.is_prepare_call.length = MAX_CALL_COUNT)
    (hd : d < MAX_CALL_COUNT) (hd' : d' < MAX_CALL_COUNT) (hne : d ≠ d') :
    ∃ ws wu, jsp_set_prepare_call { w with libcas_depth := d } = some ws ∧
      jsp_unset_prepare_call { w with libcas_depth := d } = some wu ∧
      jsp_is_prepare_call ws = some true ∧ jsp_is_prepare_call wu = some false ∧
      jsp_is_prepare_call { ws with libcas_depth := d' }
        = jsp_is_prepare_call { w with libcas_depth := d' } ∧
      jsp_is_prepare_call { wu with libcas_depth := d' }
        = jsp_is_prepare_call { w with libcas_depth := d' } ∧
      ∃ b, jsp_is_prepare_call { w with libcas_depth := d' } = some b := by
  have h1 : d < w.is_prepare_call.length := by omega
  have h2 : d' < w.is_prepare_call.length := by omega
  refine ⟨{ w with libcas_depth := d, is_prepare_call := w.is_prepare_call.set d true },
    { w with libcas_depth := d, is_prepare_call := w.is_prepare_call.set d false },
    ?_, ?_, ?_, ?_, ?_, ?_, ?_⟩
  · simp [jsp_set_prepare_call, h1]
  · simp [jsp_unset_prepare_call, h1]
  · simp [jsp_is_prepare_call, h1]
  · simp [jsp_is_prepare_call, h1]
  · simp [jsp_is_prepare_call, List.getElem?_set, hne]
  · simp [jsp_is_prepare_call, List.getElem?_set, hne]
  · exact ⟨w.is_prepare_call[d'], by simp [jsp_is_prepare_call, h2]⟩

/-- Witness of C25 (amended): depths 0 and 1 in the sample state. -/
theorem jsp_prepare_call_per_depth_witness :
    ∃ ws wu, jsp_set_prepare_call { w0 with libcas_depth := 0 } = some ws ∧
      jsp_unset_prepare_call { w0 with libcas_depth := 0 } = some wu ∧
      jsp_is_prepare_call ws = some true ∧ jsp_is_prepare_call wu = some false ∧
      jsp_is_prepare_call { ws with libcas_depth := 1 }
        = jsp_is_prepare_call { w0 with libcas_depth := 1 } ∧
      jsp_is_prepare_call { wu with libcas_depth := 1 }
        = jsp_is_prepare_call { w0 with libcas_depth := 1 } ∧
      ∃ b, jsp_is_prepare_call { w0 with libcas_depth := 1 } = some b :=
  jsp_prepare_call_per_depth w0 0 1 (by decide) (by decide) (by decide) (by decide)

/-- C25 as stated fails at the depth `MAX_CALL_COUNT` (16), the upper end of the range
`0..MAX_CALL_COUNT`: the array has the entries 0 to 15, and the three functions index it
with the depth without test, outside its bounds. -/
theorem jsp_prepare_call_depth_16_out_of_bounds :
    w0.is_prepare_call.length = MAX_CALL_COUNT ∧
    jsp_set_prepare_call { w0 with libcas_depth := MAX_CALL_COUNT } = none ∧
    jsp_unset_prepare_call { w0 with libcas_depth := MAX_CALL_COUNT } = none ∧
    jsp_is_prepare_call { w0 with libcas_depth := MAX_CALL_COUNT } = none :=
  ⟨rfl, rfl, rfl, rfl⟩

/-- C30 fails on the code: on the path of a method call and on the path of a failed lookup
`AU_ENABLE (save)` runs although `save` was never assigned, so the flag `Au_disable` becomes
the indeterminate content of `save` (7 here) and not its value at entry (0). -/
theorem jsp_make_pl_signature_save_never_saved :
    w0.Au_disable = 0 ∧
    (∃ w2 sig2, jsp_make_pl_signature E0 K0 w0 { call0 with is_method := true } sig0 7 ""
        = some (NO_ERROR, w2, sig2) ∧ w2.Au_disable = 7) ∧
    (∃ w2 sig2, jsp_make_pl_signature E0 K0 w0 call0 sig0 7 ""
        = some (E0.ER_SP_NOT_EXIST, w2, sig2) ∧ w2.Au_disable = 7) :=
  ⟨rfl, ⟨_, _, rfl, rfl⟩, ⟨_, _, rfl, rfl⟩⟩

/-- C22: when the signature is built and the arguments are evaluated without error and the
signal-interrupt flag is then non-zero, `jsp_call_stored_procedure` does not invoke `pl_call`
(no event is added to the trace) and leaves the argument slots as evaluated; it attaches a
NULL value to the call node and returns `NO_ERROR` when there is no INTO label; with an INTO
label it binds a NULL value to the label and returns what the binding returns, `NO_ERROR`
when the binding does not fail. -/
theorem jsp_call_stored_procedure_interrupted (E : ErrorCodes) (K : PlConsts) (C : CALL_ENV)
    (w : World) (st : PT_METHOD_CALL) (sig : PL_SIGNATURE) (save0 : Int) (buf0 : String)
    (w1 w2 : World) (sig1 : PL_SIGNATURE) (st1 : PT_METHOD_CALL) (args : List DB_VALUE)
    (hname : st.has_method_name = true)
    (hsig : jsp_make_pl_signature E K w st sig save0 buf0 = some (NO_ERROR, w1, sig1))
    (hev : C.evaluate w1 sig1 st = (NO_ERROR, w2, st1, args))
    (hint : w2.sig_interrupt ≠ 0) :
    (st1.to_return_var = none →
      jsp_call_stored_procedure E K C w st sig save0 buf0 =
        some (NO_ERROR, w2, { args := args, etc := some .null, label := none })) ∧
    (∀ l, st1.to_return_var = some l →
      jsp_call_stored_procedure E K C w st sig save0 buf0 =
        some ((ext_call w2 (.pt_associate_label_with_value_check_reference l)).1,
          (ext_call w2 (.pt_associate_label_with_value_check_reference l)).2,
          { args := args, etc := some .null, label := some (l, .null) }) ∧
      (ext_call w2 (.pt_associate_label_with_value_check_reference l)).2.trace = w2.trace ∧
      (w2.fault (.pt_associate_label_with_value_check_reference l) = NO_ERROR →
        (ext_call w2 (.pt_associate_label_with_value_check_reference l)).1 = NO_ERROR)) := by
  constructor
  · intro hl
    simp [jsp_call_stored_procedure, hname, hsig, hev, hint, hl]
  · intro l hl
    refine ⟨?_, ?_, ?_⟩
    · simp [jsp_call_stored_procedure, hname, hsig, hev, hint, hl]
    · exact trace_core (core_ext_call _ _)
    · intro hf
      rw [ext_call_ok _ _ hf]

/-- Witness of C22: `u1` calls its function `u1.f` while the interrupt flag is set. -/
theorem jsp_call_stored_procedure_interrupted_witness :
    jsp_call_stored_procedure E0 K0
        { evaluate := fun w _ st => (0, { w with sig_interrupt := 1 }, st, []),
          pl_call := fun w _ _ => (0, w, [], .int 5) }
        w1 { call0 with method_name := "u1.f" } sig0 0 "" =
      some (NO_ERROR, { w1 with sig_interrupt := 1 },
        { args := [], etc := some .null, label := none }) := by
  obtain ⟨w2, sig2, h⟩ : ∃ w2 sig2, jsp_make_pl_signature E0 K0 w1
      { call0 with method_name := "u1.f" } sig0 0 "" = some (NO_ERROR, w2, sig2) :=
    ⟨_, _, rfl⟩
  have hw : w2 = w1 := by
    have := congrArg (fun r => r.map (fun x => x.2.1)) h
    simp only [Option.map_some'] at this
    exact (Option.some.inj this).symm.trans rfl
  subst hw
  exact (jsp_call_stored_procedure_interrupted E0 K0
    { evaluate := fun w _ st => (0, { w with sig_interrupt := 1 }, st, []),
      pl_call := fun w _ _ => (0, w, [], .int 5) }
    w1 { call0 with method_name := "u1.f" } sig0 0 "" _ _ _ _ _ rfl h rfl (by decide)).1 rfl

/-- C24 (amended): with `T = P - A`, whenever `jsp_make_pl_args` returns `NO_ERROR` for `P`
parameters and `A` supplied arguments, the default size of parameter `i < P` is
`PL_ARG_DEFAULT_NONE` exactly when `i < P - T` (that is `i < A`), and a parameter at a
position `i ≥ P - T` is optional and carries a default size other than NONE. -/
theorem jsp_make_pl_args_required_threshold (E : ErrorCodes) (K : PlConsts) (w : World)
    (node : PT_METHOD_CALL) (P : Int) (ps : Nat → ArgRead) (sig : PL_SIGNATURE)
    (w1 : World) (sig1 : PL_SIGNATURE)
    (hneg : E.ER_SP_INVALID_PARAM_COUNT < 0)
    (hnone : K.PL_ARG_DEFAULT_NONE < 0) (hnull : K.PL_ARG_DEFAULT_NULL ≠ K.PL_ARG_DEFAULT_NONE)
    (hs : ∀ j, (ps j).sound)
    (h : jsp_make_pl_args E K w node P ps sig = some (NO_ERROR, w1, sig1)) :
    ∀ i : Nat, (i : Int) < P →
      (sig1.arg.arg_default_value_size i = K.PL_ARG_DEFAULT_NONE ↔
        (i : Int) < P - (P - (node.arg_list.length : Int))) ∧
      ((i : Int) ≥ P - (P - (node.arg_list.length : Int)) →
        ∃ e, ps i = .entry e ∧ e.is_optional = 1) := by
  have hA : (node.arg_list.length : Int) ≤ P := by
    by_contra hc
    rw [make_args_overflow E K w node P ps sig hneg (by omega)] at h
    simp only [Option.some.injEq, Prod.mk.injEq, NO_ERROR] at h
    omega
  rw [make_args_no_overflow E K w node P ps sig hA] at h
  obtain ⟨-, -, hfill⟩ :=
    loop_ok E K node P (P - node.arg_list.length) ps (by omega) hs P.toNat 0 w _ w1 sig1 h
  intro i hi
  obtain ⟨e, he, -, hf⟩ := hfill i (Nat.zero_le i) (by omega)
  constructor
  · constructor
    · intro hsz
      by_contra hc
      obtain ⟨-, hn, hv⟩ := hf.2.2.2 (by omega)
      cases hd : e.default_value with
      | none =>
        rw [(hn hd).1] at hsz
        exact hnull hsz
      | some v =>
        rw [(hv v hd).1] at hsz
        have : (0 : Int) ≤ db_get_string_size v := by
          unfold db_get_string_size
          exact Int.natCast_nonneg _
        omega
    · intro hlt
      exact (hf.2.2.1 hlt).1
  · intro hge
    exact ⟨e, he, (hf.2.2.2 hge).1⟩

/-- Witness of C24 (amended): `(a INT, b INT DEFAULT 1, c INT DEFAULT 2)` called with `(10)`:
position 0 is at NONE and 0 < P - T = 1. -/
theorem jsp_make_pl_args_required_threshold_witness :
    ∃ w1 sig1, jsp_make_pl_args E0 K0 w0 call1 3 ps3 sig0 = some (NO_ERROR, w1, sig1) ∧
      (sig1.arg.arg_default_value_size 0 = K0.PL_ARG_DEFAULT_NONE ↔
        ((0 : Nat) : Int) < 3 - (3 - (call1.arg_list.length : Int))) := by
  refine ⟨_, _, rfl, ?_⟩
  exact (jsp_make_pl_args_required_threshold E0 K0 w0 call1 3 ps3 sig0 _ _ (by decide)
    (by decide) (by decide) (fun j => trivial) rfl 0 (by decide)).1

/-- C24 as stated fails: `(a INT, b INT DEFAULT 1, c INT DEFAULT 2)` called with `(10)` has
`P = 3`, `A = 1`, `T = 2`, so `A - T = -1` and every position is `≥ A - T`; yet the call
returns `NO_ERROR` with the default size of position 0 at NONE: the threshold of the code is
`P - T = A = 1`. -/
theorem jsp_make_pl_args_threshold_not_a_minus_t :
    ∃ w1 sig1, jsp_make_pl_args E0 K0 w0 call1 3 ps3 sig0 = some (NO_ERROR, w1, sig1) ∧
      sig1.arg.arg_default_value_size 0 = K0.PL_ARG_DEFAULT_NONE ∧
      ¬ (((0 : Nat) : Int) < (call1.arg_list.length : Int) - (3 - (call1.arg_list.length : Int)))
      := by
  refine ⟨_, _, rfl, rfl, by decide⟩

/-- C18 fails on the code: `dba` runs `ALTER FUNCTION U1.F OWNER TO u2` on the function stored
as `u1.f`. The statement succeeds and the stored unique name becomes `u2.F`: the owner part
is lower-cased, the base name is taken from the statement as written. A lookup by `u2.f`
then finds no record. -/
theorem jsp_alter_stored_procedure_base_name_case :
    (jsp_alter_stored_procedure E0 K0 w2_dba alter_F_owner).1 = NO_ERROR ∧
    (jsp_alter_stored_procedure E0 K0 w2_dba alter_F_owner).2.cat.sp.map
      (fun r => (r.mop, r.unique_name, r.owner)) = [(50, "u2.F", 4), (60, "u1.p", 3)] ∧
    (jsp_find_stored_procedure E0
      (jsp_alter_stored_procedure E0 K0 w2_dba alter_F_owner).2 "u2.f" .DB_AUTH_SELECT).1
      = none := by
  refine ⟨by decide, by decide, by decide⟩

/-- C19 fails with RECOMPILE: `dba` runs `ALTER PROCEDURE u1.p OWNER TO u2 RECOMPILE`. The
compile request carries the owner name `u1`, the qualifier of the name as written, the
compiler runs under the identity of `u1` (3), and the code record is handed to the catalog
without owner, so that its owner stays `u1`, while the procedure record is owned by `u2`. -/
theorem alter_recompile_keeps_code_owner :
    (jsp_alter_stored_procedure E0 K0 w2_dba alter_p_owner_recompile).1 = NO_ERROR ∧
    (jsp_alter_stored_procedure E0 K0 w2_dba alter_p_owner_recompile).2.trace =
      [ .revoke_all 3 "u1.p" (some 3),
        .compile { code := code_p.scode, owner := "u1" } (some 3),
        .sp_edit_code 61
          { name := "Cls", created_time := "", stype := .SP_LANG_PLCSQL, scode := "",
            otype := 0, ocode := "bin", owner := none } ] ∧
    (jsp_alter_stored_procedure E0 K0 w2_dba alter_p_owner_recompile).2.cat.sp_code.map
      (fun c => c.owner) = [some 3] ∧
    (jsp_alter_stored_procedure E0 K0 w2_dba alter_p_owner_recompile).2.cat.sp.map
      (fun r => (r.mop, r.owner)) = [(50, 3), (60, 4)] := by
  refine ⟨by decide, by decide, by decide, by decide⟩

theorem same_identity_refl (w : World) : same_identity w w := ⟨rfl, rfl, rfl, rfl⟩

theorem same_identity_trans {a b c : World} (h1 : same_identity a b) (h2 : same_identity b c) :
    same_identity a c :=
  ⟨h2.1.trans h1.1, h2.2.1.trans h1.2.1, h2.2.2.1.trans h1.2.2.1, h2.2.2.2.trans h1.2.2.2⟩

theorem same_identity_of_core {w v : World} (h : v.core = w.core) : same_identity w v := by
  have h1 := congrArg (fun v => v.fault) h
  have h2 := congrArg (fun v => v.user_stack) h
  have h3 := congrArg (fun v => v.name_buffer) h
  exact ⟨Au_user_core h, h2, h1, h3⟩

theorem si_of_eq {α : Type} {w0 v : World} {f : α × World} {x : α} (heq : f = (x, v))
    (h : same_identity w0 f.2) : same_identity w0 v := by
  subst heq
  exact h

theorem si_of_eq3 {α β : Type} {w0 v : World} {f : α × β × World} {x : α} {y : β}
    (heq : f = (x, y, v)) (h : same_identity w0 f.2.2) : same_identity w0 v := by
  subst heq
  exact h

theorem si_er_set (w0 w : World) (e : Int) :
    same_identity w0 (er_set w e) ↔ same_identity w0 w := Iff.rfl

theorem si_er_clear (w0 w : World) :
    same_identity w0 (er_clear w) ↔ same_identity w0 w := Iff.rfl

theorem si_AU_ENABLE (w0 w : World) (s : Int) :
    same_identity w0 (AU_ENABLE w s) ↔ same_identity w0 w := Iff.rfl

theorem si_AU_DISABLE (w0 w : World) :
    same_identity w0 (AU_DISABLE w).2 ↔ same_identity w0 w := Iff.rfl

theorem si_pt_record_error (w0 w : World) (m : PT_ERROR_MSG) :
    same_identity w0 (pt_record_error w m) ↔ same_identity w0 w := Iff.rfl

theorem si_sp_update (w0 w : World) (m : MOP) (f : SP_ROW → SP_ROW) :
    same_identity w0 (sp_update w m f) ↔ same_identity w0 w := Iff.rfl

theorem si_abort (w0 w : World) :
    same_identity w0 (tran_abort_upto_system_savepoint w) ↔ same_identity w0 w := Iff.rfl

theorem si_ext_call {w0 : World} (w : World) (c : EXT_CALL) (h : same_identity w0 w) :
    same_identity w0 (ext_call w c).2 :=
  same_identity_trans h (same_identity_of_core (core_ext_call w c))

theorem si_db_get_sp {w0 : World} (E : ErrorCodes) (w : World) (m : MOP) (a : SP_ATTR)
    (h : same_identity w0 w) : same_identity w0 (db_get_sp E w m a).2 :=
  same_identity_trans h (same_identity_of_core (core_db_get_sp E w m a))

theorem si_db_get_sp_code {w0 : World} (E : ErrorCodes) (w : World) (m : MOP) (a : SP_ATTR)
    (h : same_identity w0 w) : same_identity w0 (db_get_sp_code E w m a).2 :=
  same_identity_trans h (same_identity_of_core (core_db_get_sp_code E w m a))

theorem si_find {w0 : World} (E : ErrorCodes) (w : World) (n : String) (p : DB_AUTH)
    (h : same_identity w0 w) : same_identity w0 (jsp_find_stored_procedure E w n p).2 :=
  same_identity_trans h (same_identity_of_core (core_find E w n p))

theorem si_find_code {w0 : World} (E : ErrorCodes) (w : World) (n : String)
    (h : same_identity w0 w) : same_identity w0 (jsp_find_stored_procedure_code E w n).2 :=
  same_identity_trans h (same_identity_of_core (core_find_code E w n))

theorem si_is_exist {w0 : World} (E : ErrorCodes) (w : World) (n : String)
    (h : same_identity w0 w) : same_identity w0 (jsp_is_exist_stored_procedure E w n).2 :=
  same_identity_trans h (same_identity_of_core (core_find E w n .DB_AUTH_NONE))

theorem si_get_unique_name {w0 : World} (E : ErrorCodes) (w : World) (m : MOP) (b : String)
    (n : Nat) (h : same_identity w0 w) :
    same_identity w0 (jsp_get_unique_name E w m b n).2.2 :=
  same_identity_trans h (same_identity_of_core (core_get_unique_name E w m b n))

theorem si_get_owner {w0 : World} (E : ErrorCodes) (w : World) (m : MOP)
    (h : same_identity w0 w) : same_identity w0 (jsp_get_owner E w m).2 :=
  same_identity_trans h (same_identity_of_core (core_get_owner E w m))

theorem si_obj_delete {w0 : World} (E : ErrorCodes) (w : World) (m : Option MOP)
    (h : same_identity w0 w) : same_identity w0 (obj_delete E w m).2 := by
  refine same_identity_trans h ?_
  cases m with
  | none => exact same_identity_refl w
  | some m =>
    unfold obj_delete ext_call
    by_cases hf : w.fault (.obj_delete m) = NO_ERROR
    · simp only [hf, ne_eq, not_true_eq_false, ↓reduceIte]
      exact same_identity_refl w
    · simp only [hf, ne_eq, not_false_eq_true, ↓reduceIte]
      exact same_identity_refl w

theorem si_obj_set {w0 : World} (w : World) (m : MOP) (a : SP_ATTR) (f : SP_ROW → SP_ROW)
    (h : same_identity w0 w) : same_identity w0 (obj_set w m a f).2 := by
  refine same_identity_trans h ?_
  unfold obj_set ext_call
  by_cases hf : w.fault (.obj_set m a) = NO_ERROR
  · simp only [hf, ne_eq, not_true_eq_false, ↓reduceIte]
    exact same_identity_refl w
  · simp only [hf, ne_eq, not_false_eq_true, ↓reduceIte]
    exact same_identity_refl w

theorem si_revoke {w0 : World} (w : World) (o : MOP) (n : String)
    (h : same_identity w0 w) : same_identity w0 (au_object_revoke_all_privileges w o n).2 := by
  refine same_identity_trans h ?_
  unfold au_object_revoke_all_privileges ext_call
  by_cases hf : w.fault (.au_object_revoke_all_privileges n) = NO_ERROR
  · simp only [hf, ne_eq, not_true_eq_false, ↓reduceIte]
    exact same_identity_refl w
  · simp only [hf, ne_eq, not_false_eq_true, ↓reduceIte]
    exact same_identity_refl w

theorem si_delete_auth {w0 : World} (w : World) (n : String) (h : same_identity w0 w) :
    same_identity w0 (au_delete_auth_of_dropping_database_object w n).2 := by
  refine same_identity_trans h ?_
  unfold au_delete_auth_of_dropping_database_object ext_call
  by_cases hf : w.fault (.au_delete_auth_of_dropping_database_object n) = NO_ERROR
  · simp only [hf, ne_eq, not_true_eq_false, ↓reduceIte]
    exact same_identity_refl w
  · simp only [hf, ne_eq, not_false_eq_true, ↓reduceIte]
    exact same_identity_refl w

theorem si_savepoint {w0 : World} (w : World) (h : same_identity w0 w) :
    same_identity w0 (tran_system_savepoint w).2 := by
  refine same_identity_trans h ?_
  unfold tran_system_savepoint ext_call
  by_cases hf : w.fault .tran_system_savepoint = NO_ERROR
  · simp only [hf, ne_eq, not_true_eq_false, ↓reduceIte]
    exact same_identity_refl w
  · simp only [hf, ne_eq, not_false_eq_true, ↓reduceIte]
    exact same_identity_refl w

theorem si_sp_add {w0 : World} (w : World) (i : SP_INFO) (h : same_identity w0 w) :
    same_identity w0 (sp_add_stored_procedure w i).2 := by
  refine same_identity_trans h ?_
  unfold sp_add_stored_procedure ext_call
  by_cases hf : w.fault (.sp_add_stored_procedure i.unique_name) = NO_ERROR
  · simp only [hf, ne_eq, not_true_eq_false, ↓reduceIte]
    exact same_identity_refl w
  · simp only [hf, ne_eq, not_false_eq_true, ↓reduceIte]
    exact same_identity_refl w

theorem si_sp_add_code {w0 : World} (w : World) (i : SP_CODE_INFO) (h : same_identity w0 w) :
    same_identity w0 (sp_add_stored_procedure_code w i).2 := by
  refine same_identity_trans h ?_
  unfold sp_add_stored_procedure_code ext_call
  by_cases hf : w.fault (.sp_add_stored_procedure_code i.name) = NO_ERROR
  · simp only [hf, ne_eq, not_true_eq_false, ↓reduceIte]
    exact same_identity_refl w
  · simp only [hf, ne_eq, not_false_eq_true, ↓reduceIte]
    exact same_identity_refl w

theorem si_sp_edit_code {w0 : World} (w : World) (m : MOP) (i : SP_CODE_INFO)
    (h : same_identity w0 w) :
    same_identity w0 (sp_edit_stored_procedure_code w m i).2 := by
  refine same_identity_trans h ?_
  unfold sp_edit_stored_procedure_code ext_call
  by_cases hf : w.fault (.sp_edit_stored_procedure_code m) = NO_ERROR
  · simp only [hf, ne_eq, not_true_eq_false, ↓reduceIte]
    exact same_identity_refl w
  · simp only [hf, ne_eq, not_false_eq_true, ↓reduceIte]
    exact same_identity_refl w

/-- The push before the compiler RPC and the pop after it leave the identity as it was. -/
theorem si_compile_pop {w0 : World} (w : World) (u : Option MOP)
    (req : PLCSQL_COMPILE_REQUEST) (h : same_identity w0 w) :
    same_identity w0
      (au_perform_pop_user (plcsql_transfer_file (au_perform_push_user w u) req).2.2) := by
  refine same_identity_trans h ?_
  unfold plcsql_transfer_file ext_call au_perform_push_user
  by_cases hf : w.fault (.plcsql_transfer_file req) = NO_ERROR
  · simp only [hf, ne_eq, not_true_eq_false, ↓reduceIte]
    exact same_identity_refl w
  · simp only [hf, ne_eq, not_false_eq_true, ↓reduceIte]
    exact same_identity_refl w

theorem si_compile_pop_eq {w0 w v : World} {u : Option MOP} {req : PLCSQL_COMPILE_REQUEST}
    {e : Int} {r : PLCSQL_COMPILE_RESPONSE}
    (heq : plcsql_transfer_file (au_perform_push_user w u) req = (e, r, v))
    (h : same_identity w0 w) : same_identity w0 (au_perform_pop_user v) := by
  have h1 := si_compile_pop w u req h
  rw [heq] at h1
  exact h1

theorem alter_target_class_identity (E : ErrorCodes) (w : World) (m : MOP) (t : String)
    (save : Int) : same_identity w (alter_target_class E w m t save).2 := by
  have h0 := same_identity_refl w
  unfold alter_target_class
  repeat' split
  all_goals
    repeat (first
      | exact h0
      | simp only [si_er_set, si_er_clear, si_AU_ENABLE, si_AU_DISABLE, si_pt_record_error,
          si_sp_update, si_abort]
      | with_reducible (refine si_of_eq (by assumption) ?_)
      | with_reducible (refine si_of_eq3 (by assumption) ?_)
      | with_reducible (refine si_ext_call _ _ ?_)
      | with_reducible (refine si_obj_delete _ _ _ ?_)
      | split_ifs
      | dsimp only
      | split)

theorem alter_stored_procedure_code_identity (E : ErrorCodes) (w : World) (m : MOP)
    (name : String) (o : Option String) (rc : Int) :
    same_identity w (alter_stored_procedure_code E w m name o rc).2 := by
  have h0 := same_identity_refl w
  unfold alter_stored_procedure_code
  repeat' split
  all_goals
    repeat (first
      | exact h0
      | simp only [si_er_set, si_er_clear, si_AU_ENABLE, si_AU_DISABLE, si_pt_record_error,
          si_sp_update, si_abort]
      | with_reducible (refine same_identity_trans ?_ (alter_target_class_identity _ _ _ _ _))
      | with_reducible (refine si_compile_pop_eq (by assumption) ?_)
      | with_reducible (refine si_compile_pop _ _ _ ?_)
      | with_reducible (refine si_of_eq (by assumption) ?_)
      | with_reducible (refine si_of_eq3 (by assumption) ?_)
      | with_reducible (refine si_sp_edit_code _ _ _ ?_)
      | with_reducible (refine si_db_get_sp_code _ _ _ _ ?_)
      | with_reducible (refine si_find_code _ _ _ ?_)
      | split_ifs
      | dsimp only
      | split)

theorem AU_SET_USER_ok (w : World) (u : Option MOP) (h : w.fault (.AU_SET_USER u) = NO_ERROR) :
    AU_SET_USER w u = (NO_ERROR, { w with Au_user := u }) := by
  simp [AU_SET_USER, ext_call_ok w _ h]

theorem AU_SET_USER_fail (w : World) (u : Option MOP) (h : w.fault (.AU_SET_USER u) ≠ NO_ERROR) :
    AU_SET_USER w u = (w.fault (.AU_SET_USER u), er_set w (w.fault (.AU_SET_USER u))) := by
  simp [AU_SET_USER, ext_call, h]

theorem alter_comment_identity (w : World) (st : PT_SP_STMT) (m : MOP) (save : Int) :
    same_identity w (alter_comment w st m save).2 := by
  have h0 := same_identity_refl w
  unfold alter_comment
  repeat' split
  all_goals
    repeat (first
      | exact h0
      | simp only [si_er_set, si_er_clear, si_AU_ENABLE, si_AU_DISABLE, si_pt_record_error,
          si_sp_update, si_abort]
      | with_reducible (refine si_compile_pop_eq (by assumption) ?_)
      | with_reducible (refine si_compile_pop _ _ _ ?_)
      | with_reducible (refine si_of_eq (by assumption) ?_)
      | with_reducible (refine si_of_eq3 (by assumption) ?_)
      | with_reducible (refine si_ext_call _ _ ?_)
      | with_reducible (refine si_db_get_sp _ _ _ _ ?_)
      | with_reducible (refine si_db_get_sp_code _ _ _ _ ?_)
      | with_reducible (refine si_find _ _ _ _ ?_)
      | with_reducible (refine si_find_code _ _ _ ?_)
      | with_reducible (refine si_is_exist _ _ _ ?_)
      | with_reducible (refine si_get_unique_name _ _ _ _ _ ?_)
      | with_reducible (refine si_get_owner _ _ _ ?_)
      | with_reducible (refine si_obj_delete _ _ _ ?_)
      | with_reducible (refine si_obj_set _ _ _ _ ?_)
      | with_reducible (refine si_revoke _ _ _ ?_)
      | with_reducible (refine si_delete_auth _ _ ?_)
      | with_reducible (refine si_savepoint _ ?_)
      | with_reducible (refine si_sp_add _ _ ?_)
      | with_reducible (refine si_sp_add_code _ _ ?_)
      | with_reducible (refine si_sp_edit_code _ _ _ ?_)
      | split_ifs
      | dsimp only
      | split)

theorem alter_code_and_comment_identity (E : ErrorCodes) (w : World) (st : PT_SP_STMT)
    (m : MOP) (save : Int) : same_identity w (alter_code_and_comment E w st m save).2 := by
  have h0 := same_identity_refl w
  unfold alter_code_and_comment
  repeat' split
  all_goals
    repeat (first
      | exact h0
      | simp only [si_er_set, si_er_clear, si_AU_ENABLE, si_AU_DISABLE, si_pt_record_error,
          si_sp_update, si_abort]
      | with_reducible (refine same_identity_trans ?_ (alter_comment_identity _ _ _ _))
      | with_reducible (refine same_identity_trans ?_ (alter_stored_procedure_code_identity _ _ _ _ _ _))
      | with_reducible (refine si_compile_pop_eq (by assumption) ?_)
      | with_reducible (refine si_compile_pop _ _ _ ?_)
      | with_reducible (refine si_of_eq (by assumption) ?_)
      | with_reducible (refine si_of_eq3 (by assumption) ?_)
      | with_reducible (refine si_ext_call _ _ ?_)
      | with_reducible (refine si_db_get_sp _ _ _ _ ?_)
      | with_reducible (refine si_db_get_sp_code _ _ _ _ ?_)
      | with_reducible (refine si_find _ _ _ _ ?_)
      | with_reducible (refine si_find_code _ _ _ ?_)
      | with_reducible (refine si_is_exist _ _ _ ?_)
      | with_reducible (refine si_get_unique_name _ _ _ _ _ ?_)
      | with_reducible (refine si_get_owner _ _ _ ?_)
      | with_reducible (refine si_obj_delete _ _ _ ?_)
      | with_reducible (refine si_obj_set _ _ _ _ ?_)
      | with_reducible (refine si_revoke _ _ _ ?_)
      | with_reducible (refine si_delete_auth _ _ ?_)
      | with_reducible (refine si_savepoint _ ?_)
      | with_reducible (refine si_sp_add _ _ ?_)
      | with_reducible (refine si_sp_add_code _ _ ?_)
      | with_reducible (refine si_sp_edit_code _ _ _ ?_)
      | split_ifs
      | dsimp only
      | split)

/-- After `alter_record`, entered with the saved user `su`, the current user is `su` when the
switch back does not fail. -/
theorem alter_record_identity (E : ErrorCodes) (w : World) (st : PT_SP_STMT) (m : MOP)
    (su : Option MOP) (save : Int) (hf : w.fault (.AU_SET_USER su) = NO_ERROR) :
    same_identity { w with Au_user := su } (alter_record E w st m su save).2 := by
  have h0 := same_identity_refl { w with Au_user := su }
  unfold alter_record
  simp only [AU_SET_USER_ok w su hf]
  repeat' split
  all_goals
    repeat (first
      | exact h0
      | simp only [si_er_set, si_er_clear, si_AU_ENABLE, si_AU_DISABLE, si_pt_record_error,
          si_sp_update, si_abort]
      | with_reducible (refine same_identity_trans ?_ (alter_code_and_comment_identity _ _ _ _ _))
      | with_reducible (refine si_compile_pop_eq (by assumption) ?_)
      | with_reducible (refine si_compile_pop _ _ _ ?_)
      | with_reducible (refine si_of_eq (by assumption) ?_)
      | with_reducible (refine si_of_eq3 (by assumption) ?_)
      | with_reducible (refine si_ext_call _ _ ?_)
      | with_reducible (refine si_db_get_sp _ _ _ _ ?_)
      | with_reducible (refine si_db_get_sp_code _ _ _ _ ?_)
      | with_reducible (refine si_find _ _ _ _ ?_)
      | with_reducible (refine si_find_code _ _ _ ?_)
      | with_reducible (refine si_is_exist _ _ _ ?_)
      | with_reducible (refine si_get_unique_name _ _ _ _ _ ?_)
      | with_reducible (refine si_get_owner _ _ _ ?_)
      | with_reducible (refine si_obj_delete _ _ _ ?_)
      | with_reducible (refine si_obj_set _ _ _ _ ?_)
      | with_reducible (refine si_revoke _ _ _ ?_)
      | with_reducible (refine si_delete_auth _ _ ?_)
      | with_reducible (refine si_savepoint _ ?_)
      | with_reducible (refine si_sp_add _ _ ?_)
      | with_reducible (refine si_sp_add_code _ _ ?_)
      | with_reducible (refine si_sp_edit_code _ _ _ ?_)
      | split_ifs
      | dsimp only
      | split)

theorem drop_procedure_record_identity (E : ErrorCodes) (w : World) (name : String) (m : MOP)
    (su : Option MOP) (save : Int) (hf : w.fault (.AU_SET_USER su) = NO_ERROR) :
    same_identity { w with Au_user := su } (drop_procedure_record E w name m su save).2 := by
  have h0 := same_identity_refl { w with Au_user := su }
  unfold drop_procedure_record
  simp only [AU_SET_USER_ok w su hf]
  repeat' split
  all_goals
    repeat (first
      | exact h0
      | simp only [si_er_set, si_er_clear, si_AU_ENABLE, si_AU_DISABLE, si_pt_record_error,
          si_sp_update, si_abort]
      | with_reducible (refine si_compile_pop_eq (by assumption) ?_)
      | with_reducible (refine si_compile_pop _ _ _ ?_)
      | with_reducible (refine si_of_eq (by assumption) ?_)
      | with_reducible (refine si_of_eq3 (by assumption) ?_)
      | with_reducible (refine si_ext_call _ _ ?_)
      | with_reducible (refine si_db_get_sp _ _ _ _ ?_)
      | with_reducible (refine si_db_get_sp_code _ _ _ _ ?_)
      | with_reducible (refine si_find _ _ _ _ ?_)
      | with_reducible (refine si_find_code _ _ _ ?_)
      | with_reducible (refine si_is_exist _ _ _ ?_)
      | with_reducible (refine si_get_unique_name _ _ _ _ _ ?_)
      | with_reducible (refine si_get_owner _ _ _ ?_)
      | with_reducible (refine si_obj_delete _ _ _ ?_)
      | with_reducible (refine si_obj_set _ _ _ _ ?_)
      | with_reducible (refine si_revoke _ _ _ ?_)
      | with_reducible (refine si_delete_auth _ _ ?_)
      | with_reducible (refine si_savepoint _ ?_)
      | with_reducible (refine si_sp_add _ _ ?_)
      | with_reducible (refine si_sp_add_code _ _ ?_)
      | with_reducible (refine si_sp_edit_code _ _ _ ?_)
      | split_ifs
      | dsimp only
      | split)

theorem alter_revoke_and_record_identity (E : ErrorCodes) (w : World) (st : PT_SP_STMT)
    (m o : MOP) (u : String) (save : Int) (hf : w.fault (.AU_SET_USER w.Au_user) = NO_ERROR) :
    same_identity w (alter_revoke_and_record E w st m o u save).2 := by
  unfold alter_revoke_and_record
  by_cases hs : w.fault (.AU_SET_USER (some o)) = NO_ERROR
  · simp only [AU_SET_USER_ok w _ hs, ↓reduceIte]
    have h1 : same_identity { w with Au_user := some o }
        (au_object_revoke_all_privileges { w with Au_user := some o } o u).2 :=
      si_revoke _ _ _ (same_identity_refl _)
    have hf1 : (au_object_revoke_all_privileges { w with Au_user := some o } o u).2.fault
        (.AU_SET_USER w.Au_user) = NO_ERROR := by
      rw [h1.2.2.1]
      exact hf
    split_ifs
    · simp only [AU_SET_USER_ok _ _ hf1]
      exact ⟨rfl, h1.2.1, h1.2.2⟩
    · have h2 := alter_record_identity E _ st m w.Au_user save hf1
      exact ⟨h2.1, h2.2.1.trans h1.2.1, h2.2.2.1.trans h1.2.2.1, h2.2.2.2.trans h1.2.2.2⟩
  · simp only [AU_SET_USER_fail w _ hs, hs, ↓reduceIte]
    have hf1 : (er_set w (w.fault (.AU_SET_USER (some o)))).fault
        (.AU_SET_USER w.Au_user) = NO_ERROR := hf
    have h2 := alter_record_identity E _ st m w.Au_user save hf1
    exact ⟨h2.1, h2.2.1, h2.2.2⟩

theorem drop_revoke_and_record_identity (E : ErrorCodes) (w : World) (name : String)
    (m o : MOP) (u : String) (save : Int) (hf : w.fault (.AU_SET_USER w.Au_user) = NO_ERROR) :
    same_identity w (drop_revoke_and_record E w name m o u save).2 := by
  unfold drop_revoke_and_record
  by_cases hs : w.fault (.AU_SET_USER (some o)) = NO_ERROR
  · simp only [AU_SET_USER_ok w _ hs, ↓reduceIte]
    have h1 : same_identity { w with Au_user := some o }
        (au_object_revoke_all_privileges { w with Au_user := some o } o u).2 :=
      si_revoke _ _ _ (same_identity_refl _)
    have hf1 : (au_object_revoke_all_privileges { w with Au_user := some o } o u).2.fault
        (.AU_SET_USER w.Au_user) = NO_ERROR := by
      rw [h1.2.2.1]
      exact hf
    split_ifs
    · simp only [AU_SET_USER_ok _ _ hf1]
      exact ⟨rfl, h1.2.1, h1.2.2⟩
    · have h2 := drop_procedure_record_identity E _ name m w.Au_user save hf1
      exact ⟨h2.1, h2.2.1.trans h1.2.1, h2.2.2.1.trans h1.2.2.1, h2.2.2.2.trans h1.2.2.2⟩
  · simp only [AU_SET_USER_fail w _ hs, hs, ↓reduceIte]
    have hf1 : (er_set w (w.fault (.AU_SET_USER (some o)))).fault
        (.AU_SET_USER w.Au_user) = NO_ERROR := hf
    have h2 := drop_procedure_record_identity E _ name m w.Au_user save hf1
    exact ⟨h2.1, h2.2.1, h2.2.2⟩

/-- A step that keeps the identity keeps the hypothesis that the switch back to the saved
user does not fail. -/
theorem restore_of_identity {w v : World} (h : same_identity w v)
    (hf : w.fault (.AU_SET_USER w.Au_user) = NO_ERROR) :
    v.fault (.AU_SET_USER v.Au_user) = NO_ERROR := by
  rw [h.1, h.2.2.1]
  exact hf

theorem si_drop_code {w0 : World} (E : ErrorCodes) (w : World) (n : String)
    (h : same_identity w0 w) : same_identity w0 (drop_stored_procedure_code E w n).2 := by
  unfold drop_stored_procedure_code
  repeat' split
  all_goals
    repeat (first
      | exact h
      | simp only [si_er_set, si_er_clear, si_AU_ENABLE, si_AU_DISABLE, si_pt_record_error,
          si_sp_update, si_abort]
      | with_reducible (refine si_compile_pop_eq (by assumption) ?_)
      | with_reducible (refine si_compile_pop _ _ _ ?_)
      | with_reducible (refine si_of_eq (by assumption) ?_)
      | with_reducible (refine si_of_eq3 (by assumption) ?_)
      | with_reducible (refine si_ext_call _ _ ?_)
      | with_reducible (refine si_db_get_sp _ _ _ _ ?_)
      | with_reducible (refine si_db_get_sp_code _ _ _ _ ?_)
      | with_reducible (refine si_find _ _ _ _ ?_)
      | with_reducible (refine si_find_code _ _ _ ?_)
      | with_reducible (refine si_is_exist _ _ _ ?_)
      | with_reducible (refine si_get_unique_name _ _ _ _ _ ?_)
      | with_reducible (refine si_get_owner _ _ _ ?_)
      | with_reducible (refine si_obj_delete _ _ _ ?_)
      | with_reducible (refine si_obj_set _ _ _ _ ?_)
      | with_reducible (refine si_revoke _ _ _ ?_)
      | with_reducible (refine si_delete_auth _ _ ?_)
      | with_reducible (refine si_savepoint _ ?_)
      | with_reducible (refine si_sp_add _ _ ?_)
      | with_reducible (refine si_sp_add_code _ _ ?_)
      | with_reducible (refine si_sp_edit_code _ _ _ ?_)
      | split_ifs
      | dsimp only
      | split)

theorem si_drop_args_loop {w0 : World} (E : ErrorCodes) (l : List MOP) :
    ∀ (left i : Nat) (w : World), same_identity w0 w →
      same_identity w0 (drop_args_loop E l left i w).2 := by
  intro left
  induction left with
  | zero =>
    intro i w h
    exact h
  | succ n ih =>
    intro i w h
    unfold drop_args_loop
    dsimp only
    split_ifs
    · exact si_obj_delete E w _ h
    · exact ih _ _ (si_obj_delete E w _ h)

theorem si_drop_revoke_and_record {w0 : World} (E : ErrorCodes) (w : World) (name : String)
    (m o : MOP) (u : String) (save : Int)
    (hf : w0.fault (.AU_SET_USER w0.Au_user) = NO_ERROR) (h : same_identity w0 w) :
    same_identity w0 (drop_revoke_and_record E w name m o u save).2 :=
  same_identity_trans h
    (drop_revoke_and_record_identity E w name m o u save (restore_of_identity h hf))

theorem si_drop_args_and_record {w0 : World} (E : ErrorCodes) (K : PlConsts) (w : World)
    (name : String) (m o : MOP) (save : Int)
    (hf : w0.fault (.AU_SET_USER w0.Au_user) = NO_ERROR) (h : same_identity w0 w) :
    same_identity w0 (drop_args_and_record E K w name m o save).2 := by
  unfold drop_args_and_record
  repeat' split
  all_goals
    repeat (first
      | exact h
      | simp only [si_er_set, si_er_clear, si_AU_ENABLE, si_AU_DISABLE, si_pt_record_error,
          si_sp_update, si_abort]
      | with_reducible (refine si_drop_revoke_and_record _ _ _ _ _ _ _ hf ?_)
      | with_reducible (refine si_drop_args_loop _ _ _ _ _ ?_)
      | with_reducible (refine si_compile_pop_eq (by assumption) ?_)
      | with_reducible (refine si_compile_pop _ _ _ ?_)
      | with_reducible (refine si_of_eq (by assumption) ?_)
      | with_reducible (refine si_of_eq3 (by assumption) ?_)
      | with_reducible (refine si_ext_call _ _ ?_)
      | with_reducible (refine si_db_get_sp _ _ _ _ ?_)
      | with_reducible (refine si_db_get_sp_code _ _ _ _ ?_)
      | with_reducible (refine si_find _ _ _ _ ?_)
      | with_reducible (refine si_find_code _ _ _ ?_)
      | with_reducible (refine si_is_exist _ _ _ ?_)
      | with_reducible (refine si_get_unique_name _ _ _ _ _ ?_)
      | with_reducible (refine si_get_owner _ _ _ ?_)
      | with_reducible (refine si_obj_delete _ _ _ ?_)
      | with_reducible (refine si_obj_set _ _ _ _ ?_)
      | with_reducible (refine si_revoke _ _ _ ?_)
      | with_reducible (refine si_delete_auth _ _ ?_)
      | with_reducible (refine si_savepoint _ ?_)
      | with_reducible (refine si_sp_add _ _ ?_)
      | with_reducible (refine si_sp_add_code _ _ ?_)
      | with_reducible (refine si_sp_edit_code _ _ _ ?_)
      | split_ifs
      | dsimp only
      | split)

theorem si_drop_code_args_and_record {w0 : World} (E : ErrorCodes) (K : PlConsts) (w : World)
    (name : String) (m o : MOP) (save : Int)
    (hf : w0.fault (.AU_SET_USER w0.Au_user) = NO_ERROR) (h : same_identity w0 w) :
    same_identity w0 (drop_code_args_and_record E K w name m o save).2 := by
  unfold drop_code_args_and_record
  repeat' split
  all_goals
    repeat (first
      | exact h
      | simp only [si_er_set, si_er_clear, si_AU_ENABLE, si_AU_DISABLE, si_pt_record_error,
          si_sp_update, si_abort]
      | with_reducible (refine si_drop_args_and_record _ _ _ _ _ _ _ hf ?_)
      | with_reducible (refine si_drop_code _ _ _ ?_)
      | with_reducible (refine si_compile_pop_eq (by assumption) ?_)
      | with_reducible (refine si_compile_pop _ _ _ ?_)
      | with_reducible (refine si_of_eq (by assumption) ?_)
      | with_reducible (refine si_of_eq3 (by assumption) ?_)
      | with_reducible (refine si_ext_call _ _ ?_)
      | with_reducible (refine si_db_get_sp _ _ _ _ ?_)
      | with_reducible (refine si_db_get_sp_code _ _ _ _ ?_)
      | with_reducible (refine si_find _ _ _ _ ?_)
      | with_reducible (refine si_find_code _ _ _ ?_)
      | with_reducible (refine si_is_exist _ _ _ ?_)
      | with_reducible (refine si_get_unique_name _ _ _ _ _ ?_)
      | with_reducible (refine si_get_owner _ _ _ ?_)
      | with_reducible (refine si_obj_delete _ _ _ ?_)
      | with_reducible (refine si_obj_set _ _ _ _ ?_)
      | with_reducible (refine si_revoke _ _ _ ?_)
      | with_reducible (refine si_delete_auth _ _ ?_)
      | with_reducible (refine si_savepoint _ ?_)
      | with_reducible (refine si_sp_add _ _ ?_)
      | with_reducible (refine si_sp_add_code _ _ ?_)
      | with_reducible (refine si_sp_edit_code _ _ _ ?_)
      | split_ifs
      | dsimp only
      | split)

theorem si_drop_stored_procedure {w0 : World} (E : ErrorCodes) (K : PlConsts) (w : World)
    (name : String) (t : SP_TYPE_ENUM)
    (hf : w0.fault (.AU_SET_USER w0.Au_user) = NO_ERROR) (h : same_identity w0 w) :
    same_identity w0 (drop_stored_procedure E K w name t).2 := by
  unfold drop_stored_procedure
  repeat' split
  all_goals
    repeat (first
      | exact h
      | simp only [si_er_set, si_er_clear, si_AU_ENABLE, si_AU_DISABLE, si_pt_record_error,
          si_sp_update, si_abort]
      | with_reducible (refine si_drop_code_args_and_record _ _ _ _ _ _ _ hf ?_)
      | with_reducible (refine si_compile_pop_eq (by assumption) ?_)
      | with_reducible (refine si_compile_pop _ _ _ ?_)
      | with_reducible (refine si_of_eq (by assumption) ?_)
      | with_reducible (refine si_of_eq3 (by assumption) ?_)
      | with_reducible (refine si_ext_call _ _ ?_)
      | with_reducible (refine si_db_get_sp _ _ _ _ ?_)
      | with_reducible (refine si_db_get_sp_code _ _ _ _ ?_)
      | with_reducible (refine si_find _ _ _ _ ?_)
      | with_reducible (refine si_find_code _ _ _ ?_)
      | with_reducible (refine si_is_exist _ _ _ ?_)
      | with_reducible (refine si_get_unique_name _ _ _ _ _ ?_)
      | with_reducible (refine si_get_owner _ _ _ ?_)
      | with_reducible (refine si_obj_delete _ _ _ ?_)
      | with_reducible (refine si_obj_set _ _ _ _ ?_)
      | with_reducible (refine si_revoke _ _ _ ?_)
      | with_reducible (refine si_delete_auth _ _ ?_)
      | with_reducible (refine si_savepoint _ ?_)
      | with_reducible (refine si_sp_add _ _ ?_)
      | with_reducible (refine si_sp_add_code _ _ ?_)
      | with_reducible (refine si_sp_edit_code _ _ _ ?_)
      | split_ifs
      | dsimp only
      | split)

theorem si_alter_revoke_and_record {w0 : World} (E : ErrorCodes) (w : World) (st : PT_SP_STMT)
    (m o : MOP) (u : String) (save : Int)
    (hf : w0.fault (.AU_SET_USER w0.Au_user) = NO_ERROR) (h : same_identity w0 w) :
    same_identity w0 (alter_revoke_and_record E w st m o u save).2 :=
  same_identity_trans h
    (alter_revoke_and_record_identity E w st m o u save (restore_of_identity h hf))

theorem si_jsp_alter {w0 : World} (E : ErrorCodes) (K : PlConsts) (w : World) (st : PT_SP_STMT)
    (hf : w0.fault (.AU_SET_USER w0.Au_user) = NO_ERROR) (h : same_identity w0 w) :
    same_identity w0 (jsp_alter_stored_procedure E K w st).2 := by
  unfold jsp_alter_stored_procedure
  repeat' split
  all_goals
    repeat (first
      | exact h
      | simp only [si_er_set, si_er_clear, si_AU_ENABLE, si_AU_DISABLE, si_pt_record_error,
          si_sp_update, si_abort]
      | with_reducible (refine si_alter_revoke_and_record _ _ _ _ _ _ _ hf ?_)
      | with_reducible (refine si_compile_pop_eq (by assumption) ?_)
      | with_reducible (refine si_compile_pop _ _ _ ?_)
      | with_reducible (refine si_of_eq (by assumption) ?_)
      | with_reducible (refine si_of_eq3 (by assumption) ?_)
      | with_reducible (refine si_ext_call _ _ ?_)
      | with_reducible (refine si_db_get_sp _ _ _ _ ?_)
      | with_reducible (refine si_db_get_sp_code _ _ _ _ ?_)
      | with_reducible (refine si_find _ _ _ _ ?_)
      | with_reducible (refine si_find_code _ _ _ ?_)
      | with_reducible (refine si_is_exist _ _ _ ?_)
      | with_reducible (refine si_get_unique_name _ _ _ _ _ ?_)
      | with_reducible (refine si_get_owner _ _ _ ?_)
      | with_reducible (refine si_obj_delete _ _ _ ?_)
      | with_reducible (refine si_obj_set _ _ _ _ ?_)
      | with_reducible (refine si_revoke _ _ _ ?_)
      | with_reducible (refine si_delete_auth _ _ ?_)
      | with_reducible (refine si_savepoint _ ?_)
      | with_reducible (refine si_sp_add _ _ ?_)
      | with_reducible (refine si_sp_add_code _ _ ?_)
      | with_reducible (refine si_sp_edit_code _ _ _ ?_)
      | split_ifs
      | dsimp only
      | split)

theorem si_create_add_records {w0 : World} (w : World) (i : SP_INFO)
    (req : PLCSQL_COMPILE_REQUEST) (resp : PLCSQL_COMPILE_RESPONSE) (b : Bool)
    (h : same_identity w0 w) : same_identity w0 (create_add_records w i req resp b).2 := by
  unfold create_add_records create_error_exit
  repeat' split
  all_goals
    repeat (first
      | exact h
      | simp only [si_er_set, si_er_clear, si_AU_ENABLE, si_AU_DISABLE, si_pt_record_error,
          si_sp_update, si_abort]
      | with_reducible (refine si_compile_pop_eq (by assumption) ?_)
      | with_reducible (refine si_compile_pop _ _ _ ?_)
      | with_reducible (refine si_of_eq (by assumption) ?_)
      | with_reducible (refine si_of_eq3 (by assumption) ?_)
      | with_reducible (refine si_ext_call _ _ ?_)
      | with_reducible (refine si_db_get_sp _ _ _ _ ?_)
      | with_reducible (refine si_db_get_sp_code _ _ _ _ ?_)
      | with_reducible (refine si_find _ _ _ _ ?_)
      | with_reducible (refine si_find_code _ _ _ ?_)
      | with_reducible (refine si_is_exist _ _ _ ?_)
      | with_reducible (refine si_get_unique_name _ _ _ _ _ ?_)
      | with_reducible (refine si_get_owner _ _ _ ?_)
      | with_reducible (refine si_obj_delete _ _ _ ?_)
      | with_reducible (refine si_obj_set _ _ _ _ ?_)
      | with_reducible (refine si_revoke _ _ _ ?_)
      | with_reducible (refine si_delete_auth _ _ ?_)
      | with_reducible (refine si_savepoint _ ?_)
      | with_reducible (refine si_sp_add _ _ ?_)
      | with_reducible (refine si_sp_add_code _ _ ?_)
      | with_reducible (refine si_sp_edit_code _ _ _ ?_)
      | split_ifs
      | dsimp only
      | split)

theorem si_create_check_exists {w0 : World} (E : ErrorCodes) (K : PlConsts) (w : World)
    (st : PT_SP_STMT) (i : SP_INFO) (d : Option String) (req : PLCSQL_COMPILE_REQUEST)
    (resp : PLCSQL_COMPILE_RESPONSE)
    (hf : w0.fault (.AU_SET_USER w0.Au_user) = NO_ERROR) (h : same_identity w0 w) :
    same_identity w0 (create_check_exists E K w st i d req resp).2 := by
  unfold create_check_exists create_error_exit
  repeat' split
  all_goals
    repeat (first
      | exact h
      | simp only [si_er_set, si_er_clear, si_AU_ENABLE, si_AU_DISABLE, si_pt_record_error,
          si_sp_update, si_abort]
      | with_reducible (refine si_create_add_records _ _ _ _ _ ?_)
      | with_reducible (refine si_drop_stored_procedure _ _ _ _ _ hf ?_)
      | with_reducible (refine si_compile_pop_eq (by assumption) ?_)
      | with_reducible (refine si_compile_pop _ _ _ ?_)
      | with_reducible (refine si_of_eq (by assumption) ?_)
      | with_reducible (refine si_of_eq3 (by assumption) ?_)
      | with_reducible (refine si_ext_call _ _ ?_)
      | with_reducible (refine si_db_get_sp _ _ _ _ ?_)
      | with_reducible (refine si_db_get_sp_code _ _ _ _ ?_)
      | with_reducible (refine si_find _ _ _ _ ?_)
      | with_reducible (refine si_find_code _ _ _ ?_)
      | with_reducible (refine si_is_exist _ _ _ ?_)
      | with_reducible (refine si_get_unique_name _ _ _ _ _ ?_)
      | with_reducible (refine si_get_owner _ _ _ ?_)
      | with_reducible (refine si_obj_delete _ _ _ ?_)
      | with_reducible (refine si_obj_set _ _ _ _ ?_)
      | with_reducible (refine si_revoke _ _ _ ?_)
      | with_reducible (refine si_delete_auth _ _ ?_)
      | with_reducible (refine si_savepoint _ ?_)
      | with_reducible (refine si_sp_add _ _ ?_)
      | with_reducible (refine si_sp_add_code _ _ ?_)
      | with_reducible (refine si_sp_edit_code _ _ _ ?_)
      | split_ifs
      | dsimp only
      | split)

theorem si_create_args_loop {w0 : World} (E : ErrorCodes) (K : PlConsts) (u : String) :
    ∀ (ps : List PT_SP_PARAM) (c : Int) (args : List SP_ARG_INFO) (w : World),
      same_identity w0 w → same_identity w0 (create_args_loop E K u ps c args w).2 := by
  intro ps
  induction ps with
  | nil =>
    intro c args w h
    exact h
  | cons p rest ih =>
    intro c args w h
    unfold create_args_loop
    dsimp only
    split
    · exact h
    · split_ifs
      · exact h
      · exact ih _ _ _ h

set_option maxHeartbeats 4000000 in

set_option maxRecDepth 20000 in

theorem si_jsp_create {w0 : World} (E : ErrorCodes) (K : PlConsts) (w : World) (st : PT_SP_STMT)
    (hf : w0.fault (.AU_SET_USER w0.Au_user) = NO_ERROR) (h : same_identity w0 w) :
    same_identity w0 (jsp_create_stored_procedure E K w st).2 := by
  unfold jsp_create_stored_procedure create_error_exit
  repeat' split
  all_goals
    repeat (first
      | exact h
      | simp only [si_er_set, si_er_clear, si_AU_ENABLE, si_AU_DISABLE, si_pt_record_error,
          si_sp_update, si_abort]
      | with_reducible (refine si_create_check_exists _ _ _ _ _ _ _ _ hf ?_)
      | with_reducible (refine si_create_args_loop _ _ _ _ _ _ _ ?_)
      | with_reducible (refine si_compile_pop_eq (by assumption) ?_)
      | with_reducible (refine si_compile_pop _ _ _ ?_)
      | with_reducible (refine si_of_eq (by assumption) ?_)
      | with_reducible (refine si_of_eq3 (by assumption) ?_)
      | with_reducible (refine si_ext_call _ _ ?_)
      | with_reducible (refine si_db_get_sp _ _ _ _ ?_)
      | with_reducible (refine si_db_get_sp_code _ _ _ _ ?_)
      | with_reducible (refine si_find _ _ _ _ ?_)
      | with_reducible (refine si_find_code _ _ _ ?_)
      | with_reducible (refine si_is_exist _ _ _ ?_)
      | with_reducible (refine si_get_unique_name _ _ _ _ _ ?_)
      | with_reducible (refine si_get_owner _ _ _ ?_)
      | with_reducible (refine si_obj_delete _ _ _ ?_)
      | with_reducible (refine si_obj_set _ _ _ _ ?_)
      | with_reducible (refine si_revoke _ _ _ ?_)
      | with_reducible (refine si_delete_auth _ _ ?_)
      | with_reducible (refine si_savepoint _ ?_)
      | with_reducible (refine si_sp_add _ _ ?_)
      | with_reducible (refine si_sp_add_code _ _ ?_)
      | with_reducible (refine si_sp_edit_code _ _ _ ?_)
      | split_ifs
      | dsimp only
      | split)

/-- C26: when the switch back to the user saved at entry does not fail,
`jsp_create_stored_procedure`, `alter_stored_procedure_code`, `jsp_alter_stored_procedure`
and `drop_stored_procedure` end, on every exit path, with the current user and the identity
stack they were entered with: each push before the compiler RPC is followed by the pop, and
each switch to the owner for the revocation by the switch back to the saved user. -/
theorem identity_restored_on_every_exit (E : ErrorCodes) (K : PlConsts) (w : World)
    (st : PT_SP_STMT) (sp_mop : MOP) (name : String) (owner_str : Option String)
    (sp_recompile : Int) (expected_type : SP_TYPE_ENUM)
    (hf : w.fault (.AU_SET_USER w.Au_user) = NO_ERROR) :
    ((jsp_create_stored_procedure E K w st).2.Au_user = w.Au_user ∧
      (jsp_create_stored_procedure E K w st).2.user_stack = w.user_stack) ∧
    ((alter_stored_procedure_code E w sp_mop name owner_str sp_recompile).2.Au_user = w.Au_user ∧
      (alter_stored_procedure_code E w sp_mop name owner_str sp_recompile).2.user_stack
        = w.user_stack) ∧
    ((jsp_alter_stored_procedure E K w st).2.Au_user = w.Au_user ∧
      (jsp_alter_stored_procedure E K w st).2.user_stack = w.user_stack) ∧
    ((drop_stored_procedure E K w name expected_type).2.Au_user = w.Au_user ∧
      (drop_stored_procedure E K w name expected_type).2.user_stack = w.user_stack) := by
  have h1 := si_jsp_create E K w st hf (same_identity_refl w)
  have h2 := alter_stored_procedure_code_identity E w sp_mop name owner_str sp_recompile
  have h3 := si_jsp_alter E K w st hf (same_identity_refl w)
  have h4 := si_drop_stored_procedure E K w name expected_type hf (same_identity_refl w)
  exact ⟨⟨h1.1, h1.2.1⟩, ⟨h2.1, h2.2.1⟩, ⟨h3.1, h3.2.1⟩, ⟨h4.1, h4.2.1⟩⟩

/-- Witness of C26: `dba` replaces, alters and drops in the sample state with the PSQL
procedure `u1.p`. -/
theorem identity_restored_on_every_exit_witness :
    ((jsp_create_stored_procedure E0 K0 w2_dba alter_p_owner_recompile).2.Au_user
        = w2_dba.Au_user ∧
      (jsp_create_stored_procedure E0 K0 w2_dba alter_p_owner_recompile).2.user_stack
        = w2_dba.user_stack) ∧
    ((alter_stored_procedure_code E0 w2_dba 60 "Cls" (some "u2") 0).2.Au_user = w2_dba.Au_user ∧
      (alter_stored_procedure_code E0 w2_dba 60 "Cls" (some "u2") 0).2.user_stack
        = w2_dba.user_stack) ∧
    ((jsp_alter_stored_procedure E0 K0 w2_dba alter_p_owner_recompile).2.Au_user
        = w2_dba.Au_user ∧
      (jsp_alter_stored_procedure E0 K0 w2_dba alter_p_owner_recompile).2.user_stack
        = w2_dba.user_stack) ∧
    ((drop_stored_procedure E0 K0 w2_dba "u1.p" .SP_TYPE_PROCEDURE).2.Au_user
        = w2_dba.Au_user ∧
      (drop_stored_procedure E0 K0 w2_dba "u1.p" .SP_TYPE_PROCEDURE).2.user_stack
        = w2_dba.user_stack) :=
  identity_restored_on_every_exit E0 K0 w2_dba alter_p_owner_recompile 60 "Cls" (some "u2") 0
    .SP_TYPE_PROCEDURE rfl

theorem nothing_written_refl (w : World) : nothing_written w w :=
  ⟨rfl, rfl, rfl, rfl, rfl, rfl, rfl, [], by simp, by simp⟩

theorem nothing_written_er_set (w : World) (e : Int) : nothing_written w (er_set w e) :=
  nothing_written_refl w

/-- The compile step of `jsp_create_stored_procedure`: push, RPC, pop. -/
theorem compile_step_eval (w : World) (u : Option MOP) (req : PLCSQL_COMPILE_REQUEST) :
    nothing_written w
      (au_perform_pop_user (plcsql_transfer_file (au_perform_push_user w u) req).2.2) ∧
    (au_perform_pop_user (plcsql_transfer_file (au_perform_push_user w u) req).2.2).trace
      = w.trace ++ [.compile req u] ∧
    (plcsql_transfer_file (au_perform_push_user w u) req).1 = w.fault (.plcsql_transfer_file req)
    ∧ (w.fault (.plcsql_transfer_file req) = NO_ERROR →
      (plcsql_transfer_file (au_perform_push_user w u) req).2.1 = w.compiler req) := by
  have hmem : ∀ e ∈ [EVENT.compile req u], ∃ r v, e = EVENT.compile r v := by
    intro e he
    simp only [List.mem_singleton] at he
    exact ⟨req, u, he⟩
  unfold plcsql_transfer_file ext_call au_perform_push_user au_perform_pop_user er_set
  by_cases hf : w.fault (.plcsql_transfer_file req) = NO_ERROR
  · simp only [hf, ne_eq, not_true_eq_false, ↓reduceIte]
    refine ⟨⟨rfl, rfl, rfl, rfl, rfl, rfl, rfl, [.compile req u], rfl, hmem⟩, ?_⟩
    simp
  · simp only [hf, ne_eq, not_false_eq_true, ↓reduceIte]
    refine ⟨⟨rfl, rfl, rfl, rfl, rfl, rfl, rfl, [.compile req u], rfl, hmem⟩, ?_⟩
    simp

/-- The paths of `jsp_create_stored_procedure` up to the existence check: either the function
returns an error with nothing written, or it goes on with `create_check_exists` in a state
in which nothing was written, with the record filled from the statement. -/
theorem create_shape (E : ErrorCodes) (K : PlConsts) (w : World) (st : PT_SP_STMT)
    (hE : E.negative) :
    (¬ create_checks_pass w st ∧
      ∃ code v, jsp_create_stored_procedure E K w st = (code, v) ∧ code ≠ NO_ERROR ∧
        nothing_written w v) ∨
    (create_checks_pass w st ∧ ∃ v info decl req resp args,
      jsp_create_stored_procedure E K w st = create_check_exists E K v st info decl req resp ∧
      nothing_written w v ∧
      create_args_loop E K (jsp_check_stored_procedure_name w (PT_NODE_SP_NAME st))
        st.param_list 0 [] w = (some args, w) ∧
      info.args = args ∧
      info.unique_name = jsp_check_stored_procedure_name w (PT_NODE_SP_NAME st) ∧
      info.lang = st.lang ∧ info.directive = jsp_map_pt_to_sp_authid st.auth_id ∧
      info.sp_type = jsp_map_pt_misc_to_sp_type st.type ∧
      info.return_type = (if jsp_map_pt_misc_to_sp_type st.type = .SP_TYPE_FUNCTION
        then st.ret_type_db else .DB_TYPE_NULL) ∧
      ¬ (info.directive = .SP_DIRECTIVE_RIGHTS_CALLER ∧ info.lang = .SP_LANG_PLCSQL) ∧
      (st.lang = .SP_LANG_PLCSQL → req.code = st.sql_user_text) ∧
      (st.lang ≠ .SP_LANG_PLCSQL → req.code = "")) := by
  obtain ⟨h1, h2, h3, h4, h5, h6, h7, h8, h9, h10, h11, h12, h13, h14, h15, h16, h17, h18,
    h19, h20, h21, h22, h23, h24⟩ := hE
  unfold jsp_create_stored_procedure
  by_cases hmod : w.fault .CHECK_MODIFICATION_ERROR = NO_ERROR
  swap
  · left
    refine ⟨fun hp => hmod hp.1, ?_⟩
    refine ⟨w.fault .CHECK_MODIFICATION_ERROR, er_set w (w.fault .CHECK_MODIFICATION_ERROR),
      ?_, hmod, nothing_written_refl w⟩
    simp only [ext_call, hmod, ne_eq, not_false_eq_true, ↓reduceIte]
    rfl
  simp only [ext_call_ok w _ hmod, ne_eq, not_true_eq_false, ↓reduceIte]
  by_cases hddl : w.block_ddl_statement = true
  · left
    refine ⟨fun hp => absurd (hddl.symm.trans hp.2.1) (by decide), ?_⟩
    simp only [hddl, ↓reduceIte]
    refine ⟨_, er_set w E.ER_BLOCK_DDL_STMT, rfl, ?_, nothing_written_er_set w _⟩
    simp only [NO_ERROR]
    omega
  simp only [hddl, Bool.false_eq_true, ↓reduceIte]
  by_cases hauth : jsp_map_pt_to_sp_authid st.auth_id = .SP_DIRECTIVE_RIGHTS_CALLER
      ∧ st.lang = .SP_LANG_PLCSQL
  · left
    refine ⟨fun hp => hp.2.2.1 hauth, ?_⟩
    simp only [hauth, and_self, ↓reduceIte]
    refine ⟨_, er_set w E.ER_SP_INVOKERS_RIGHTS_NOT_SUPPORTED, rfl, ?_, nothing_written_er_set w _⟩
    simp only [er_errid, er_set, NO_ERROR]
    omega
  simp only [hauth, ↓reduceIte]
  by_cases hname : jsp_check_stored_procedure_name w (PT_NODE_SP_NAME st) = ""
  · left
    refine ⟨fun hp => hp.2.2.2.1 hname, ?_⟩
    simp only [hname, ↓reduceIte]
    refine ⟨_, er_set w E.ER_SP_INVALID_NAME, rfl, ?_, nothing_written_er_set w _⟩
    simp only [er_errid, er_set, NO_ERROR]
    omega
  simp only [hname, ↓reduceIte]
  by_cases hbase : sm_remove_qualifier_name
      (jsp_check_stored_procedure_name w (PT_NODE_SP_NAME st)) = ""
  · left
    refine ⟨fun hp => hp.2.2.2.2.1 hbase, ?_⟩
    simp only [hbase, ↓reduceIte]
    refine ⟨_, er_set w E.ER_SP_INVALID_NAME, rfl, ?_, nothing_written_er_set w _⟩
    simp only [er_errid, er_set, NO_ERROR]
    omega
  simp only [hbase, ↓reduceIte]
  by_cases hlen : st.param_list.length ≤ MAX_ARG_COUNT
  swap
  · left
    refine ⟨fun hp => hlen hp.2.2.2.2.2.1, ?_⟩
    have hloop := create_args_loop_too_many E K
      (jsp_check_stored_procedure_name w (PT_NODE_SP_NAME st)) st.param_list 0 [] w
      (by decide) (by omega)
    simp only [Nat.cast_zero] at hloop
    simp only [hloop, create_error_exit_false]
    refine ⟨_, er_set w E.ER_SP_TOO_MANY_ARG_COUNT, rfl, ?_, nothing_written_er_set w _⟩
    simp only [er_errid, er_set, NO_ERROR, ↓reduceIte]
    omega
  obtain ⟨as, hl1, -, -⟩ := create_args_loop_ok E K
    (jsp_check_stored_procedure_name w (PT_NODE_SP_NAME st)) st.param_list 0 [] w (by omega)
  simp only [Nat.cast_zero, List.nil_append] at hl1
  simp only [hl1]
  cases hq : sm_qualifier_name (jsp_check_stored_procedure_name w (PT_NODE_SP_NAME st)) with
  | none =>
    left
    refine ⟨fun hp => ?_, ?_⟩
    · obtain ⟨o, u, q1, -⟩ := hp.2.2.2.2.2.2
      rw [hq] at q1
      exact Option.noConfusion q1
    simp only [create_error_exit_false]
    refine ⟨_, er_set w E.ER_SM_INVALID_ARGUMENTS, rfl, ?_, nothing_written_er_set w _⟩
    simp only [er_errid, er_set, NO_ERROR, ↓reduceIte]
    omega
  | some oname =>
    simp only
    cases ho : (if oname = "" then w.Au_user else db_find_user w oname) with
    | none =>
      left
      refine ⟨fun hp => ?_, ?_⟩
      · obtain ⟨o, u, q1, q2, -⟩ := hp.2.2.2.2.2.2
        rw [hq] at q1
        obtain rfl := Option.some.inj q1
        rw [ho] at q2
        exact Option.noConfusion q2
      simp only [create_error_exit_false]
      refine ⟨_, er_set w E.ER_AU_INVALID_USER_NAME, rfl, ?_, nothing_written_er_set w _⟩
      simp only [er_errid, er_set, NO_ERROR, ↓reduceIte]
      omega
    | some owner =>
      simp only
      by_cases hlang : st.lang = .SP_LANG_PLCSQL
      · simp only [hlang, ↓reduceIte]
        obtain ⟨c1, c2, c3, c4⟩ := compile_step_eval w (some owner)
          { code := st.sql_user_text
            owner := if oname = "" then au_get_current_user_name w else oname }
        by_cases hok : (plcsql_transfer_file (au_perform_push_user w (some owner))
            { code := st.sql_user_text
              owner := if oname = "" then au_get_current_user_name w else oname }).1 = NO_ERROR ∧
            (plcsql_transfer_file (au_perform_push_user w (some owner))
            { code := st.sql_user_text
              owner := if oname = "" then au_get_current_user_name w else oname }).2.1.err_code
              = NO_ERROR
        · right
          refine ⟨⟨hmod, by simpa using hddl, hauth, hname, hbase, hlen, oname, owner, hq, ho,
            fun _ => ⟨c3.symm.trans hok.1, by rw [← c4 (c3.symm.trans hok.1)]; exact hok.2⟩⟩, ?_⟩
          simp only [hok, and_self, ↓reduceIte]
          refine ⟨_, _, _, _, _, as, rfl, c1, rfl, rfl, rfl, ?_, rfl, rfl, rfl, ?_, ?_, ?_⟩
          · rfl
          · simp only [and_true]
            intro hc
            exact hauth ⟨hc, hlang⟩
          · intro _
            rfl
          · intro hc
            exact absurd trivial hc
        · left
          refine ⟨fun hp => ?_, ?_⟩
          · obtain ⟨o, u, q1, q2, q3⟩ := hp.2.2.2.2.2.2
            rw [hq] at q1
            obtain rfl := Option.some.inj q1
            rw [ho] at q2
            obtain rfl := Option.some.inj q2
            have q4 := q3 hlang
            refine hok ⟨c3.trans q4.1, ?_⟩
            rw [c4 q4.1]
            exact q4.2
          simp only [hok, ↓reduceIte, create_error_exit_false]
          refine ⟨_, _, rfl, ?_, c1⟩
          simp only [NO_ERROR, ↓reduceIte]
          split_ifs <;> omega
      · right
        refine ⟨⟨hmod, by simpa using hddl, hauth, hname, hbase, hlen, oname, owner, hq, ho,
          fun hl => absurd hl hlang⟩, ?_⟩
        simp only [hlang, ↓reduceIte]
        by_cases hdir : st.direct = true
        · simp only [hdir, ↓reduceIte]
          refine ⟨_, _, _, _, _, as, rfl, nothing_written_refl w, rfl, rfl, rfl, rfl, rfl,
            rfl, rfl, ?_, ?_, ?_⟩
          · intro hc
            exact hlang hc.2
          · intro hc
            exact hc.elim
          · intro _
            rfl
        · simp only [hdir, Bool.false_eq_true, ↓reduceIte]
          refine ⟨_, _, _, _, _, as, rfl, nothing_written_refl w, rfl, rfl, rfl, rfl, rfl,
            rfl, rfl, ?_, ?_, ?_⟩
          · intro hc
            exact hlang hc.2
          · intro hc
            exact hc.elim
          · intro _
            rfl

theorem sp_add_eval (w : World) (i : SP_INFO) :
    (sp_add_stored_procedure w i).1 = w.fault (.sp_add_stored_procedure i.unique_name) ∧
    (sp_add_stored_procedure w i).2.savepoint = w.savepoint ∧
    (sp_add_stored_procedure w i).2.trace = w.trace ++ [.sp_add i] ∧
    (sp_add_stored_procedure w i).2.cat.sp_code = w.cat.sp_code ∧
    (sp_add_stored_procedure w i).2.cat.auth = w.cat.auth ∧
    (sp_add_stored_procedure w i).2.cat.users = w.cat.users ∧
    ((sp_add_stored_procedure w i).1 ≠ NO_ERROR → (sp_add_stored_procedure w i).2.cat = w.cat) ∧
    ((sp_add_stored_procedure w i).1 = NO_ERROR →
      ∃ row : SP_ROW, (sp_add_stored_procedure w i).2.cat.sp = w.cat.sp ++ [row] ∧
        row.unique_name = i.unique_name ∧ row.lang = i.lang ∧ row.directive = i.directive ∧
        row.target_class = i.target_class ∧ row.arg_count = i.args.length ∧
        row.return_type = i.return_type ∧ row.sp_type = i.sp_type ∧ row.owner = i.owner) := by
  unfold sp_add_stored_procedure ext_call
  by_cases hf : w.fault (.sp_add_stored_procedure i.unique_name) = NO_ERROR
  · simp only [hf, ne_eq, not_true_eq_false, ↓reduceIte, true_and, false_implies, true_implies,
      and_self, and_true]
    exact ⟨_, rfl, rfl, rfl, rfl, rfl, rfl, rfl, rfl, rfl⟩
  · simp only [hf, ne_eq, not_false_eq_true, ↓reduceIte, true_and, false_implies, true_implies,
      and_self, and_true]
    refine ⟨?_, ?_, ?_, ?_, ?_, ?_⟩ <;> rfl

theorem sp_add_code_eval (w : World) (i : SP_CODE_INFO) :
    (sp_add_stored_procedure_code w i).1 = w.fault (.sp_add_stored_procedure_code i.name) ∧
    (sp_add_stored_procedure_code w i).2.savepoint = w.savepoint ∧
    (sp_add_stored_procedure_code w i).2.trace = w.trace ++ [.sp_add_code i] ∧
    (sp_add_stored_procedure_code w i).2.cat.sp = w.cat.sp ∧
    (sp_add_stored_procedure_code w i).2.cat.auth = w.cat.auth ∧
    (sp_add_stored_procedure_code w i).2.cat.users = w.cat.users ∧
    ((sp_add_stored_procedure_code w i).1 ≠ NO_ERROR →
      (sp_add_stored_procedure_code w i).2.cat = w.cat) ∧
    ((sp_add_stored_procedure_code w i).1 = NO_ERROR →
      ∃ crow : SP_CODE_ROW,
        (sp_add_stored_procedure_code w i).2.cat.sp_code = w.cat.sp_code ++ [crow] ∧
        crow.cls_name = i.name ∧ crow.scode = i.scode ∧ crow.owner = i.owner) := by
  unfold sp_add_stored_procedure_code ext_call
  by_cases hf : w.fault (.sp_add_stored_procedure_code i.name) = NO_ERROR
  · simp only [hf, ne_eq, not_true_eq_false, ↓reduceIte, true_and, false_implies, true_implies,
      and_self, and_true]
    exact ⟨_, rfl, rfl, rfl, rfl⟩
  · simp only [hf, ne_eq, not_false_eq_true, ↓reduceIte, true_and, false_implies, true_implies,
      and_self, and_true]
    refine ⟨?_, ?_, ?_, ?_, ?_, ?_⟩ <;> rfl

/-- The three outcomes of `create_add_records`: the insert of the procedure record fails, the
insert of the code record fails, or both succeed (the second being skipped without source
text). -/
theorem create_add_records_cases (w : World) (i : SP_INFO) (req : PLCSQL_COMPILE_REQUEST)
    (resp : PLCSQL_COMPILE_RESPONSE) (hs : Bool) :
    ((sp_add_stored_procedure w i).1 ≠ NO_ERROR ∧
      create_add_records w i req resp hs =
        create_error_exit (sp_add_stored_procedure w i).2 (sp_add_stored_procedure w i).1 hs) ∨
    ((sp_add_stored_procedure w i).1 = NO_ERROR ∧ req.code = "" ∧
      create_add_records w i req resp hs = (NO_ERROR, (sp_add_stored_procedure w i).2)) ∨
    ((sp_add_stored_procedure w i).1 = NO_ERROR ∧ req.code ≠ "" ∧
      (sp_add_stored_procedure_code (sp_add_stored_procedure w i).2
        (create_code_info (sp_add_stored_procedure w i).2 i req resp)).1 ≠ NO_ERROR ∧
      create_add_records w i req resp hs =
        create_error_exit
          (sp_add_stored_procedure_code (sp_add_stored_procedure w i).2
            (create_code_info (sp_add_stored_procedure w i).2 i req resp)).2
          (sp_add_stored_procedure_code (sp_add_stored_procedure w i).2
            (create_code_info (sp_add_stored_procedure w i).2 i req resp)).1 hs) ∨
    ((sp_add_stored_procedure w i).1 = NO_ERROR ∧ req.code ≠ "" ∧
      (sp_add_stored_procedure_code (sp_add_stored_procedure w i).2
        (create_code_info (sp_add_stored_procedure w i).2 i req resp)).1 = NO_ERROR ∧
      create_add_records w i req resp hs =
        (NO_ERROR, (sp_add_stored_procedure_code (sp_add_stored_procedure w i).2
          (create_code_info (sp_add_stored_procedure w i).2 i req resp)).2)) := by
  unfold create_add_records
  by_cases h1 : (sp_add_stored_procedure w i).1 = NO_ERROR
  · by_cases h2 : req.code = ""
    · right
      left
      refine ⟨h1, h2, ?_⟩
      simp only [h1, h2, ne_eq, not_true_eq_false, ↓reduceIte]
    · by_cases h3 : (sp_add_stored_procedure_code (sp_add_stored_procedure w i).2
          (create_code_info (sp_add_stored_procedure w i).2 i req resp)).1 = NO_ERROR
      · right
        right
        right
        refine ⟨h1, h2, h3, ?_⟩
        unfold create_code_info at h3 ⊢
        simp only [h1, h2, h3, ne_eq, not_true_eq_false, not_false_eq_true, ↓reduceIte]
      · right
        right
        left
        refine ⟨h1, h2, h3, ?_⟩
        unfold create_code_info at h3 ⊢
        simp only [h1, h2, h3, ne_eq, not_true_eq_false, not_false_eq_true, ↓reduceIte]
  · left
    refine ⟨h1, ?_⟩
    simp only [h1, ne_eq, not_false_eq_true, ↓reduceIte]

/-- The five ways through the existence check of `jsp_create_stored_procedure`. -/
theorem create_check_exists_cases (E : ErrorCodes) (K : PlConsts) (w : World) (st : PT_SP_STMT)
    (i : SP_INFO) (decl : Option String) (req : PLCSQL_COMPILE_REQUEST)
    (resp : PLCSQL_COMPILE_RESPONSE) :
    ((jsp_is_exist_stored_procedure E w i.unique_name).1 = false ∧
      create_check_exists E K w st i decl req resp =
        create_add_records (jsp_is_exist_stored_procedure E w i.unique_name).2
          (create_target_info w st i decl) req resp false) ∨
    ((jsp_is_exist_stored_procedure E w i.unique_name).1 = true ∧ st.or_replace = false ∧
      create_check_exists E K w st i decl req resp =
        (E.ER_SP_ALREADY_EXIST,
          er_set (jsp_is_exist_stored_procedure E w i.unique_name).2 E.ER_SP_ALREADY_EXIST)) ∨
    ((jsp_is_exist_stored_procedure E w i.unique_name).1 = true ∧ st.or_replace = true ∧
      (tran_system_savepoint (jsp_is_exist_stored_procedure E w i.unique_name).2).1 ≠ NO_ERROR ∧
      create_check_exists E K w st i decl req resp =
        tran_system_savepoint (jsp_is_exist_stored_procedure E w i.unique_name).2) ∨
    ((jsp_is_exist_stored_procedure E w i.unique_name).1 = true ∧ st.or_replace = true ∧
      (tran_system_savepoint (jsp_is_exist_stored_procedure E w i.unique_name).2).1 = NO_ERROR ∧
      (drop_stored_procedure E K
        (tran_system_savepoint (jsp_is_exist_stored_procedure E w i.unique_name).2).2
        i.unique_name i.sp_type).1 ≠ NO_ERROR ∧
      create_check_exists E K w st i decl req resp =
        create_error_exit
          (drop_stored_procedure E K
            (tran_system_savepoint (jsp_is_exist_stored_procedure E w i.unique_name).2).2
            i.unique_name i.sp_type).2
          (drop_stored_procedure E K
            (tran_system_savepoint (jsp_is_exist_stored_procedure E w i.unique_name).2).2
            i.unique_name i.sp_type).1 true) ∨
    ((jsp_is_exist_stored_procedure E w i.unique_name).1 = true ∧ st.or_replace = true ∧
      (tran_system_savepoint (jsp_is_exist_stored_procedure E w i.unique_name).2).1 = NO_ERROR ∧
      (drop_stored_procedure E K
        (tran_system_savepoint (jsp_is_exist_stored_procedure E w i.unique_name).2).2
        i.unique_name i.sp_type).1 = NO_ERROR ∧
      create_check_exists E K w st i decl req resp =
        create_add_records
          (drop_stored_procedure E K
            (tran_system_savepoint (jsp_is_exist_stored_procedure E w i.unique_name).2).2
            i.unique_name i.sp_type).2
          (create_target_info w st i decl) req resp true) := by
  unfold create_check_exists create_target_info
  by_cases h1 : (jsp_is_exist_stored_procedure E w i.unique_name).1 = true
  · by_cases h2 : st.or_replace = true
    · by_cases h3 :
        (tran_system_savepoint (jsp_is_exist_stored_procedure E w i.unique_name).2).1 = NO_ERROR
      · by_cases h4 : (drop_stored_procedure E K
          (tran_system_savepoint (jsp_is_exist_stored_procedure E w i.unique_name).2).2
          i.unique_name i.sp_type).1 = NO_ERROR
        · right; right; right; right
          refine ⟨h1, h2, h3, h4, ?_⟩
          simp only [h1, h2, h3, h4, ne_eq, not_true_eq_false, ↓reduceIte]
        · right; right; right; left
          refine ⟨h1, h2, h3, h4, ?_⟩
          simp only [h1, h2, h3, h4, ne_eq, not_true_eq_false, not_false_eq_true, ↓reduceIte]
      · right; right; left
        refine ⟨h1, h2, h3, ?_⟩
        simp only [h1, h2, h3, ne_eq, not_false_eq_true, ↓reduceIte]
    · right; left
      have h2f : st.or_replace = false := by simpa using h2
      refine ⟨h1, h2f, ?_⟩
      simp only [h1, h2f, Bool.false_eq_true, ↓reduceIte]
      rfl
  · left
    have h1f : (jsp_is_exist_stored_procedure E w i.unique_name).1 = false := by simpa using h1
    refine ⟨h1f, ?_⟩
    simp only [h1f, Bool.false_eq_true, ↓reduceIte]

theorem is_exist_core (E : ErrorCodes) (w : World) (name : String) :
    (jsp_is_exist_stored_procedure E w name).2.core = w.core :=
  core_find E w name .DB_AUTH_NONE

theorem is_exist_true (E : ErrorCodes) (w v : World) (hv : v.core = w.core) (name : String)
    (row : SP_ROW)
    (hfind : w.cat.sp.find? (fun r => r.unique_name = jsp_check_stored_procedure_name w name)
      = some row)
    (hmode : w.client_type_loaddb_compat = false) :
    (jsp_is_exist_stored_procedure E v name).1 = true := by
  have h := find_none_purpose E w v hv name row hfind hmode
  unfold jsp_is_exist_stored_procedure
  simp only [h, Option.isSome_some]

theorem find_absent (E : ErrorCodes) (w v : World) (hv : v.core = w.core) (name : String)
    (purpose : DB_AUTH) (hE : E.ER_SP_NOT_EXIST ≠ 0)
    (hfind : w.cat.sp.find? (fun r => r.unique_name = jsp_check_stored_procedure_name w name)
      = none)
    (hmode : w.client_type_loaddb_compat = false) :
    (jsp_find_stored_procedure E v name purpose).1 = none ∧
    er_errid (jsp_find_stored_procedure E v name purpose).2 = E.ER_SP_NOT_EXIST := by
  have hd : (AU_DISABLE v).2.core = w.core := (core_AU_DISABLE v).trans hv
  have hfind1 : (AU_DISABLE v).2.cat.sp.find?
      (fun r => r.unique_name = jsp_check_stored_procedure_name (AU_DISABLE v).2 name)
      = none := by
    rw [checked_name_core hd, find_sp_core hd]
    exact hfind
  have hmode1 : (AU_DISABLE v).2.client_type_loaddb_compat = false := by
    rw [loaddb_core hd]
    exact hmode
  have hm : (er_clear (er_set (AU_DISABLE v).2 E.ER_OBJ_OBJECT_NOT_FOUND)).client_type_loaddb_compat
      = false := hmode1
  have he : er_errid (er_set (AU_DISABLE v).2 E.ER_OBJ_OBJECT_NOT_FOUND)
      = E.ER_OBJ_OBJECT_NOT_FOUND := rfl
  simp only [jsp_find_stored_procedure, db_find_unique_sp, hfind1, he, ↓reduceIte, hm,
    Bool.false_eq_true, ne_eq, NO_ERROR, hE, not_false_eq_true, and_true]
  exact ⟨trivial, rfl⟩

theorem is_exist_false (E : ErrorCodes) (w v : World) (hv : v.core = w.core) (name : String)
    (hE : E.ER_SP_NOT_EXIST ≠ 0)
    (hfind : w.cat.sp.find? (fun r => r.unique_name = jsp_check_stored_procedure_name w name)
      = none)
    (hmode : w.client_type_loaddb_compat = false) :
    (jsp_is_exist_stored_procedure E v name).1 = false := by
  have h := (find_absent E w v hv name .DB_AUTH_NONE hE hfind hmode).1
  unfold jsp_is_exist_stored_procedure
  simp only [h, Option.isSome_none]

theorem checked_name_of {w v : World} (hc : v.cat = w.cat) (hu : v.Au_user = w.Au_user)
    (hb : v.name_buffer = w.name_buffer) (name : String) :
    jsp_check_stored_procedure_name v name = jsp_check_stored_procedure_name w name := by
  unfold jsp_check_stored_procedure_name sm_user_specified_name au_get_current_user_name user_row
  rw [hc, hu, hb]

/-- The lookup of the existence check made in a state in which nothing was written since `w`
finds what it finds in `w`. -/
theorem find_of_nothing_written {w v : World} (h : nothing_written w v) (name : String) :
    v.cat.sp.find? (fun r => r.unique_name = jsp_check_stored_procedure_name v name) =
      w.cat.sp.find? (fun r => r.unique_name = jsp_check_stored_procedure_name w name) := by
  rw [checked_name_of h.1 h.2.2.2.1 h.2.2.2.2.2.2.1, h.1]

/-- C11: when the lookup of the existence check finds a record under the normalised name of
the statement and the statement is not `CREATE OR REPLACE` (outside legacy admin load mode),
`jsp_create_stored_procedure` returns an error, which is `ER_SP_ALREADY_EXIST` whenever the
statement passes the checks made before the existence check; no savepoint is opened, and
every procedure, argument and code record and every grant is unchanged. -/
theorem jsp_create_stored_procedure_already_exist (E : ErrorCodes) (K : PlConsts) (w : World)
    (st : PT_SP_STMT) (row : SP_ROW) (hE : E.negative)
    (hmode : w.client_type_loaddb_compat = false)
    (hfind : w.cat.sp.find? (fun r => r.unique_name = jsp_check_stored_procedure_name w
      (jsp_check_stored_procedure_name w (PT_NODE_SP_NAME st))) = some row)
    (hrep : st.or_replace = false) :
    (jsp_create_stored_procedure E K w st).1 ≠ NO_ERROR ∧
    (create_checks_pass w st →
      (jsp_create_stored_procedure E K w st).1 = E.ER_SP_ALREADY_EXIST) ∧
    (jsp_create_stored_procedure E K w st).2.cat = w.cat ∧
    (jsp_create_stored_procedure E K w st).2.savepoint = w.savepoint ∧
    ∃ l, (jsp_create_stored_procedure E K w st).2.trace = w.trace ++ l ∧
      EVENT.savepoint ∉ l := by
  have hnosave : ∀ l : List EVENT, (∀ e ∈ l, ∃ req u, e = EVENT.compile req u) →
      EVENT.savepoint ∉ l := by
    intro l hl hmem
    obtain ⟨req, u, h⟩ := hl _ hmem
    exact EVENT.noConfusion h
  rcases create_shape E K w st hE with ⟨hnp, code, v, heq, hcode, hnw⟩ |
    ⟨-, v, info, decl, req, resp, args, heq, hnw, -, -, hname, -⟩
  · rw [heq]
    obtain ⟨l, hl, hl2⟩ := hnw.2.2.2.2.2.2.2
    exact ⟨hcode, fun hp => absurd hp hnp, hnw.1, hnw.2.1, l, hl, hnosave l hl2⟩
  · have hex : (jsp_is_exist_stored_procedure E v info.unique_name).1 = true := by
      refine is_exist_true E v v rfl info.unique_name row ?_ (hnw.2.2.2.2.1.trans hmode)
      rw [find_of_nothing_written hnw, hname]
      exact hfind
    have hce := create_check_exists_cases E K v st info decl req resp
    simp only [hex, hrep, Bool.true_eq_false, Bool.false_eq_true, false_and, and_false,
      true_and, or_false, false_or] at hce
    rw [heq, hce]
    have hc := cat_core (is_exist_core E v info.unique_name)
    have hs := savepoint_core (is_exist_core E v info.unique_name)
    have ht := trace_core (is_exist_core E v info.unique_name)
    obtain ⟨l, hl, hl2⟩ := hnw.2.2.2.2.2.2.2
    refine ⟨?_, fun _ => rfl, hc.trans hnw.1, hs.trans hnw.2.1, l, ht.trans hl, hnosave l hl2⟩
    have := hE.1
    simp only [NO_ERROR]
    have h24 := hE
    unfold ErrorCodes.negative at h24
    omega

theorem create_f_passes (w : World) (hw : w.cat.users = cat0.users) (hu : w.Au_user = some 3)
    (hf : w.fault = fun _ => 0) (hb : w.block_ddl_statement = false) :
    create_checks_pass w create_f := by
  have hn : jsp_check_stored_procedure_name w (PT_NODE_SP_NAME create_f) = "u1.f" := by
    have hne : ¬ (((PT_NODE_SP_NAME create_f).data.take "dbms_output.".length).map Char.toLower
        = "dbms_output.".data) := by decide
    simp only [jsp_check_stored_procedure_name, hne, ↓reduceIte]
    unfold sm_user_specified_name au_get_current_user_name user_row
    rw [hw, hu]
    decide
  unfold create_checks_pass
  rw [hn, hf]
  refine ⟨rfl, hb, by decide, by decide, by decide, by decide, "u1", 3, by decide, ?_,
    fun h => absurd h (by decide)⟩
  rw [if_neg (by decide)]
  unfold db_find_user
  rw [hw]
  decide

theorem jsp_create_stored_procedure_already_exist_witness :
    create_checks_pass w1 create_f ∧
    (jsp_create_stored_procedure E0 K0 w1 create_f).1 = E0.ER_SP_ALREADY_EXIST ∧
    (jsp_create_stored_procedure E0 K0 w1 create_f).2.cat = w1.cat ∧
    (jsp_create_stored_procedure E0 K0 w1 create_f).2.savepoint = w1.savepoint :=
  ⟨create_f_passes w1 rfl rfl rfl rfl,
    (jsp_create_stored_procedure_already_exist E0 K0 w1 create_f sp_f E0_negative rfl
      (by decide) rfl).2.1 (create_f_passes w1 rfl rfl rfl rfl),
    rfl, rfl⟩

theorem savepoint_eval (w : World) :
    (tran_system_savepoint w).1 = w.fault .tran_system_savepoint ∧
    (tran_system_savepoint w).2.cat = w.cat ∧ (tran_system_savepoint w).2.fault = w.fault ∧
    ((tran_system_savepoint w).1 ≠ NO_ERROR →
      (tran_system_savepoint w).2.savepoint = w.savepoint ∧
      (tran_system_savepoint w).2.trace = w.trace) ∧
    ((tran_system_savepoint w).1 = NO_ERROR →
      (tran_system_savepoint w).2.savepoint = some w.cat ∧
      (tran_system_savepoint w).2.trace = w.trace ++ [.savepoint]) := by
  unfold tran_system_savepoint ext_call
  by_cases hf : w.fault .tran_system_savepoint = NO_ERROR
  · simp only [hf, ne_eq, not_true_eq_false, ↓reduceIte, false_implies, true_implies, and_self,
      and_true, true_and]
  · simp only [hf, ne_eq, not_false_eq_true, ↓reduceIte, false_implies, true_implies, and_self,
      and_true, true_and]
    refine ⟨?_, ?_, ?_, ?_⟩ <;> rfl

/-- A failure of `create_add_records` under a savepoint holding the catalog `c` ends in the
catalog `c`, with the code of the first insert that failed. -/
theorem create_add_records_abort (w : World) (i : SP_INFO) (req : PLCSQL_COMPILE_REQUEST)
    (resp : PLCSQL_COMPILE_RESPONSE) (c : Catalog) (hs : w.savepoint = some c)
    (herr : (create_add_records w i req resp true).1 ≠ NO_ERROR) :
    (create_add_records w i req resp true).2.cat = c ∧
    (create_add_records w i req resp true).2.savepoint = some c ∧
    (∃ pre, (create_add_records w i req resp true).2.trace
      = w.trace ++ pre ++ [.abort_upto_savepoint]) ∧
    (create_add_records w i req resp true).1 =
      (if w.fault (.sp_add_stored_procedure i.unique_name) ≠ NO_ERROR
        then w.fault (.sp_add_stored_procedure i.unique_name)
        else w.fault (.sp_add_stored_procedure_code i.target_class)) := by
  obtain ⟨a1, a2, a3, -, -, -, -, -⟩ := sp_add_eval w i
  obtain ⟨b1, b2, b3, -, -, -, -, -⟩ := sp_add_code_eval (sp_add_stored_procedure w i).2
    (create_code_info (sp_add_stored_procedure w i).2 i req resp)
  have hfl : (sp_add_stored_procedure w i).2.fault = w.fault := by
    unfold sp_add_stored_procedure ext_call
    by_cases hf : w.fault (.sp_add_stored_procedure i.unique_name) = NO_ERROR
    · simp only [hf, ne_eq, not_true_eq_false, ↓reduceIte]
    · simp only [hf, ne_eq, not_false_eq_true, ↓reduceIte]
      rfl
  rcases create_add_records_cases w i req resp true with ⟨h1, h⟩ | ⟨h1, h2, h⟩ | ⟨h1, h2, h3, h⟩ |
    ⟨h1, h2, h3, h⟩
  · rw [h]
    rw [a1] at h1
    simp only [create_error_exit, ↓reduceIte, tran_abort_upto_system_savepoint, a2, hs, a1, h1,
      ne_eq, not_false_eq_true, a3, and_true, true_and]
    exact ⟨[.sp_add i], rfl⟩
  · rw [h] at herr
    exact absurd rfl herr
  · rw [h]
    rw [b1] at h3
    rw [a1] at h1
    have hcn : (create_code_info (sp_add_stored_procedure w i).2 i req resp).name
        = i.target_class := rfl
    rw [hcn, hfl] at h3 b1
    simp only [create_error_exit, ↓reduceIte, tran_abort_upto_system_savepoint, a2, hs, b1, b2,
      b3, a3, h1, h3, ne_eq, not_false_eq_true, not_true_eq_false, and_true, true_and]
    exact ⟨[.sp_add i, .sp_add_code
      (create_code_info (sp_add_stored_procedure w i).2 i req resp)], by simp⟩
  · rw [h] at herr
    exact absurd rfl herr

/-- The existence check finds a record and the statement has no `OR REPLACE`. -/
theorem check_exists_no_replace (E : ErrorCodes) (K : PlConsts) (v : World) (st : PT_SP_STMT)
    (info : SP_INFO) (decl : Option String) (req : PLCSQL_COMPILE_REQUEST)
    (resp : PLCSQL_COMPILE_RESPONSE) (row : SP_ROW)
    (hmode : v.client_type_loaddb_compat = false)
    (hfind : v.cat.sp.find?
      (fun r => r.unique_name = jsp_check_stored_procedure_name v info.unique_name) = some row)
    (hrep : st.or_replace = false) :
    (create_check_exists E K v st info decl req resp).1 = E.ER_SP_ALREADY_EXIST ∧
    (create_check_exists E K v st info decl req resp).2.core = v.core := by
  have hex := is_exist_true E v v rfl info.unique_name row hfind hmode
  have hce := create_check_exists_cases E K v st info decl req resp
  simp only [hex, hrep, Bool.true_eq_false, Bool.false_eq_true, false_and, and_false,
    true_and, or_false, false_or] at hce
  rw [hce]
  exact ⟨rfl, is_exist_core E v info.unique_name⟩

/-- The existence check finds no record: the two inserts follow, without savepoint. -/
theorem check_exists_fresh (E : ErrorCodes) (K : PlConsts) (v : World) (st : PT_SP_STMT)
    (info : SP_INFO) (decl : Option String) (req : PLCSQL_COMPILE_REQUEST)
    (resp : PLCSQL_COMPILE_RESPONSE) (hE : E.ER_SP_NOT_EXIST ≠ 0)
    (hmode : v.client_type_loaddb_compat = false)
    (hfind : v.cat.sp.find?
      (fun r => r.unique_name = jsp_check_stored_procedure_name v info.unique_name) = none) :
    ∃ x, x.core = v.core ∧
      create_check_exists E K v st info decl req resp =
        create_add_records x (create_target_info v st info decl) req resp false := by
  have hex := is_exist_false E v v rfl info.unique_name hE hfind hmode
  have hce := create_check_exists_cases E K v st info decl req resp
  simp only [hex, Bool.true_eq_false, Bool.false_eq_true, false_and, and_false,
    true_and, or_false, false_or] at hce
  exact ⟨_, is_exist_core E v info.unique_name, hce⟩

/-- A replace of an existing record that fails: either the savepoint could not be opened, or
the function aborts to the savepoint, which holds the catalog of the entry, and returns the
code of the first step that failed: the drop, the insert of the procedure record, the insert
of the code record. -/
theorem check_exists_replace_failure (E : ErrorCodes) (K : PlConsts) (v : World)
    (st : PT_SP_STMT) (info : SP_INFO) (decl : Option String) (req : PLCSQL_COMPILE_REQUEST)
    (resp : PLCSQL_COMPILE_RESPONSE) (row : SP_ROW)
    (hmode : v.client_type_loaddb_compat = false)
    (hfind : v.cat.sp.find?
      (fun r => r.unique_name = jsp_check_stored_procedure_name v info.unique_name) = some row)
    (hrep : st.or_replace = true)
    (herr : (create_check_exists E K v st info decl req resp).1 ≠ NO_ERROR) :
    (create_check_exists E K v st info decl req resp).2.cat = v.cat ∧
    ((v.fault .tran_system_savepoint ≠ NO_ERROR ∧
      (create_check_exists E K v st info decl req resp).1 = v.fault .tran_system_savepoint ∧
      (create_check_exists E K v st info decl req resp).2.savepoint = v.savepoint ∧
      (create_check_exists E K v st info decl req resp).2.trace = v.trace) ∨
     (v.fault .tran_system_savepoint = NO_ERROR ∧
      (create_check_exists E K v st info decl req resp).2.savepoint = some v.cat ∧
      (∃ pre, (create_check_exists E K v st info decl req resp).2.trace
        = pre ++ [.abort_upto_savepoint]) ∧
      ∃ v1 cls, v1.cat = v.cat ∧ v1.savepoint = some v.cat ∧ v1.fault = v.fault ∧
        (create_check_exists E K v st info decl req resp).1 =
          (if (drop_stored_procedure E K v1 info.unique_name info.sp_type).1 ≠ NO_ERROR
            then (drop_stored_procedure E K v1 info.unique_name info.sp_type).1
            else if v.fault (.sp_add_stored_procedure info.unique_name) ≠ NO_ERROR
              then v.fault (.sp_add_stored_procedure info.unique_name)
              else v.fault (.sp_add_stored_procedure_code cls)))) := by
  have hex := is_exist_true E v v rfl info.unique_name row hfind hmode
  have hxc := is_exist_core E v info.unique_name
  have hce := create_check_exists_cases E K v st info decl req resp
  simp only [hex, hrep, Bool.true_eq_false, Bool.false_eq_true, false_and, and_false,
    true_and, or_false, false_or] at hce
  obtain ⟨hsf, s1, s2, s3, s4⟩ :=
    savepoint_eval (jsp_is_exist_stored_procedure E v info.unique_name).2
  rw [fault_core hxc] at hsf
  rw [(only_deleted_of_core hxc).2.2.2.2.2.2.1] at s2
  rw [cat_core hxc] at s1 s4
  rw [savepoint_core hxc, trace_core hxc] at s3
  rw [trace_core hxc] at s4
  have hod := drop_stored_procedure_only_deleted E K
    (tran_system_savepoint (jsp_is_exist_stored_procedure E v info.unique_name).2).2
    info.unique_name info.sp_type
  rcases hce with ⟨h3, h⟩ | ⟨h3, h4, h⟩ | ⟨h3, h4, h⟩
  · rw [h]
    exact ⟨s1, Or.inl ⟨hsf ▸ h3, hsf, (s3 h3).1, (s3 h3).2⟩⟩
  · have hsv := hod.2.2.2.2.2.1
    rw [(s4 h3).1] at hsv
    rw [h]
    simp only [create_error_exit, ↓reduceIte, tran_abort_upto_system_savepoint, hsv, h4]
    refine ⟨trivial, Or.inr ⟨hsf ▸ h3, trivial, ⟨_, rfl⟩, _, "", s1, (s4 h3).1, s2, ?_⟩⟩
    simp only [h4, ne_eq, not_false_eq_true, ↓reduceIte]
  · have hsv := hod.2.2.2.2.2.1
    rw [(s4 h3).1] at hsv
    have hfl := hod.2.2.2.2.2.2.1
    rw [s2] at hfl
    rw [h] at herr ⊢
    obtain ⟨r1, r2, ⟨pre, r3⟩, r4⟩ := create_add_records_abort _ _ req resp v.cat hsv herr
    rw [hfl] at r4
    refine ⟨r1, Or.inr ⟨hsf ▸ h3, r2, ⟨_, r3⟩, _, (create_target_info v st info decl).target_class,
      s1, (s4 h3).1, s2, ?_⟩⟩
    rw [r4]
    simp only [h4, ne_eq, not_true_eq_false, ↓reduceIte]
    rfl

/-- C12: a `CREATE OR REPLACE` of an existing procedure (the lookup of the existence check
finds a record, outside legacy admin load mode) that returns an error leaves the catalog
(procedure, argument and code records, grants) as it was before the call. When a check made
before the existence check fails, the compiler step among them, no savepoint is opened and
nothing but compiler calls happened. Otherwise either the savepoint could not be opened, or
the call ends with the abort to the savepoint, which holds the catalog of the entry, and the
code returned is that of the first failing step: the drop of the old record, the insert of
the new record, the insert of the code record. -/
theorem jsp_create_or_replace_failure_restores (E : ErrorCodes) (K : PlConsts) (w : World)
    (st : PT_SP_STMT) (row : SP_ROW) (hE : E.negative)
    (hmode : w.client_type_loaddb_compat = false)
    (hfind : w.cat.sp.find? (fun r => r.unique_name = jsp_check_stored_procedure_name w
      (jsp_check_stored_procedure_name w (PT_NODE_SP_NAME st))) = some row)
    (hrep : st.or_replace = true)
    (herr : (jsp_create_stored_procedure E K w st).1 ≠ NO_ERROR) :
    (jsp_create_stored_procedure E K w st).2.cat = w.cat ∧
    (¬ create_checks_pass w st →
      (jsp_create_stored_procedure E K w st).2.savepoint = w.savepoint ∧
      ∃ l, (jsp_create_stored_procedure E K w st).2.trace = w.trace ++ l ∧
        ∀ e ∈ l, ∃ req u, e = EVENT.compile req u) ∧
    (create_checks_pass w st →
      (w.fault .tran_system_savepoint ≠ NO_ERROR ∧
        (jsp_create_stored_procedure E K w st).1 = w.fault .tran_system_savepoint ∧
        (jsp_create_stored_procedure E K w st).2.savepoint = w.savepoint) ∨
      (w.fault .tran_system_savepoint = NO_ERROR ∧
        (jsp_create_stored_procedure E K w st).2.savepoint = some w.cat ∧
        (∃ pre, (jsp_create_stored_procedure E K w st).2.trace
          = pre ++ [.abort_upto_savepoint]) ∧
        ∃ v1 cls, v1.cat = w.cat ∧ v1.savepoint = some w.cat ∧ v1.fault = w.fault ∧
          (jsp_create_stored_procedure E K w st).1 =
            (if (drop_stored_procedure E K v1
                  (jsp_check_stored_procedure_name w (PT_NODE_SP_NAME st))
                  (jsp_map_pt_misc_to_sp_type st.type)).1 ≠ NO_ERROR
              then (drop_stored_procedure E K v1
                  (jsp_check_stored_procedure_name w (PT_NODE_SP_NAME st))
                  (jsp_map_pt_misc_to_sp_type st.type)).1
              else if w.fault (.sp_add_stored_procedure
                  (jsp_check_stored_procedure_name w (PT_NODE_SP_NAME st))) ≠ NO_ERROR
                then w.fault (.sp_add_stored_procedure
                  (jsp_check_stored_procedure_name w (PT_NODE_SP_NAME st)))
                else w.fault (.sp_add_stored_procedure_code cls)))) := by
  rcases create_shape E K w st hE with ⟨hnp, code, v, heq, -, hnw⟩ |
    ⟨hp, v, info, decl, req, resp, args, heq, hnw, -, -, hname, -, -, htype, -⟩
  · rw [heq]
    exact ⟨hnw.1, fun _ => ⟨hnw.2.1, hnw.2.2.2.2.2.2.2⟩, fun hp => absurd hp hnp⟩
  · rw [heq] at herr ⊢
    have hfv : v.cat.sp.find?
        (fun r => r.unique_name = jsp_check_stored_procedure_name v info.unique_name)
        = some row := by
      rw [find_of_nothing_written hnw, hname]
      exact hfind
    obtain ⟨c1, c2⟩ := check_exists_replace_failure E K v st info decl req resp row
      (hnw.2.2.2.2.1.trans hmode) hfv hrep herr
    rw [hnw.1, hnw.2.1, hnw.2.2.2.2.2.1, hname, htype] at c2
    refine ⟨c1.trans hnw.1, fun hnp => absurd hp hnp, fun _ => ?_⟩
    rcases c2 with ⟨d1, d2, d3, -⟩ | ⟨d1, d2, d3, v1, cls, d4, d5, d6, d7⟩
    · exact Or.inl ⟨d1, d2, d3⟩
    · exact Or.inr ⟨d1, d2, d3, v1, cls, d4, d5, d6, d7⟩

theorem jsp_create_or_replace_failure_restores_witness :
    (jsp_create_stored_procedure E0 K0 w1_add_fails create_or_replace_f).1 = -7 ∧
    (jsp_create_stored_procedure E0 K0 w1_add_fails create_or_replace_f).2.cat
      = w1_add_fails.cat :=
  ⟨by decide,
    (jsp_create_or_replace_failure_restores E0 K0 w1_add_fails create_or_replace_f sp_f
      E0_negative rfl (by decide) rfl (by decide)).1⟩

/-- A successful `create_add_records` appends the procedure record filled from `i` and, with
source text, the code record keyed by its target class; the record `i` is the one handed to
the catalog. -/
theorem create_add_records_success (w : World) (i : SP_INFO) (req : PLCSQL_COMPILE_REQUEST)
    (resp : PLCSQL_COMPILE_RESPONSE) (hs : Bool)
    (hsucc : (create_add_records w i req resp hs).1 = NO_ERROR) :
    (∃ row : SP_ROW, (create_add_records w i req resp hs).2.cat.sp = w.cat.sp ++ [row] ∧
      row.unique_name = i.unique_name ∧ row.lang = i.lang ∧ row.directive = i.directive ∧
      row.target_class = i.target_class ∧ row.arg_count = i.args.length ∧
      row.return_type = i.return_type ∧ row.sp_type = i.sp_type ∧ row.owner = i.owner) ∧
    (req.code ≠ "" → ∃ crow : SP_CODE_ROW,
      (create_add_records w i req resp hs).2.cat.sp_code = w.cat.sp_code ++ [crow] ∧
      crow.cls_name = i.target_class ∧ crow.scode = req.code ∧ crow.owner = some i.owner) ∧
    (req.code = "" → (create_add_records w i req resp hs).2.cat.sp_code = w.cat.sp_code) ∧
    ∃ post, (create_add_records w i req resp hs).2.trace = w.trace ++ [.sp_add i] ++ post ∧
      ∀ e ∈ post, ∀ j, e ≠ EVENT.sp_add j := by
  obtain ⟨a1, a2, a3, a4, -, -, -, a8⟩ := sp_add_eval w i
  obtain ⟨b1, b2, b3, b4, -, -, -, b8⟩ := sp_add_code_eval (sp_add_stored_procedure w i).2
    (create_code_info (sp_add_stored_procedure w i).2 i req resp)
  have hexit : ∀ (x : World) (e : Int), e ≠ NO_ERROR → (create_error_exit x e hs).1 ≠ NO_ERROR := by
    intro x e he
    simp only [create_error_exit, he, ↓reduceIte, ne_eq, not_false_eq_true]
  rcases create_add_records_cases w i req resp hs with ⟨h1, h⟩ | ⟨h1, h2, h⟩ | ⟨h1, h2, h3, h⟩ |
    ⟨h1, h2, h3, h⟩
  · rw [h] at hsucc
    exact absurd hsucc (hexit _ _ h1)
  · rw [h]
    refine ⟨a8 h1, fun hc => absurd h2 hc, fun _ => a4, [], ?_, ?_⟩
    · simp only [a3, List.append_nil]
    · intro e he
      simp at he
  · rw [h] at hsucc
    exact absurd hsucc (hexit _ _ h3)
  · rw [h]
    obtain ⟨row, r1, r2⟩ := a8 h1
    obtain ⟨crow, c1, c2, c3, c4⟩ := b8 h3
    refine ⟨⟨row, b4.trans r1, r2⟩, fun _ => ⟨crow, ?_, c2, c3, c4⟩, fun hc => absurd hc h2,
      [.sp_add_code (create_code_info (sp_add_stored_procedure w i).2 i req resp)], ?_, ?_⟩
    · rw [c1, a4]
    · simp only [b3, a3]
    · intro e he j
      simp only [List.mem_singleton] at he
      rw [he]
      exact fun hc => EVENT.noConfusion hc

/-- A successful run through the existence check: over what is left of the catalog of the
entry (`base`: nothing, or the catalog after the drop of the replaced record) the new
procedure record is appended and, with source text, its code record. -/
theorem check_exists_success (E : ErrorCodes) (K : PlConsts) (v : World) (st : PT_SP_STMT)
    (info : SP_INFO) (decl : Option String) (req : PLCSQL_COMPILE_REQUEST)
    (resp : PLCSQL_COMPILE_RESPONSE) (hE : E.ER_SP_ALREADY_EXIST ≠ 0)
    (hsucc : (create_check_exists E K v st info decl req resp).1 = NO_ERROR) :
    ∃ base : World,
      (∀ x ∈ base.cat.sp, x ∈ v.cat.sp) ∧ (∀ x ∈ base.cat.sp_code, x ∈ v.cat.sp_code) ∧
      (∃ row : SP_ROW,
        (create_check_exists E K v st info decl req resp).2.cat.sp = base.cat.sp ++ [row] ∧
        row.unique_name = info.unique_name ∧ row.lang = info.lang ∧
        row.directive = info.directive ∧
        row.target_class = (create_target_info v st info decl).target_class ∧
        row.arg_count = info.args.length ∧
        row.return_type = info.return_type ∧ row.sp_type = info.sp_type ∧
        row.owner = info.owner) ∧
      (req.code ≠ "" → ∃ crow : SP_CODE_ROW,
        (create_check_exists E K v st info decl req resp).2.cat.sp_code
          = base.cat.sp_code ++ [crow] ∧
        crow.cls_name = (create_target_info v st info decl).target_class ∧
        crow.scode = req.code ∧ crow.owner = some info.owner) ∧
      (req.code = "" →
        (create_check_exists E K v st info decl req resp).2.cat.sp_code = base.cat.sp_code) ∧
      ∃ post, (create_check_exists E K v st info decl req resp).2.trace
          = base.trace ++ [.sp_add (create_target_info v st info decl)] ++ post ∧
        ∀ e ∈ post, ∀ j, e ≠ EVENT.sp_add j := by
  have hxc := is_exist_core E v info.unique_name
  obtain ⟨-, s1, -, -, -⟩ :=
    savepoint_eval (jsp_is_exist_stored_procedure E v info.unique_name).2
  have hod := drop_stored_procedure_only_deleted E K
    (tran_system_savepoint (jsp_is_exist_stored_procedure E v info.unique_name).2).2
    info.unique_name info.sp_type
  rcases create_check_exists_cases E K v st info decl req resp with
    ⟨-, h⟩ | ⟨-, -, h⟩ | ⟨-, -, h3, h⟩ | ⟨-, -, -, h4, h⟩ | ⟨-, -, -, -, h⟩
  · rw [h] at hsucc ⊢
    refine ⟨_, ?_, ?_, create_add_records_success _ _ req resp false hsucc⟩
    · rw [cat_core hxc]
      exact fun _ hx => hx
    · rw [cat_core hxc]
      exact fun _ hx => hx
  · rw [h] at hsucc
    exact absurd hsucc hE
  · rw [h] at hsucc
    exact absurd hsucc h3
  · rw [h] at hsucc
    simp only [create_error_exit, h4, ↓reduceIte] at hsucc
  · rw [h] at hsucc ⊢
    refine ⟨_, ?_, ?_, create_add_records_success _ _ req resp true hsucc⟩
    · intro x hx
      have := hod.1 x hx
      rw [s1, cat_core hxc] at this
      exact this
    · intro x hx
      have := hod.2.2.1 x hx
      rw [s1, cat_core hxc] at this
      exact this

/-- A failure of `create_add_records` without savepoint: the catalog is unchanged, or the
procedure record was inserted and the insert of the code record failed. -/
theorem create_add_records_failure_nosave (w : World) (i : SP_INFO)
    (req : PLCSQL_COMPILE_REQUEST) (resp : PLCSQL_COMPILE_RESPONSE)
    (herr : (create_add_records w i req resp false).1 ≠ NO_ERROR) :
    (create_add_records w i req resp false).2.savepoint = w.savepoint ∧
    ((create_add_records w i req resp false).2.cat = w.cat ∨
      (w.fault (.sp_add_stored_procedure i.unique_name) = NO_ERROR ∧
       (create_add_records w i req resp false).1
         = w.fault (.sp_add_stored_procedure_code i.target_class) ∧
       (create_add_records w i req resp false).2.cat.sp_code = w.cat.sp_code ∧
       ∃ row : SP_ROW, (create_add_records w i req resp false).2.cat.sp = w.cat.sp ++ [row] ∧
         row.unique_name = i.unique_name)) := by
  obtain ⟨a1, a2, a3, a4, -, -, a7, a8⟩ := sp_add_eval w i
  obtain ⟨b1, b2, b3, b4, -, -, b7, -⟩ := sp_add_code_eval (sp_add_stored_procedure w i).2
    (create_code_info (sp_add_stored_procedure w i).2 i req resp)
  have hfl : (sp_add_stored_procedure w i).2.fault = w.fault := by
    unfold sp_add_stored_procedure ext_call
    by_cases hf : w.fault (.sp_add_stored_procedure i.unique_name) = NO_ERROR
    · simp only [hf, ne_eq, not_true_eq_false, ↓reduceIte]
    · simp only [hf, ne_eq, not_false_eq_true, ↓reduceIte]
      rfl
  rcases create_add_records_cases w i req resp false with ⟨h1, h⟩ | ⟨h1, h2, h⟩ |
    ⟨h1, h2, h3, h⟩ | ⟨h1, h2, h3, h⟩
  · rw [h]
    exact ⟨a2, Or.inl (a7 h1)⟩
  · rw [h] at herr
    exact absurd rfl herr
  · rw [h]
    have hcn : (create_code_info (sp_add_stored_procedure w i).2 i req resp).name
        = i.target_class := rfl
    rw [hcn, hfl] at b1
    obtain ⟨row, r1, r2, -⟩ := a8 h1
    refine ⟨b2.trans a2, Or.inr ⟨a1 ▸ h1, ?_, ?_, row, ?_, r2⟩⟩
    · simp only [create_error_exit, Bool.false_eq_true, ↓reduceIte, h3]
      exact b1
    · show (sp_add_stored_procedure_code _ _).2.cat.sp_code = _
      rw [b7 h3, a4]
    · show (sp_add_stored_procedure_code _ _).2.cat.sp = _
      rw [b4, r1]
  · rw [h] at herr
    exact absurd rfl herr

/-- C13, as far as it holds: for a `CREATE` of a PL/CSQL procedure with source text (outside
legacy admin load mode), a success leaves both the new procedure record and its code record,
keyed by the target class of the procedure record, in the catalog; a failure leaves the
catalog as it was (neither of them) unless no savepoint was opened, the procedure record was
inserted, and the insert of the code record failed. -/
theorem jsp_create_psql_records (E : ErrorCodes) (K : PlConsts) (w : World) (st : PT_SP_STMT)
    (hE : E.negative) (hmode : w.client_type_loaddb_compat = false)
    (hlang : st.lang = .SP_LANG_PLCSQL) (htext : st.sql_user_text ≠ "") :
    ((jsp_create_stored_procedure E K w st).1 = NO_ERROR →
      ∃ (row : SP_ROW) (crow : SP_CODE_ROW) (rows : List SP_ROW) (crows : List SP_CODE_ROW),
        (jsp_create_stored_procedure E K w st).2.cat.sp = rows ++ [row] ∧
        (jsp_create_stored_procedure E K w st).2.cat.sp_code = crows ++ [crow] ∧
        (∀ x ∈ rows, x ∈ w.cat.sp) ∧ (∀ x ∈ crows, x ∈ w.cat.sp_code) ∧
        row.unique_name = jsp_check_stored_procedure_name w (PT_NODE_SP_NAME st) ∧
        row.lang = .SP_LANG_PLCSQL ∧
        crow.cls_name = row.target_class ∧ crow.scode = st.sql_user_text ∧
        crow.owner = some row.owner) ∧
    ((jsp_create_stored_procedure E K w st).1 ≠ NO_ERROR →
      (jsp_create_stored_procedure E K w st).2.cat = w.cat ∨
      ((jsp_create_stored_procedure E K w st).2.savepoint = w.savepoint ∧
        w.fault (.sp_add_stored_procedure
          (jsp_check_stored_procedure_name w (PT_NODE_SP_NAME st))) = NO_ERROR ∧
        (∃ cls, (jsp_create_stored_procedure E K w st).1
          = w.fault (.sp_add_stored_procedure_code cls)) ∧
        (jsp_create_stored_procedure E K w st).2.cat.sp_code = w.cat.sp_code ∧
        ∃ row : SP_ROW, (jsp_create_stored_procedure E K w st).2.cat.sp = w.cat.sp ++ [row] ∧
          row.unique_name = jsp_check_stored_procedure_name w (PT_NODE_SP_NAME st))) := by
  have hAE : E.ER_SP_ALREADY_EXIST ≠ 0 := by
    have h := hE
    unfold ErrorCodes.negative at h
    omega
  have hNE : E.ER_SP_NOT_EXIST ≠ 0 := by
    have h := hE
    unfold ErrorCodes.negative at h
    omega
  rcases create_shape E K w st hE with ⟨-, code, v, heq, hcode, hnw⟩ |
    ⟨-, v, info, decl, req, resp, args, heq, hnw, -, -, hname, hl, -, -, -, -, hreq, -⟩
  · rw [heq]
    exact ⟨fun h => absurd h hcode, fun _ => Or.inl hnw.1⟩
  · rw [heq]
    have hcode : req.code ≠ "" := by
      rw [hreq hlang]
      exact htext
    constructor
    · intro hsucc
      obtain ⟨base, b1, b2, ⟨row, r1, r2, r3, -, r5, -, -, -, r9⟩, b4, -, -⟩ :=
        check_exists_success E K v st info decl req resp hAE hsucc
      obtain ⟨crow, c1, c2, c3, c4⟩ := b4 hcode
      refine ⟨row, crow, base.cat.sp, base.cat.sp_code, r1, c1, ?_, ?_, r2.trans hname,
        r3.trans (hl.trans hlang), c2.trans r5.symm, c3.trans (hreq hlang), ?_⟩
      · intro x hx
        have := b1 x hx
        rw [hnw.1] at this
        exact this
      · intro x hx
        have := b2 x hx
        rw [hnw.1] at this
        exact this
      · rw [c4, r9]
    · intro herr
      cases hfind : v.cat.sp.find?
          (fun r => r.unique_name = jsp_check_stored_procedure_name v info.unique_name) with
      | some row =>
        cases hrep : st.or_replace with
        | false =>
          left
          have h := (check_exists_no_replace E K v st info decl req resp row
            (hnw.2.2.2.2.1.trans hmode) hfind hrep).2
          exact (cat_core h).trans hnw.1
        | true =>
          left
          have h := (check_exists_replace_failure E K v st info decl req resp row
            (hnw.2.2.2.2.1.trans hmode) hfind hrep herr).1
          exact h.trans hnw.1
      | none =>
        obtain ⟨x, hx, hce⟩ := check_exists_fresh E K v st info decl req resp hNE
          (hnw.2.2.2.2.1.trans hmode) hfind
        rw [hce] at herr ⊢
        obtain ⟨f1, f2⟩ := create_add_records_failure_nosave x _ req resp herr
        have hxf : x.fault = w.fault :=
          (only_deleted_of_core hx).2.2.2.2.2.2.1.trans hnw.2.2.2.2.2.1
        rw [cat_core hx, hnw.1, hxf] at f2
        rcases f2 with f2 | ⟨g1, g2, g3, row, g4, g5⟩
        · exact Or.inl f2
        · refine Or.inr ⟨f1.trans ((savepoint_core hx).trans hnw.2.1), ?_, ⟨_, g2⟩, g3, row, g4,
            g5.trans hname⟩
          have : (create_target_info v st info decl).unique_name = info.unique_name := rfl
          rw [this, hname] at g1
          exact g1

theorem jsp_create_psql_records_witness :
    ∃ (row : SP_ROW) (crow : SP_CODE_ROW) (rows : List SP_ROW) (crows : List SP_CODE_ROW),
      (jsp_create_stored_procedure E0 K0 w0 create_psql_q).2.cat.sp = rows ++ [row] ∧
      (jsp_create_stored_procedure E0 K0 w0 create_psql_q).2.cat.sp_code = crows ++ [crow] ∧
      (∀ x ∈ rows, x ∈ w0.cat.sp) ∧ (∀ x ∈ crows, x ∈ w0.cat.sp_code) ∧
      row.unique_name = jsp_check_stored_procedure_name w0 (PT_NODE_SP_NAME create_psql_q) ∧
      row.lang = .SP_LANG_PLCSQL ∧
      crow.cls_name = row.target_class ∧ crow.scode = create_psql_q.sql_user_text ∧
      crow.owner = some row.owner :=
  (jsp_create_psql_records E0 K0 w0 create_psql_q E0_negative rfl rfl (by decide)).1
    (by decide)

/-- C13 fails without savepoint: `u1` runs `CREATE PROCEDURE q ...` (PL/CSQL) in a catalog
without procedure, and the insert of the code record fails. No savepoint was opened, so the
function returns the error and the catalog holds the new procedure record `u1.q` without
code record. -/
theorem jsp_create_psql_record_without_code :
    (jsp_create_stored_procedure E0 K0 w0_code_fails create_psql_q).1 = -9 ∧
    (jsp_create_stored_procedure E0 K0 w0_code_fails create_psql_q).2.cat.sp.map
      (fun r => (r.unique_name, r.lang, r.target_class)) = [("u1.q", .SP_LANG_PLCSQL, "Cls")] ∧
    (jsp_create_stored_procedure E0 K0 w0_code_fails create_psql_q).2.cat.sp_code = [] ∧
    (jsp_create_stored_procedure E0 K0 w0_code_fails create_psql_q).2.trace.map
      (fun e => decide (e = .abort_upto_savepoint)) = [false, false, false] := by
  refine ⟨by decide, by decide, by decide, by decide⟩

/-- The record handed to the catalog by a successful `CREATE`, in terms of the mode mapper
`jsp_map_pt_misc_to_sp_mode` and of the serialiser `jsp_default_value_string`. -/
theorem jsp_create_stored_procedure_args_handed (E : ErrorCodes) (K : PlConsts) (w : World)
    (st : PT_SP_STMT) (hE : E.negative)
    (hsucc : (jsp_create_stored_procedure E K w st).1 = NO_ERROR) :
    ∃ (info : SP_INFO) (pre post : List EVENT),
      (jsp_create_stored_procedure E K w st).2.trace = pre ++ [.sp_add info] ++ post ∧
      (∀ e ∈ post, ∀ j, e ≠ EVENT.sp_add j) ∧
      info.args.length = st.param_list.length ∧
      (∀ (i : Nat) (p : PT_SP_PARAM), st.param_list[i]? = some p →
        ∃ a, info.args[i]? = some a ∧ a.index_of = i ∧
          a.mode = jsp_map_pt_misc_to_sp_mode p.mode ∧ a.data_type = p.type_enum_db ∧
          (a.is_optional = true ↔ p.default_value.isSome = true) ∧
          a.default_value =
            (match p.default_value with
             | none => none
             | some d =>
               if (jsp_default_value_string K d).2 = "" then none
               else some (jsp_default_value_string K d).2)) ∧
      (st.type = .PT_SP_PROCEDURE → info.return_type = .DB_TYPE_NULL) ∧
      (st.type ≠ .PT_SP_PROCEDURE → info.return_type = st.ret_type_db) := by
  have hAE : E.ER_SP_ALREADY_EXIST ≠ 0 := by
    have h := hE
    unfold ErrorCodes.negative at h
    omega
  rcases create_shape E K w st hE with ⟨-, code, v, heq, hcode, -⟩ |
    ⟨hp, v, info, decl, req, resp, args, heq, -, hloop, hargs, -, -, -, -, hret, -⟩
  · rw [heq] at hsucc
    exact absurd hsucc hcode
  · rw [heq] at hsucc ⊢
    obtain ⟨base, -, -, -, -, -, post, t1, t2⟩ :=
      check_exists_success E K v st info decl req resp hAE hsucc
    obtain ⟨as, l1, l2, l3⟩ := create_args_loop_ok E K
      (jsp_check_stored_procedure_name w (PT_NODE_SP_NAME st)) st.param_list 0 [] w
      (by have := hp.2.2.2.2.2.1; omega)
    simp only [Nat.cast_zero, List.nil_append, zero_add] at l1 l3
    rw [hloop] at l1
    have has : args = as := by
      have := congrArg Prod.fst l1
      exact Option.some.inj this
    have hia : (create_target_info v st info decl).args = as := hargs.trans has
    have hir : (create_target_info v st info decl).return_type = info.return_type := rfl
    refine ⟨create_target_info v st info decl, base.trace, post, t1, t2, ?_, ?_, ?_, ?_⟩
    · rw [hia]
      exact l2
    · intro i p hip
      obtain ⟨a, a1, a2⟩ := l3 i p hip
      obtain ⟨a', e1, e2, e3, e4, e5, e6⟩ := create_arg_info_eq K
        (jsp_check_stored_procedure_name w (PT_NODE_SP_NAME st)) p (i : Int)
      rw [a2] at e1
      obtain rfl := Option.some.inj e1
      rw [hia]
      exact ⟨a, a1, e2, e3, e4, e5, e6⟩
    · intro ht
      rw [hir, hret]
      simp [jsp_map_pt_misc_to_sp_type, ht]
    · intro ht
      rw [hir, hret]
      simp [jsp_map_pt_misc_to_sp_type, ht]

/-- A `CREATE` that replaces nothing succeeds when the statement passes the checks made
before the existence check and neither insert fails. -/
theorem create_fresh_success (E : ErrorCodes) (K : PlConsts) (w : World) (st : PT_SP_STMT)
    (hE : E.negative) (hmode : w.client_type_loaddb_compat = false)
    (hpass : create_checks_pass w st)
    (hfind : w.cat.sp.find? (fun r => r.unique_name = jsp_check_stored_procedure_name w
      (jsp_check_stored_procedure_name w (PT_NODE_SP_NAME st))) = none)
    (hadd : w.fault (.sp_add_stored_procedure
      (jsp_check_stored_procedure_name w (PT_NODE_SP_NAME st))) = NO_ERROR)
    (hcode : ∀ cls, w.fault (.sp_add_stored_procedure_code cls) = NO_ERROR) :
    (jsp_create_stored_procedure E K w st).1 = NO_ERROR := by
  have hNE : E.ER_SP_NOT_EXIST ≠ 0 := by
    have h := hE
    unfold ErrorCodes.negative at h
    omega
  rcases create_shape E K w st hE with ⟨hnp, -⟩ |
    ⟨-, v, info, decl, req, resp, args, heq, hnw, -, -, hname, -⟩
  · exact absurd hpass hnp
  · have hfv : v.cat.sp.find?
        (fun r => r.unique_name = jsp_check_stored_procedure_name v info.unique_name)
        = none := by
      rw [find_of_nothing_written hnw, hname]
      exact hfind
    obtain ⟨x, hx, hce⟩ := check_exists_fresh E K v st info decl req resp hNE
      (hnw.2.2.2.2.1.trans hmode) hfv
    rw [heq, hce]
    have hxf : x.fault = w.fault :=
      (only_deleted_of_core hx).2.2.2.2.2.2.1.trans hnw.2.2.2.2.2.1
    by_contra herr
    obtain ⟨-, f2⟩ := create_add_records_failure_nosave x _ req resp herr
    have hun : (create_target_info v st info decl).unique_name
        = jsp_check_stored_procedure_name w (PT_NODE_SP_NAME st) := hname
    rcases create_add_records_cases x (create_target_info v st info decl) req resp false with
      ⟨h1, -⟩ | ⟨-, -, h⟩ | ⟨-, -, h3, -⟩ | ⟨-, -, -, h⟩
    · rw [(sp_add_eval x _).1, hxf, hun] at h1
      exact h1 hadd
    · rw [h] at herr
      exact herr rfl
    · rw [(sp_add_code_eval _ _).1] at h3
      have hfl : (sp_add_stored_procedure x (create_target_info v st info decl)).2.fault
          = w.fault := by
        rw [← hxf]
        unfold sp_add_stored_procedure ext_call
        by_cases hf : x.fault (.sp_add_stored_procedure
            (create_target_info v st info decl).unique_name) = NO_ERROR
        · simp only [hf, ne_eq, not_true_eq_false, ↓reduceIte]
        · simp only [hf, ne_eq, not_false_eq_true, ↓reduceIte]
          rfl
      rw [hfl] at h3
      exact h3 (hcode _)
    · rw [h] at herr
      exact herr rfl

/-- C15, as far as it holds: `jsp_create_stored_procedure` does not consult the prepare-call
flags. A `CREATE` of a FUNCTION returning RESULTSET that replaces nothing, passes the checks
made before the existence check and whose inserts do not fail, succeeds for every state of
the prepare-call flags, on or off. -/
theorem jsp_create_resultset_function_succeeds (E : ErrorCodes) (K : PlConsts) (w : World)
    (st : PT_SP_STMT) (flags : List Bool)
    (hE : E.negative) (hmode : w.client_type_loaddb_compat = false)
    (hfun : st.type = .PT_SP_FUNCTION) (hret : st.ret_type_db = .DB_TYPE_RESULTSET)
    (hpass : create_checks_pass w st)
    (hfind : w.cat.sp.find? (fun r => r.unique_name = jsp_check_stored_procedure_name w
      (jsp_check_stored_procedure_name w (PT_NODE_SP_NAME st))) = none)
    (hadd : w.fault (.sp_add_stored_procedure
      (jsp_check_stored_procedure_name w (PT_NODE_SP_NAME st))) = NO_ERROR)
    (hcode : ∀ cls, w.fault (.sp_add_stored_procedure_code cls) = NO_ERROR) :
    (jsp_create_stored_procedure E K { w with is_prepare_call := flags } st).1 = NO_ERROR ∧
    ∃ row : SP_ROW,
      row ∈ (jsp_create_stored_procedure E K { w with is_prepare_call := flags } st).2.cat.sp ∧
      row.sp_type = .SP_TYPE_FUNCTION ∧ row.return_type = .DB_TYPE_RESULTSET := by
  have hAE : E.ER_SP_ALREADY_EXIST ≠ 0 := by
    have h := hE
    unfold ErrorCodes.negative at h
    omega
  have hsucc := create_fresh_success E K { w with is_prepare_call := flags } st hE hmode hpass
    hfind hadd hcode
  refine ⟨hsucc, ?_⟩
  rcases create_shape E K { w with is_prepare_call := flags } st hE with
    ⟨-, code, v, heq, hc, -⟩ |
    ⟨-, v, info, decl, req, resp, args, heq, -, -, -, -, -, -, htype, hr, -⟩
  · rw [heq] at hsucc
    exact absurd hsucc hc
  · rw [heq] at hsucc ⊢
    obtain ⟨base, -, -, ⟨row, r1, -, -, -, -, -, r7, r8, -⟩, -⟩ :=
      check_exists_success E K v st info decl req resp hAE hsucc
    refine ⟨row, ?_, ?_, ?_⟩
    · rw [r1]
      simp
    · rw [r8, htype]
      simp [jsp_map_pt_misc_to_sp_type, hfun]
    · rw [r7, hr]
      simp [jsp_map_pt_misc_to_sp_type, hfun, hret]

theorem jsp_create_resultset_function_succeeds_witness :
    (jsp_create_stored_procedure E0 K0
      { w0 with is_prepare_call := List.replicate 16 true } create_f_resultset).1 = NO_ERROR ∧
    ∃ row : SP_ROW,
      row ∈ (jsp_create_stored_procedure E0 K0
        { w0 with is_prepare_call := List.replicate 16 true } create_f_resultset).2.cat.sp ∧
      row.sp_type = .SP_TYPE_FUNCTION ∧ row.return_type = .DB_TYPE_RESULTSET :=
  jsp_create_resultset_function_succeeds E0 K0 w0 create_f_resultset (List.replicate 16 true)
    E0_negative rfl rfl rfl (create_f_passes w0 rfl rfl rfl rfl) (by decide) rfl (fun _ => rfl)

/-- C15 fails with the flag off: `u1` runs `CREATE FUNCTION f () RETURN CURSOR ...` at depth 0
with every prepare-call flag off. The function is created: the result is `NO_ERROR`, not
`ER_SP_CANNOT_RETURN_RESULTSET`, and the catalog holds the record with return type
RESULTSET. -/
theorem jsp_create_resultset_function_flag_off :
    jsp_is_prepare_call w0 = false ∧
    (jsp_create_stored_procedure E0 K0 w0 create_f_resultset).1 = NO_ERROR ∧
    (jsp_create_stored_procedure E0 K0 w0 create_f_resultset).1
      ≠ E0.ER_SP_CANNOT_RETURN_RESULTSET ∧
    (jsp_create_stored_procedure E0 K0 w0 create_f_resultset).2.cat.sp.map
      (fun r => (r.unique_name, r.sp_type, r.return_type))
      = [("u1.f", .SP_TYPE_FUNCTION, .DB_TYPE_RESULTSET)] := by
  refine ⟨by decide, by decide, by decide, by decide⟩

theorem lang_kept_refl (w : World) : lang_kept w w :=
  fun r h => ⟨r, h, rfl, rfl, rfl⟩

theorem lang_kept_trans {a b c : World} (h1 : lang_kept a b) (h2 : lang_kept b c) :
    lang_kept a c := by
  intro r hr
  obtain ⟨r1, m1, e1, e2, e3⟩ := h2 r hr
  obtain ⟨r0, m0, f1, f2, f3⟩ := h1 r1 m1
  exact ⟨r0, m0, f1.trans e1, f2.trans e2, f3.trans e3⟩

theorem lang_kept_of_cat {w v : World} (h : v.cat.sp = w.cat.sp) : lang_kept w v := by
  intro r hr
  rw [h] at hr
  exact ⟨r, hr, rfl, rfl, rfl⟩

theorem lang_kept_of_core {w v : World} (h : v.core = w.core) : lang_kept w v :=
  lang_kept_of_cat (congrArg Catalog.sp (cat_core h))

theorem lk_of_eq {α : Type} {w0 v : World} {f : α × World} {x : α} (heq : f = (x, v))
    (h : lang_kept w0 f.2) : lang_kept w0 v := by
  subst heq
  exact h

theorem lk_of_eq3 {α β : Type} {w0 v : World} {f : α × β × World} {x : α} {y : β}
    (heq : f = (x, y, v)) (h : lang_kept w0 f.2.2) : lang_kept w0 v := by
  subst heq
  exact h

theorem lk_er_set (w0 w : World) (e : Int) :
    lang_kept w0 (er_set w e) ↔ lang_kept w0 w := Iff.rfl

theorem lk_er_clear (w0 w : World) :
    lang_kept w0 (er_clear w) ↔ lang_kept w0 w := Iff.rfl

theorem lk_AU_ENABLE (w0 w : World) (s : Int) :
    lang_kept w0 (AU_ENABLE w s) ↔ lang_kept w0 w := Iff.rfl

theorem lk_AU_DISABLE (w0 w : World) :
    lang_kept w0 (AU_DISABLE w).2 ↔ lang_kept w0 w := Iff.rfl

theorem lk_pt_record_error (w0 w : World) (m : PT_ERROR_MSG) :
    lang_kept w0 (pt_record_error w m) ↔ lang_kept w0 w := Iff.rfl

theorem lk_ext_call {w0 : World} (w : World) (c : EXT_CALL) (h : lang_kept w0 w) :
    lang_kept w0 (ext_call w c).2 :=
  lang_kept_trans h (lang_kept_of_core (core_ext_call w c))

theorem lk_db_get_sp {w0 : World} (E : ErrorCodes) (w : World) (m : MOP) (a : SP_ATTR)
    (h : lang_kept w0 w) : lang_kept w0 (db_get_sp E w m a).2 :=
  lang_kept_trans h (lang_kept_of_core (core_db_get_sp E w m a))

theorem lk_db_get_sp_code {w0 : World} (E : ErrorCodes) (w : World) (m : MOP) (a : SP_ATTR)
    (h : lang_kept w0 w) : lang_kept w0 (db_get_sp_code E w m a).2 :=
  lang_kept_trans h (lang_kept_of_core (core_db_get_sp_code E w m a))

theorem lk_find {w0 : World} (E : ErrorCodes) (w : World) (n : String) (p : DB_AUTH)
    (h : lang_kept w0 w) : lang_kept w0 (jsp_find_stored_procedure E w n p).2 :=
  lang_kept_trans h (lang_kept_of_core (core_find E w n p))

theorem lk_find_code {w0 : World} (E : ErrorCodes) (w : World) (n : String)
    (h : lang_kept w0 w) : lang_kept w0 (jsp_find_stored_procedure_code E w n).2 :=
  lang_kept_trans h (lang_kept_of_core (core_find_code E w n))

theorem lk_get_unique_name {w0 : World} (E : ErrorCodes) (w : World) (m : MOP) (b : String)
    (n : Nat) (h : lang_kept w0 w) : lang_kept w0 (jsp_get_unique_name E w m b n).2.2 :=
  lang_kept_trans h (lang_kept_of_core (core_get_unique_name E w m b n))

theorem lk_get_owner {w0 : World} (E : ErrorCodes) (w : World) (m : MOP)
    (h : lang_kept w0 w) : lang_kept w0 (jsp_get_owner E w m).2 :=
  lang_kept_trans h (lang_kept_of_core (core_get_owner E w m))

theorem lk_obj_delete {w0 : World} (E : ErrorCodes) (w : World) (m : Option MOP)
    (h : lang_kept w0 w) : lang_kept w0 (obj_delete E w m).2 := by
  refine lang_kept_trans h ?_
  intro r hr
  exact ⟨r, (obj_delete_only_deleted E w m).1 r hr, rfl, rfl, rfl⟩

theorem lk_sp_update {w0 : World} (w : World) (m : MOP) (f : SP_ROW → SP_ROW)
    (hf : ∀ r, (f r).mop = r.mop ∧ (f r).lang = r.lang ∧ (f r).directive = r.directive)
    (h : lang_kept w0 w) : lang_kept w0 (sp_update w m f) := by
  refine lang_kept_trans h ?_
  intro r hr
  simp only [sp_update, List.mem_map] at hr
  obtain ⟨r1, m1, rfl⟩ := hr
  refine ⟨r1, m1, ?_⟩
  split_ifs
  · exact ⟨(hf r1).1.symm, (hf r1).2.1.symm, (hf r1).2.2.symm⟩
  · exact ⟨rfl, rfl, rfl⟩

theorem lk_obj_set {w0 : World} (w : World) (m : MOP) (a : SP_ATTR) (f : SP_ROW → SP_ROW)
    (hf : ∀ r, (f r).mop = r.mop ∧ (f r).lang = r.lang ∧ (f r).directive = r.directive)
    (h : lang_kept w0 w) : lang_kept w0 (obj_set w m a f).2 := by
  unfold obj_set
  have h1 := lk_ext_call w (.obj_set m a) h
  generalize ext_call w (.obj_set m a) = q at h1
  obtain ⟨e, v⟩ := q
  simp only
  split_ifs
  · exact lk_sp_update v m f hf h1
  · exact h1

theorem lk_AU_SET_USER {w0 : World} (w : World) (u : Option MOP)
    (h : lang_kept w0 w) : lang_kept w0 (AU_SET_USER w u).2 := by
  refine lang_kept_trans h ?_
  intro r hr
  exact ⟨r, (AU_SET_USER_only_deleted w u).1 r hr, rfl, rfl, rfl⟩

theorem lk_revoke {w0 : World} (w : World) (o : MOP) (n : String)
    (h : lang_kept w0 w) : lang_kept w0 (au_object_revoke_all_privileges w o n).2 := by
  refine lang_kept_trans h ?_
  intro r hr
  exact ⟨r, (revoke_only_deleted w o n).1 r hr, rfl, rfl, rfl⟩

theorem lk_sp_edit_code {w0 : World} (w : World) (m : MOP) (i : SP_CODE_INFO)
    (h : lang_kept w0 w) : lang_kept w0 (sp_edit_stored_procedure_code w m i).2 := by
  refine lang_kept_trans h ?_
  unfold sp_edit_stored_procedure_code ext_call
  by_cases hf : w.fault (.sp_edit_stored_procedure_code m) = NO_ERROR
  · simp only [hf, ne_eq, not_true_eq_false, ↓reduceIte]
    exact lang_kept_of_cat rfl
  · simp only [hf, ne_eq, not_false_eq_true, ↓reduceIte]
    exact lang_kept_of_cat rfl

theorem lk_compile_pop {w0 : World} (w : World) (u : Option MOP)
    (req : PLCSQL_COMPILE_REQUEST) (h : lang_kept w0 w) :
    lang_kept w0
      (au_perform_pop_user (plcsql_transfer_file (au_perform_push_user w u) req).2.2) :=
  lang_kept_trans h (lang_kept_of_cat (congrArg Catalog.sp (compile_step_eval w u req).1.1))

theorem lk_compile_pop_eq {w0 w v : World} {u : Option MOP} {req : PLCSQL_COMPILE_REQUEST}
    {e : Int} {r : PLCSQL_COMPILE_RESPONSE}
    (heq : plcsql_transfer_file (au_perform_push_user w u) req = (e, r, v))
    (h : lang_kept w0 w) : lang_kept w0 (au_perform_pop_user v) := by
  have h1 := lk_compile_pop w u req h
  rw [heq] at h1
  exact h1

theorem lk_alter_target_class {w0 : World} (E : ErrorCodes) (w : World) (m : MOP) (t : String)
    (save : Int) (h : lang_kept w0 w) : lang_kept w0 (alter_target_class E w m t save).2 := by
  unfold alter_target_class
  repeat' split
  all_goals
    repeat (first
      | exact h
      | simp only [lk_er_set, lk_er_clear, lk_AU_ENABLE, lk_AU_DISABLE, lk_pt_record_error]
      | with_reducible (refine lk_of_eq (by assumption) ?_)
      | with_reducible (refine lk_ext_call _ _ ?_)
      | with_reducible (refine lk_obj_delete _ _ _ ?_)
      | with_reducible (refine lk_sp_update _ _ _ (fun _ => ⟨rfl, rfl, rfl⟩) ?_)
      | split_ifs
      | dsimp only
      | split)

theorem lk_alter_stored_procedure_code {w0 : World} (E : ErrorCodes) (w : World) (m : MOP)
    (name : String) (o : Option String) (rc : Int) (h : lang_kept w0 w) :
    lang_kept w0 (alter_stored_procedure_code E w m name o rc).2 := by
  unfold alter_stored_procedure_code
  repeat' split
  all_goals
    repeat (first
      | exact h
      | simp only [lk_er_set, lk_er_clear, lk_AU_ENABLE, lk_AU_DISABLE, lk_pt_record_error]
      | with_reducible (refine lk_alter_target_class _ _ _ _ _ ?_)
      | with_reducible (refine lk_compile_pop_eq (by assumption) ?_)
      | with_reducible (refine lk_compile_pop _ _ _ ?_)
      | with_reducible (refine lk_of_eq (by assumption) ?_)
      | with_reducible (refine lk_of_eq3 (by assumption) ?_)
      | with_reducible (refine lk_sp_edit_code _ _ _ ?_)
      | with_reducible (refine lk_db_get_sp_code _ _ _ _ ?_)
      | with_reducible (refine lk_find_code _ _ _ ?_)
      | split_ifs
      | dsimp only
      | split)

theorem lk_alter_comment {w0 : World} (w : World) (st : PT_SP_STMT) (m : MOP) (save : Int)
    (h : lang_kept w0 w) : lang_kept w0 (alter_comment w st m save).2 := by
  unfold alter_comment
  repeat' split
  all_goals
    repeat (first
      | exact h
      | simp only [lk_er_set, lk_er_clear, lk_AU_ENABLE, lk_AU_DISABLE, lk_pt_record_error]
      | with_reducible (refine lk_of_eq (by assumption) ?_)
      | with_reducible (refine lk_obj_set _ _ _ _ (fun _ => ⟨rfl, rfl, rfl⟩) ?_)
      | split_ifs
      | dsimp only
      | split)

theorem lk_alter_code_and_comment {w0 : World} (E : ErrorCodes) (w : World) (st : PT_SP_STMT)
    (m : MOP) (save : Int) (h : lang_kept w0 w) :
    lang_kept w0 (alter_code_and_comment E w st m save).2 := by
  unfold alter_code_and_comment
  repeat' split
  all_goals
    repeat (first
      | exact h
      | simp only [lk_er_set, lk_er_clear, lk_AU_ENABLE, lk_AU_DISABLE, lk_pt_record_error]
      | with_reducible (refine lk_alter_comment _ _ _ _ ?_)
      | with_reducible (refine lk_alter_stored_procedure_code _ _ _ _ _ _ ?_)
      | with_reducible (refine lk_of_eq (by assumption) ?_)
      | with_reducible (refine lk_db_get_sp _ _ _ _ ?_)
      | split_ifs
      | dsimp only
      | split)

theorem lk_alter_record {w0 : World} (E : ErrorCodes) (w : World) (st : PT_SP_STMT) (m : MOP)
    (su : Option MOP) (save : Int) (h : lang_kept w0 w) :
    lang_kept w0 (alter_record E w st m su save).2 := by
  unfold alter_record
  repeat' split
  all_goals
    repeat (first
      | exact h
      | simp only [lk_er_set, lk_er_clear, lk_AU_ENABLE, lk_AU_DISABLE, lk_pt_record_error]
      | with_reducible (refine lk_alter_code_and_comment _ _ _ _ _ ?_)
      | with_reducible (refine lk_of_eq (by assumption) ?_)
      | with_reducible (refine lk_db_get_sp _ _ _ _ ?_)
      | with_reducible (refine lk_AU_SET_USER _ _ ?_)
      | with_reducible (refine lk_obj_set _ _ _ _ (fun _ => ⟨rfl, rfl, rfl⟩) ?_)
      | split_ifs
      | dsimp only
      | split)

theorem lk_alter_revoke_and_record {w0 : World} (E : ErrorCodes) (w : World) (st : PT_SP_STMT)
    (m o : MOP) (u : String) (save : Int) (h : lang_kept w0 w) :
    lang_kept w0 (alter_revoke_and_record E w st m o u save).2 := by
  unfold alter_revoke_and_record
  repeat' split
  all_goals
    repeat (first
      | exact h
      | simp only [lk_er_set, lk_er_clear, lk_AU_ENABLE, lk_AU_DISABLE, lk_pt_record_error]
      | with_reducible (refine lk_alter_record _ _ _ _ _ _ ?_)
      | with_reducible (refine lk_of_eq (by assumption) ?_)
      | with_reducible (refine lk_AU_SET_USER _ _ ?_)
      | with_reducible (refine lk_revoke _ _ _ ?_)
      | split_ifs
      | dsimp only
      | split)

theorem lk_jsp_alter (E : ErrorCodes) (K : PlConsts) (w : World) (st : PT_SP_STMT) :
    lang_kept w (jsp_alter_stored_procedure E K w st).2 := by
  have h := lang_kept_refl w
  unfold jsp_alter_stored_procedure
  repeat' split
  all_goals
    repeat (first
      | exact h
      | simp only [lk_er_set, lk_er_clear, lk_AU_ENABLE, lk_AU_DISABLE, lk_pt_record_error]
      | with_reducible (refine lk_alter_revoke_and_record _ _ _ _ _ _ _ ?_)
      | with_reducible (refine lk_of_eq (by assumption) ?_)
      | with_reducible (refine lk_of_eq3 (by assumption) ?_)
      | with_reducible (refine lk_ext_call _ _ ?_)
      | with_reducible (refine lk_find _ _ _ _ ?_)
      | with_reducible (refine lk_get_unique_name _ _ _ _ _ ?_)
      | with_reducible (refine lk_get_owner _ _ _ ?_)
      | split_ifs
      | dsimp only
      | split)

/-- The procedure records after `create_add_records`: records of the entry, records of the
catalog held by the savepoint, or the new record with language and directive of `i`. -/
theorem create_add_records_rows (w : World) (i : SP_INFO) (req : PLCSQL_COMPILE_REQUEST)
    (resp : PLCSQL_COMPILE_RESPONSE) (hs : Bool) (c : Catalog)
    (hsv : hs = true → w.savepoint = some c) :
    ∀ r ∈ (create_add_records w i req resp hs).2.cat.sp,
      r ∈ w.cat.sp ∨ r ∈ c.sp ∨ (r.lang = i.lang ∧ r.directive = i.directive) := by
  obtain ⟨-, a2, -, -, -, -, a7, a8⟩ := sp_add_eval w i
  obtain ⟨-, b2, -, b4, -, -, -, -⟩ := sp_add_code_eval (sp_add_stored_procedure w i).2
    (create_code_info (sp_add_stored_procedure w i).2 i req resp)
  have hnew : (sp_add_stored_procedure w i).1 = NO_ERROR →
      ∀ r ∈ (sp_add_stored_procedure w i).2.cat.sp,
        r ∈ w.cat.sp ∨ r ∈ c.sp ∨ (r.lang = i.lang ∧ r.directive = i.directive) := by
    intro h1 r hr
    obtain ⟨row, r1, -, r3, r4, -⟩ := a8 h1
    rw [r1, List.mem_append, List.mem_singleton] at hr
    rcases hr with hr | rfl
    · exact Or.inl hr
    · exact Or.inr (Or.inr ⟨r3, r4⟩)
  intro r hr
  rcases create_add_records_cases w i req resp hs with ⟨h1, h⟩ | ⟨h1, h2, h⟩ |
    ⟨h1, h2, h3, h⟩ | ⟨h1, h2, h3, h⟩
  · rw [h] at hr
    cases hs with
    | false =>
      simp only [create_error_exit, Bool.false_eq_true, ↓reduceIte] at hr
      rw [a7 h1] at hr
      exact Or.inl hr
    | true =>
      simp only [create_error_exit, ↓reduceIte, tran_abort_upto_system_savepoint, a2,
        hsv rfl] at hr
      exact Or.inr (Or.inl hr)
  · rw [h] at hr
    exact hnew h1 r hr
  · rw [h] at hr
    cases hs with
    | false =>
      simp only [create_error_exit, Bool.false_eq_true, ↓reduceIte] at hr
      rw [b4] at hr
      exact hnew h1 r hr
    | true =>
      simp only [create_error_exit, ↓reduceIte, tran_abort_upto_system_savepoint, b2, a2,
        hsv rfl] at hr
      exact Or.inr (Or.inl hr)
  · rw [h] at hr
    simp only at hr
    rw [b4] at hr
    exact hnew h1 r hr

/-- The procedure records after the existence check and what follows it: records of the
entry, or the new record with language and directive of `info`. -/
theorem check_exists_rows (E : ErrorCodes) (K : PlConsts) (v : World) (st : PT_SP_STMT)
    (info : SP_INFO) (decl : Option String) (req : PLCSQL_COMPILE_REQUEST)
    (resp : PLCSQL_COMPILE_RESPONSE) :
    ∀ r ∈ (create_check_exists E K v st info decl req resp).2.cat.sp,
      r ∈ v.cat.sp ∨ (r.lang = info.lang ∧ r.directive = info.directive) := by
  have hxc := is_exist_core E v info.unique_name
  obtain ⟨-, s1, -, -, s4⟩ :=
    savepoint_eval (jsp_is_exist_stored_procedure E v info.unique_name).2
  rw [cat_core hxc] at s1 s4
  have hod := drop_stored_procedure_only_deleted E K
    (tran_system_savepoint (jsp_is_exist_stored_procedure E v info.unique_name).2).2
    info.unique_name info.sp_type
  intro r hr
  rcases create_check_exists_cases E K v st info decl req resp with
    ⟨-, h⟩ | ⟨-, -, h⟩ | ⟨-, -, -, h⟩ | ⟨-, -, h3, h4, h⟩ | ⟨-, -, h3, -, h⟩
  · rw [h] at hr
    rcases create_add_records_rows _ _ req resp false v.cat (fun hc => absurd hc (by decide))
      r hr with h1 | h1 | h1
    · rw [cat_core hxc] at h1
      exact Or.inl h1
    · exact Or.inl h1
    · exact Or.inr h1
  · rw [h] at hr
    have : (er_set (jsp_is_exist_stored_procedure E v info.unique_name).2
        E.ER_SP_ALREADY_EXIST).cat = v.cat := cat_core hxc
    simp only at hr
    rw [this] at hr
    exact Or.inl hr
  · rw [h, s1] at hr
    exact Or.inl hr
  · rw [h] at hr
    have hsv := hod.2.2.2.2.2.1
    rw [(s4 h3).1] at hsv
    simp only [create_error_exit, ↓reduceIte, tran_abort_upto_system_savepoint, hsv] at hr
    exact Or.inl hr
  · rw [h] at hr
    have hsv := hod.2.2.2.2.2.1
    rw [(s4 h3).1] at hsv
    rcases create_add_records_rows _ _ req resp true v.cat (fun _ => hsv) r hr with h1 | h1 | h1
    · have := hod.1 r h1
      rw [s1] at this
      exact Or.inl this
    · exact Or.inl h1
    · exact Or.inr h1

theorem jsp_drop_names_loop_only_deleted (E : ErrorCodes) (K : PlConsts) (t : PT_MISC_TYPE) :
    ∀ (l : List (Option String)) (w : World),
      only_deleted w (jsp_drop_names_loop E K t l w).2 := by
  intro l
  induction l with
  | nil => exact fun w => only_deleted_refl w
  | cons p rest ih =>
    intro w
    unfold jsp_drop_names_loop
    cases p with
    | none => exact only_deleted_refl w
    | some name =>
      simp only
      split_ifs
      · exact only_deleted_refl w
      · exact drop_stored_procedure_only_deleted E K w name _
      · exact only_deleted_trans (drop_stored_procedure_only_deleted E K w name _) (ih _)

theorem jsp_drop_only_deleted (E : ErrorCodes) (K : PlConsts) (w : World) (st : PT_SP_STMT) :
    only_deleted w (jsp_drop_stored_procedure E K w st).2 := by
  have h1 := only_deleted_of_core (core_ext_call w .CHECK_MODIFICATION_ERROR)
  unfold jsp_drop_stored_procedure
  simp only
  split_ifs
  · exact h1
  · exact h1
  · exact only_deleted_trans h1 (jsp_drop_names_loop_only_deleted E K _ _ _)

/-- C10: the predicate "language PL/CSQL implies directive OWNER" on every procedure record
is kept by `jsp_create_stored_procedure`, `jsp_alter_stored_procedure` and
`jsp_drop_stored_procedure`. A `CREATE` of a PL/CSQL procedure with the directive CALLER that
passes the two gates of the entry (modification allowed, DDL not blocked) fails with
`ER_SP_INVOKERS_RIGHTS_NOT_SUPPORTED` without any call recorded in the trace (so before the
compiler is invoked) and with the catalog as it was; every record left by an alter is a
record of the entry with the same identity, language and directive, and every record left by
a drop is a record of the entry. -/
theorem psql_owner_rights_invariant (E : ErrorCodes) (K : PlConsts) (w : World)
    (st : PT_SP_STMT) (hE : E.negative) (hinv : psql_owner_rights w.cat) :
    psql_owner_rights (jsp_create_stored_procedure E K w st).2.cat ∧
    psql_owner_rights (jsp_alter_stored_procedure E K w st).2.cat ∧
    psql_owner_rights (jsp_drop_stored_procedure E K w st).2.cat ∧
    (w.fault .CHECK_MODIFICATION_ERROR = NO_ERROR → w.block_ddl_statement = false →
      st.lang = .SP_LANG_PLCSQL → st.auth_id ≠ .PT_AUTHID_OWNER →
      (jsp_create_stored_procedure E K w st).1 = E.ER_SP_INVOKERS_RIGHTS_NOT_SUPPORTED ∧
      (jsp_create_stored_procedure E K w st).2.trace = w.trace ∧
      (jsp_create_stored_procedure E K w st).2.cat = w.cat ∧
      (jsp_create_stored_procedure E K w st).2.savepoint = w.savepoint) ∧
    (∀ r' ∈ (jsp_alter_stored_procedure E K w st).2.cat.sp, ∃ r ∈ w.cat.sp,
      r.mop = r'.mop ∧ r.lang = r'.lang ∧ r.directive = r'.directive) ∧
    (∀ r ∈ (jsp_drop_stored_procedure E K w st).2.cat.sp, r ∈ w.cat.sp) := by
  have hdrop : ∀ r ∈ (jsp_drop_stored_procedure E K w st).2.cat.sp, r ∈ w.cat.sp :=
    (jsp_drop_only_deleted E K w st).1
  refine ⟨?_, ?_, ?_, ?_, lk_jsp_alter E K w st, hdrop⟩
  · intro r hr
    rcases create_shape E K w st hE with ⟨-, code, v, heq, -, hnw⟩ |
      ⟨-, v, info, decl, req, resp, args, heq, hnw, -, -, -, hl, hd, -, -, hna, -⟩
    · rw [heq] at hr
      simp only at hr
      rw [hnw.1] at hr
      exact hinv r hr
    · rw [heq] at hr
      rcases check_exists_rows E K v st info decl req resp r hr with h1 | ⟨h1, h2⟩
      · rw [hnw.1] at h1
        exact hinv r h1
      · intro hp
        rw [h2]
        rw [h1] at hp
        cases hdir : info.directive with
        | SP_DIRECTIVE_RIGHTS_OWNER => rfl
        | SP_DIRECTIVE_RIGHTS_CALLER => exact absurd ⟨hdir, hp⟩ hna
  · intro r hr hp
    obtain ⟨r0, m0, -, e2, e3⟩ := lk_jsp_alter E K w st r hr
    rw [← e3]
    exact hinv r0 m0 (e2.trans hp)
  · intro r hr
    exact hinv r (hdrop r hr)
  · intro hmod hddl hlang hauth
    have ha : jsp_map_pt_to_sp_authid st.auth_id = .SP_DIRECTIVE_RIGHTS_CALLER := by
      simp [jsp_map_pt_to_sp_authid, hauth]
    unfold jsp_create_stored_procedure
    simp only [ext_call_ok w _ hmod, hddl, ha, hlang, and_self, ne_eq, not_true_eq_false,
      ↓reduceIte, Bool.false_eq_true]
    exact ⟨rfl, rfl, rfl, rfl⟩

theorem psql_owner_rights_invariant_witness :
    psql_owner_rights (jsp_create_stored_procedure E0 K0 w2_dba create_psql_q).2.cat ∧
    (jsp_create_stored_procedure E0 K0 w2_dba create_psql_q).2.cat.sp.map
      (fun r => (r.unique_name, r.lang, r.directive)) =
      [("u1.f", .SP_LANG_JAVA, .SP_DIRECTIVE_RIGHTS_OWNER),
       ("u1.p", .SP_LANG_PLCSQL, .SP_DIRECTIVE_RIGHTS_OWNER),
       ("dba.q", .SP_LANG_PLCSQL, .SP_DIRECTIVE_RIGHTS_OWNER)] ∧
    (jsp_create_stored_procedure E0 K0 w2_dba create_psql_q_caller).1
      = E0.ER_SP_INVOKERS_RIGHTS_NOT_SUPPORTED ∧
    (jsp_create_stored_procedure E0 K0 w2_dba create_psql_q_caller).2.trace = w2_dba.trace :=
  ⟨(psql_owner_rights_invariant E0 K0 w2_dba create_psql_q E0_negative
      (by unfold psql_owner_rights; decide)).1,
    by decide,
    ((psql_owner_rights_invariant E0 K0 w2_dba create_psql_q_caller E0_negative
      (by unfold psql_owner_rights; decide)).2.2.2.1 rfl rfl rfl (by decide)).1,
    rfl⟩

theorem alter_frame_refl (w : World) : alter_frame w w :=
  ⟨rfl, [], (List.append_nil _).symm⟩

theorem alter_frame_trans {a b c : World} (h1 : alter_frame a b) (h2 : alter_frame b c) :
    alter_frame a c := by
  obtain ⟨a1, l1, t1⟩ := h1
  obtain ⟨a2, l2, t2⟩ := h2
  exact ⟨a2.trans a1, l1 ++ l2, by rw [t2, t1, List.append_assoc]⟩

theorem alter_frame_of_core {w v : World} (h : v.core = w.core) : alter_frame w v :=
  ⟨congrArg Catalog.auth (cat_core h), [], by rw [trace_core h, List.append_nil]⟩

theorem af_of_eq {α : Type} {w0 v : World} {f : α × World} {x : α} (heq : f = (x, v))
    (h : alter_frame w0 f.2) : alter_frame w0 v := by
  subst heq
  exact h

theorem af_of_eq3 {α β : Type} {w0 v : World} {f : α × β × World} {x : α} {y : β}
    (heq : f = (x, y, v)) (h : alter_frame w0 f.2.2) : alter_frame w0 v := by
  subst heq
  exact h

theorem af_er_set (w0 w : World) (e : Int) :
    alter_frame w0 (er_set w e) ↔ alter_frame w0 w := Iff.rfl

theorem af_AU_ENABLE (w0 w : World) (s : Int) :
    alter_frame w0 (AU_ENABLE w s) ↔ alter_frame w0 w := Iff.rfl

theorem af_AU_DISABLE (w0 w : World) :
    alter_frame w0 (AU_DISABLE w).2 ↔ alter_frame w0 w := Iff.rfl

theorem af_pt_record_error (w0 w : World) (m : PT_ERROR_MSG) :
    alter_frame w0 (pt_record_error w m) ↔ alter_frame w0 w := Iff.rfl

theorem af_sp_update (w0 w : World) (m : MOP) (f : SP_ROW → SP_ROW) :
    alter_frame w0 (sp_update w m f) ↔ alter_frame w0 w := Iff.rfl

theorem af_ext_call {w0 : World} (w : World) (c : EXT_CALL) (h : alter_frame w0 w) :
    alter_frame w0 (ext_call w c).2 :=
  alter_frame_trans h (alter_frame_of_core (core_ext_call w c))

theorem af_db_get_sp {w0 : World} (E : ErrorCodes) (w : World) (m : MOP) (a : SP_ATTR)
    (h : alter_frame w0 w) : alter_frame w0 (db_get_sp E w m a).2 :=
  alter_frame_trans h (alter_frame_of_core (core_db_get_sp E w m a))

theorem af_db_get_sp_code {w0 : World} (E : ErrorCodes) (w : World) (m : MOP) (a : SP_ATTR)
    (h : alter_frame w0 w) : alter_frame w0 (db_get_sp_code E w m a).2 :=
  alter_frame_trans h (alter_frame_of_core (core_db_get_sp_code E w m a))

theorem af_find_code {w0 : World} (E : ErrorCodes) (w : World) (n : String)
    (h : alter_frame w0 w) : alter_frame w0 (jsp_find_stored_procedure_code E w n).2 :=
  alter_frame_trans h (alter_frame_of_core (core_find_code E w n))

theorem af_obj_delete {w0 : World} (E : ErrorCodes) (w : World) (m : Option MOP)
    (h : alter_frame w0 w) : alter_frame w0 (obj_delete E w m).2 := by
  refine alter_frame_trans h ?_
  cases m with
  | none => exact alter_frame_refl w
  | some m =>
    unfold obj_delete ext_call
    by_cases hf : w.fault (.obj_delete m) = NO_ERROR
    · simp only [hf, ne_eq, not_true_eq_false, ↓reduceIte]
      exact alter_frame_refl w
    · simp only [hf, ne_eq, not_false_eq_true, ↓reduceIte]
      exact alter_frame_refl w

theorem af_obj_set {w0 : World} (w : World) (m : MOP) (a : SP_ATTR) (f : SP_ROW → SP_ROW)
    (h : alter_frame w0 w) : alter_frame w0 (obj_set w m a f).2 := by
  refine alter_frame_trans h ?_
  unfold obj_set ext_call
  by_cases hf : w.fault (.obj_set m a) = NO_ERROR
  · simp only [hf, ne_eq, not_true_eq_false, ↓reduceIte]
    exact alter_frame_refl w
  · simp only [hf, ne_eq, not_false_eq_true, ↓reduceIte]
    exact alter_frame_refl w

theorem af_AU_SET_USER {w0 : World} (w : World) (u : Option MOP)
    (h : alter_frame w0 w) : alter_frame w0 (AU_SET_USER w u).2 := by
  refine alter_frame_trans h ?_
  unfold AU_SET_USER ext_call
  by_cases hf : w.fault (.AU_SET_USER u) = NO_ERROR
  · simp only [hf, ne_eq, not_true_eq_false, ↓reduceIte]
    exact alter_frame_refl w
  · simp only [hf, ne_eq, not_false_eq_true, ↓reduceIte]
    exact alter_frame_refl w

theorem af_sp_edit_code {w0 : World} (w : World) (m : MOP) (i : SP_CODE_INFO)
    (h : alter_frame w0 w) : alter_frame w0 (sp_edit_stored_procedure_code w m i).2 := by
  refine alter_frame_trans h ?_
  unfold sp_edit_stored_procedure_code ext_call
  by_cases hf : w.fault (.sp_edit_stored_procedure_code m) = NO_ERROR
  · simp only [hf, ne_eq, not_true_eq_false, ↓reduceIte]
    exact ⟨rfl, _, rfl⟩
  · simp only [hf, ne_eq, not_false_eq_true, ↓reduceIte]
    exact ⟨rfl, _, rfl⟩

theorem af_compile_pop {w0 : World} (w : World) (u : Option MOP)
    (req : PLCSQL_COMPILE_REQUEST) (h : alter_frame w0 w) :
    alter_frame w0
      (au_perform_pop_user (plcsql_transfer_file (au_perform_push_user w u) req).2.2) :=
  alter_frame_trans h
    ⟨congrArg Catalog.auth (compile_step_eval w u req).1.1, _, (compile_step_eval w u req).2.1⟩

theorem af_compile_pop_eq {w0 w v : World} {u : Option MOP} {req : PLCSQL_COMPILE_REQUEST}
    {e : Int} {r : PLCSQL_COMPILE_RESPONSE}
    (heq : plcsql_transfer_file (au_perform_push_user w u) req = (e, r, v))
    (h : alter_frame w0 w) : alter_frame w0 (au_perform_pop_user v) := by
  have h1 := af_compile_pop w u req h
  rw [heq] at h1
  exact h1

theorem af_alter_target_class {w0 : World} (E : ErrorCodes) (w : World) (m : MOP) (t : String)
    (save : Int) (h : alter_frame w0 w) :
    alter_frame w0 (alter_target_class E w m t save).2 := by
  unfold alter_target_class
  repeat' split
  all_goals
    repeat (first
      | exact h
      | simp only [af_er_set, af_AU_ENABLE, af_AU_DISABLE, af_pt_record_error, af_sp_update]
      | with_reducible (refine af_of_eq (by assumption) ?_)
      | with_reducible (refine af_ext_call _ _ ?_)
      | with_reducible (refine af_obj_delete _ _ _ ?_)
      | split_ifs
      | dsimp only
      | split)

theorem af_alter_stored_procedure_code {w0 : World} (E : ErrorCodes) (w : World) (m : MOP)
    (name : String) (o : Option String) (rc : Int) (h : alter_frame w0 w) :
    alter_frame w0 (alter_stored_procedure_code E w m name o rc).2 := by
  unfold alter_stored_procedure_code
  repeat' split
  all_goals
    repeat (first
      | exact h
      | simp only [af_er_set, af_AU_ENABLE, af_AU_DISABLE, af_pt_record_error, af_sp_update]
      | with_reducible (refine af_alter_target_class _ _ _ _ _ ?_)
      | with_reducible (refine af_compile_pop_eq (by assumption) ?_)
      | with_reducible (refine af_compile_pop _ _ _ ?_)
      | with_reducible (refine af_of_eq (by assumption) ?_)
      | with_reducible (refine af_of_eq3 (by assumption) ?_)
      | with_reducible (refine af_sp_edit_code _ _ _ ?_)
      | with_reducible (refine af_db_get_sp_code _ _ _ _ ?_)
      | with_reducible (refine af_find_code _ _ _ ?_)
      | split_ifs
      | dsimp only
      | split)

theorem af_alter_comment {w0 : World} (w : World) (st : PT_SP_STMT) (m : MOP) (save : Int)
    (h : alter_frame w0 w) : alter_frame w0 (alter_comment w st m save).2 := by
  unfold alter_comment
  repeat' split
  all_goals
    repeat (first
      | exact h
      | simp only [af_er_set, af_AU_ENABLE, af_AU_DISABLE, af_pt_record_error, af_sp_update]
      | with_reducible (refine af_of_eq (by assumption) ?_)
      | with_reducible (refine af_obj_set _ _ _ _ ?_)
      | split_ifs
      | dsimp only
      | split)

theorem af_alter_code_and_comment {w0 : World} (E : ErrorCodes) (w : World) (st : PT_SP_STMT)
    (m : MOP) (save : Int) (h : alter_frame w0 w) :
    alter_frame w0 (alter_code_and_comment E w st m save).2 := by
  unfold alter_code_and_comment
  repeat' split
  all_goals
    repeat (first
      | exact h
      | simp only [af_er_set, af_AU_ENABLE, af_AU_DISABLE, af_pt_record_error, af_sp_update]
      | with_reducible (refine af_alter_comment _ _ _ _ ?_)
      | with_reducible (refine af_alter_stored_procedure_code _ _ _ _ _ _ ?_)
      | with_reducible (refine af_of_eq (by assumption) ?_)
      | with_reducible (refine af_db_get_sp _ _ _ _ ?_)
      | split_ifs
      | dsimp only
      | split)

theorem af_alter_record {w0 : World} (E : ErrorCodes) (w : World) (st : PT_SP_STMT) (m : MOP)
    (su : Option MOP) (save : Int) (h : alter_frame w0 w) :
    alter_frame w0 (alter_record E w st m su save).2 := by
  unfold alter_record
  repeat' split
  all_goals
    repeat (first
      | exact h
      | simp only [af_er_set, af_AU_ENABLE, af_AU_DISABLE, af_pt_record_error, af_sp_update]
      | with_reducible (refine af_alter_code_and_comment _ _ _ _ _ ?_)
      | with_reducible (refine af_of_eq (by assumption) ?_)
      | with_reducible (refine af_db_get_sp _ _ _ _ ?_)
      | with_reducible (refine af_AU_SET_USER _ _ ?_)
      | with_reducible (refine af_obj_set _ _ _ _ ?_)
      | split_ifs
      | dsimp only
      | split)

theorem get_unique_name_ok (E : ErrorCodes) (w : World) (m : MOP) (buf : String) (n : Nat)
    (row : SP_ROW) (hf : w.fault (.db_get m .SP_ATTR_UNIQUE_NAME) = NO_ERROR)
    (hrow : sp_row w m = some row) :
    jsp_get_unique_name E w m buf n =
      (true, strncpy buf row.unique_name n, AU_ENABLE (AU_DISABLE w).2 w.Au_disable) := by
  have hg : db_get_sp E (AU_DISABLE w).2 m .SP_ATTR_UNIQUE_NAME = (.ok row, (AU_DISABLE w).2) :=
    db_get_sp_ok E _ m _ row hf hrow
  unfold jsp_get_unique_name
  simp only [hg]
  rfl

theorem get_owner_ok (E : ErrorCodes) (w : World) (m : MOP) (row : SP_ROW)
    (hf : w.fault (.db_get m .SP_ATTR_OWNER) = NO_ERROR) (hrow : sp_row w m = some row) :
    jsp_get_owner E w m = (some row.owner, AU_ENABLE (AU_DISABLE w).2 w.Au_disable) := by
  have hg : db_get_sp E (AU_DISABLE w).2 m .SP_ATTR_OWNER = (.ok row, (AU_DISABLE w).2) :=
    db_get_sp_ok E _ m _ row hf hrow
  unfold jsp_get_owner
  simp only [hg]
  rfl

/-- The entry of `jsp_alter_stored_procedure` for a DBA on a record that is found and whose
unique name and owner are read: the revoke block follows. -/
theorem alter_checks_eval (E : ErrorCodes) (K : PlConsts) (w : World) (st : PT_SP_STMT)
    (row : SP_ROW)
    (hmod : w.fault .CHECK_MODIFICATION_ERROR = NO_ERROR)
    (hddl : w.block_ddl_statement = false)
    (hdba : au_is_dba_group_member w w.Au_user = true)
    (hfind : w.cat.sp.find?
      (fun r => r.unique_name = jsp_check_stored_procedure_name w (PT_NODE_SP_NAME st))
      = some row)
    (hrow : sp_row w row.mop = some row)
    (hmode : w.client_type_loaddb_compat = false)
    (hf1 : w.fault (.db_get row.mop .SP_ATTR_UNIQUE_NAME) = NO_ERROR)
    (hf2 : w.fault (.db_get row.mop .SP_ATTR_OWNER) = NO_ERROR)
    (hlen : row.unique_name.length < K.DB_MAX_IDENTIFIER_LENGTH) :
    ∃ w2, w2.core = w.core ∧
      jsp_alter_stored_procedure E K w st =
        alter_revoke_and_record E w2 st row.mop row.owner row.unique_name w.Au_disable := by
  obtain ⟨w3, hc3, hf⟩ := find_eval E w (AU_DISABLE w).2 (core_AU_DISABLE w)
    (PT_NODE_SP_NAME st) .DB_AUTH_SELECT row hfind hmode
  have hchk : check_execute_authorization E w3 row.mop .DB_AUTH_SELECT = (NO_ERROR, w3) := by
    simp [check_execute_authorization]
  rw [hchk] at hf
  simp only [ne_eq, not_true_eq_false, ↓reduceIte] at hf
  have hc2 : (AU_ENABLE w3 (AU_DISABLE w).2.Au_disable).core = w.core :=
    (core_AU_ENABLE _ _).trans hc3
  generalize AU_ENABLE w3 (AU_DISABLE w).2.Au_disable = w4 at hf hc2
  have hg1 := get_unique_name_ok E w4 row.mop "" K.DB_MAX_IDENTIFIER_LENGTH row
    ((fault_core hc2 _).trans hf1) ((sp_row_core hc2 _).trans hrow)
  have hc5 : (AU_ENABLE (AU_DISABLE w4).2 w4.Au_disable).core = w.core := hc2
  generalize AU_ENABLE (AU_DISABLE w4).2 w4.Au_disable = w5 at hg1 hc5
  have hg2 := get_owner_ok E w5 row.mop row
    ((fault_core hc5 _).trans hf2) ((sp_row_core hc5 _).trans hrow)
  have hc6 : (AU_ENABLE (AU_DISABLE w5).2 w5.Au_disable).core = w.core := hc5
  generalize AU_ENABLE (AU_DISABLE w5).2 w5.Au_disable = w6 at hg2 hc6
  have hs : strncpy "" row.unique_name K.DB_MAX_IDENTIFIER_LENGTH = row.unique_name := by
    unfold strncpy
    rw [if_pos hlen]
  have hd : au_is_dba_group_member (AU_DISABLE w).2 (AU_DISABLE w).2.Au_user = true := hdba
  have hsave : (AU_DISABLE w).1 = w.Au_disable := rfl
  refine ⟨w6, hc6, ?_⟩
  unfold jsp_alter_stored_procedure
  simp only [ext_call_ok w _ hmod, hddl, hd, hf, hg1, hg2, hs, hsave, ne_eq, not_true_eq_false,
    ↓reduceIte, Bool.false_eq_true, Bool.not_true]

theorem alter_revoke_eval (E : ErrorCodes) (w : World) (st : PT_SP_STMT) (m owner : MOP)
    (u : String) (save : Int)
    (hset : w.fault (.AU_SET_USER (some owner)) = NO_ERROR)
    (hrev : w.fault (.au_object_revoke_all_privileges u) = NO_ERROR) :
    alter_revoke_and_record E w st m owner u save =
      alter_record E (alter_revoked w owner u) st m w.Au_user save ∧
    (alter_revoked w owner u).cat.sp = w.cat.sp ∧
    (alter_revoked w owner u).cat.sp_code = w.cat.sp_code ∧
    (alter_revoked w owner u).cat.users = w.cat.users ∧
    (alter_revoked w owner u).cat.auth = w.cat.auth.filter (fun a =>
      !(a.is_procedure && w.cat.sp.any (fun r => r.mop = a.object_of && r.unique_name = u))) ∧
    (alter_revoked w owner u).trace = w.trace ++ [.revoke_all owner u (some owner)] ∧
    (alter_revoked w owner u).fault = w.fault := by
  have h1 : AU_SET_USER w (some owner) = (NO_ERROR, { w with Au_user := some owner }) :=
    AU_SET_USER_ok w _ hset
  have h2 : au_object_revoke_all_privileges { w with Au_user := some owner } owner u =
      (NO_ERROR, alter_revoked w owner u) := by
    unfold alter_revoked
    rw [h1]
    unfold au_object_revoke_all_privileges ext_call
    simp only [hrev, ne_eq, not_true_eq_false, ↓reduceIte]
  refine ⟨?_, ?_, ?_, ?_, ?_, ?_, ?_⟩
  · unfold alter_revoke_and_record
    simp only [h1, h2, ne_eq, not_true_eq_false, ↓reduceIte]
  all_goals
    unfold alter_revoked
    rw [h1]
    unfold au_object_revoke_all_privileges ext_call
    simp only [hrev, ne_eq, not_true_eq_false, ↓reduceIte]

theorem AU_SET_USER_frame (w : World) (u : Option MOP) :
    (AU_SET_USER w u).2.cat = w.cat ∧ (AU_SET_USER w u).2.fault = w.fault ∧
    (AU_SET_USER w u).2.trace = w.trace := by
  unfold AU_SET_USER ext_call
  by_cases hf : w.fault (.AU_SET_USER u) = NO_ERROR
  · simp only [hf, ne_eq, not_true_eq_false, ↓reduceIte, and_self]
  · simp only [hf, ne_eq, not_false_eq_true, ↓reduceIte]
    exact ⟨rfl, rfl, rfl⟩

/-- The new owner named in the statement does not exist: `alter_record` fails after the
switch back to the caller, with the catalog as it got it. -/
theorem alter_record_unknown_owner (E : ErrorCodes) (v : World) (st : PT_SP_STMT) (m : MOP)
    (su : Option MOP) (save : Int) (o : String) (ho : st.owner = some o)
    (hnone : db_find_user v o = none) :
    (alter_record E v st m su save).1 = E.ER_OBJ_OBJECT_NOT_FOUND ∧
    (alter_record E v st m su save).2.cat = v.cat ∧
    (alter_record E v st m su save).2.trace = v.trace := by
  obtain ⟨q1, -, q3⟩ := AU_SET_USER_frame v su
  have hn : db_find_user (AU_SET_USER v su).2 o = none := by
    unfold db_find_user at hnone ⊢
    rw [q1]
    exact hnone
  unfold alter_record
  simp only [ho, hn, Option.isSome_some, and_self, ↓reduceIte]
  exact ⟨trivial, q1, q3⟩

/-- The kind named in the statement is not the kind of the record: `alter_record` fails after
the owner check, with the catalog as it got it. -/
theorem alter_record_kind_mismatch (E : ErrorCodes) (v : World) (st : PT_SP_STMT) (m : MOP)
    (su : Option MOP) (save : Int) (row : SP_ROW)
    (hown : ∀ o, st.owner = some o → db_find_user v o ≠ none)
    (hf : v.fault (.db_get m .SP_ATTR_SP_TYPE) = NO_ERROR)
    (hrow : sp_row v m = some row)
    (hk : row.sp_type ≠ jsp_map_pt_misc_to_sp_type st.type) :
    (alter_record E v st m su save).1 = E.ER_SP_INVALID_TYPE ∧
    (alter_record E v st m su save).2.cat = v.cat ∧
    (alter_record E v st m su save).2.trace = v.trace := by
  obtain ⟨q1, q2, q3⟩ := AU_SET_USER_frame v su
  have hg : db_get_sp E (AU_SET_USER v su).2 m .SP_ATTR_SP_TYPE
      = (.ok row, (AU_SET_USER v su).2) := by
    refine db_get_sp_ok E _ m _ row ?_ ?_
    · rw [q2]
      exact hf
    · unfold sp_row at hrow ⊢
      rw [q1]
      exact hrow
  unfold alter_record
  simp only [hg, hk, ne_eq, not_false_eq_true, ↓reduceIte]
  split_ifs with hc
  · exfalso
    obtain ⟨hc1, hc2⟩ := hc
    cases ho : st.owner with
    | none =>
      rw [ho] at hc1
      exact absurd hc1 (by decide)
    | some o =>
      rw [ho] at hc2
      simp only at hc2
      have h3 := hown o ho
      unfold db_find_user at hc2 h3
      rw [q1] at hc2
      exact h3 hc2
  · exact ⟨rfl, q1, q3⟩

theorem code_kept_refl (w : World) : code_kept w w := fun _ h => h

theorem code_kept_trans {a b c : World} (h1 : code_kept a b) (h2 : code_kept b c) :
    code_kept a c := fun r h => h1 r (h2 r h)

theorem ck_of_eq {α : Type} {w0 v : World} {f : α × World} {x : α} (heq : f = (x, v))
    (h : code_kept w0 f.2) : code_kept w0 v := by
  subst heq
  exact h

theorem ck_er_set (w0 w : World) (e : Int) :
    code_kept w0 (er_set w e) ↔ code_kept w0 w := Iff.rfl

theorem ck_AU_ENABLE (w0 w : World) (s : Int) :
    code_kept w0 (AU_ENABLE w s) ↔ code_kept w0 w := Iff.rfl

theorem ck_sp_update (w0 w : World) (m : MOP) (f : SP_ROW → SP_ROW) :
    code_kept w0 (sp_update w m f) ↔ code_kept w0 w := Iff.rfl

theorem ck_ext_call {w0 : World} (w : World) (c : EXT_CALL) (h : code_kept w0 w) :
    code_kept w0 (ext_call w c).2 :=
  code_kept_trans h (only_deleted_of_core (core_ext_call w c)).2.2.1

theorem ck_obj_delete {w0 : World} (E : ErrorCodes) (w : World) (m : Option MOP)
    (h : code_kept w0 w) : code_kept w0 (obj_delete E w m).2 :=
  code_kept_trans h (obj_delete_only_deleted E w m).2.2.1

theorem ck_obj_set {w0 : World} (w : World) (m : MOP) (a : SP_ATTR) (f : SP_ROW → SP_ROW)
    (h : code_kept w0 w) : code_kept w0 (obj_set w m a f).2 := by
  refine code_kept_trans h ?_
  unfold obj_set ext_call
  by_cases hf : w.fault (.obj_set m a) = NO_ERROR
  · simp only [hf, ne_eq, not_true_eq_false, ↓reduceIte]
    exact code_kept_refl w
  · simp only [hf, ne_eq, not_false_eq_true, ↓reduceIte]
    exact code_kept_refl w

theorem ck_alter_target_class {w0 : World} (E : ErrorCodes) (w : World) (m : MOP) (t : String)
    (save : Int) (h : code_kept w0 w) :
    code_kept w0 (alter_target_class E w m t save).2 := by
  unfold alter_target_class
  repeat' split
  all_goals
    repeat (first
      | exact h
      | simp only [ck_er_set, ck_AU_ENABLE, ck_sp_update]
      | with_reducible (refine ck_of_eq (by assumption) ?_)
      | with_reducible (refine ck_ext_call _ _ ?_)
      | with_reducible (refine ck_obj_delete _ _ _ ?_)
      | split_ifs
      | dsimp only
      | split)

theorem ck_alter_comment {w0 : World} (w : World) (st : PT_SP_STMT) (m : MOP) (save : Int)
    (h : code_kept w0 w) : code_kept w0 (alter_comment w st m save).2 := by
  unfold alter_comment
  repeat' split
  all_goals
    repeat (first
      | exact h
      | simp only [ck_er_set, ck_AU_ENABLE, ck_sp_update]
      | with_reducible (refine ck_of_eq (by assumption) ?_)
      | with_reducible (refine ck_obj_set _ _ _ _ ?_)
      | split_ifs
      | dsimp only
      | split)

theorem find_code_ok (E : ErrorCodes) (w : World) (name : String) (crow : SP_CODE_ROW)
    (hcode : w.cat.sp_code.find? (fun r => r.cls_name = name) = some crow) :
    ∃ w3, w3.core = w.core ∧
      jsp_find_stored_procedure_code E w name = (some crow.mop, w3) := by
  have h1 : (AU_DISABLE w).2.cat.sp_code.find? (fun r => r.cls_name = name) = some crow := hcode
  unfold jsp_find_stored_procedure_code
  simp only [db_find_unique_sp_code, h1]
  refine ⟨_, ?_, rfl⟩
  split_ifs <;> rfl

theorem db_get_sp_code_ok (E : ErrorCodes) (w : World) (mop : MOP) (attr : SP_ATTR)
    (crow : SP_CODE_ROW) (hf : w.fault (.db_get mop attr) = NO_ERROR)
    (hrow : sp_code_row w mop = some crow) :
    db_get_sp_code E w mop attr = (.ok crow, w) := by
  simp [db_get_sp_code, ext_call_ok w _ hf, hrow]

theorem sp_edit_code_eval (w : World) (m : MOP) (i : SP_CODE_INFO) :
    (sp_edit_stored_procedure_code w m i).1 = w.fault (.sp_edit_stored_procedure_code m) ∧
    (sp_edit_stored_procedure_code w m i).2.trace = w.trace ++ [.sp_edit_code m i] ∧
    ((sp_edit_stored_procedure_code w m i).1 = NO_ERROR →
      ∀ c ∈ (sp_edit_stored_procedure_code w m i).2.cat.sp_code, c.mop = m →
        ∀ u, i.owner = some u → c.owner = some u) := by
  unfold sp_edit_stored_procedure_code ext_call
  by_cases hf : w.fault (.sp_edit_stored_procedure_code m) = NO_ERROR
  · simp only [hf, ne_eq, not_true_eq_false, ↓reduceIte, true_and, true_implies]
    intro c hc hm u hu
    simp only [List.mem_map] at hc
    obtain ⟨r, -, rfl⟩ := hc
    by_cases hr : r.mop = m
    · simp only [hr, ↓reduceIte, hu]
    · simp only [hr, ↓reduceIte] at hm
  · simp only [hf, ne_eq, not_false_eq_true, ↓reduceIte, true_and, false_implies, and_true]
    rfl

theorem drop_frame_refl (D : List MOP) (w : World) : drop_frame D w w :=
  ⟨fun _ h _ => h, fun _ h _ => h, fun _ h _ => h, rfl⟩

theorem drop_frame_trans {D : List MOP} {a b c : World} (h1 : drop_frame D a b)
    (h2 : drop_frame D b c) : drop_frame D a c :=
  ⟨fun r h hd => h2.1 r (h1.1 r h hd) hd, fun r h hd => h2.2.1 r (h1.2.1 r h hd) hd,
    fun r h hd => h2.2.2.1 r (h1.2.2.1 r h hd) hd, h2.2.2.2.trans h1.2.2.2⟩

theorem drop_frame_of_cat {D : List MOP} {w v : World} (h : v.cat = w.cat)
    (hm : v.client_type_loaddb_compat = w.client_type_loaddb_compat) : drop_frame D w v := by
  refine ⟨?_, ?_, ?_, hm⟩ <;> (rw [h]; exact fun _ hr _ => hr)

theorem drop_frame_of_core {D : List MOP} {w v : World} (h : v.core = w.core) :
    drop_frame D w v :=
  drop_frame_of_cat (cat_core h) (loaddb_core h)

theorem obj_delete_frame (E : ErrorCodes) (D : List MOP) (w : World) (mo : Option MOP)
    (hm : ∀ x, mo = some x → x ∈ D) : drop_frame D w (obj_delete E w mo).2 := by
  cases mo with
  | none => exact drop_frame_refl D w
  | some m =>
    have hmD := hm m rfl
    have hne : ∀ x : MOP, x ∉ D → x ≠ m := fun x hx hxm => hx (hxm ▸ hmD)
    unfold obj_delete ext_call
    by_cases hf : w.fault (.obj_delete m) = NO_ERROR
    · simp only [hf, ne_eq, not_true_eq_false, ↓reduceIte]
      refine ⟨?_, ?_, ?_, rfl⟩
      · intro r hr hd
        simp only [List.mem_filter, decide_eq_true_eq]
        exact ⟨hr, hne _ hd⟩
      · intro r hr hd
        simp only [List.mem_filter, decide_eq_true_eq]
        exact ⟨hr, hne _ hd⟩
      · intro r hr hd
        simp only [List.mem_filter, decide_eq_true_eq]
        exact ⟨hr, hne _ hd⟩
    · simp only [hf, ne_eq, not_false_eq_true, ↓reduceIte]
      exact drop_frame_refl D w

/-- A successful `obj_delete`: the argument is an object, and no record of that identity is
left. -/
theorem obj_delete_absent (E : ErrorCodes) (w : World) (mo : Option MOP)
    (hE : E.ER_OBJ_INVALID_ARGUMENTS ≠ 0) (h : (obj_delete E w mo).1 = NO_ERROR) :
    ∃ m, mo = some m ∧ (∀ r ∈ (obj_delete E w mo).2.cat.sp, r.mop ≠ m) ∧
      (∀ r ∈ (obj_delete E w mo).2.cat.sp_args, r.mop ≠ m) ∧
      (∀ r ∈ (obj_delete E w mo).2.cat.sp_code, r.mop ≠ m) := by
  cases mo with
  | none => exact absurd h hE
  | some m =>
    refine ⟨m, rfl, ?_⟩
    unfold obj_delete ext_call at h ⊢
    by_cases hf : w.fault (.obj_delete m) = NO_ERROR
    · simp only [hf, ne_eq, not_true_eq_false, ↓reduceIte]
      refine ⟨?_, ?_, ?_⟩ <;>
      · intro r hr
        simp only [List.mem_filter, decide_eq_true_eq] at hr
        exact hr.2
    · simp only [hf, ne_eq, not_false_eq_true, ↓reduceIte] at h

theorem AU_SET_USER_drop_frame (D : List MOP) (w : World) (u : Option MOP) :
    drop_frame D w (AU_SET_USER w u).2 := by
  unfold AU_SET_USER ext_call
  by_cases hf : w.fault (.AU_SET_USER u) = NO_ERROR
  · simp only [hf, ne_eq, not_true_eq_false, ↓reduceIte]
    exact drop_frame_refl D w
  · simp only [hf, ne_eq, not_false_eq_true, ↓reduceIte]
    exact drop_frame_refl D w

theorem revoke_drop_frame (D : List MOP) (w : World) (o : MOP) (n : String) :
    drop_frame D w (au_object_revoke_all_privileges w o n).2 := by
  unfold au_object_revoke_all_privileges ext_call
  by_cases hf : w.fault (.au_object_revoke_all_privileges n) = NO_ERROR
  · simp only [hf, ne_eq, not_true_eq_false, ↓reduceIte]
    exact drop_frame_refl D w
  · simp only [hf, ne_eq, not_false_eq_true, ↓reduceIte]
    exact drop_frame_refl D w

theorem delete_auth_drop_frame (D : List MOP) (w : World) (n : String) :
    drop_frame D w (au_delete_auth_of_dropping_database_object w n).2 := by
  unfold au_delete_auth_of_dropping_database_object ext_call
  by_cases hf : w.fault (.au_delete_auth_of_dropping_database_object n) = NO_ERROR
  · simp only [hf, ne_eq, not_true_eq_false, ↓reduceIte]
    exact drop_frame_refl D w
  · simp only [hf, ne_eq, not_false_eq_true, ↓reduceIte]
    exact drop_frame_refl D w

/-- The argument loop of `drop_stored_procedure`: only the listed argument records go, and
after a run without failure every index of the run held an object, of which no record is
left. -/
theorem drop_args_loop_spec (E : ErrorCodes) (D : List MOP) (args : List MOP)
    (hE : E.ER_OBJ_INVALID_ARGUMENTS ≠ 0) (hD : ∀ a ∈ args, a ∈ D) :
    ∀ (left i : Nat) (w : World),
      drop_frame D w (drop_args_loop E args left i w).2 ∧
      ((drop_args_loop E args left i w).1 = NO_ERROR →
        ∀ j, i ≤ j → j < i + left → ∃ a, args[j]? = some a ∧
          ∀ x ∈ (drop_args_loop E args left i w).2.cat.sp_args, x.mop ≠ a) := by
  intro left
  induction left with
  | zero =>
    intro i w
    refine ⟨drop_frame_refl D w, fun _ j h1 h2 => ?_⟩
    omega
  | succ n ih =>
    intro i w
    have hfr := obj_delete_frame E D w args[i]?
      (fun x hx => hD x (List.getElem?_mem hx))
    have hab := obj_delete_absent E w args[i]? hE
    unfold drop_args_loop
    simp only
    by_cases herr : (obj_delete E w args[i]?).1 = NO_ERROR
    · rw [if_neg (not_not.mpr herr)]
      obtain ⟨i1, i2⟩ := ih (i + 1) (obj_delete E w args[i]?).2
      refine ⟨drop_frame_trans hfr i1, fun hs j h1 h2 => ?_⟩
      by_cases hj : j = i
      · subst hj
        obtain ⟨a, ha, -, hx, -⟩ := hab herr
        refine ⟨a, ha, fun x hx2 => hx x ?_⟩
        exact (drop_args_loop_only_deleted E args n (j + 1) _).2.1 x hx2
      · exact i2 hs j (by omega) (by omega)
    · rw [if_pos herr]
      exact ⟨hfr, fun hs => absurd hs herr⟩

/-- The end of `drop_stored_procedure`: only the procedure record goes, and after a run
without failure no record of its identity is left. -/
theorem drop_procedure_record_spec (E : ErrorCodes) (D : List MOP) (w : World) (name : String)
    (m : MOP) (su : Option MOP) (save : Int) (hE : E.ER_OBJ_INVALID_ARGUMENTS ≠ 0)
    (hm : m ∈ D) :
    drop_frame D w (drop_procedure_record E w name m su save).2 ∧
    ((drop_procedure_record E w name m su save).1 = NO_ERROR →
      ∀ x ∈ (drop_procedure_record E w name m su save).2.cat.sp, x.mop ≠ m) := by
  have h1 := AU_SET_USER_drop_frame D w su
  have h2 := delete_auth_drop_frame D (AU_SET_USER w su).2 name
  have h3 := obj_delete_frame E D
    (au_delete_auth_of_dropping_database_object (AU_SET_USER w su).2 name).2 (some m)
    (fun x hx => (Option.some.inj hx) ▸ hm)
  have h4 := obj_delete_absent E
    (au_delete_auth_of_dropping_database_object (AU_SET_USER w su).2 name).2 (some m) hE
  unfold drop_procedure_record
  simp only
  by_cases herr : (au_delete_auth_of_dropping_database_object (AU_SET_USER w su).2 name).1
      = NO_ERROR
  · rw [if_neg (not_not.mpr herr)]
    refine ⟨drop_frame_trans h1 (drop_frame_trans h2 h3), fun hs => ?_⟩
    obtain ⟨m', hm', hx, -⟩ := h4 hs
    obtain rfl := Option.some.inj hm'
    exact hx
  · rw [if_pos herr]
    exact ⟨drop_frame_trans h1 h2, fun hs => absurd hs herr⟩

theorem drop_revoke_and_record_spec (E : ErrorCodes) (D : List MOP) (w : World) (name : String)
    (m o : MOP) (u : String) (save : Int) (hE : E.ER_OBJ_INVALID_ARGUMENTS ≠ 0)
    (hm : m ∈ D) :
    drop_frame D w (drop_revoke_and_record E w name m o u save).2 ∧
    ((drop_revoke_and_record E w name m o u save).1 = NO_ERROR →
      ∀ x ∈ (drop_revoke_and_record E w name m o u save).2.cat.sp, x.mop ≠ m) := by
  have h1 := AU_SET_USER_drop_frame D w (some o)
  have h2 := revoke_drop_frame D (AU_SET_USER w (some o)).2 o u
  have h3 := AU_SET_USER_drop_frame D
    (au_object_revoke_all_privileges (AU_SET_USER w (some o)).2 o u).2 w.Au_user
  unfold drop_revoke_and_record
  simp only
  by_cases hset : (AU_SET_USER w (some o)).1 = NO_ERROR
  · rw [if_pos hset]
    by_cases herr : (au_object_revoke_all_privileges (AU_SET_USER w (some o)).2 o u).1
        = NO_ERROR
    · rw [if_neg (not_not.mpr herr)]
      obtain ⟨p1, p2⟩ := drop_procedure_record_spec E D
        (au_object_revoke_all_privileges (AU_SET_USER w (some o)).2 o u).2 name m w.Au_user
        save hE hm
      exact ⟨drop_frame_trans h1 (drop_frame_trans h2 p1), p2⟩
    · rw [if_pos herr]
      exact ⟨drop_frame_trans h1 (drop_frame_trans h2 h3), fun hs => absurd hs herr⟩
  · rw [if_neg hset]
    obtain ⟨p1, p2⟩ := drop_procedure_record_spec E D (AU_SET_USER w (some o)).2 name m
      w.Au_user save hE hm
    exact ⟨drop_frame_trans h1 p1, p2⟩

theorem db_get_sp_error_ne (E : ErrorCodes) (hE : E.ER_HEAP_UNKNOWN_OBJECT ≠ 0) {w w1 : World}
    {mop : MOP} {attr : SP_ATTR} {e : Int} (h : db_get_sp E w mop attr = (.error e, w1)) :
    e ≠ NO_ERROR := by
  rcases db_get_sp_error_slot E w w1 mop attr e h with ⟨-, h1⟩ | ⟨-, h1⟩
  · exact h1
  · rw [h1]
    exact hE

theorem db_get_sp_code_cases (E : ErrorCodes) (hE : E.ER_HEAP_UNKNOWN_OBJECT ≠ 0) (w : World)
    (mop : MOP) (attr : SP_ATTR) :
    (∃ e, e ≠ NO_ERROR ∧ (db_get_sp_code E w mop attr).1 = .error e) ∨
    (∃ c, c ∈ w.cat.sp_code ∧ c.mop = mop ∧ (db_get_sp_code E w mop attr).1 = .ok c) := by
  unfold db_get_sp_code ext_call
  by_cases hf : w.fault (.db_get mop attr) = NO_ERROR
  · simp only [hf, ne_eq, not_true_eq_false, ↓reduceIte]
    cases hr : sp_code_row w mop with
    | none => exact Or.inl ⟨_, hE, rfl⟩
    | some c =>
      unfold sp_code_row at hr
      have h1 := List.mem_of_find?_eq_some hr
      have h2 := List.find?_some hr
      exact Or.inr ⟨c, h1, by simpa using h2, rfl⟩
  · simp only [hf, ne_eq, not_false_eq_true, ↓reduceIte]
    exact Or.inl ⟨_, hf, rfl⟩

theorem db_get_sp_cases (E : ErrorCodes) (hE : E.ER_HEAP_UNKNOWN_OBJECT ≠ 0) (w : World)
    (mop : MOP) (attr : SP_ATTR) :
    (∃ e, e ≠ NO_ERROR ∧ (db_get_sp E w mop attr).1 = .error e) ∨
    (∃ c, c ∈ w.cat.sp ∧ c.mop = mop ∧ (db_get_sp E w mop attr).1 = .ok c) := by
  unfold db_get_sp ext_call
  by_cases hf : w.fault (.db_get mop attr) = NO_ERROR
  · simp only [hf, ne_eq, not_true_eq_false, ↓reduceIte]
    cases hr : sp_row w mop with
    | none => exact Or.inl ⟨_, hE, rfl⟩
    | some c =>
      unfold sp_row at hr
      have h1 := List.mem_of_find?_eq_some hr
      have h2 := List.find?_some hr
      exact Or.inr ⟨c, h1, by simpa using h2, rfl⟩
  · simp only [hf, ne_eq, not_false_eq_true, ↓reduceIte]
    exact Or.inl ⟨_, hf, rfl⟩

theorem find_code_result (E : ErrorCodes) (w : World) (name : String) :
    (jsp_find_stored_procedure_code E w name).1 =
      (w.cat.sp_code.find? (fun r => r.cls_name = name)).map (fun r => r.mop) := by
  have h1 : (AU_DISABLE w).2.cat.sp_code = w.cat.sp_code := rfl
  unfold jsp_find_stored_procedure_code db_find_unique_sp_code
  simp only [h1]
  cases w.cat.sp_code.find? (fun r => r.cls_name = name) <;> rfl

/-- The deletion of the code record: only code records of that class name go, and after a
run without failure the code record found under the name is gone. -/
theorem drop_stored_procedure_code_spec (E : ErrorCodes) (D : List MOP) (w : World)
    (name : String) (hE : E.negative)
    (hD : ∀ c ∈ w.cat.sp_code, c.cls_name = name → c.mop ∈ D) :
    drop_frame D w (drop_stored_procedure_code E w name).2 ∧
    ((drop_stored_procedure_code E w name).1 = NO_ERROR →
      ∀ crow, w.cat.sp_code.find? (fun r => r.cls_name = name) = some crow →
        ∀ c ∈ (drop_stored_procedure_code E w name).2.cat.sp_code, c.mop ≠ crow.mop) := by
  have hE1 : E.ER_OBJ_INVALID_ARGUMENTS ≠ 0 := by
    have h := hE
    unfold ErrorCodes.negative at h
    omega
  have hE2 : E.ER_HEAP_UNKNOWN_OBJECT ≠ 0 := by
    have h := hE
    unfold ErrorCodes.negative at h
    omega
  have hE3 : E.ER_SP_DROP_NOT_ALLOWED_PRIVILEGES ≠ 0 := by
    have h := hE
    unfold ErrorCodes.negative at h
    omega
  have hE4 : E.ER_SP_DROP_NOT_ALLOWED_SYSTEM_GENERATED ≠ 0 := by
    have h := hE
    unfold ErrorCodes.negative at h
    omega
  have hres := find_code_result E (AU_DISABLE w).2 name
  have hc2 := (core_find_code E (AU_DISABLE w).2 name).trans (core_AU_DISABLE w)
  have hcat : (AU_DISABLE w).2.cat.sp_code = w.cat.sp_code := rfl
  rw [hcat] at hres
  unfold drop_stored_procedure_code
  simp only
  generalize jsp_find_stored_procedure_code E (AU_DISABLE w).2 name = q at hres hc2
  obtain ⟨x, w2⟩ := q
  simp only at hres hc2
  cases x with
  | none =>
    simp only
    refine ⟨drop_frame_of_core hc2, fun _ crow hcrow => ?_⟩
    rw [hcrow] at hres
    exact absurd hres (by simp)
  | some cm =>
    simp only
    have hc3 := (core_db_get_sp_code E w2 cm .SP_ATTR_OWNER).trans hc2
    have hk3 := db_get_sp_code_cases E hE2 w2 cm .SP_ATTR_OWNER
    generalize db_get_sp_code E w2 cm .SP_ATTR_OWNER = q3 at hc3 hk3
    obtain ⟨r3, w3⟩ := q3
    simp only at hc3 hk3
    rcases hk3 with ⟨e, he, rfl⟩ | ⟨c3, -, -, rfl⟩
    · exact ⟨drop_frame_of_core hc3, fun hs => absurd hs he⟩
    · simp only
      split_ifs with hpriv
      · exact ⟨drop_frame_of_core hc3, fun hs => absurd hs hE3⟩
      · have hc4 := (core_db_get_sp_code E w3 cm .SP_ATTR_IS_SYSTEM_GENERATED).trans hc3
        have hk4 := db_get_sp_code_cases E hE2 w3 cm .SP_ATTR_IS_SYSTEM_GENERATED
        generalize db_get_sp_code E w3 cm .SP_ATTR_IS_SYSTEM_GENERATED = q4 at hc4 hk4
        obtain ⟨r4, w4⟩ := q4
        simp only at hc4 hk4
        rcases hk4 with ⟨e, he, rfl⟩ | ⟨c4, -, -, rfl⟩
        · exact ⟨drop_frame_of_core hc4, fun hs => absurd hs he⟩
        · simp only
          split_ifs with hgen
          · exact ⟨drop_frame_of_core hc4, fun hs => absurd hs hE4⟩
          · have hcm : cm ∈ D := by
              cases hfd : w.cat.sp_code.find? (fun r => r.cls_name = name) with
              | none =>
                rw [hfd] at hres
                exact absurd hres (by simp)
              | some crow =>
                rw [hfd] at hres
                have h1 := List.mem_of_find?_eq_some hfd
                have h2 := List.find?_some hfd
                have h3 : crow.mop = cm := by
                  simpa using hres.symm
                rw [← h3]
                exact hD crow h1 (by simpa using h2)
            have hfr := obj_delete_frame E D w4 (some cm)
              (fun x hx => (Option.some.inj hx) ▸ hcm)
            have hab := obj_delete_absent E w4 (some cm) hE1
            refine ⟨drop_frame_trans (drop_frame_of_core hc4) hfr, fun hs crow hcrow => ?_⟩
            obtain ⟨m', hm', -, -, hx⟩ := hab hs
            obtain rfl := Option.some.inj hm'
            rw [hcrow] at hres
            have h3 : crow.mop = cm := by
              simpa using hres.symm
            rw [h3]
            exact hx

/-- The end of `drop_stored_procedure` from the read of the argument count on, for the record
`row` of identity `m` whose `arg_count` is the number of its argument identities: only
records with identities in `D` go, and after a run without failure neither the procedure
record nor any of its argument records is left. -/
theorem drop_args_and_record_spec (E : ErrorCodes) (K : PlConsts) (D : List MOP) (w : World)
    (name : String) (m owner : MOP) (save : Int) (row : SP_ROW) (hE : E.negative)
    (hmop : ∀ r ∈ w.cat.sp, r.mop = m → r = row)
    (hD1 : m ∈ D) (hD2 : ∀ a ∈ row.args, a ∈ D)
    (hcnt : row.arg_count = row.args.length) :
    drop_frame D w (drop_args_and_record E K w name m owner save).2 ∧
    ((drop_args_and_record E K w name m owner save).1 = NO_ERROR →
      (∀ x ∈ (drop_args_and_record E K w name m owner save).2.cat.sp, x.mop ≠ m) ∧
      (∀ a ∈ row.args,
        ∀ x ∈ (drop_args_and_record E K w name m owner save).2.cat.sp_args, x.mop ≠ a)) := by
  have hE1 : E.ER_OBJ_INVALID_ARGUMENTS ≠ 0 := by
    have h := hE
    unfold ErrorCodes.negative at h
    omega
  have hE2 : E.ER_HEAP_UNKNOWN_OBJECT ≠ 0 := by
    have h := hE
    unfold ErrorCodes.negative at h
    omega
  unfold drop_args_and_record
  have hc9 := core_db_get_sp E w m .SP_ATTR_ARG_COUNT
  have hk9 := db_get_sp_cases E hE2 w m .SP_ATTR_ARG_COUNT
  generalize db_get_sp E w m .SP_ATTR_ARG_COUNT = q9 at hc9 hk9
  obtain ⟨r9, w9⟩ := q9
  simp only at hc9 hk9
  rcases hk9 with ⟨e, he, rfl⟩ | ⟨c9, hm9, hi9, rfl⟩
  · exact ⟨drop_frame_of_core hc9, fun hs => absurd hs he⟩
  · obtain rfl := hmop c9 hm9 hi9
    simp only
    have hc10 := (core_db_get_sp E w9 m .SP_ATTR_ARGS).trans hc9
    have hk10 := db_get_sp_cases E hE2 w9 m .SP_ATTR_ARGS
    rw [cat_core hc9] at hk10
    generalize db_get_sp E w9 m .SP_ATTR_ARGS = q10 at hc10 hk10
    obtain ⟨r10, w10⟩ := q10
    simp only at hc10 hk10
    rcases hk10 with ⟨e, he, rfl⟩ | ⟨c10, hm10, hi10, rfl⟩
    · exact ⟨drop_frame_of_core hc10, fun hs => absurd hs he⟩
    · obtain rfl := hmop c10 hm10 hi10
      simp only
      obtain ⟨l1, l2⟩ := drop_args_loop_spec E D c10.args hE1 hD2 c10.arg_count.toNat 0 w10
      have lod := drop_args_loop_only_deleted E c10.args c10.arg_count.toNat 0 w10
      by_cases herr : (drop_args_loop E c10.args c10.arg_count.toNat 0 w10).1 = NO_ERROR
      · rw [if_neg (not_not.mpr herr)]
        have hc12 := core_get_unique_name E
          (drop_args_loop E c10.args c10.arg_count.toNat 0 w10).2 m ""
          K.DB_MAX_IDENTIFIER_LENGTH
        generalize jsp_get_unique_name E
          (drop_args_loop E c10.args c10.arg_count.toNat 0 w10).2 m ""
          K.DB_MAX_IDENTIFIER_LENGTH = q12 at hc12
        obtain ⟨b12, u12, w12⟩ := q12
        simp only at hc12 ⊢
        obtain ⟨p1, p2⟩ := drop_revoke_and_record_spec E D w12 name m owner u12 save hE1 hD1
        have pod := drop_revoke_and_record_only_deleted E w12 name m owner u12 save
        refine ⟨drop_frame_trans (drop_frame_of_core hc10)
          (drop_frame_trans l1 (drop_frame_trans (drop_frame_of_core hc12) p1)),
          fun hs => ⟨p2 hs, fun a ha x hx => ?_⟩⟩
        obtain ⟨j, hj, hja⟩ := List.getElem_of_mem ha
        have hjl : j < 0 + c10.arg_count.toNat := by
          rw [hcnt]
          simp only [Int.toNat_ofNat, zero_add]
          exact hj
        obtain ⟨a', ha', hab⟩ := l2 herr j (Nat.zero_le _) hjl
        have haa : a' = a := by
          rw [List.getElem?_eq_getElem hj, hja] at ha'
          exact (Option.some.inj ha').symm
        rw [← haa]
        refine hab x ?_
        have h1 := pod.2.1 x hx
        rw [cat_core hc12] at h1
        exact h1
      · rw [if_pos herr]
        exact ⟨drop_frame_trans (drop_frame_of_core hc10) l1, fun hs => absurd hs herr⟩

/-- The end of `drop_stored_procedure` from the read of the language on: only records with
identities in `D` go, and after a run without failure the procedure record, its argument
records and, for PL/CSQL, the code record found under its target class are gone. -/
theorem drop_code_args_and_record_spec (E : ErrorCodes) (K : PlConsts) (D : List MOP)
    (w : World) (name : String) (m owner : MOP) (save : Int) (row : SP_ROW) (hE : E.negative)
    (hmop : ∀ r ∈ w.cat.sp, r.mop = m → r = row)
    (hD1 : m ∈ D) (hD2 : ∀ a ∈ row.args, a ∈ D)
    (hD3 : row.lang = .SP_LANG_PLCSQL →
      ∀ c ∈ w.cat.sp_code, c.cls_name = row.target_class → c.mop ∈ D)
    (hcnt : row.arg_count = row.args.length) :
    drop_frame D w (drop_code_args_and_record E K w name m owner save).2 ∧
    ((drop_code_args_and_record E K w name m owner save).1 = NO_ERROR →
      (∀ x ∈ (drop_code_args_and_record E K w name m owner save).2.cat.sp, x.mop ≠ m) ∧
      (∀ a ∈ row.args,
        ∀ x ∈ (drop_code_args_and_record E K w name m owner save).2.cat.sp_args, x.mop ≠ a) ∧
      (row.lang = .SP_LANG_PLCSQL → ∀ crow,
        w.cat.sp_code.find? (fun r => r.cls_name = row.target_class) = some crow →
        ∀ c ∈ (drop_code_args_and_record E K w name m owner save).2.cat.sp_code,
          c.mop ≠ crow.mop)) := by
  have hE2 : E.ER_HEAP_UNKNOWN_OBJECT ≠ 0 := by
    have h := hE
    unfold ErrorCodes.negative at h
    omega
  unfold drop_code_args_and_record
  have hc6 := core_db_get_sp E w m .SP_ATTR_LANG
  have hk6 := db_get_sp_cases E hE2 w m .SP_ATTR_LANG
  generalize db_get_sp E w m .SP_ATTR_LANG = q6 at hc6 hk6
  obtain ⟨r6, w6⟩ := q6
  simp only at hc6 hk6
  rcases hk6 with ⟨e, he, rfl⟩ | ⟨c6, hm6, hi6, rfl⟩
  · exact ⟨drop_frame_of_core hc6, fun hs => absurd hs he⟩
  · obtain rfl := hmop c6 hm6 hi6
    simp only
    by_cases hlang : c6.lang = .SP_LANG_PLCSQL
    · rw [if_pos hlang]
      have hc7 := (core_db_get_sp E w6 m .SP_ATTR_TARGET_CLASS).trans hc6
      have hk7 := db_get_sp_cases E hE2 w6 m .SP_ATTR_TARGET_CLASS
      rw [cat_core hc6] at hk7
      generalize db_get_sp E w6 m .SP_ATTR_TARGET_CLASS = q7 at hc7 hk7
      obtain ⟨r7, w7⟩ := q7
      simp only at hc7 hk7
      rcases hk7 with ⟨e, he, rfl⟩ | ⟨c7, hm7, hi7, rfl⟩
      · exact ⟨drop_frame_of_core hc7, fun hs => absurd hs he⟩
      · obtain rfl := hmop c7 hm7 hi7
        simp only
        have hD3' : ∀ c ∈ w7.cat.sp_code, c.cls_name = c7.target_class → c.mop ∈ D := by
          rw [cat_core hc7]
          exact hD3 hlang
        obtain ⟨d1, d2⟩ := drop_stored_procedure_code_spec E D w7 c7.target_class hE hD3'
        have dod := drop_stored_procedure_code_only_deleted E w7 c7.target_class
        rw [cat_core hc7] at d2
        by_cases herr : (drop_stored_procedure_code E w7 c7.target_class).1 = NO_ERROR
        · rw [if_neg (not_not.mpr herr)]
          have hmop8 : ∀ r ∈ (drop_stored_procedure_code E w7 c7.target_class).2.cat.sp,
              r.mop = m → r = c7 := by
            intro r hr
            have h1 := dod.1 r hr
            rw [cat_core hc7] at h1
            exact hmop r h1
          obtain ⟨a1, a2⟩ := drop_args_and_record_spec E K D
            (drop_stored_procedure_code E w7 c7.target_class).2 name m owner save c7 hE hmop8
            hD1 hD2 hcnt
          have aod := drop_args_and_record_only_deleted E K
            (drop_stored_procedure_code E w7 c7.target_class).2 name m owner save
          refine ⟨drop_frame_trans (drop_frame_of_core hc7) (drop_frame_trans d1 a1),
            fun hs => ⟨(a2 hs).1, (a2 hs).2, fun _ crow hcrow c hc => ?_⟩⟩
          exact d2 herr crow hcrow c (aod.2.2.1 c hc)
        · rw [if_pos herr]
          exact ⟨drop_frame_trans (drop_frame_of_core hc7) d1, fun hs => absurd hs herr⟩
    · rw [if_neg hlang]
      have hmop6 : ∀ r ∈ w6.cat.sp, r.mop = m → r = c6 := by
        rw [cat_core hc6]
        exact hmop
      obtain ⟨a1, a2⟩ := drop_args_and_record_spec E K D w6 name m owner save c6 hE hmop6
        hD1 hD2 hcnt
      exact ⟨drop_frame_trans (drop_frame_of_core hc6) a1,
        fun hs => ⟨(a2 hs).1, (a2 hs).2, fun hl => absurd hl hlang⟩⟩

theorem checked_name_of_users {w v : World} (hc : v.cat.users = w.cat.users)
    (hu : v.Au_user = w.Au_user) (hb : v.name_buffer = w.name_buffer) (name : String) :
    jsp_check_stored_procedure_name v name = jsp_check_stored_procedure_name w name := by
  unfold jsp_check_stored_procedure_name sm_user_specified_name au_get_current_user_name user_row
  rw [hc, hu, hb]

/-- C17: when `drop_stored_procedure` returns `NO_ERROR` for a procedure that is found
(outside legacy admin load mode, owner, system-generated flag and kind read, identity and
unique name held by one procedure record only) and whose `arg_count` is the number of its
linked argument records, then no procedure record of its identity, none of its argument
records and, for PL/CSQL, not the code record found under its target class is left; every
record whose identity is not one of those is still there and nothing was added; and with the
identity of the caller restored, a lookup of the same name finds no record and leaves
`ER_SP_NOT_EXIST`. -/
theorem drop_stored_procedure_removes (E : ErrorCodes) (K : PlConsts) (w : World)
    (name : String) (t : SP_TYPE_ENUM) (row : SP_ROW) (purpose : DB_AUTH) (hE : E.negative)
    (hfind : w.cat.sp.find? (fun r => r.unique_name = jsp_check_stored_procedure_name w name)
      = some row)
    (hmode : w.client_type_loaddb_compat = false)
    (hf1 : w.fault (.db_get row.mop .SP_ATTR_OWNER) = NO_ERROR)
    (hf2 : w.fault (.db_get row.mop .SP_ATTR_IS_SYSTEM_GENERATED) = NO_ERROR)
    (hf3 : w.fault (.db_get row.mop .SP_ATTR_SP_TYPE) = NO_ERROR)
    (hmop : ∀ r ∈ w.cat.sp, r.mop = row.mop → r = row)
    (huniq : ∀ r ∈ w.cat.sp, r.unique_name = row.unique_name → r = row)
    (hcnt : row.arg_count = row.args.length)
    (hid : w.fault (.AU_SET_USER w.Au_user) = NO_ERROR)
    (hsucc : (drop_stored_procedure E K w name t).1 = NO_ERROR) :
    (∀ x ∈ (drop_stored_procedure E K w name t).2.cat.sp, x.mop ≠ row.mop) ∧
    (∀ a ∈ row.args, ∀ x ∈ (drop_stored_procedure E K w name t).2.cat.sp_args, x.mop ≠ a) ∧
    (row.lang = .SP_LANG_PLCSQL → ∀ crow,
      w.cat.sp_code.find? (fun r => r.cls_name = row.target_class) = some crow →
      ∀ c ∈ (drop_stored_procedure E K w name t).2.cat.sp_code, c.mop ≠ crow.mop) ∧
    (∀ r ∈ w.cat.sp, r.mop ∉ drop_identities w row →
      r ∈ (drop_stored_procedure E K w name t).2.cat.sp) ∧
    (∀ r ∈ w.cat.sp_args, r.mop ∉ drop_identities w row →
      r ∈ (drop_stored_procedure E K w name t).2.cat.sp_args) ∧
    (∀ r ∈ w.cat.sp_code, r.mop ∉ drop_identities w row →
      r ∈ (drop_stored_procedure E K w name t).2.cat.sp_code) ∧
    (∀ r ∈ (drop_stored_procedure E K w name t).2.cat.sp, r ∈ w.cat.sp) ∧
    (∀ r ∈ (drop_stored_procedure E K w name t).2.cat.sp_args, r ∈ w.cat.sp_args) ∧
    (∀ r ∈ (drop_stored_procedure E K w name t).2.cat.sp_code, r ∈ w.cat.sp_code) ∧
    (jsp_find_stored_procedure E (drop_stored_procedure E K w name t).2 name purpose).1 = none ∧
    er_errid (jsp_find_stored_procedure E (drop_stored_procedure E K w name t).2 name
      purpose).2 = E.ER_SP_NOT_EXIST := by
  have hNE : E.ER_SP_NOT_EXIST ≠ 0 := by
    have h := hE
    unfold ErrorCodes.negative at h
    omega
  have hE3 : E.ER_SP_DROP_NOT_ALLOWED_PRIVILEGES ≠ 0 := by
    have h := hE
    unfold ErrorCodes.negative at h
    omega
  have hE4 : E.ER_SP_DROP_NOT_ALLOWED_SYSTEM_GENERATED ≠ 0 := by
    have h := hE
    unfold ErrorCodes.negative at h
    omega
  have hE5 : E.ER_SP_INVALID_TYPE ≠ 0 := by
    have h := hE
    unfold ErrorCodes.negative at h
    omega
  have hmem : row ∈ w.cat.sp := List.mem_of_find?_eq_some hfind
  have hnm : row.unique_name = jsp_check_stored_procedure_name w name := by
    simpa using List.find?_some hfind
  have hrow : sp_row w row.mop = some row := by
    unfold sp_row
    cases hr : w.cat.sp.find? (fun r => r.mop = row.mop) with
    | none =>
      have := List.find?_eq_none.mp hr row hmem
      simp at this
    | some r =>
      have h1 := List.mem_of_find?_eq_some hr
      have h2 : r.mop = row.mop := by simpa using List.find?_some hr
      rw [hmop r h1 h2]
  have hod := drop_stored_procedure_only_deleted E K w name t
  have hsi := si_drop_stored_procedure E K w name t hid (same_identity_refl w)
  obtain ⟨w2, hc2, heq⟩ := drop_checks_eval E K w name t row hfind hrow hmode hf1 hf2 hf3
  have hD1 : row.mop ∈ drop_identities w row := by
    unfold drop_identities
    simp
  have hD2 : ∀ a ∈ row.args, a ∈ drop_identities w row := by
    intro a ha
    unfold drop_identities
    simp [ha]
  have hD3 : row.lang = .SP_LANG_PLCSQL →
      ∀ c ∈ w2.cat.sp_code, c.cls_name = row.target_class → c.mop ∈ drop_identities w row := by
    intro hl c hc hcn
    rw [cat_core hc2] at hc
    unfold drop_identities
    simp only [hl, ↓reduceIte, List.cons_append, List.mem_cons, List.mem_append, List.mem_map,
      List.mem_filter, decide_eq_true_eq]
    exact Or.inr (Or.inr ⟨c, ⟨hc, hcn⟩, rfl⟩)
  have hmop2 : ∀ r ∈ w2.cat.sp, r.mop = row.mop → r = row := by
    rw [cat_core hc2]
    exact hmop
  obtain ⟨g1, g2⟩ := drop_code_args_and_record_spec E K (drop_identities w row) w2 name row.mop
    row.owner w.Au_disable row hE hmop2 hD1 hD2 hD3 hcnt
  rw [cat_core hc2] at g2
  have hfin : drop_stored_procedure E K w name t =
      drop_code_args_and_record E K w2 name row.mop row.owner w.Au_disable := by
    rw [heq] at hsucc ⊢
    split_ifs at hsucc ⊢ with c1 c2 c3
    · exact absurd hsucc hE3
    · exact absurd hsucc hE4
    · exact absurd hsucc hE5
    · rfl
  rw [hfin] at hsucc hod hsi ⊢
  obtain ⟨k1, k2, k3⟩ := g2 hsucc
  have gfr := drop_frame_trans (D := drop_identities w row) (drop_frame_of_core hc2) g1
  have hname2 : jsp_check_stored_procedure_name
      (drop_code_args_and_record E K w2 name row.mop row.owner w.Au_disable).2 name
      = jsp_check_stored_procedure_name w name :=
    checked_name_of_users hod.2.2.2.2.1 hsi.1 hsi.2.2.2 name
  have hnone : (drop_code_args_and_record E K w2 name row.mop row.owner w.Au_disable).2.cat.sp.find?
      (fun r => r.unique_name = jsp_check_stored_procedure_name
        (drop_code_args_and_record E K w2 name row.mop row.owner w.Au_disable).2 name)
      = none := by
    rw [hname2, List.find?_eq_none]
    intro r hr hc
    have h1 : r.unique_name = row.unique_name := by
      rw [hnm]
      simpa using hc
    have h2 := huniq r (hod.1 r hr) h1
    exact k1 r hr (congrArg SP_ROW.mop h2)
  obtain ⟨n1, n2⟩ := find_absent E _ _ rfl name purpose hNE hnone (gfr.2.2.2.trans hmode)
  exact ⟨k1, k2, k3, gfr.1, gfr.2.1, gfr.2.2.1, hod.1, hod.2.1, hod.2.2.1, n1, n2⟩

theorem drop_stored_procedure_removes_witness :
    (drop_stored_procedure E0 K0 w2_dba "u1.p" .SP_TYPE_PROCEDURE).1 = NO_ERROR ∧
    (∀ x ∈ (drop_stored_procedure E0 K0 w2_dba "u1.p" .SP_TYPE_PROCEDURE).2.cat.sp,
      x.mop ≠ sp_p.mop) ∧
    (drop_stored_procedure E0 K0 w2_dba "u1.p" .SP_TYPE_PROCEDURE).2.cat.sp = [sp_f] ∧
    (drop_stored_procedure E0 K0 w2_dba "u1.p" .SP_TYPE_PROCEDURE).2.cat.sp_code = [] ∧
    (jsp_find_stored_procedure E0
      (drop_stored_procedure E0 K0 w2_dba "u1.p" .SP_TYPE_PROCEDURE).2 "u1.p"
      .DB_AUTH_SELECT).1 = none :=
  ⟨by decide,
    (drop_stored_procedure_removes E0 K0 w2_dba "u1.p" .SP_TYPE_PROCEDURE sp_p .DB_AUTH_SELECT
      E0_negative (by decide) rfl rfl rfl rfl (by decide) (by decide) (by decide) rfl
      (by decide)).1,
    by decide, by decide, by decide⟩

theorem drop_names_state_cons (E : ErrorCodes) (K : PlConsts) (t : PT_MISC_TYPE)
    (name : String) (l : List (Option String)) (w : World) :
    drop_names_state E K t (some name :: l) w =
      drop_names_state E K t l
        (drop_stored_procedure E K w name (jsp_map_pt_misc_to_sp_type t)).2 := rfl

theorem drop_names_loop_prefix (E : ErrorCodes) (K : PlConsts) (t : PT_MISC_TYPE) :
    ∀ (k : Nat) (names : List (Option String)) (w : World),
      drop_names_succeed E K t names w k →
      jsp_drop_names_loop E K t names w =
        jsp_drop_names_loop E K t (names.drop k) (drop_names_state E K t (names.take k) w) := by
  intro k
  induction k with
  | zero =>
    intro names w _
    rfl
  | succ k ih =>
    intro names w hpre
    obtain ⟨name, h0, hne, hok⟩ := hpre 0 (Nat.succ_pos k)
    cases names with
    | nil => simp at h0
    | cons p rest =>
      simp only [List.getElem?_cons_zero, Option.some.injEq] at h0
      subst h0
      have hok1 : (drop_stored_procedure E K w name (jsp_map_pt_misc_to_sp_type t)).1
          = NO_ERROR := hok
      have hstep : jsp_drop_names_loop E K t (some name :: rest) w =
          jsp_drop_names_loop E K t rest
            (drop_stored_procedure E K w name (jsp_map_pt_misc_to_sp_type t)).2 := by
        simp only [jsp_drop_names_loop, hne, ↓reduceIte, hok1, ne_eq, not_true_eq_false]
      rw [hstep, List.drop_succ_cons, List.take_succ_cons, drop_names_state_cons]
      apply ih
      intro i hi
      obtain ⟨n, h1, h2, h3⟩ := hpre (i + 1) (Nat.succ_lt_succ hi)
      refine ⟨n, ?_, h2, ?_⟩
      · simpa using h1
      · rw [List.take_succ_cons, drop_names_state_cons] at h3
        exact h3

/-- C29: when the modification check passes and DDL is not blocked, and the first `k` names
of the list are dropped without error, each in the state its predecessors left,
`jsp_drop_stored_procedure` goes on with the name at position `k`: if there is none (the
list has `k` names) it returns `NO_ERROR` in the state in which all names are dropped; if
that name is `NULL` or empty it returns `ER_SP_INVALID_NAME`, and if its drop fails it
returns that error, in both cases in the state that this name, handled after the first `k`,
leaves: the names after position `k` are not processed. In the final state nothing is
created or changed with respect to the state after any `i ≤ k` of the drops: what was
dropped stays dropped. -/
theorem jsp_drop_stored_procedure_in_order (E : ErrorCodes) (K : PlConsts) (w : World)
    (st : PT_SP_STMT) (k : Nat)
    (hmod : w.fault .CHECK_MODIFICATION_ERROR = NO_ERROR)
    (hddl : w.block_ddl_statement = false)
    (hpre : drop_names_succeed E K st.type st.drop_names w k) :
    (st.drop_names.length = k →
      jsp_drop_stored_procedure E K w st
        = (NO_ERROR, drop_names_state E K st.type st.drop_names w)) ∧
    (st.drop_names[k]? = some none ∨ st.drop_names[k]? = some (some "") →
      jsp_drop_stored_procedure E K w st
        = (E.ER_SP_INVALID_NAME,
            er_set (drop_names_state E K st.type (st.drop_names.take k) w)
              E.ER_SP_INVALID_NAME)) ∧
    (∀ name, st.drop_names[k]? = some (some name) → name ≠ "" →
      (drop_stored_procedure E K (drop_names_state E K st.type (st.drop_names.take k) w) name
        (jsp_map_pt_misc_to_sp_type st.type)).1 ≠ NO_ERROR →
      jsp_drop_stored_procedure E K w st
        = drop_stored_procedure E K (drop_names_state E K st.type (st.drop_names.take k) w)
            name (jsp_map_pt_misc_to_sp_type st.type)) ∧
    (∀ i, i ≤ k →
      only_deleted (drop_names_state E K st.type (st.drop_names.take i) w)
        (jsp_drop_stored_procedure E K w st).2) := by
  have hd : jsp_drop_stored_procedure E K w st
      = jsp_drop_names_loop E K st.type st.drop_names w := by
    unfold jsp_drop_stored_procedure
    simp only [ext_call_ok w _ hmod, hddl, ne_eq, not_true_eq_false, ↓reduceIte,
      Bool.false_eq_true]
  have hk := drop_names_loop_prefix E K st.type k st.drop_names w hpre
  refine ⟨?_, ?_, ?_, ?_⟩
  · intro hlen
    rw [hd, hk, ← hlen, List.drop_length, List.take_length]
    rfl
  · intro hn
    have hdrop : ∃ n post, st.drop_names.drop k = n :: post ∧ (n = none ∨ n = some "") := by
      rcases hn with hn | hn
      · have hlt : k < st.drop_names.length := by
          by_contra hc
          rw [List.getElem?_eq_none (by omega)] at hn
          cases hn
        refine ⟨none, st.drop_names.drop (k + 1), ?_, Or.inl rfl⟩
        rw [List.drop_eq_getElem_cons hlt]
        rw [List.getElem?_eq_getElem hlt] at hn
        simp only [Option.some.injEq] at hn
        rw [hn]
      · have hlt : k < st.drop_names.length := by
          by_contra hc
          rw [List.getElem?_eq_none (by omega)] at hn
          cases hn
        refine ⟨some "", st.drop_names.drop (k + 1), ?_, Or.inr rfl⟩
        rw [List.drop_eq_getElem_cons hlt]
        rw [List.getElem?_eq_getElem hlt] at hn
        simp only [Option.some.injEq] at hn
        rw [hn]
    obtain ⟨n, post, hdr, hnn⟩ := hdrop
    rw [hd, hk, hdr]
    rcases hnn with rfl | rfl
    · rfl
    · simp only [jsp_drop_names_loop, ↓reduceIte]
      rfl
  · intro name hn hne hfail
    have hlt : k < st.drop_names.length := by
      by_contra hc
      rw [List.getElem?_eq_none (by omega)] at hn
      cases hn
    have hdr : st.drop_names.drop k = some name :: st.drop_names.drop (k + 1) := by
      rw [List.drop_eq_getElem_cons hlt]
      rw [List.getElem?_eq_getElem hlt] at hn
      simp only [Option.some.injEq] at hn
      rw [hn]
    rw [hd, hk, hdr]
    simp only [jsp_drop_names_loop, hne, ↓reduceIte, hfail, ne_eq, not_false_eq_true]
  · intro i hi
    have hpi : drop_names_succeed E K st.type st.drop_names w i :=
      fun j hj => hpre j (by omega)
    rw [hd, drop_names_loop_prefix E K st.type i st.drop_names w hpi]
    exact jsp_drop_names_loop_only_deleted E K st.type _ _

/-- Witness of C29: `u1` drops `f` (its function `u1.f`) and `nope`, which does not exist:
the first drop succeeds, the call returns the error of the second, `ER_SP_NOT_EXIST`, in
the state that the second drop leaves after the first, and `u1.f` is no longer in the
catalog. -/
theorem jsp_drop_stored_procedure_in_order_witness :
    jsp_drop_stored_procedure E0 K0 w1 drop_f_nope
      = drop_stored_procedure E0 K0
          (drop_stored_procedure E0 K0 w1 "f" .SP_TYPE_FUNCTION).2 "nope" .SP_TYPE_FUNCTION ∧
    (jsp_drop_stored_procedure E0 K0 w1 drop_f_nope).1 = E0.ER_SP_NOT_EXIST ∧
    (∃ r ∈ w1.cat.sp, r.unique_name = "u1.f") ∧
    ∀ r ∈ (jsp_drop_stored_procedure E0 K0 w1 drop_f_nope).2.cat.sp, r.unique_name ≠ "u1.f" := by
  have h := (jsp_drop_stored_procedure_in_order E0 K0 w1 drop_f_nope 1 rfl rfl
    (fun i hi => ⟨"f", by
      have : i = 0 := by omega
      subst this
      exact ⟨rfl, by decide, by decide⟩⟩)).2.2.1 "nope" rfl (by decide) (by decide)
  refine ⟨h, by decide, by decide, by decide⟩

/-- An edit that succeeds with a `NULL` owner in `code_info` leaves the owner of the code
record as it is. -/
theorem sp_edit_code_owner_kept (w : World) (m : MOP) (i : SP_CODE_INFO)
    (ho : i.owner = none) :
    ∀ c ∈ (sp_edit_stored_procedure_code w m i).2.cat.sp_code, c.mop = m →
      ∃ r ∈ w.cat.sp_code, r.mop = m ∧ c.owner = r.owner := by
  unfold sp_edit_stored_procedure_code ext_call
  by_cases hf : w.fault (.sp_edit_stored_procedure_code m) = NO_ERROR
  · simp only [hf, ne_eq, not_true_eq_false, ↓reduceIte]
    intro c hc hm
    simp only [List.mem_map] at hc
    obtain ⟨r, hr1, rfl⟩ := hc
    by_cases hr : r.mop = m
    · refine ⟨r, hr1, hr, ?_⟩
      simp only [hr, ↓reduceIte, ho]
    · simp only [hr, ↓reduceIte] at hm
  · simp only [hf, ne_eq, not_false_eq_true, ↓reduceIte]
    intro c hc hm
    exact ⟨c, hc, hm, rfl⟩

theorem alter_stored_procedure_code_none (E : ErrorCodes) (w : World) (m : MOP) (name : String)
    (rc : Int) :
    alter_stored_procedure_code E w m name none rc
      = alter_stored_procedure_code E w m name (some "") rc := rfl

/-- `alter_stored_procedure_code` on a procedure whose code record is found and whose source
is read: the compiler is called first, with the stored source and the owner name handed in,
under the identity of the user of that name; when it accepts, the code record is edited with
that user as owner, unless a recompile was requested: then it is edited without owner and
keeps the owner it has. -/
theorem alter_stored_procedure_code_spec (E : ErrorCodes) (w : World) (m : MOP) (name o : String)
    (rc : Int) (crow : SP_CODE_ROW)
    (hcode : w.cat.sp_code.find? (fun r => r.cls_name = name) = some crow)
    (hf3 : w.fault (.db_get crow.mop .SP_ATTR_SOURCE_CODE) = NO_ERROR)
    (hcrow : sp_code_row w crow.mop = some crow) :
    ∃ post, (alter_stored_procedure_code E w m name (some o) rc).2.trace
        = w.trace ++ .compile { code := crow.scode, owner := o } (db_find_user w o) :: post ∧
      (w.fault (.plcsql_transfer_file { code := crow.scode, owner := o }) = NO_ERROR →
        (w.compiler { code := crow.scode, owner := o }).err_code = NO_ERROR →
        ∃ info post1, post = .sp_edit_code crow.mop info :: post1 ∧
          info.owner = (if rc = 1 then none else db_find_user w o) ∧
          info.ocode = (w.compiler { code := crow.scode, owner := o }).compiled_code ∧
          (w.fault (.sp_edit_stored_procedure_code crow.mop) = NO_ERROR →
            ∀ c ∈ (alter_stored_procedure_code E w m name (some o) rc).2.cat.sp_code,
              c.mop = crow.mop →
              (∀ u, info.owner = some u → c.owner = some u) ∧
              (info.owner = none → ∃ r ∈ w.cat.sp_code, r.mop = crow.mop ∧
                c.owner = r.owner))) := by
  obtain ⟨w3, hc3, hfc⟩ := find_code_ok E (AU_DISABLE w).2 name crow hcode
  have hc3' : w3.core = w.core := hc3.trans (core_AU_DISABLE w)
  have hg : db_get_sp_code E w3 crow.mop .SP_ATTR_SOURCE_CODE = (.ok crow, w3) := by
    refine db_get_sp_code_ok E w3 _ _ crow ((fault_core hc3' _).trans hf3) ?_
    have h1 := congrArg (fun v => sp_code_row v crow.mop) hc3'
    exact h1.trans hcrow
  have hu : db_find_user w3 o = db_find_user w o := by
    unfold db_find_user
    rw [cat_core hc3']
  obtain ⟨c1, c2, c3, c4⟩ := compile_step_eval w3 (db_find_user w o)
    { code := crow.scode, owner := o }
  rw [fault_core hc3'] at c3 c4
  rw [trace_core hc3'] at c2
  have hcomp : w3.compiler = w.compiler := by
    have h1 := congrArg (fun v => World.compiler v) hc3'
    exact h1
  rw [hcomp] at c4
  unfold alter_stored_procedure_code
  simp only [hfc, hg, hu]
  have c5 := c1.2.2.2.2.2.1
  have c6 := c1.1.trans (cat_core hc3')
  generalize plcsql_transfer_file (au_perform_push_user w3 (db_find_user w o))
    { code := crow.scode, owner := o } = q at c1 c2 c3 c4 c5 c6 ⊢
  obtain ⟨e, resp, w5⟩ := q
  simp only at c1 c2 c3 c4 c5 c6 ⊢
  by_cases hok : e = NO_ERROR ∧ resp.err_code = NO_ERROR
  · rw [if_neg (not_not.mpr hok)]
    have hco : resp.compiled_code
        = (w.compiler { code := crow.scode, owner := o }).compiled_code := by
      rw [← c4 (c3.symm.trans hok.1)]
    generalize hinfo : ({
        name := ((au_perform_pop_user w5).sp_split_target_signature resp.java_signature).1
        created_time := ""
        stype := .SP_LANG_PLCSQL
        scode := ""
        otype := 0
        ocode := resp.compiled_code
        owner := if rc = 1 then none else db_find_user w o } : SP_CODE_INFO) = info
    have hio : info.owner = (if rc = 1 then none else db_find_user w o) := by
      rw [← hinfo]
    have hic : info.ocode = (w.compiler { code := crow.scode, owner := o }).compiled_code := by
      rw [← hinfo]
      exact hco
    obtain ⟨k1, k2, k3⟩ := sp_edit_code_eval (au_perform_pop_user w5) crow.mop info
    have k4 := sp_edit_code_owner_kept (au_perform_pop_user w5) crow.mop info
    rw [c6] at k4
    rw [c2] at k2
    by_cases hed : (sp_edit_stored_procedure_code (au_perform_pop_user w5) crow.mop info).1
        = NO_ERROR
    · rw [if_neg (not_not.mpr hed)]
      obtain ⟨-, l, hl⟩ := af_alter_target_class E _ m
        ((au_perform_pop_user w5).sp_split_target_signature resp.java_signature).1 w.Au_disable
        (alter_frame_refl
          (sp_edit_stored_procedure_code (au_perform_pop_user w5) crow.mop info).2)
      have hck := ck_alter_target_class E _ m
        ((au_perform_pop_user w5).sp_split_target_signature resp.java_signature).1 w.Au_disable
        (code_kept_refl
          (sp_edit_stored_procedure_code (au_perform_pop_user w5) crow.mop info).2)
      refine ⟨.sp_edit_code crow.mop info :: l, ?_, fun _ _ => ⟨info, l, rfl, hio, hic,
        fun _ c hc hm => ⟨fun u hu => k3 hed c (hck c hc) hm u hu,
          fun hn => k4 hn c (hck c hc) hm⟩⟩⟩
      show (alter_target_class E _ m _ (AU_DISABLE w).1).2.trace = _
      have hsave : (AU_DISABLE w).1 = w.Au_disable := rfl
      rw [hsave, hl, k2]
      simp
    · rw [if_pos hed]
      refine ⟨[.sp_edit_code crow.mop info], ?_, fun _ _ => ⟨info, [], rfl, hio, hic,
        fun hf => ?_⟩⟩
      · show (sp_edit_stored_procedure_code (au_perform_pop_user w5) crow.mop info).2.trace
          = _
        rw [k2]
        simp
      · exfalso
        apply hed
        rw [k1, c5, fault_core hc3']
        exact hf
  · rw [if_pos hok]
    refine ⟨[], ?_, ?_⟩
    · simp only [AU_ENABLE, pt_record_error, er_set]
      exact c2
    · intro h1 h2
      exfalso
      apply hok
      refine ⟨c3.trans h1, ?_⟩
      rw [c4 h1]
      exact h2

/-- C19 (amended): in the part of `jsp_alter_stored_procedure` that handles the code (from
the read of the language on), for a PL/CSQL procedure whose code record is found and read
and a statement that names a new owner `o`: the first call made is the compiler, with a
request built from the stored source and an owner name that is `o` without RECOMPILE and
the qualifier of the procedure name as written in the statement with RECOMPILE, under the
identity of the user of that name; when the compiler accepts, the next call edits the code
record, with the user named `o` as owner without RECOMPILE and without owner with
RECOMPILE; when this edit does not fail, the code record is owned at the end by the user
named `o` without RECOMPILE and keeps the owner it had with RECOMPILE. -/
theorem alter_owner_compile_request (E : ErrorCodes) (w : World) (st : PT_SP_STMT)
    (m : MOP) (save : Int) (row : SP_ROW) (crow : SP_CODE_ROW) (o : String)
    (ho : st.owner = some o)
    (hf1 : w.fault (.db_get m .SP_ATTR_LANG) = NO_ERROR)
    (hf2 : w.fault (.db_get m .SP_ATTR_TARGET_CLASS) = NO_ERROR)
    (hrow : sp_row w m = some row) (hlang : row.lang = .SP_LANG_PLCSQL)
    (hcode : w.cat.sp_code.find? (fun r => r.cls_name = row.target_class) = some crow)
    (hf3 : w.fault (.db_get crow.mop .SP_ATTR_SOURCE_CODE) = NO_ERROR)
    (hcrow : sp_code_row w crow.mop = some crow) :
    ∃ os, os = (if st.recompile = 1 then (sm_qualifier_name (PT_NODE_SP_NAME st)).getD ""
        else o) ∧
    ∃ post, (alter_code_and_comment E w st m save).2.trace
        = w.trace ++ .compile { code := crow.scode, owner := os } (db_find_user w os) :: post ∧
      (w.fault (.plcsql_transfer_file { code := crow.scode, owner := os }) = NO_ERROR →
        (w.compiler { code := crow.scode, owner := os }).err_code = NO_ERROR →
        ∃ info post1, post = .sp_edit_code crow.mop info :: post1 ∧
          info.owner = (if st.recompile = 1 then none else db_find_user w o) ∧
          info.ocode = (w.compiler { code := crow.scode, owner := os }).compiled_code ∧
          (w.fault (.sp_edit_stored_procedure_code crow.mop) = NO_ERROR →
            ∀ c ∈ (alter_code_and_comment E w st m save).2.cat.sp_code, c.mop = crow.mop →
              (st.recompile ≠ 1 → ∀ u, db_find_user w o = some u → c.owner = some u) ∧
              (st.recompile = 1 → ∃ r ∈ w.cat.sp_code, r.mop = crow.mop ∧
                c.owner = r.owner))) := by
  refine ⟨_, rfl, ?_⟩
  have hg1 := db_get_sp_ok E w m .SP_ATTR_LANG row hf1 hrow
  have hg2 := db_get_sp_ok E w m .SP_ATTR_TARGET_CLASS row hf2 hrow
  have hcall : ∀ x : Option String,
      alter_stored_procedure_code E w m row.target_class x st.recompile
        = alter_stored_procedure_code E w m row.target_class (some (x.getD "")) st.recompile := by
    intro x
    cases x with
    | none => rfl
    | some y => rfl
  have hown : (if st.recompile = 1 then sm_qualifier_name (PT_NODE_SP_NAME st) else some o).getD ""
      = (if st.recompile = 1 then (sm_qualifier_name (PT_NODE_SP_NAME st)).getD "" else o) := by
    split_ifs <;> rfl
  generalize hos : (if st.recompile = 1 then (sm_qualifier_name (PT_NODE_SP_NAME st)).getD ""
    else o) = os at hown
  obtain ⟨post, p1, p2⟩ := alter_stored_procedure_code_spec E w m row.target_class os
    st.recompile crow hcode hf3 hcrow
  have hinfo : ∀ info : SP_CODE_INFO,
      info.owner = (if st.recompile = 1 then none else db_find_user w os) →
      info.owner = (if st.recompile = 1 then none else db_find_user w o) := by
    intro info h
    by_cases hrc : st.recompile = 1
    · rw [if_pos hrc] at h ⊢
      exact h
    · rw [if_neg hrc] at h ⊢
      rw [if_neg hrc] at hos
      rw [h, ← hos]
  unfold alter_code_and_comment
  simp only [hg1, hg2, hlang, ho, Option.isSome_some, true_or, and_self, ↓reduceIte]
  rw [hcall, hown]
  by_cases herr : (alter_stored_procedure_code E w m row.target_class (some os)
      st.recompile).1 = NO_ERROR
  · rw [if_neg (not_not.mpr herr)]
    obtain ⟨-, l, hl⟩ := af_alter_comment _ st m save
      (alter_frame_refl (alter_stored_procedure_code E w m row.target_class (some os)
        st.recompile).2)
    have hck := ck_alter_comment _ st m save
      (code_kept_refl (alter_stored_procedure_code E w m row.target_class (some os)
        st.recompile).2)
    refine ⟨post ++ l, ?_, ?_⟩
    · rw [hl, p1]
      simp
    · intro h1 h2
      obtain ⟨info, post1, q1, q2, q3, q4⟩ := p2 h1 h2
      have q2' := hinfo info q2
      refine ⟨info, post1 ++ l, ?_, q2', q3, fun hf c hc hm => ⟨fun hrc u hu => ?_,
        fun hrc => ?_⟩⟩
      · rw [q1]
        rfl
      · rw [if_neg hrc] at q2'
        exact (q4 hf c (hck c hc) hm).1 u (q2'.trans hu)
      · rw [if_pos hrc] at q2'
        exact (q4 hf c (hck c hc) hm).2 q2'
  · rw [if_pos herr]
    refine ⟨post, p1, ?_⟩
    intro h1 h2
    obtain ⟨info, post1, q1, q2, q3, q4⟩ := p2 h1 h2
    have q2' := hinfo info q2
    refine ⟨info, post1, q1, q2', q3, fun hf c hc hm => ⟨fun hrc u hu => ?_, fun hrc => ?_⟩⟩
    · rw [if_neg hrc] at q2'
      exact (q4 hf c hc hm).1 u (q2'.trans hu)
    · rw [if_pos hrc] at q2'
      exact (q4 hf c hc hm).2 q2'

/-- Witness of C19 (amended): `dba` runs `ALTER PROCEDURE u1.p OWNER TO u2` and
`ALTER PROCEDURE u1.p OWNER TO u2 RECOMPILE` on the PL/CSQL procedure `u1.p`: the compile
request carries `u2` under the identity of `u2` (4) in the first case, `u1` under the
identity of `u1` (3) in the second. -/
theorem alter_owner_compile_request_witness :
    (∃ post, (alter_code_and_comment E0 w2_dba alter_p_owner 60 0).2.trace
        = w2_dba.trace ++ .compile { code := code_p.scode, owner := "u2" } (some 4) :: post) ∧
    (∃ post, (alter_code_and_comment E0 w2_dba alter_p_owner_recompile 60 0).2.trace
        = w2_dba.trace ++ .compile { code := code_p.scode, owner := "u1" } (some 3) :: post) ∧
    (jsp_alter_stored_procedure E0 K0 w2_dba alter_p_owner).1 = NO_ERROR ∧
    (jsp_alter_stored_procedure E0 K0 w2_dba alter_p_owner).2.trace =
      [ .revoke_all 3 "u1.p" (some 3),
        .compile { code := code_p.scode, owner := "u2" } (some 4),
        .sp_edit_code 61
          { name := "Cls", created_time := "", stype := .SP_LANG_PLCSQL, scode := "",
            otype := 0, ocode := "bin", owner := some 4 } ] ∧
    (jsp_alter_stored_procedure E0 K0 w2_dba alter_p_owner).2.cat.sp_code.map
      (fun c => c.owner) = [some 4] := by
  obtain ⟨os1, h1, post1, t1, -⟩ := alter_owner_compile_request E0 w2_dba alter_p_owner 60 0
    sp_p code_p "u2" rfl rfl rfl (by decide) rfl (by decide) rfl (by decide)
  obtain ⟨os2, h2, post2, t2, -⟩ := alter_owner_compile_request E0 w2_dba
    alter_p_owner_recompile 60 0 sp_p code_p "u2" rfl rfl rfl (by decide) rfl (by decide) rfl
    (by decide)
  have e1 : os1 = "u2" := h1.trans (by decide)
  have e2 : os2 = "u1" := h2.trans (by decide)
  subst e1
  subst e2
  exact ⟨⟨post1, t1⟩, ⟨post2, t2⟩, by decide, by decide, by decide⟩

theorem get_unique_name_fail (E : ErrorCodes) (w : World) (m : MOP) (buf : String) (n : Nat)
    (hf : w.fault (.db_get m .SP_ATTR_UNIQUE_NAME) ≠ NO_ERROR) :
    ∃ v, v.core = w.core ∧ jsp_get_unique_name E w m buf n = (false, buf, v) := by
  have hc := core_get_unique_name E w m buf n
  have hd : (AU_DISABLE w).2.fault (.db_get m .SP_ATTR_UNIQUE_NAME) ≠ NO_ERROR := hf
  unfold jsp_get_unique_name at hc ⊢
  unfold db_get_sp ext_call at hc ⊢
  simp only [hd, ne_eq, not_false_eq_true, ↓reduceIte] at hc ⊢
  exact ⟨_, hc, rfl⟩

/-- The entry of `jsp_alter_stored_procedure` for a DBA on a record that is found and whose
owner is read: the revoke block follows, with the unique name of the record, or with the
initial content of the buffer, the empty string, when the read of the name fails. -/
theorem alter_entry_eval (E : ErrorCodes) (K : PlConsts) (w : World) (st : PT_SP_STMT)
    (row : SP_ROW)
    (hmod : w.fault .CHECK_MODIFICATION_ERROR = NO_ERROR)
    (hddl : w.block_ddl_statement = false)
    (hdba : au_is_dba_group_member w w.Au_user = true)
    (hfind : w.cat.sp.find?
      (fun r => r.unique_name = jsp_check_stored_procedure_name w (PT_NODE_SP_NAME st))
      = some row)
    (hrow : sp_row w row.mop = some row)
    (hmode : w.client_type_loaddb_compat = false)
    (hf2 : w.fault (.db_get row.mop .SP_ATTR_OWNER) = NO_ERROR)
    (hlen : row.unique_name.length < K.DB_MAX_IDENTIFIER_LENGTH) :
    ∃ w2, w2.core = w.core ∧
      jsp_alter_stored_procedure E K w st =
        alter_revoke_and_record E w2 st row.mop row.owner
          (if w.fault (.db_get row.mop .SP_ATTR_UNIQUE_NAME) = NO_ERROR then row.unique_name
            else "") w.Au_disable := by
  by_cases hf1 : w.fault (.db_get row.mop .SP_ATTR_UNIQUE_NAME) = NO_ERROR
  · rw [if_pos hf1]
    exact alter_checks_eval E K w st row hmod hddl hdba hfind hrow hmode hf1 hf2 hlen
  · rw [if_neg hf1]
    obtain ⟨w3, hc3, hf⟩ := find_eval E w (AU_DISABLE w).2 (core_AU_DISABLE w)
      (PT_NODE_SP_NAME st) .DB_AUTH_SELECT row hfind hmode
    have hchk : check_execute_authorization E w3 row.mop .DB_AUTH_SELECT = (NO_ERROR, w3) := by
      simp [check_execute_authorization]
    rw [hchk] at hf
    simp only [ne_eq, not_true_eq_false, ↓reduceIte] at hf
    have hc2 : (AU_ENABLE w3 (AU_DISABLE w).2.Au_disable).core = w.core :=
      (core_AU_ENABLE _ _).trans hc3
    generalize AU_ENABLE w3 (AU_DISABLE w).2.Au_disable = w4 at hf hc2
    obtain ⟨w5, hc5, hg1⟩ := get_unique_name_fail E w4 row.mop "" K.DB_MAX_IDENTIFIER_LENGTH
      (by rw [fault_core hc2]; exact hf1)
    have hc5' : w5.core = w.core := hc5.trans hc2
    have hg2 := get_owner_ok E w5 row.mop row
      ((fault_core hc5' _).trans hf2) ((sp_row_core hc5' _).trans hrow)
    have hc6 : (AU_ENABLE (AU_DISABLE w5).2 w5.Au_disable).core = w.core := hc5'
    generalize AU_ENABLE (AU_DISABLE w5).2 w5.Au_disable = w6 at hg2 hc6
    have hd : au_is_dba_group_member (AU_DISABLE w).2 (AU_DISABLE w).2.Au_user = true := hdba
    have hsave : (AU_DISABLE w).1 = w.Au_disable := rfl
    refine ⟨w6, hc6, ?_⟩
    unfold jsp_alter_stored_procedure
    simp only [ext_call_ok w _ hmod, hddl, hd, hf, hg1, hg2, hsave, ne_eq, not_true_eq_false,
      ↓reduceIte, Bool.false_eq_true, Bool.not_true]

/-- The revoke block when the switch to the owner succeeds and the revoke fails: the error
of the revoke is returned, with the catalog as it was. -/
theorem alter_revoke_fails (E : ErrorCodes) (w : World) (st : PT_SP_STMT) (m owner : MOP)
    (u : String) (save : Int)
    (hset : w.fault (.AU_SET_USER (some owner)) = NO_ERROR)
    (hrev : w.fault (.au_object_revoke_all_privileges u) ≠ NO_ERROR) :
    (alter_revoke_and_record E w st m owner u save).1
      = w.fault (.au_object_revoke_all_privileges u) ∧
    (alter_revoke_and_record E w st m owner u save).2.cat = w.cat ∧
    (alter_revoke_and_record E w st m owner u save).2.trace
      = w.trace ++ [.revoke_all owner u (some owner)] := by
  have h1 : AU_SET_USER w (some owner) = (NO_ERROR, { w with Au_user := some owner }) :=
    AU_SET_USER_ok w _ hset
  unfold alter_revoke_and_record
  simp only [h1, ↓reduceIte]
  unfold au_object_revoke_all_privileges ext_call
  simp only [hrev, ne_eq, not_false_eq_true, ↓reduceIte]
  exact ⟨trivial, (AU_SET_USER_frame _ _).1, (AU_SET_USER_frame _ _).2.2⟩

/-- C28 (amended): for a DBA and a procedure that exists (found outside legacy admin load
mode, owner read), `jsp_alter_stored_procedure` switches to the owner of the procedure and,
when this switch does not fail, calls the revoke of all privileges, whatever the statement
requests, with the unique name of the record (with the empty string when the read of the
name failed). When the switch fails the revoke is skipped, the grants are as they were at
the end, and the function goes on with the rest of the ALTER. When the revoke fails its
error is returned with the catalog as it was. When it succeeds, the revoke call is the first
call recorded and the grants on the procedures of that name are gone at the end; this
happens before the new owner and the kind are checked: with an unknown new owner the
function returns `ER_OBJ_OBJECT_NOT_FOUND`, with a known owner (or none named) and another
kind `ER_SP_INVALID_TYPE`, in both cases with every procedure record as it was. -/
theorem jsp_alter_revoke_cases (E : ErrorCodes) (K : PlConsts) (w : World)
    (st : PT_SP_STMT) (row : SP_ROW)
    (hmod : w.fault .CHECK_MODIFICATION_ERROR = NO_ERROR)
    (hddl : w.block_ddl_statement = false)
    (hdba : au_is_dba_group_member w w.Au_user = true)
    (hfind : w.cat.sp.find?
      (fun r => r.unique_name = jsp_check_stored_procedure_name w (PT_NODE_SP_NAME st))
      = some row)
    (hrow : sp_row w row.mop = some row)
    (hmode : w.client_type_loaddb_compat = false)
    (hf2 : w.fault (.db_get row.mop .SP_ATTR_OWNER) = NO_ERROR)
    (hlen : row.unique_name.length < K.DB_MAX_IDENTIFIER_LENGTH) :
    ∃ u, u = (if w.fault (.db_get row.mop .SP_ATTR_UNIQUE_NAME) = NO_ERROR
        then row.unique_name else "") ∧
    (w.fault (.AU_SET_USER (some row.owner)) ≠ NO_ERROR →
      (jsp_alter_stored_procedure E K w st).2.cat.auth = w.cat.auth ∧
      ∃ v, v.core = w.core ∧
        jsp_alter_stored_procedure E K w st
          = alter_record E v st row.mop w.Au_user w.Au_disable) ∧
    (w.fault (.AU_SET_USER (some row.owner)) = NO_ERROR →
      w.fault (.au_object_revoke_all_privileges u) ≠ NO_ERROR →
      (jsp_alter_stored_procedure E K w st).1 = w.fault (.au_object_revoke_all_privileges u) ∧
      (jsp_alter_stored_procedure E K w st).2.cat = w.cat ∧
      (jsp_alter_stored_procedure E K w st).2.trace
        = w.trace ++ [.revoke_all row.owner u (some row.owner)]) ∧
    (w.fault (.AU_SET_USER (some row.owner)) = NO_ERROR →
      w.fault (.au_object_revoke_all_privileges u) = NO_ERROR →
      (∃ post, (jsp_alter_stored_procedure E K w st).2.trace
        = w.trace ++ .revoke_all row.owner u (some row.owner) :: post) ∧
      (jsp_alter_stored_procedure E K w st).2.cat.auth = w.cat.auth.filter (fun a =>
        !(a.is_procedure &&
          w.cat.sp.any (fun r => r.mop = a.object_of && r.unique_name = u))) ∧
      (∀ o, st.owner = some o → db_find_user w o = none →
        (jsp_alter_stored_procedure E K w st).1 = E.ER_OBJ_OBJECT_NOT_FOUND ∧
        (jsp_alter_stored_procedure E K w st).2.cat.sp = w.cat.sp ∧
        (jsp_alter_stored_procedure E K w st).2.trace
          = w.trace ++ [.revoke_all row.owner u (some row.owner)]) ∧
      ((∀ o, st.owner = some o → db_find_user w o ≠ none) →
        w.fault (.db_get row.mop .SP_ATTR_SP_TYPE) = NO_ERROR →
        row.sp_type ≠ jsp_map_pt_misc_to_sp_type st.type →
        (jsp_alter_stored_procedure E K w st).1 = E.ER_SP_INVALID_TYPE ∧
        (jsp_alter_stored_procedure E K w st).2.cat.sp = w.cat.sp ∧
        (jsp_alter_stored_procedure E K w st).2.trace
          = w.trace ++ [.revoke_all row.owner u (some row.owner)])) := by
  refine ⟨_, rfl, ?_⟩
  obtain ⟨w2, hc2, heq⟩ := alter_entry_eval E K w st row hmod hddl hdba hfind hrow hmode hf2 hlen
  generalize (if w.fault (.db_get row.mop .SP_ATTR_UNIQUE_NAME) = NO_ERROR
    then row.unique_name else "") = u at heq ⊢
  refine ⟨?_, ?_, ?_⟩
  · intro hset
    have hset2 : w2.fault (.AU_SET_USER (some row.owner)) ≠ NO_ERROR := by
      rw [fault_core hc2]
      exact hset
    have hrec : alter_revoke_and_record E w2 st row.mop row.owner u w.Au_disable
        = alter_record E (er_set w2 (w2.fault (.AU_SET_USER (some row.owner)))) st row.mop
            w2.Au_user w.Au_disable := by
      unfold alter_revoke_and_record
      simp only [AU_SET_USER_fail w2 _ hset2, hset2, ↓reduceIte]
    rw [heq, hrec, Au_user_core hc2]
    obtain ⟨f1, -⟩ := af_alter_record E (er_set w2 (w2.fault (.AU_SET_USER (some row.owner))))
      st row.mop w.Au_user w.Au_disable (alter_frame_refl _)
    refine ⟨?_, _, ?_, rfl⟩
    · rw [f1]
      exact congrArg Catalog.auth (cat_core hc2)
    · exact (core_er_set _ _).trans hc2
  · intro hset hrev
    obtain ⟨g1, g2, g3⟩ := alter_revoke_fails E w2 st row.mop row.owner u w.Au_disable
      ((fault_core hc2 _).trans hset) (by rw [fault_core hc2]; exact hrev)
    rw [heq]
    refine ⟨?_, ?_, ?_⟩
    · rw [g1, fault_core hc2]
    · rw [g2, cat_core hc2]
    · rw [g3, trace_core hc2]
  · intro hset hrev
    obtain ⟨e1, e2, -, e4, e5, e6, e7⟩ := alter_revoke_eval E w2 st row.mop row.owner
      u w.Au_disable ((fault_core hc2 _).trans hset) ((fault_core hc2 _).trans hrev)
    rw [cat_core hc2] at e2 e4 e5
    rw [trace_core hc2] at e6
    have e7' : ∀ c, (alter_revoked w2 row.owner u).fault c = w.fault c := by
      intro c
      rw [e7]
      exact fault_core hc2 c
    rw [heq, e1]
    obtain ⟨f1, post, f2⟩ := af_alter_record E (alter_revoked w2 row.owner u) st
      row.mop w2.Au_user w.Au_disable (alter_frame_refl _)
    refine ⟨⟨post, ?_⟩, f1.trans e5, ?_, ?_⟩
    · rw [f2, e6, List.append_assoc]
      rfl
    · intro o ho hnone
      have hn : db_find_user (alter_revoked w2 row.owner u) o = none := by
        unfold db_find_user at hnone ⊢
        rw [e4]
        exact hnone
      obtain ⟨g1, g2, g3⟩ := alter_record_unknown_owner E _ st row.mop w2.Au_user w.Au_disable o
        ho hn
      exact ⟨g1, (congrArg Catalog.sp g2).trans e2, g3.trans e6⟩
    · intro hown hf3 hk
      have hrow' : sp_row (alter_revoked w2 row.owner u) row.mop = some row := by
        unfold sp_row at hrow ⊢
        rw [e2]
        exact hrow
      have hown' : ∀ o, st.owner = some o →
          db_find_user (alter_revoked w2 row.owner u) o ≠ none := by
        intro o ho
        have := hown o ho
        unfold db_find_user at this ⊢
        rw [e4]
        exact this
      obtain ⟨g1, g2, g3⟩ := alter_record_kind_mismatch E _ st row.mop w2.Au_user w.Au_disable
        row hown' ((e7' _).trans hf3) hrow' hk
      exact ⟨g1, (congrArg Catalog.sp g2).trans e2, g3.trans e6⟩

/-- Witness of C28 (amended): `dba` runs `ALTER FUNCTION u1.f OWNER TO nobody`: the call
fails with `ER_OBJ_OBJECT_NOT_FOUND` after the revoke, the one grant is gone and the
procedure records are as they were. In the state where the switch to `u1` fails, `dba` runs
`ALTER FUNCTION u1.f COMMENT 'c'` and the grants are as they were. -/
theorem jsp_alter_revoke_cases_witness :
    ((jsp_alter_stored_procedure E0 K0 w2_dba alter_f_owner_nobody).1
        = E0.ER_OBJ_OBJECT_NOT_FOUND ∧
      (jsp_alter_stored_procedure E0 K0 w2_dba alter_f_owner_nobody).2.cat.sp = w2_dba.cat.sp ∧
      (jsp_alter_stored_procedure E0 K0 w2_dba alter_f_owner_nobody).2.trace
        = w2_dba.trace ++ [.revoke_all sp_f.owner sp_f.unique_name (some sp_f.owner)]) ∧
    (jsp_alter_stored_procedure E0 K0 w2_dba alter_f_owner_nobody).2.cat.auth = [] ∧
    w2_dba.cat.auth ≠ [] ∧
    (jsp_alter_stored_procedure E0 K0 w2_dba_no_switch alter_u1f_comment).2.cat.auth
      = w2_dba_no_switch.cat.auth := by
  obtain ⟨u, hu, -, -, h3⟩ := jsp_alter_revoke_cases E0 K0 w2_dba alter_f_owner_nobody sp_f
    rfl rfl (by decide) (by decide) (by decide) rfl rfl (by decide)
  obtain ⟨-, -, k1, -, -⟩ := jsp_alter_revoke_cases E0 K0 w2_dba_no_switch alter_u1f_comment
    sp_f rfl rfl (by decide) (by decide) (by decide) rfl rfl (by decide)
  have e : u = sp_f.unique_name := hu.trans (by decide)
  subst e
  exact ⟨(h3 rfl rfl).2.2.1 "nobody" rfl (by decide), by decide, by decide,
    (k1 (by decide)).1⟩

/-- C28 fails when the switch to the owner fails, and when the unique name is not read: in
the state where `AU_SET_USER` to `u1` fails, `dba` runs `ALTER FUNCTION u1.f COMMENT 'c'`,
which returns `NO_ERROR`, and `ALTER FUNCTION u1.f OWNER TO nobody`, which returns
`ER_OBJ_OBJECT_NOT_FOUND`; neither makes a revoke call and the grant on `u1.f` is still
there. In the state where the read of the unique name fails, the revoke is called with the
empty name and the grant on `u1.f` is still there after a successful ALTER. In the state
where the revoke itself fails, the ALTER ends with the error of the revoke and the grant is
still there. -/
theorem jsp_alter_without_revoke :
    au_is_dba_group_member w2_dba_no_switch w2_dba_no_switch.Au_user = true ∧
    (jsp_find_stored_procedure E0 w2_dba_no_switch "u1.f" .DB_AUTH_SELECT).1 = some 50 ∧
    (jsp_alter_stored_procedure E0 K0 w2_dba_no_switch alter_u1f_comment).1 = NO_ERROR ∧
    (jsp_alter_stored_procedure E0 K0 w2_dba_no_switch alter_u1f_comment).2.trace = [] ∧
    (jsp_alter_stored_procedure E0 K0 w2_dba_no_switch alter_u1f_comment).2.cat.auth
      = w2_dba_no_switch.cat.auth ∧
    (jsp_alter_stored_procedure E0 K0 w2_dba_no_switch alter_f_owner_nobody).1
      = E0.ER_OBJ_OBJECT_NOT_FOUND ∧
    (jsp_alter_stored_procedure E0 K0 w2_dba_no_switch alter_f_owner_nobody).2.trace = [] ∧
    (jsp_alter_stored_procedure E0 K0 w2_dba_no_switch alter_f_owner_nobody).2.cat.auth
      = w2_dba_no_switch.cat.auth ∧
    w2_dba_no_switch.cat.auth
      = [{ is_procedure := true, auth_type := "EXECUTE", object_of := 50, grantee := 4 }] ∧
    (jsp_alter_stored_procedure E0 K0 w2_dba_no_name alter_u1f_comment).1 = NO_ERROR ∧
    (jsp_alter_stored_procedure E0 K0 w2_dba_no_name alter_u1f_comment).2.trace
      = [.revoke_all 3 "" (some 3)] ∧
    (jsp_alter_stored_procedure E0 K0 w2_dba_no_name alter_u1f_comment).2.cat.auth
      = w2_dba_no_name.cat.auth ∧
    (jsp_alter_stored_procedure E0 K0 w2_dba_no_revoke alter_u1f_comment).1 = -1 ∧
    (jsp_alter_stored_procedure E0 K0 w2_dba_no_revoke alter_u1f_comment).2.trace
      = [.revoke_all 3 "u1.f" (some 3)] ∧
    (jsp_alter_stored_procedure E0 K0 w2_dba_no_revoke alter_u1f_comment).2.cat.auth
      = w2_dba_no_revoke.cat.auth := by
  refine ⟨by decide, by decide, by decide, by decide, by decide, by decide, by decide,
    by decide, by decide, by decide, by decide, by decide, by decide, by decide, by decide⟩

/-- C8, at the failing input: `u2`, who holds an EXECUTE grant, calls `u1.f ()`, a procedure
with owner rights owned by `u1`, and the read of the owner's name fails inside
`jsp_get_owner_name`. The result of `jsp_get_owner_name` is not tested (lines 2090-2094):
`jsp_make_pl_signature` returns `NO_ERROR` and `sig.auth` is what the local
`user_name_buffer`, declared without initializer, held at entry (`xyz`, `abc`), not the name
`u1` of the owner. -/
theorem jsp_make_pl_signature_auth_unread :
    sp_f.directive = .SP_DIRECTIVE_RIGHTS_OWNER ∧
    (user_row w1_owner_name_unread (some sp_f.owner)).map (fun u => u.name) = some "u1" ∧
    (∃ w2 sig2,
      jsp_make_pl_signature E0 K0 w1_owner_name_unread { call0 with method_name := "u1.f" }
        sig0 0 "xyz" = some (NO_ERROR, w2, sig2) ∧
      sig2.type = .PL_TYPE_JAVA_SP ∧ sig2.auth = some "xyz") ∧
    (∃ w2 sig2,
      jsp_make_pl_signature E0 K0 w1_owner_name_unread { call0 with method_name := "u1.f" }
        sig0 0 "abc" = some (NO_ERROR, w2, sig2) ∧
      sig2.type = .PL_TYPE_JAVA_SP ∧ sig2.auth = some "abc") := by
  refine ⟨rfl, by decide, ⟨_, _, rfl, rfl, ?_⟩, ⟨_, _, rfl, rfl, ?_⟩⟩
  · decide
  · decide

theorem string_empty_append (s : String) : "" ++ s = s := by
  apply String.ext
  simp

theorem string_append_assoc (a b c : String) : a ++ b ++ c = a ++ (b ++ c) := by
  apply String.ext
  simp

theorem to_char_ne_empty (s : String) : "TO_CHAR(" ++ s ≠ "" := by
  intro h
  have h1 := congrArg String.length h
  rw [String.length_append] at h1
  have h2 : "TO_CHAR(".length = 8 := by decide
  have h3 : "".length = 0 := rfl
  omega

/-- The text that `jsp_default_value_string` produces, case by case: for a literal its
printed form, or the empty string when the literal is NULL; for a default expression its
keyword, or the printed node when it has none, wrapped in `TO_CHAR(` .. `, '` format `')`
under a `TO_CHAR` conversion. -/
theorem jsp_default_value_string_cases (K : PlConsts) (d : PT_DATA_DEFAULT) :
    ((d.default_expr.default_expr_type = K.DB_DEFAULT_NONE ∨
        d.default_expr.default_expr_type = K.NULL_DEFAULT_EXPRESSION_OPERATOR) →
      (jsp_default_value_string K d).2 = d.value.getD "") ∧
    (d.default_expr.default_expr_type ≠ K.DB_DEFAULT_NONE →
      d.default_expr.default_expr_type ≠ K.NULL_DEFAULT_EXPRESSION_OPERATOR →
      (d.default_expr.default_expr_op ≠ K.T_TO_CHAR →
        (jsp_default_value_string K d).2 = d.default_expression_string.getD d.printed) ∧
      (d.default_expr.default_expr_op = K.T_TO_CHAR →
        (jsp_default_value_string K d).2 =
          "TO_CHAR(" ++ d.default_expression_string.getD d.printed ++
            (match d.default_expr.default_expr_format with
             | some format => ", '" ++ format ++ "'"
             | none => "") ++ ")")) := by
  refine ⟨?_, ?_⟩
  · intro h
    unfold jsp_default_value_string
    rcases h with h | h
    · simp only [h, ne_eq, not_true_eq_false, ↓reduceIte]
      cases d.value <;> simp [string_empty_append]
    · by_cases h0 : d.default_expr.default_expr_type = K.DB_DEFAULT_NONE
      · simp only [h0, ne_eq, not_true_eq_false, ↓reduceIte]
        cases d.value <;> simp [string_empty_append]
      · simp only [h0, h, ne_eq, not_false_eq_true, ↓reduceIte]
        cases d.value <;> simp [string_empty_append]
  · intro h1 h2
    unfold jsp_default_value_string
    refine ⟨?_, ?_⟩
    · intro h3
      simp only [h1, h2, h3, ne_eq, not_false_eq_true, ↓reduceIte]
      cases d.default_expression_string <;> simp [string_empty_append]
    · intro h3
      simp only [h1, h2, h3, ne_eq, not_false_eq_true, ↓reduceIte]
      cases d.default_expression_string <;> cases d.default_expr.default_expr_format <;>
        simp [string_empty_append, string_append_assoc]

/-- C14: on every successful `CREATE` with n declared parameters, the record handed to the
catalog (the argument of the one call of `sp_add_stored_procedure`) carries exactly n
argument entries in declaration order, the i-th with position i (0-based), with mode IN for
a parameter declared IN (or without mode), OUT for OUT and INOUT otherwise, and with the
type of the parameter; `is_optional` is true if and only if the parameter has a default
expression; `default_value` is null when no default was given or when the text of the
default is the empty string, and otherwise is that text, which is: for a literal its printed
form (empty for a NULL literal); for a default expression its keyword (the printed node when
it has none), wrapped as `TO_CHAR(keyword, 'format')` under a `TO_CHAR` conversion. A
PROCEDURE has return type NULL, a FUNCTION the declared one. -/
theorem jsp_create_args_entries (E : ErrorCodes) (K : PlConsts) (w : World)
    (st : PT_SP_STMT) (hE : E.negative)
    (hsucc : (jsp_create_stored_procedure E K w st).1 = NO_ERROR) :
    ∃ (info : SP_INFO) (pre post : List EVENT),
      (jsp_create_stored_procedure E K w st).2.trace = pre ++ [.sp_add info] ++ post ∧
      (∀ e ∈ post, ∀ j, e ≠ EVENT.sp_add j) ∧
      info.args.length = st.param_list.length ∧
      (∀ (i : Nat) (p : PT_SP_PARAM), st.param_list[i]? = some p →
        ∃ a, info.args[i]? = some a ∧ a.index_of = i ∧
          (p.mode = .PT_INPUT ∨ p.mode = .PT_NOPUT → a.mode = .SP_MODE_IN) ∧
          (p.mode = .PT_OUTPUT → a.mode = .SP_MODE_OUT) ∧
          (p.mode ≠ .PT_INPUT → p.mode ≠ .PT_NOPUT → p.mode ≠ .PT_OUTPUT →
            a.mode = .SP_MODE_INOUT) ∧
          a.data_type = p.type_enum_db ∧
          (a.is_optional = true ↔ p.default_value.isSome = true) ∧
          (p.default_value = none → a.default_value = none) ∧
          (∀ d, p.default_value = some d →
            ∃ text, a.default_value = (if text = "" then none else some text) ∧
              ((d.default_expr.default_expr_type = K.DB_DEFAULT_NONE ∨
                  d.default_expr.default_expr_type = K.NULL_DEFAULT_EXPRESSION_OPERATOR) →
                text = d.value.getD "") ∧
              (d.default_expr.default_expr_type ≠ K.DB_DEFAULT_NONE →
                d.default_expr.default_expr_type ≠ K.NULL_DEFAULT_EXPRESSION_OPERATOR →
                (d.default_expr.default_expr_op ≠ K.T_TO_CHAR →
                  text = d.default_expression_string.getD d.printed) ∧
                (d.default_expr.default_expr_op = K.T_TO_CHAR →
                  text = "TO_CHAR(" ++ d.default_expression_string.getD d.printed ++
                    (match d.default_expr.default_expr_format with
                     | some format => ", '" ++ format ++ "'"
                     | none => "") ++ ")")))) ∧
      (st.type = .PT_SP_PROCEDURE → info.return_type = .DB_TYPE_NULL) ∧
      (st.type ≠ .PT_SP_PROCEDURE → info.return_type = st.ret_type_db) := by
  obtain ⟨info, pre, post, h1, h2, h3, h4, h5, h6⟩ :=
    jsp_create_stored_procedure_args_handed E K w st hE hsucc
  refine ⟨info, pre, post, h1, h2, h3, ?_, h5, h6⟩
  intro i p hip
  obtain ⟨a, a1, a2, a3, a4, a5, a6⟩ := h4 i p hip
  refine ⟨a, a1, a2, ?_, ?_, ?_, a4, a5, ?_, ?_⟩
  · intro hm
    rw [a3]
    unfold jsp_map_pt_misc_to_sp_mode
    rw [if_pos hm]
  · intro hm
    rw [a3]
    unfold jsp_map_pt_misc_to_sp_mode
    rw [hm]
    decide
  · intro hm1 hm2 hm3
    rw [a3]
    unfold jsp_map_pt_misc_to_sp_mode
    rw [if_neg (by rintro (h | h) <;> contradiction), if_neg hm3]
  · intro hd
    rw [a6, hd]
  · intro d hd
    rw [hd] at a6
    exact ⟨(jsp_default_value_string K d).2, a6, jsp_default_value_string_cases K d⟩

/-- Witness of C14: the six parameters of `create_p6`, created by `u1` in the empty catalog:
the record handed to the catalog has the entries 0 to 5 in this order, with modes IN, OUT,
INOUT, IN, IN, IN, the last three optional with default text `abc`, NULL (a NULL literal)
and `TO_CHAR(SYS_DATE, 'YYYY')`. -/
theorem jsp_create_args_entries_witness :
    (jsp_create_stored_procedure E0 K0 w0 create_p6).1 = NO_ERROR ∧
    (∃ (info : SP_INFO) (pre post : List EVENT),
      (jsp_create_stored_procedure E0 K0 w0 create_p6).2.trace = pre ++ [.sp_add info] ++ post ∧
      info.args.length = 6 ∧
      (∃ a, info.args[1]? = some a ∧ a.index_of = 1 ∧ a.mode = .SP_MODE_OUT ∧
        a.default_value = none) ∧
      (∃ a, info.args[2]? = some a ∧ a.index_of = 2 ∧ a.mode = .SP_MODE_INOUT) ∧
      (∃ a, info.args[3]? = some a ∧ a.index_of = 3 ∧ a.mode = .SP_MODE_IN ∧
        a.is_optional = true ∧ a.default_value = some "abc") ∧
      (∃ a, info.args[4]? = some a ∧ a.is_optional = true ∧ a.default_value = none) ∧
      (∃ a, info.args[5]? = some a ∧ a.default_value = some "TO_CHAR(SYS_DATE, 'YYYY')") ∧
      info.return_type = .DB_TYPE_NULL) ∧
    (jsp_create_stored_procedure E0 K0 w0 create_p6).2.trace.filterMap
        (fun e =>
          match e with
          | .sp_add info =>
            some (info.args.map (fun a => (a.index_of, a.mode, a.is_optional, a.default_value)))
          | _ => none)
      = [[(0, .SP_MODE_IN, false, none), (1, .SP_MODE_OUT, false, none),
          (2, .SP_MODE_INOUT, false, none), (3, .SP_MODE_IN, true, some "abc"),
          (4, .SP_MODE_IN, true, none),
          (5, .SP_MODE_IN, true, some "TO_CHAR(SYS_DATE, 'YYYY')")]] := by
  have hs : (jsp_create_stored_procedure E0 K0 w0 create_p6).1 = NO_ERROR := by decide
  obtain ⟨info, pre, post, h1, -, h3, h4, h5, -⟩ :=
    jsp_create_args_entries E0 K0 w0 create_p6 E0_negative hs
  refine ⟨hs, ⟨info, pre, post, h1, h3, ?_, ?_, ?_, ?_, ?_, h5 rfl⟩, by decide⟩
  · obtain ⟨a, a1, a2, -, a4, -, -, -, a8, -⟩ := h4 1 _ rfl
    exact ⟨a, a1, a2, a4 rfl, a8 rfl⟩
  · obtain ⟨a, a1, a2, -, -, a5, -⟩ := h4 2 _ rfl
    exact ⟨a, a1, a2, a5 (by decide) (by decide) (by decide)⟩
  · obtain ⟨a, a1, a2, a3, -, -, -, a7, -, a9⟩ := h4 3 _ rfl
    obtain ⟨text, t1, t2, -⟩ := a9 _ rfl
    have ht : text = "abc" := t2 (Or.inl rfl)
    subst ht
    exact ⟨a, a1, a2, a3 (Or.inr rfl), a7.mpr rfl, t1⟩
  · obtain ⟨a, a1, -, -, -, -, -, a7, -, a9⟩ := h4 4 _ rfl
    obtain ⟨text, t1, t2, -⟩ := a9 _ rfl
    have ht : text = "" := t2 (Or.inl rfl)
    subst ht
    exact ⟨a, a1, a7.mpr rfl, t1⟩
  · obtain ⟨a, a1, -, -, -, -, -, -, -, a9⟩ := h4 5 _ rfl
    obtain ⟨text, t1, -, t3⟩ := a9 _ rfl
    have ht : text = "TO_CHAR(SYS_DATE, 'YYYY')" :=
      ((t3 (by decide) (by decide)).2 rfl).trans (by decide)
    subst ht
    exact ⟨a, a1, t1⟩

theorem public_user_core {w w2 : World} (h : w2.core = w.core) :
    w2.Au_public_user = w.Au_public_user := by
  have h1 := congrArg (fun v => v.Au_public_user) h
  exact h1

/-- C6 (amended): for a procedure found under its normalised name (outside legacy admin load
mode), `check_execute_authorization` for purpose EXECUTE returns `NO_ERROR` and
`jsp_find_stored_procedure` returns the record whenever the current user is a DBA-group
member, or the owner attribute is read and the owner is the current user or the reserved
user `public`. When the owner attribute is read and the grant query runs and finds an
EXECUTE grant row for (procedure, current user), the check raises no error: it leaves the
state, error slot included, as it was. For any other purpose it returns `NO_ERROR`
unconditionally, in the state as it was. -/
theorem check_execute_authorization_permits (E : ErrorCodes) (w : World) (name : String)
    (row : SP_ROW)
    (hfind : w.cat.sp.find? (fun r => r.unique_name = jsp_check_stored_procedure_name w name)
      = some row)
    (hrow : sp_row w row.mop = some row)
    (hmode : w.client_type_loaddb_compat = false) :
    ((au_is_dba_group_member w w.Au_user = true ∨
        (w.fault (.db_get row.mop .SP_ATTR_OWNER) = NO_ERROR ∧
          (some row.owner = w.Au_user ∨ row.owner = w.Au_public_user))) →
      check_execute_authorization E w row.mop .DB_AUTH_EXECUTE = (NO_ERROR, w) ∧
      (jsp_find_stored_procedure E w name .DB_AUTH_EXECUTE).1 = some row.mop) ∧
    (w.fault (.db_get row.mop .SP_ATTR_OWNER) = NO_ERROR → grant_query_runs w →
      0 < count_execute_grants w row.mop →
      (check_execute_authorization E w row.mop .DB_AUTH_EXECUTE).2 = w) ∧
    (∀ (sp_obj : MOP) (au_type : DB_AUTH), au_type ≠ .DB_AUTH_EXECUTE →
      check_execute_authorization E w sp_obj au_type = (NO_ERROR, w)) := by
  have hcases : ∀ v : World, v.core = w.core →
      (au_is_dba_group_member w w.Au_user = true ∨
        (w.fault (.db_get row.mop .SP_ATTR_OWNER) = NO_ERROR ∧
          (some row.owner = w.Au_user ∨ row.owner = w.Au_public_user))) →
      check_execute_authorization E v row.mop .DB_AUTH_EXECUTE = (NO_ERROR, v) := by
    intro v hv h
    have hrv : sp_row v row.mop = some row := (sp_row_core hv _).trans hrow
    unfold check_execute_authorization
    by_cases hdba : au_is_dba_group_member v v.Au_user = true
    · simp [hdba]
    · have hdba' : ¬ au_is_dba_group_member w w.Au_user = true := by
        rw [← dba_core hv, ← Au_user_core hv]
        exact hdba
      rcases h with h | ⟨hf, hown⟩
      · exact absurd h hdba'
      · have hfv : v.fault (.db_get row.mop .SP_ATTR_OWNER) = NO_ERROR :=
          (fault_core hv _).trans hf
        simp only [ne_eq, not_true_eq_false, ↓reduceIte, hdba, Bool.false_eq_true,
          db_get_sp_ok E v row.mop _ row hfv hrv]
        have hsame : (ws_is_same_object (some row.owner) v.Au_user
            || ws_is_same_object (some row.owner) (some v.Au_public_user)) = true := by
          rw [Au_user_core hv, public_user_core hv]
          rcases hown with h2 | h2
          · simp [ws_is_same_object, h2]
          · simp [ws_is_same_object, h2]
        simp [hsame]
  refine ⟨?_, ?_, ?_⟩
  · intro h
    refine ⟨hcases w rfl h, ?_⟩
    obtain ⟨w3, hc3, hf⟩ := find_eval E w w rfl name .DB_AUTH_EXECUTE row hfind hmode
    rw [hf, hcases w3 hc3 h]
    simp
  · intro hf hq hcnt
    unfold check_execute_authorization
    by_cases hdba : au_is_dba_group_member w w.Au_user = true
    · simp [hdba]
    · simp only [ne_eq, not_true_eq_false, ↓reduceIte, hdba, Bool.false_eq_true,
        db_get_sp_ok E w row.mop _ row hf hrow]
      have hne : ¬ ((count_execute_grants w row.mop : Int) = 0) := by omega
      rw [by_query_ok w row.mop hq]
      simp only [hne, ↓reduceIte]
      split_ifs <;> rfl
  · intro sp_obj au_type hne
    simp [check_execute_authorization, hne]

/-- Witness of C6 (amended): `u1` is the owner of `u1.f`, and `u2` holds an EXECUTE grant on
it. -/
theorem check_execute_authorization_permits_witness :
    (check_execute_authorization E0 w1 sp_f.mop .DB_AUTH_EXECUTE = (NO_ERROR, w1) ∧
      (jsp_find_stored_procedure E0 w1 "u1.f" .DB_AUTH_EXECUTE).1 = some sp_f.mop) ∧
    (check_execute_authorization E0 w1_granted sp_f.mop .DB_AUTH_EXECUTE).2 = w1_granted :=
  ⟨(check_execute_authorization_permits E0 w1 "u1.f" sp_f rfl rfl rfl).1
      (Or.inr ⟨rfl, Or.inl rfl⟩),
    (check_execute_authorization_permits E0 w1_granted "u1.f" sp_f rfl rfl rfl).2.1 rfl
      ⟨rfl, rfl, rfl, rfl, rfl, rfl⟩ (by decide)⟩

/-- C6, counterexamples. The current user is the reserved user `public`, is neither a
DBA-group member nor the owner of `u1.f`, and holds no grant: the check fails with
`ER_AU_EXECUTE_FAILURE` and the lookup returns no record. And `u2` holds an EXECUTE grant
on `u1.f` while the error slot holds an error of an earlier statement: the check raises no
error of its own but returns the content of the slot, not `NO_ERROR`, and the lookup returns
no record. -/
theorem check_execute_authorization_refusals :
    (w1_public.Au_user = some w1_public.Au_public_user ∧
      (check_execute_authorization E0 w1_public sp_f.mop .DB_AUTH_EXECUTE).1
        = E0.ER_AU_EXECUTE_FAILURE ∧
      E0.ER_AU_EXECUTE_FAILURE ≠ NO_ERROR ∧
      (jsp_find_stored_procedure E0 w1_public "u1.f" .DB_AUTH_EXECUTE).1 = none) ∧
    (0 < count_execute_grants w1_granted_pending sp_f.mop ∧
      (check_execute_authorization E0 w1_granted_pending sp_f.mop .DB_AUTH_EXECUTE).1 = -5 ∧
      (check_execute_authorization E0 w1_granted_pending sp_f.mop .DB_AUTH_EXECUTE).2
        = w1_granted_pending ∧
      (jsp_find_stored_procedure E0 w1_granted_pending "u1.f" .DB_AUTH_EXECUTE).1 = none) := by
  refine ⟨⟨rfl, rfl, by decide, rfl⟩, ⟨by decide, rfl, rfl, rfl⟩⟩

end JspCl
